import Mathlib

/-!
# Diagnostic info parsers of `embObjLib`

A shallow embedding of `src/libraries/icubmod/embObjLib/diagnosticInfoParsers.cpp`:
the generic formatter `DefaultParser` and the eight category parsers that turn a
diagnostic event (error code, `param16`, `param64`) into `finalMessage`.

Conventions of the embedding
* a text is the list of its bytes; `c_str` is what `%s` reads of a `std::string`;
* machine integers are naturals, reduced `% 2 ^ w` where the source narrows;
* `snprintf(str, sizeof(str), ...)` into `char str[512]` keeps the first 511 bytes;
* the host is LP64 little-endian (`long` is 64 bits, byte 0 of a word is the least
  significant one), as on the Linux PCs that run the robot interface;
* the tables of `EoError.h`, `EoBoards.h`, `EoManagement.h` are parameters.
-/

namespace Diagnostic

/-! ## Texts and `printf` conversions -/

/-- Bytes of a string. -/
abbrev Text := List Char

/-- The bytes of a string literal. -/
def lit (s : String) : Text := s.data

/-- The terminating byte of a C string. -/
def NUL : Char := Char.ofNat 0

/-- What `%s` prints of `s.c_str()`: the bytes before the first NUL. -/
def c_str (s : Text) : Text := s.takeWhile (fun c => c != NUL)

/-- Conversion `%u` (and `std::to_string` of a non-negative number). -/
def fmt_u (n : Nat) : Text := Nat.toDigits 10 n

/-- Conversion `%d` / `%ld`. -/
def fmt_d : Int → Text
  | Int.ofNat n => Nat.toDigits 10 n
  | Int.negSucc n => '-' :: Nat.toDigits 10 (n + 1)

/-- Conversion `%x` / `%lx`: lowercase hexadecimal, no padding. -/
def fmt_x (n : Nat) : Text := Nat.toDigits 16 n

/-- Conversion `%.<prec>x`: lowercase hexadecimal, at least `prec` digits. -/
def fmt_x_prec (prec n : Nat) : Text :=
  List.replicate (prec - (Nat.toDigits 16 n).length) '0' ++ Nat.toDigits 16 n

/-- Value of a 16-bit pattern read as `int16_t`. -/
def toInt16 (n : Nat) : Int :=
  if n % 2 ^ 16 < 2 ^ 15 then Int.ofNat (n % 2 ^ 16) else Int.ofNat (n % 2 ^ 16) - 2 ^ 16

/-- Value of a 32-bit pattern read as `int` / `int32_t`. -/
def toInt32 (n : Nat) : Int :=
  if n % 2 ^ 32 < 2 ^ 31 then Int.ofNat (n % 2 ^ 32) else Int.ofNat (n % 2 ^ 32) - 2 ^ 32

/-- Value of a 64-bit pattern read as `long`. -/
def toInt64 (n : Nat) : Int :=
  if n % 2 ^ 64 < 2 ^ 63 then Int.ofNat (n % 2 ^ 64) else Int.ofNat (n % 2 ^ 64) - 2 ^ 64

/-- Result left in `char str[size]` by `snprintf(str, size, ...)` when the whole
formatted text is `out`: its first `size - 1` bytes. -/
def snprintf (size : Nat) (out : Text) : Text := out.take (size - 1)

/-- Indices of `for (i = lo; i < hi; i++)`. -/
def forRange (lo hi : Nat) : List Nat := (List.range (hi - lo)).map (fun k => lo + k)

/-- Modelled from the spec: `eo_common_hlfword_bitsetcount` of `EoCommon.h` is
missing; it counts the bits set in a 16-bit word. -/
def eo_common_hlfword_bitsetcount (hword : Nat) : Nat :=
  ((List.range 16).filter (fun i => hword.testBit i)).length

/-- Modelled from the spec: `eo_common_hlfword_bitcheck` of `EoCommon.h` is
missing; it tells whether bit `bit` of a 16-bit word is set. -/
def eo_common_hlfword_bitcheck (hword bit : Nat) : Bool :=
  (hword % 2 ^ 16).testBit bit

/-! ## Data model -/

/-- Presentation context of an event (`Diagnostic::EmbeddedInfo`), the fields the
parsers touch. -/
structure EmbeddedInfo where
  sourceBoardIpAddrStr : Text
  sourceCANPortStr : Text
  sourceCANBoardAddr : Nat
  axisName : Text
  finalMessage : Text
  deriving DecidableEq, Repr

/-- The event under decoding (`Diagnostic::LowLevel::AuxEmbeddedInfo`). -/
structure AuxEmbeddedInfo where
  baseInfo : EmbeddedInfo
  errorCode : Nat
  param16 : Nat
  param64 : Nat
  baseMessage : Text
  extraMessage : Text
  deriving DecidableEq, Repr

/-- The 16-bit payload as the `uint16_t` it is. -/
def AuxEmbeddedInfo.p16 (d : AuxEmbeddedInfo) : Nat := d.param16 % 2 ^ 16

/-- The 64-bit payload as the `uint64_t` it is. -/
def AuxEmbeddedInfo.p64 (d : AuxEmbeddedInfo) : Nat := d.param64 % 2 ^ 64

/-- The error code as the `uint32_t` it is. -/
def AuxEmbeddedInfo.code (d : AuxEmbeddedInfo) : Nat := d.errorCode % 2 ^ 32

/-- Statement `m_dnginfo.baseInfo.finalMessage.clear()`. -/
def AuxEmbeddedInfo.clearFinalMessage (d : AuxEmbeddedInfo) : AuxEmbeddedInfo :=
  { d with baseInfo := { d.baseInfo with finalMessage := [] } }

/-- Statement `m_dnginfo.baseInfo.finalMessage.append(str)`. -/
def AuxEmbeddedInfo.appendFinalMessage (d : AuxEmbeddedInfo) (str : Text) : AuxEmbeddedInfo :=
  { d with baseInfo := { d.baseInfo with finalMessage := d.baseInfo.finalMessage ++ str } }

/-- Modelled from the spec: `EntityNameProvider` is missing; `getAxisName(i, name)`
is a pure lookup from the joint index to its display name, stored in `name`. -/
structure EntityNameProvider where
  axisNameOf : Nat → Text

/-- Statement `m_entityNameProvider.getAxisName(i, m_dnginfo.baseInfo.axisName)`. -/
def EntityNameProvider.getAxisName (p : EntityNameProvider) (i : Nat)
    (d : AuxEmbeddedInfo) : AuxEmbeddedInfo :=
  { d with baseInfo := { d.baseInfo with axisName := p.axisNameOf i } }

/-! ## Error values

The enumerators of `EoError.h` are missing from the sources. Each parser switches on
`eoerror_code2value(errorCode)`; the value is modelled by the case label it matches in
that switch: one constructor per `case` label, `EOERROR_VALUE_DUMMY` for the sentinel
and `unlisted` for every value that reaches `default:`. -/

/-- Case labels of the switch of `ConfigParser::parseInfo`. -/
inductive ValueCFG where
  | eoerror_value_CFG_candiscovery_started
  | eoerror_value_CFG_candiscovery_ok
  | eoerror_value_CFG_candiscovery_detectedboard
  | eoerror_value_CFG_candiscovery_boardsmissing
  | eoerror_value_CFG_candiscovery_boardsinvalid
  | eoerror_value_CFG_skin_ok
  | eoerror_value_CFG_skin_failed_toomanyboards
  | eoerror_value_CFG_inertials_failed_toomanyboards
  | eoerror_value_CFG_inertials3_failed_toomanyboards
  | eoerror_value_CFG_temperatures_failed_toomanyboards
  | eoerror_value_CFG_skin_failed_candiscovery
  | eoerror_value_CFG_inertials_failed_candiscovery
  | eoerror_value_CFG_inertials3_failed_candiscovery
  | eoerror_value_CFG_temperatures_failed_candiscovery
  | eoerror_value_CFG_strain_ok
  | eoerror_value_CFG_strain_failed_candiscovery
  | eoerror_value_CFG_mais_ok
  | eoerror_value_CFG_mais_failed_candiscovery
  | eoerror_value_CFG_psc_ok
  | eoerror_value_CFG_psc_failed_candiscovery
  | eoerror_value_CFG_pos_ok
  | eoerror_value_CFG_pos_failed_candiscovery
  | eoerror_value_CFG_mais_failed_verify_because_active
  | eoerror_value_CFG_mc_foc_ok
  | eoerror_value_CFG_mc_foc_failed_candiscovery_of_foc
  | eoerror_value_CFG_mc_foc_failed_encoders_verify
  | eoerror_value_CFG_mc_mc4_ok
  | eoerror_value_CFG_mc_mc4_failed_candiscovery_of_mc4
  | eoerror_value_CFG_mc_mc4_failed_mais_verify
  | eoerror_value_CFG_mc_mc4plus_ok
  | eoerror_value_CFG_mc_mc4plus_failed_encoders_verify
  | eoerror_value_CFG_inertials_ok
  | eoerror_value_CFG_comm_cannotloadaregularrop
  | eoerror_value_CFG_mc_mc4plusmais_ok
  | eoerror_value_CFG_mc_mc4plusmais_failed_encoders_verify
  | eoerror_value_CFG_mc_mc4plusmais_failed_candiscovery_of_mais
  | eoerror_value_CFG_services_not_verified_yet
  | eoerror_value_CFG_mc_not_verified_yet
  | eoerror_value_CFG_strain_not_verified_yet
  | eoerror_value_CFG_mais_not_verified_yet
  | eoerror_value_CFG_skin_not_verified_yet
  | eoerror_value_CFG_inertials_not_verified_yet
  | eoerror_value_CFG_inertials3_not_verified_yet
  | eoerror_value_CFG_encoders_not_verified_yet
  | eoerror_value_CFG_mc_using_onboard_config
  | eoerror_value_CFG_strain_using_onboard_config
  | eoerror_value_CFG_mais_using_onboard_config
  | eoerror_value_CFG_inertials_using_onboard_config
  | eoerror_value_CFG_inertials3_using_onboard_config
  | eoerror_value_CFG_skin_using_onboard_config
  | eoerror_value_CFG_inertials3_ok
  | eoerror_value_CFG_temperatures_not_verified_yet
  | eoerror_value_CFG_temperatures_ok
  | eoerror_value_CFG_temperatures_using_onboard_config
  | eoerror_value_CFG_psc_failed_verify_because_active
  | eoerror_value_CFG_psc_not_verified_yet
  | eoerror_value_CFG_psc_using_onboard_config
  | eoerror_value_CFG_mc_mc2pluspsc_ok
  | eoerror_value_CFG_mc_mc2pluspsc_failed_encoders_verify
  | eoerror_value_CFG_mc_mc2pluspsc_failed_candiscovery_of_pscs
  | eoerror_value_CFG_inertials_failed_notsupported
  | eoerror_value_CFG_inertials3_failed_notsupported
  | eoerror_value_CFG_temperatures_failed_notsupported
  | eoerror_value_CFG_mais_failed_notsupported
  | eoerror_value_CFG_strain_failed_notsupported
  | eoerror_value_CFG_skin_failed_notsupported
  | eoerror_value_CFG_psc_failed_notsupported
  | eoerror_value_CFG_mc_failed_notsupported
  | eoerror_value_CFG_encoders_failed_notsupported
  | eoerror_value_CFG_pos_not_verified_yet
  | eoerror_value_CFG_pos_using_onboard_config
  | eoerror_value_CFG_pos_failed_notsupported
  | eoerror_value_CFG_mc_mc4plusfaps_ok
  | eoerror_value_CFG_mc_mc4plusfaps_failed_encoders_verify
  | eoerror_value_CFG_mc_mc4plusfaps_failed_candiscovery
  | eoerror_value_CFG_mc_mc4pluspmc_ok
  | eoerror_value_CFG_mc_mc4pluspmc_failed_encoders_verify
  | eoerror_value_CFG_mc_mc4pluspmc_failed_candiscovery_of_pmc
  | eoerror_value_CFG_ft_ok
  | eoerror_value_CFG_ft_failed_candiscovery
  | eoerror_value_CFG_ft_not_verified_yet
  | eoerror_value_CFG_ft_using_onboard_config
  | eoerror_value_CFG_ft_failed_notsupported
  | eoerror_value_CFG_ft_failed_fullscales
  | eoerror_value_CFG_bat_ok
  | eoerror_value_CFG_bat_failed_candiscovery
  | eoerror_value_CFG_bat_not_verified_yet
  | eoerror_value_CFG_bat_using_onboard_config
  | eoerror_value_CFG_bat_failed_notsupported
  | eoerror_value_CFG_encoders_ok
  | eoerror_value_CFG_encoders_failed_verify
  | eoerror_value_CFG_inertials_failed_unsupportedsensor
  | eoerror_value_CFG_inertials3_failed_unsupportedsensor
  | eoerror_value_CFG_inertials_changed_requestedrate
  | eoerror_value_CFG_inertials3_changed_requestedrate
  | eoerror_value_CFG_temperatures_changed_requestedrate
  | eoerror_value_CFG_psc_changed_requestedrate
  | eoerror_value_CFG_pos_changed_requestedrate
  | eoerror_value_CFG_inertials3_failed_generic
  | eoerror_value_CFG_temperatures_failed_generic
  | EOERROR_VALUE_DUMMY
  | unlisted
  deriving DecidableEq, Repr

/-- Case labels of the switch of `MotionControlParser::parseInfo`. -/
inductive ValueMC where
  | eoerror_value_MC_motor_external_fault
  | eoerror_value_MC_motor_qencoder_phase_disappeared
  | eoerror_value_MC_motor_overcurrent
  | eoerror_value_MC_motor_i2t_limit
  | eoerror_value_MC_motor_hallsensors
  | eoerror_value_MC_motor_can_invalid_prot
  | eoerror_value_MC_motor_can_generic
  | eoerror_value_MC_motor_can_no_answer
  | eoerror_value_MC_axis_torque_sens
  | eoerror_value_MC_joint_hard_limit
  | eoerror_value_MC_aea_abs_enc_invalid
  | eoerror_value_MC_aea_abs_enc_spikes
  | eoerror_value_MC_aea_abs_enc_timeout
  | eoerror_value_MC_motor_qencoder_dirty
  | eoerror_value_MC_motor_qencoder_phase
  | eoerror_value_MC_generic_error
  | eoerror_value_MC_motor_wrong_state
  | EOERROR_VALUE_DUMMY
  | unlisted
  deriving DecidableEq, Repr

/-- Case labels of the switch of `SkinParser::parseInfo`. -/
inductive ValueSK where
  | eoerror_value_SK_unspecified
  | eoerror_value_SK_obsoletecommand
  | eoerror_value_SK_arrayofcandataoverflow
  | eoerror_value_SK_onoroff
  | eoerror_value_SK_unexpecteddata
  | EOERROR_VALUE_DUMMY
  | unlisted
  deriving DecidableEq, Repr

/-- Case labels of the switch of `HwErrorParser::parseInfo`. -/
inductive ValueHW where
  | eoerror_value_HW_strain_saturation
  | eoerror_value_HW_encoder_invalid_value
  | eoerror_value_HW_encoder_close_to_limits
  | eoerror_value_HW_encoder_crc
  | eoerror_value_HW_encoder_not_connected
  | EOERROR_VALUE_DUMMY
  | unlisted
  deriving DecidableEq, Repr

/-- Case labels of the switch of `SysParser::parseInfo`. -/
inductive ValueSYS where
  | eoerror_value_SYS_runninghappily
  | eoerror_value_SYS_ctrloop_execoverflowRX
  | eoerror_value_SYS_ctrloop_execoverflowDO
  | eoerror_value_SYS_ctrloop_execoverflowTX
  | eoerror_value_SYS_ropparsingerror
  | eoerror_value_SYS_halerror
  | eoerror_value_SYS_osalerror
  | eoerror_value_SYS_ipalerror
  | eoerror_value_SYS_dispatcherfifooverflow
  | eoerror_value_SYS_canservices_txfifooverflow
  | eoerror_value_SYS_canservices_txbusfailure
  | eoerror_value_SYS_canservices_formingfailure
  | eoerror_value_SYS_canservices_parsingfailure
  | eoerror_value_SYS_canservices_genericerror
  | eoerror_value_SYS_ctrloop_rxphaseaverage
  | eoerror_value_SYS_ctrloop_dophaseaverage
  | eoerror_value_SYS_ctrloop_txphaseaverage
  | eoerror_value_SYS_ctrloop_rxphasemax
  | eoerror_value_SYS_ctrloop_dophasemax
  | eoerror_value_SYS_ctrloop_txphasemax
  | eoerror_value_SYS_ctrloop_rxphasemin
  | eoerror_value_SYS_ctrloop_dophasemin
  | eoerror_value_SYS_ctrloop_txphasemin
  | eoerror_value_SYS_proxy_forward_fails
  | eoerror_value_SYS_proxy_ropdes_notfound
  | eoerror_value_SYS_canservices_canprint
  | eoerror_value_SYS_canservices_rxmaisbug
  | eoerror_value_SYS_canservices_rxfromwrongboard
  | eoerror_value_SYS_transceiver_rxseqnumber_error
  | eoerror_value_SYS_transceiver_rxseqnumber_restarted
  | eoerror_value_SYS_canservices_board_detected
  | eoerror_value_SYS_canservices_board_wrongprotversion
  | eoerror_value_SYS_canservices_board_notfound
  | eoerror_value_SYS_canservices_boards_lostcontact
  | eoerror_value_SYS_canservices_boards_retrievedcontact
  | eoerror_value_SYS_canservices_monitor_retrievedcontact
  | eoerror_value_SYS_canservices_monitor_regularcontact
  | eoerror_value_SYS_canservices_monitor_lostcontact
  | eoerror_value_SYS_canservices_monitor_stillnocontact
  | eoerror_value_SYS_unspecified
  | eoerror_value_SYS_tobedecided
  | eoerror_value_SYS_memory_zerorequested
  | eoerror_value_SYS_memory_notinitialised
  | eoerror_value_SYS_memory_missing
  | eoerror_value_SYS_mutex_timeout
  | eoerror_value_SYS_wrongparam
  | eoerror_value_SYS_wrongusage
  | eoerror_value_SYS_runtimeerror
  | eoerror_value_SYS_runninginfatalerrorstate
  | eoerror_value_SYS_udptxfailure
  | eoerror_value_SYS_configurator_udptxfailure
  | eoerror_value_SYS_runner_udptxfailure
  | eoerror_value_SYS_runner_transceivererror
  | eoerror_value_SYS_canservices_rxfifooverflow
  | eoerror_value_SYS_proxy_forward_ok
  | eoerror_value_SYS_proxy_forward_callback_fails
  | eoerror_value_SYS_proxy_reply_ok
  | eoerror_value_SYS_proxy_reply_fails
  | eoerror_value_SYS_canservices_boards_missing
  | eoerror_value_SYS_canservices_boards_searched
  | eoerror_value_SYS_canservices_boards_found
  | eoerror_value_SYS_transceiver_rxinvalidframe_error
  | EOERROR_VALUE_DUMMY
  | unlisted
  deriving DecidableEq, Repr

/-- Case labels of the switch of `EthMonitorParser::parseInfo`. -/
inductive ValueETHMON where
  | eoerror_value_ETHMON_link_goes_up
  | eoerror_value_ETHMON_link_goes_down
  | eoerror_value_ETHMON_error_rxcrc
  | eoerror_value_ETHMON_txseqnumbermissing
  | eoerror_value_ETHMON_juststarted
  | eoerror_value_ETHMON_justverified
  | EOERROR_VALUE_DUMMY
  | unlisted
  deriving DecidableEq, Repr

/-- Case labels of the switch of `InertialSensorParser::parseInfo`. -/
inductive ValueIS where
  | eoerror_value_IS_arrayofinertialdataoverflow
  | eoerror_value_IS_unknownsensor
  | EOERROR_VALUE_DUMMY
  | unlisted
  deriving DecidableEq, Repr

/-- Case labels of the switch of `AnalogSensorParser::parseInfo`. -/
inductive ValueAS where
  | eoerror_value_AS_arrayoftemperaturedataoverflow
  | eoerror_value_AS_unknownsensor
  | EOERROR_VALUE_DUMMY
  | unlisted
  deriving DecidableEq, Repr

/-! ## Tables

`EoError.h`, `EoBoards.h` and `EoManagement.h` are not part of the sources: their
functions and the numbering of the enumerators are parameters of the embedding. -/

/-- The external lookups used by the parsers. `valueXX` reads a value returned by
`eoerror_code2value` against the case labels of the switch of one parser. -/
structure EoTables where
  eoerror_code2value : Nat → Nat
  eoerror_code2string : Nat → Text
  eoerror_code2rulesstring : Nat → Text
  eoboards_type2string : Nat → Text
  eoboards_cantype2type : Nat → Nat
  eomn_servicecategory2string : Nat → Text
  valueCFG : Nat → ValueCFG
  valueMC : Nat → ValueMC
  valueSK : Nat → ValueSK
  valueHW : Nat → ValueHW
  valueSYS : Nat → ValueSYS
  valueETHMON : Nat → ValueETHMON
  valueIS : Nat → ValueIS
  valueAS : Nat → ValueAS

/-- Expression `a && b` on integers, as the `int` it yields. -/
def logicalAnd (a b : Nat) : Nat := if a ≠ 0 ∧ b ≠ 0 then 1 else 0

/-- Bits of an `int16_t` pattern after promotion to `int` (sign extension to 32 bits). -/
def promoteInt16 (x : Nat) : Nat :=
  if x % 2 ^ 16 < 2 ^ 15 then x % 2 ^ 16 else x % 2 ^ 16 + (2 ^ 32 - 2 ^ 16)

/-! ## DefaultParser -/

/-- Byte `p64[k]` of `uint8_t *p64 = (uint8_t*)&param64` on a little-endian host. -/
def p64byte (d : AuxEmbeddedInfo) (k : Nat) : Nat := (d.p64 >>> (8 * k)) &&& 0xff

/-- Text formatted by `DefaultParser::parseInfo` before truncation to the buffer. -/
def DefaultParser.parseInfoText (t : EoTables) (d : AuxEmbeddedInfo) : Text :=
  lit " src " ++ c_str d.baseInfo.sourceCANPortStr ++
  lit ", adr " ++ fmt_d (Int.ofNat d.baseInfo.sourceCANBoardAddr) ++
  lit ",(code 0x" ++ fmt_x_prec 8 d.code ++
  lit ", par16 0x" ++ fmt_x_prec 4 d.p16 ++
  lit " par64 0x" ++ fmt_x_prec 2 (p64byte d 7) ++ fmt_x_prec 2 (p64byte d 6) ++
    fmt_x_prec 2 (p64byte d 5) ++ fmt_x_prec 2 (p64byte d 4) ++
    fmt_x_prec 2 (p64byte d 3) ++ fmt_x_prec 2 (p64byte d 2) ++
    fmt_x_prec 2 (p64byte d 1) ++ fmt_x_prec 2 (p64byte d 0) ++
  lit ") -> " ++ c_str (t.eoerror_code2string d.code) ++
  lit " " ++ c_str (t.eoerror_code2rulesstring d.code) ++
  lit " " ++ c_str d.extraMessage

/-- The generic formatter `DefaultParser::parseInfo`. -/
def DefaultParser.parseInfo (t : EoTables) (d : AuxEmbeddedInfo) : AuxEmbeddedInfo :=
  let str := snprintf 512 (DefaultParser.parseInfoText t d)
  d.clearFinalMessage.appendFinalMessage str

/-- The base-only formatter `DefaultParser::printBaseInfo`. -/
def DefaultParser.printBaseInfo (d : AuxEmbeddedInfo) : AuxEmbeddedInfo :=
  let str := snprintf 512 (c_str d.baseMessage)
  d.appendFinalMessage str

/-! ## ConfigParser -/

/-- Text `prot.major.prot.minor` with both numbers printed by `%d`. -/
def fmt_ver2 (major minor : Nat) : Text :=
  fmt_d (Int.ofNat major) ++ lit "." ++ fmt_d (Int.ofNat minor)

/-- Text `appl.major.appl.minor.appl.build` with the three numbers printed by `%d`. -/
def fmt_ver3 (major minor build : Nat) : Text :=
  fmt_d (Int.ofNat major) ++ lit "." ++ fmt_d (Int.ofNat minor) ++ lit "." ++
    fmt_d (Int.ofNat build)

/-- Case `eoerror_value_CFG_candiscovery_started`. -/
def ConfigParser.candiscovery_started (t : EoTables) (d : AuxEmbeddedInfo) : AuxEmbeddedInfo :=
  let maskcan2 := d.p16
  let brdnum := (d.p64 &&& 0x0000ff0000000000) >>> 40
  let canboardname := t.eoboards_type2string brdnum
  let maskcan1 := ((d.p64 &&& 0xffff000000000000) >>> 48) % 2 ^ 16
  let reqpr := (d.p64 &&& 0x000000ffff000000) >>> 24
  let reqfw := d.p64 &&& 0x0000000000ffffff
  let prot_major := (reqpr >>> 8) % 2 ^ 8
  let prot_minor := (reqpr &&& 0xff) % 2 ^ 8
  let appl_major := ((reqfw >>> 16) &&& 0xff) % 2 ^ 8
  let appl_minor := ((reqfw >>> 8) &&& 0xff) % 2 ^ 8
  let appl_build := (reqfw &&& 0xff) % 2 ^ 8
  let num := (eo_common_hlfword_bitsetcount maskcan1 +
    eo_common_hlfword_bitsetcount maskcan2) % 2 ^ 8
  let str := snprintf 512 (
    lit " " ++ c_str d.baseMessage ++ lit " " ++ fmt_d (Int.ofNat num) ++
    lit " " ++ c_str canboardname ++
    lit " boards on (can1map, can2map) = (0x" ++ fmt_x_prec 4 maskcan1 ++
    lit ", 0x" ++ fmt_x_prec 4 maskcan2 ++
    lit ") with target can protocol ver " ++ fmt_ver2 prot_major prot_minor ++
    lit " and application ver " ++ fmt_ver3 appl_major appl_minor appl_build ++ lit ".")
  d.appendFinalMessage str

/-- Case `eoerror_value_CFG_candiscovery_ok`. -/
def ConfigParser.candiscovery_ok (t : EoTables) (d : AuxEmbeddedInfo) : AuxEmbeddedInfo :=
  let num := (d.p16 &&& 0x00ff) % 2 ^ 8
  let fakesearch : Bool := if 0x0000 = (d.p16 &&& 0xf000) then false else true
  let brdnum := (d.p64 &&& 0x0000ff0000000000) >>> 40
  let canboardname := t.eoboards_type2string brdnum
  let searchtime := (d.p64 &&& 0xffff000000000000) >>> 48
  let reqpr := (d.p64 &&& 0x000000ffff000000) >>> 24
  let reqfw := d.p64 &&& 0x0000000000ffffff
  let prot_major := (reqpr >>> 8) % 2 ^ 8
  let prot_minor := (reqpr &&& 0xff) % 2 ^ 8
  let appl_major := ((reqfw >>> 16) &&& 0xff) % 2 ^ 8
  let appl_minor := ((reqfw >>> 8) &&& 0xff) % 2 ^ 8
  let appl_build := (reqfw &&& 0xff) % 2 ^ 8
  let strOK := if fakesearch = true then
      snprintf 80 (lit "OK but FAKE (without any control on CAN w/ get-fw-version<> message)")
    else lit "OK"
  let str := snprintf 512 (
    c_str d.baseMessage ++ lit " is " ++ strOK ++ lit " for " ++ fmt_d (Int.ofNat num) ++
    lit " " ++ c_str canboardname ++
    lit " boards with target can protocol ver " ++ fmt_ver2 prot_major prot_minor ++
    lit " and application ver " ++ fmt_ver3 appl_major appl_minor appl_build ++
    lit ". Search time was " ++ fmt_d (toInt32 searchtime) ++ lit " ms")
  d.appendFinalMessage str

/-- Case `eoerror_value_CFG_candiscovery_detectedboard`. -/
def ConfigParser.candiscovery_detectedboard (t : EoTables) (d : AuxEmbeddedInfo) :
    AuxEmbeddedInfo :=
  let brdnum := (d.p64 &&& 0x0000ff0000000000) >>> 40
  let canboardname := t.eoboards_type2string brdnum
  let searchtime := (d.p64 &&& 0xffff000000000000) >>> 48
  let reqpr := (d.p64 &&& 0x000000ffff000000) >>> 24
  let reqfw := d.p64 &&& 0x0000000000ffffff
  let prot_major := (reqpr >>> 8) % 2 ^ 8
  let prot_minor := (reqpr &&& 0xff) % 2 ^ 8
  let appl_major := ((reqfw >>> 16) &&& 0xff) % 2 ^ 8
  let appl_minor := ((reqfw >>> 8) &&& 0xff) % 2 ^ 8
  let appl_build := (reqfw &&& 0xff) % 2 ^ 8
  let address := (d.p16 &&& 0x000f) % 2 ^ 8
  let str := snprintf 512 (
    c_str d.baseMessage ++ lit " " ++ c_str canboardname ++ lit " board in " ++
    c_str d.baseInfo.sourceCANPortStr ++ lit " addr " ++ fmt_d (Int.ofNat address) ++
    lit " with can protocol ver " ++ fmt_ver2 prot_major prot_minor ++
    lit " and application ver " ++ fmt_ver3 appl_major appl_minor appl_build ++
    lit " Search time was " ++ fmt_d (toInt32 searchtime) ++ lit " ms")
  d.appendFinalMessage str

/-- One turn of the loop of case `eoerror_value_CFG_candiscovery_boardsmissing`; the
state is the event and the counter `n`. -/
def ConfigParser.boardsmissingStep (numofmissing : Nat) (canboardname : Text)
    (maskofmissing : Nat) (s : AuxEmbeddedInfo × Nat) (i : Nat) : AuxEmbeddedInfo × Nat :=
  if eo_common_hlfword_bitcheck maskofmissing i = true then
    let str := snprintf 512 (
      fmt_d (Int.ofNat s.2) ++ lit " of " ++ fmt_d (Int.ofNat numofmissing) ++
      lit ": missing " ++ c_str canboardname ++ lit " BOARD " ++
      c_str s.1.baseInfo.sourceBoardIpAddrStr ++ lit ":" ++
      c_str s.1.baseInfo.sourceCANPortStr ++ lit ":" ++ fmt_d (Int.ofNat i))
    (s.1.appendFinalMessage str, (s.2 + 1) % 2 ^ 8)
  else s

/-- Case `eoerror_value_CFG_candiscovery_boardsmissing`. -/
def ConfigParser.candiscovery_boardsmissing (t : EoTables) (d : AuxEmbeddedInfo) :
    AuxEmbeddedInfo :=
  let numofmissing := (d.p16 &&& 0x00ff) % 2 ^ 8
  let canboardname := t.eoboards_type2string (d.p16 >>> 8)
  let searchtime := (d.p64 &&& 0xffff000000000000) >>> 48
  let maskofmissing := (d.p64 &&& 0x000000000000ffff) % 2 ^ 16
  let str := snprintf 512 (
    c_str d.baseMessage ++ lit " " ++ fmt_d (Int.ofNat numofmissing) ++ lit " missing " ++
    c_str canboardname ++ lit " boards for " ++ fmt_d (toInt32 searchtime) ++
    lit " ms in " ++ c_str d.baseInfo.sourceCANPortStr ++ lit ":")
  ((forRange 1 15).foldl (ConfigParser.boardsmissingStep numofmissing canboardname maskofmissing)
    (d.appendFinalMessage str, 1)).1

/-- One turn of the loop of case `eoerror_value_CFG_candiscovery_boardsinvalid`. -/
def ConfigParser.boardsinvalidStep (numofinvalid : Nat) (canboardname : Text)
    (invalidmask : Nat) (s : AuxEmbeddedInfo × Nat) (i : Nat) : AuxEmbeddedInfo × Nat :=
  let val := (invalidmask >>> (4 * i)) &&& 0x0f
  if 0 ≠ val then
    let str := snprintf 512 (
      lit "\t " ++ fmt_d (Int.ofNat s.2) ++ lit " of " ++ fmt_d (Int.ofNat numofinvalid) ++
      lit ": wrong " ++ c_str canboardname ++ lit " because it has: " ++
      (if val &&& 0x1 = 0x1 then lit "WRONG BOARD TYPE" else lit "") ++
      (if val &&& 0x2 = 0x2 then lit "WRONG APPLICATION VERSION" else lit "") ++
      (if val &&& 0x4 = 0x4 then lit "WRONG PROTOCOL VERSION" else lit "") ++
      lit " \n")
    (s.1.appendFinalMessage str, (s.2 + 1) % 2 ^ 8)
  else s

/-- Case `eoerror_value_CFG_candiscovery_boardsinvalid`. -/
def ConfigParser.candiscovery_boardsinvalid (t : EoTables) (d : AuxEmbeddedInfo) :
    AuxEmbeddedInfo :=
  let numofinvalid := (d.p16 &&& 0x00ff) % 2 ^ 8
  let canboardname := t.eoboards_type2string (d.p16 >>> 8)
  let invalidmask := d.p64
  let str := snprintf 512 (
    c_str d.baseMessage ++ lit " " ++ fmt_d (Int.ofNat numofinvalid) ++ lit " invalid " ++
    c_str canboardname ++ lit " boards in " ++ c_str d.baseInfo.sourceCANPortStr ++
    lit ":\n")
  ((forRange 1 15).foldl (ConfigParser.boardsinvalidStep numofinvalid canboardname invalidmask)
    (d.appendFinalMessage str, 1)).1

/-- Case `eoerror_value_CFG_skin_ok`. -/
def ConfigParser.skin_ok (d : AuxEmbeddedInfo) : AuxEmbeddedInfo :=
  let maskcan1 := ((d.p64 &&& 0x0000ffff00000000) >>> 32) % 2 ^ 16
  let maskcan2 := ((d.p64 &&& 0xffff000000000000) >>> 48) % 2 ^ 16
  let reqpr := (d.p64 &&& 0x00000000ffff0000) >>> 16
  let reqfw := d.p64 &&& 0x000000000000ffff
  let prot_major := (reqpr >>> 8) % 2 ^ 8
  let prot_minor := (reqpr &&& 0xff) % 2 ^ 8
  let appl_major := ((reqfw >>> 8) &&& 0xff) % 2 ^ 8
  let appl_minor := (reqfw &&& 0xff) % 2 ^ 8
  let numOfpatches := d.p16
  let str := snprintf 512 (
    c_str d.baseMessage ++ lit " on " ++ fmt_d (Int.ofNat numOfpatches) ++
    lit " skin patches for boards on (can1map, can2map) = (0x" ++ fmt_x_prec 4 maskcan1 ++
    lit ", 0x" ++ fmt_x_prec 4 maskcan2 ++
    lit ") with target can protocol ver " ++ fmt_ver2 prot_major prot_minor ++
    lit " and application ver " ++ fmt_ver2 appl_major appl_minor)
  d.appendFinalMessage str

/-- Cases `eoerror_value_CFG_{skin,inertials,inertials3,temperatures}_failed_toomanyboards`. -/
def ConfigParser.failed_toomanyboards (d : AuxEmbeddedInfo) : AuxEmbeddedInfo :=
  let numOfReqBoards := ((d.p16 &&& 0xff00) >>> 8) % 2 ^ 8
  let numOfMaxBoards := (d.p16 &&& 0x00ff) % 2 ^ 8
  let maskcan1 := (d.p64 &&& 0x000000000000ffff) % 2 ^ 16
  let maskcan2 := ((d.p64 &&& 0x00000000ffff0000) >>> 16) % 2 ^ 16
  let str := snprintf 512 (
    lit " " ++ c_str d.baseMessage ++ lit " for " ++ fmt_d (Int.ofNat numOfReqBoards) ++
    lit " boards. Limit of max number of boards is " ++ fmt_d (Int.ofNat numOfMaxBoards) ++
    lit ". Boards are on (can1map, can2map) = (0x" ++ fmt_x_prec 4 maskcan1 ++
    lit ", 0x" ++ fmt_x_prec 4 maskcan2 ++ lit ")")
  d.appendFinalMessage str

/-- Cases `eoerror_value_CFG_{skin,inertials,inertials3,temperatures}_failed_candiscovery`;
`isSkin` is the test `eoerror_value_CFG_skin_failed_candiscovery == value`. -/
def ConfigParser.failed_candiscovery (isSkin : Bool) (d : AuxEmbeddedInfo) : AuxEmbeddedInfo :=
  let incompMaskcan2 := ((d.p64 &&& 0xffff000000000000) >>> 48) % 2 ^ 16
  let incompMaskcan1 := ((d.p64 &&& 0x0000ffff00000000) >>> 32) % 2 ^ 16
  let missMaskcan2 := ((d.p64 &&& 0x00000000ffff0000) >>> 16) % 2 ^ 16
  let missMaskcan1 := (d.p64 &&& 0x000000000000ffff) % 2 ^ 16
  let numOfPatches := d.p16
  let d1 := if isSkin = true then
      d.appendFinalMessage (snprintf 512 (
        c_str d.baseMessage ++ lit " for " ++ fmt_d (Int.ofNat numOfPatches) ++
        lit " skin patches. "))
    else
      d.appendFinalMessage (snprintf 512 (c_str d.baseMessage ++ lit ". "))
  let str := snprintf 512 (
    lit "Missing can boards on (can1map, can2map) = (0x" ++ fmt_x_prec 4 missMaskcan1 ++
    lit ", 0x" ++ fmt_x_prec 4 missMaskcan2 ++
    lit ") and found but incompatible can boards on (can1map, can2map) = (0x" ++
    fmt_x_prec 4 incompMaskcan1 ++ lit ", 0x" ++ fmt_x_prec 4 incompMaskcan2 ++ lit ")")
  d1.appendFinalMessage str

/-- Cases `eoerror_value_CFG_strain_ok` and `eoerror_value_CFG_strain_failed_candiscovery`. -/
def ConfigParser.strain (d : AuxEmbeddedInfo) : AuxEmbeddedInfo :=
  let reqpr := (d.p64 &&& 0x00000000ffff0000) >>> 16
  let reqfw := d.p64 &&& 0x000000000000ffff
  let prot_major := (reqpr >>> 8) % 2 ^ 8
  let prot_minor := (reqpr &&& 0xff) % 2 ^ 8
  let appl_major := ((reqfw >>> 8) &&& 0xff) % 2 ^ 8
  let appl_minor := (reqfw &&& 0xff) % 2 ^ 8
  let strain := ((d.p64 &&& 0x0000000f00000000) >>> 20) % 2 ^ 8
  let address := (d.p16 &&& 0x00ff) % 2 ^ 8
  let port := (d.p16 >>> 8) % 2 ^ 8
  let str := snprintf 512 (
    c_str d.baseMessage ++ lit " for board at addr:" ++ fmt_d (Int.ofNat address) ++
    lit " and port:" ++ fmt_d (Int.ofNat port) ++
    lit " with can protocol ver " ++ fmt_ver2 prot_major prot_minor ++
    lit " and application ver " ++ fmt_ver2 appl_major appl_minor ++
    lit ". Strain number is:" ++ fmt_d (Int.ofNat strain))
  d.appendFinalMessage str

/-- Cases `eoerror_value_CFG_{mais,psc,pos}_ok` and `_failed_candiscovery`. -/
def ConfigParser.board_at_addr (d : AuxEmbeddedInfo) : AuxEmbeddedInfo :=
  let reqpr := (d.p64 &&& 0x00000000ffff0000) >>> 16
  let reqfw := d.p64 &&& 0x000000000000ffff
  let prot_major := (reqpr >>> 8) % 2 ^ 8
  let prot_minor := (reqpr &&& 0xff) % 2 ^ 8
  let appl_major := ((reqfw >>> 8) &&& 0xff) % 2 ^ 8
  let appl_minor := (reqfw &&& 0xff) % 2 ^ 8
  let address := (d.p16 &&& 0x00ff) % 2 ^ 8
  let port := (d.p16 >>> 8) % 2 ^ 8
  let str := snprintf 512 (
    c_str d.baseMessage ++ lit " on board at addr: " ++ fmt_d (Int.ofNat address) ++
    lit " and port:" ++ fmt_d (Int.ofNat port) ++
    lit " with can protocol ver " ++ fmt_ver2 prot_major prot_minor ++
    lit " and application ver " ++ fmt_ver2 appl_major appl_minor ++ lit ".")
  d.appendFinalMessage str

/-- One turn of the loop of cases `eoerror_value_CFG_encoders_ok` and
`eoerror_value_CFG_encoders_failed_verify`. The `int16_t` error words are promoted to
`int` before `&`; the shifts are those of `int`. -/
def ConfigParser.encodersStep (p : EntityNameProvider) (failmaskenc1 errorenc1 failmaskenc2
    errorenc2 : Nat) (d : AuxEmbeddedInfo) (i : Nat) : AuxEmbeddedInfo :=
  let primary_enc_with_error := failmaskenc1 &&& (1 <<< i)
  let secondary_enc_with_error := failmaskenc2 &&& (1 <<< i)
  let d1 := if primary_enc_with_error ≠ 0 then
      let primary_error_code := (promoteInt16 errorenc1 &&& (0xf <<< i)) >>> (4 * i)
      let d0 := p.getAxisName i d
      d0.appendFinalMessage (snprintf 512 (
        lit " joint " ++ fmt_d (Int.ofNat i) ++ lit " (" ++ c_str d0.baseInfo.axisName ++
        lit ") has error on primary encoder (code=" ++
        fmt_d (toInt32 primary_error_code) ++ lit "). "))
    else d
  if secondary_enc_with_error ≠ 0 then
    let secondary_error_code := (promoteInt16 errorenc2 &&& (0xf <<< i)) >>> (4 * i)
    let d2 := p.getAxisName i d1
    d2.appendFinalMessage (snprintf 512 (
      lit " joint " ++ fmt_d (Int.ofNat i) ++ lit " (" ++ c_str d2.baseInfo.axisName ++
      lit ") has error on secodary encoder (code=" ++
      fmt_d (toInt32 secondary_error_code) ++ lit ")"))
  else d1

/-- Cases `eoerror_value_CFG_encoders_ok` and `eoerror_value_CFG_encoders_failed_verify`. -/
def ConfigParser.encoders (p : EntityNameProvider) (d : AuxEmbeddedInfo) : AuxEmbeddedInfo :=
  let numOfJoints := ((d.p16 &&& 0xf000) >>> 12) % 2 ^ 8
  let failmaskenc1 := (d.p16 &&& 0x000f) % 2 ^ 8
  let errorenc1 := (d.p64 &&& 0x0000ffff) % 2 ^ 16
  let failmaskenc2 := ((d.p16 &&& 0x00f0) >>> 4) % 2 ^ 8
  let errorenc2 := ((d.p64 &&& 0xffff0000) >>> 16) % 2 ^ 16
  let str := snprintf 512 (c_str d.baseMessage)
  (forRange 0 numOfJoints).foldl
    (ConfigParser.encodersStep p failmaskenc1 errorenc1 failmaskenc2 errorenc2)
    (d.appendFinalMessage str)

/-- Cases `eoerror_value_CFG_inertials_failed_unsupportedsensor` and
`eoerror_value_CFG_inertials3_failed_unsupportedsensor`. -/
def ConfigParser.failed_unsupportedsensor (d : AuxEmbeddedInfo) : AuxEmbeddedInfo :=
  let unsuppsens := toInt16 d.p16
  let str := snprintf 512 (
    c_str d.baseMessage ++ lit ". Number of unsupported sens is " ++ fmt_d unsuppsens)
  d.appendFinalMessage str

/-- Cases `eoerror_value_CFG_*_changed_requestedrate`. -/
def ConfigParser.changed_requestedrate (d : AuxEmbeddedInfo) : AuxEmbeddedInfo :=
  let reqrate := ((d.p16 &&& 0xff00) >>> 8) % 2 ^ 8
  let assrate := (d.p16 &&& 0x00ff) % 2 ^ 8
  let str := snprintf 512 (
    c_str d.baseMessage ++ lit ". Requested rate " ++ fmt_u reqrate ++
    lit " and Assigned rate " ++ fmt_u assrate)
  d.appendFinalMessage str

/-- Cases `eoerror_value_CFG_inertials3_failed_generic` and
`eoerror_value_CFG_temperatures_failed_generic`. -/
def ConfigParser.failed_generic (d : AuxEmbeddedInfo) : AuxEmbeddedInfo :=
  let numOfSens := d.p64 % 2 ^ 8
  let str := snprintf 512 (
    c_str d.baseMessage ++ lit " for " ++ fmt_d (Int.ofNat numOfSens) ++ lit " sensors")
  d.appendFinalMessage str

/-- The switch of `ConfigParser::parseInfo` on an already cleared event. -/
def ConfigParser.dispatch (t : EoTables) (p : EntityNameProvider) (value : ValueCFG)
    (d0 : AuxEmbeddedInfo) : AuxEmbeddedInfo :=
  match value with
  | .eoerror_value_CFG_candiscovery_started =>
    ConfigParser.candiscovery_started t d0
  | .eoerror_value_CFG_candiscovery_ok =>
    ConfigParser.candiscovery_ok t d0
  | .eoerror_value_CFG_candiscovery_detectedboard =>
    ConfigParser.candiscovery_detectedboard t d0
  | .eoerror_value_CFG_candiscovery_boardsmissing =>
    ConfigParser.candiscovery_boardsmissing t d0
  | .eoerror_value_CFG_candiscovery_boardsinvalid =>
    ConfigParser.candiscovery_boardsinvalid t d0
  | .eoerror_value_CFG_skin_ok =>
    ConfigParser.skin_ok d0
  | .eoerror_value_CFG_skin_failed_toomanyboards
  | .eoerror_value_CFG_inertials_failed_toomanyboards
  | .eoerror_value_CFG_inertials3_failed_toomanyboards
  | .eoerror_value_CFG_temperatures_failed_toomanyboards =>
    ConfigParser.failed_toomanyboards d0
  | .eoerror_value_CFG_skin_failed_candiscovery =>
    ConfigParser.failed_candiscovery true d0
  | .eoerror_value_CFG_inertials_failed_candiscovery
  | .eoerror_value_CFG_inertials3_failed_candiscovery
  | .eoerror_value_CFG_temperatures_failed_candiscovery =>
    ConfigParser.failed_candiscovery false d0
  | .eoerror_value_CFG_strain_ok | .eoerror_value_CFG_strain_failed_candiscovery =>
    ConfigParser.strain d0
  | .eoerror_value_CFG_mais_ok | .eoerror_value_CFG_mais_failed_candiscovery
  | .eoerror_value_CFG_psc_ok | .eoerror_value_CFG_psc_failed_candiscovery
  | .eoerror_value_CFG_pos_ok | .eoerror_value_CFG_pos_failed_candiscovery =>
    ConfigParser.board_at_addr d0
  | .eoerror_value_CFG_mais_failed_verify_because_active | .eoerror_value_CFG_mc_foc_ok
  | .eoerror_value_CFG_mc_foc_failed_candiscovery_of_foc
  | .eoerror_value_CFG_mc_foc_failed_encoders_verify | .eoerror_value_CFG_mc_mc4_ok
  | .eoerror_value_CFG_mc_mc4_failed_candiscovery_of_mc4
  | .eoerror_value_CFG_mc_mc4_failed_mais_verify | .eoerror_value_CFG_mc_mc4plus_ok
  | .eoerror_value_CFG_mc_mc4plus_failed_encoders_verify | .eoerror_value_CFG_inertials_ok
  | .eoerror_value_CFG_comm_cannotloadaregularrop | .eoerror_value_CFG_mc_mc4plusmais_ok
  | .eoerror_value_CFG_mc_mc4plusmais_failed_encoders_verify
  | .eoerror_value_CFG_mc_mc4plusmais_failed_candiscovery_of_mais
  | .eoerror_value_CFG_services_not_verified_yet | .eoerror_value_CFG_mc_not_verified_yet
  | .eoerror_value_CFG_strain_not_verified_yet | .eoerror_value_CFG_mais_not_verified_yet
  | .eoerror_value_CFG_skin_not_verified_yet | .eoerror_value_CFG_inertials_not_verified_yet
  | .eoerror_value_CFG_inertials3_not_verified_yet | .eoerror_value_CFG_encoders_not_verified_yet
  | .eoerror_value_CFG_mc_using_onboard_config | .eoerror_value_CFG_strain_using_onboard_config
  | .eoerror_value_CFG_mais_using_onboard_config
  | .eoerror_value_CFG_inertials_using_onboard_config
  | .eoerror_value_CFG_inertials3_using_onboard_config
  | .eoerror_value_CFG_skin_using_onboard_config | .eoerror_value_CFG_inertials3_ok
  | .eoerror_value_CFG_temperatures_not_verified_yet | .eoerror_value_CFG_temperatures_ok
  | .eoerror_value_CFG_temperatures_using_onboard_config
  | .eoerror_value_CFG_psc_failed_verify_because_active | .eoerror_value_CFG_psc_not_verified_yet
  | .eoerror_value_CFG_psc_using_onboard_config | .eoerror_value_CFG_mc_mc2pluspsc_ok
  | .eoerror_value_CFG_mc_mc2pluspsc_failed_encoders_verify
  | .eoerror_value_CFG_mc_mc2pluspsc_failed_candiscovery_of_pscs
  | .eoerror_value_CFG_inertials_failed_notsupported
  | .eoerror_value_CFG_inertials3_failed_notsupported
  | .eoerror_value_CFG_temperatures_failed_notsupported
  | .eoerror_value_CFG_mais_failed_notsupported | .eoerror_value_CFG_strain_failed_notsupported
  | .eoerror_value_CFG_skin_failed_notsupported | .eoerror_value_CFG_psc_failed_notsupported
  | .eoerror_value_CFG_mc_failed_notsupported | .eoerror_value_CFG_encoders_failed_notsupported
  | .eoerror_value_CFG_pos_not_verified_yet | .eoerror_value_CFG_pos_using_onboard_config
  | .eoerror_value_CFG_pos_failed_notsupported | .eoerror_value_CFG_mc_mc4plusfaps_ok
  | .eoerror_value_CFG_mc_mc4plusfaps_failed_encoders_verify
  | .eoerror_value_CFG_mc_mc4plusfaps_failed_candiscovery | .eoerror_value_CFG_mc_mc4pluspmc_ok
  | .eoerror_value_CFG_mc_mc4pluspmc_failed_encoders_verify
  | .eoerror_value_CFG_mc_mc4pluspmc_failed_candiscovery_of_pmc | .eoerror_value_CFG_ft_ok
  | .eoerror_value_CFG_ft_failed_candiscovery | .eoerror_value_CFG_ft_not_verified_yet
  | .eoerror_value_CFG_ft_using_onboard_config | .eoerror_value_CFG_ft_failed_notsupported
  | .eoerror_value_CFG_ft_failed_fullscales | .eoerror_value_CFG_bat_ok
  | .eoerror_value_CFG_bat_failed_candiscovery | .eoerror_value_CFG_bat_not_verified_yet
  | .eoerror_value_CFG_bat_using_onboard_config | .eoerror_value_CFG_bat_failed_notsupported =>
    DefaultParser.printBaseInfo d0
  | .eoerror_value_CFG_encoders_ok | .eoerror_value_CFG_encoders_failed_verify =>
    ConfigParser.encoders p d0
  | .eoerror_value_CFG_inertials_failed_unsupportedsensor
  | .eoerror_value_CFG_inertials3_failed_unsupportedsensor =>
    ConfigParser.failed_unsupportedsensor d0
  | .eoerror_value_CFG_inertials_changed_requestedrate
  | .eoerror_value_CFG_inertials3_changed_requestedrate
  | .eoerror_value_CFG_temperatures_changed_requestedrate
  | .eoerror_value_CFG_psc_changed_requestedrate | .eoerror_value_CFG_pos_changed_requestedrate =>
    ConfigParser.changed_requestedrate d0
  | .eoerror_value_CFG_inertials3_failed_generic | .eoerror_value_CFG_temperatures_failed_generic =>
    ConfigParser.failed_generic d0
  | .EOERROR_VALUE_DUMMY =>
    d0.appendFinalMessage (lit ": unrecognised eoerror_category_Config error value.")
  | .unlisted => DefaultParser.parseInfo t d0

/-- Function `ConfigParser::parseInfo`. -/
def ConfigParser.parseInfo (t : EoTables) (p : EntityNameProvider) (d : AuxEmbeddedInfo) :
    AuxEmbeddedInfo :=
  let value := t.valueCFG (t.eoerror_code2value d.code)
  ConfigParser.dispatch t p value d.clearFinalMessage

/-! ## MotionControlParser -/

/-- Cases `eoerror_value_MC_motor_external_fault` and
`eoerror_value_MC_motor_qencoder_phase_disappeared`. -/
def MotionControlParser.base_only (d : AuxEmbeddedInfo) : AuxEmbeddedInfo :=
  let str := snprintf 512 (lit " " ++ c_str d.baseMessage)
  d.appendFinalMessage str

/-- Cases of the per-joint faults, `eoerror_value_MC_motor_overcurrent` to
`eoerror_value_MC_joint_hard_limit`. -/
def MotionControlParser.joint_fault (p : EntityNameProvider) (d : AuxEmbeddedInfo) :
    AuxEmbeddedInfo :=
  let joint_num := (d.p16 &&& 0x00ff) % 2 ^ 8
  let d1 := p.getAxisName joint_num d
  let str := snprintf 512 (
    lit " " ++ c_str d1.baseMessage ++ lit " (Joint=" ++ c_str d1.baseInfo.axisName ++
    lit " (NIB=" ++ fmt_d (Int.ofNat joint_num) ++ lit "))")
  d1.appendFinalMessage str

/-- Cases `eoerror_value_MC_aea_abs_enc_invalid`, `_spikes` and `_timeout`. -/
def MotionControlParser.aea_abs_enc (p : EntityNameProvider) (d : AuxEmbeddedInfo) :
    AuxEmbeddedInfo :=
  let joint_num := (d.p16 &&& 0x00ff) % 2 ^ 8
  let enc_port := ((d.p16 &&& 0xff00) >>> 8) % 2 ^ 8
  let d1 := p.getAxisName joint_num d
  let str := snprintf 512 (
    lit " " ++ c_str d1.baseMessage ++ lit " (Joint=" ++ c_str d1.baseInfo.axisName ++
    lit " (NIB=" ++ fmt_d (Int.ofNat joint_num) ++ lit "), encoderPort=" ++
    fmt_d (Int.ofNat enc_port) ++ lit ")")
  d1.appendFinalMessage str

/-- Cases `eoerror_value_MC_motor_qencoder_dirty` and `eoerror_value_MC_motor_qencoder_phase`. -/
def MotionControlParser.qencoder (p : EntityNameProvider) (d : AuxEmbeddedInfo) :
    AuxEmbeddedInfo :=
  let joint_num := d.p16
  let enc_raw_value := (d.p64 &&& 0xffff) % 2 ^ 16
  let d1 := p.getAxisName joint_num d
  let str := snprintf 512 (
    lit " " ++ c_str d1.baseMessage ++ lit " (Joint=" ++ c_str d1.baseInfo.axisName ++
    lit " (NIB=" ++ fmt_d (Int.ofNat joint_num) ++ lit "), Raw_quad_encoder_value=" ++
    fmt_d (Int.ofNat enc_raw_value) ++ lit ")")
  d1.appendFinalMessage str

/-- Case `eoerror_value_MC_generic_error`. -/
def MotionControlParser.generic_error (d : AuxEmbeddedInfo) : AuxEmbeddedInfo :=
  let str := snprintf 512 (
    lit " " ++ c_str d.baseMessage ++ lit " (Error is " ++ fmt_x d.p64 ++ lit ")")
  d.appendFinalMessage str

/-- Case `eoerror_value_MC_motor_wrong_state`. -/
def MotionControlParser.motor_wrong_state (p : EntityNameProvider) (d : AuxEmbeddedInfo) :
    AuxEmbeddedInfo :=
  let joint_num := d.p16
  let req_state := ((d.p64 &&& 0xf0) >>> 4) % 2 ^ 16
  let cur_state := (d.p64 &&& 0x0f) % 2 ^ 16
  let d1 := p.getAxisName joint_num d
  let str := snprintf 512 (
    lit " " ++ c_str d1.baseMessage ++ lit " Joint=" ++ c_str d1.baseInfo.axisName ++
    lit " (NIB=" ++ fmt_d (Int.ofNat joint_num) ++ lit "). The requested state is " ++
    fmt_d (Int.ofNat req_state) ++ lit ", but the current is " ++
    fmt_d (Int.ofNat cur_state) ++ lit ")")
  d1.appendFinalMessage str

/-- The switch of `MotionControlParser::parseInfo` on an already cleared event. -/
def MotionControlParser.dispatch (t : EoTables) (p : EntityNameProvider) (value : ValueMC)
    (d0 : AuxEmbeddedInfo) : AuxEmbeddedInfo :=
  match value with
  | .eoerror_value_MC_motor_external_fault | .eoerror_value_MC_motor_qencoder_phase_disappeared =>
    MotionControlParser.base_only d0
  | .eoerror_value_MC_motor_overcurrent | .eoerror_value_MC_motor_i2t_limit
  | .eoerror_value_MC_motor_hallsensors | .eoerror_value_MC_motor_can_invalid_prot
  | .eoerror_value_MC_motor_can_generic | .eoerror_value_MC_motor_can_no_answer
  | .eoerror_value_MC_axis_torque_sens | .eoerror_value_MC_joint_hard_limit =>
    MotionControlParser.joint_fault p d0
  | .eoerror_value_MC_aea_abs_enc_invalid | .eoerror_value_MC_aea_abs_enc_spikes
  | .eoerror_value_MC_aea_abs_enc_timeout =>
    MotionControlParser.aea_abs_enc p d0
  | .eoerror_value_MC_motor_qencoder_dirty | .eoerror_value_MC_motor_qencoder_phase =>
    MotionControlParser.qencoder p d0
  | .eoerror_value_MC_generic_error => MotionControlParser.generic_error d0
  | .eoerror_value_MC_motor_wrong_state => MotionControlParser.motor_wrong_state p d0
  | .EOERROR_VALUE_DUMMY =>
    d0.appendFinalMessage (lit ": unrecognised eoerror_category_MotionControl error value.")
  | .unlisted => DefaultParser.parseInfo t d0

/-- Function `MotionControlParser::parseInfo`. -/
def MotionControlParser.parseInfo (t : EoTables) (p : EntityNameProvider)
    (d : AuxEmbeddedInfo) : AuxEmbeddedInfo :=
  let value := t.valueMC (t.eoerror_code2value d.code)
  MotionControlParser.dispatch t p value d.clearFinalMessage

/-! ## SkinParser, InertialSensorParser, AnalogSensorParser, HwErrorParser -/

/-- Case `eoerror_value_SK_arrayofcandataoverflow`. -/
def SkinParser.arrayofcandataoverflow (d : AuxEmbeddedInfo) : AuxEmbeddedInfo :=
  let frame_id := (d.p16 &&& 0x00ff) % 2 ^ 8
  let frame_size := ((d.p16 &&& 0xf000) >>> 12) % 2 ^ 8
  let frame_data := d.p64
  let str := snprintf 512 (
    lit " " ++ c_str d.baseMessage ++ lit ". Frame.ID=" ++ fmt_d (Int.ofNat frame_id) ++
    lit ", Frame.Size=" ++ fmt_d (Int.ofNat frame_size) ++ lit " Frame.Data=0x" ++
    fmt_x frame_data)
  d.appendFinalMessage str

/-- Case `eoerror_value_SK_onoroff`. -/
def SkinParser.onoroff (d : AuxEmbeddedInfo) : AuxEmbeddedInfo :=
  let emsboardstate :=
    if d.p16 = 0 then lit "OFF" else if d.p16 = 1 then lit "ON" else lit "unknown"
  let str := snprintf 512 (lit " " ++ c_str d.baseMessage ++ lit " " ++ c_str emsboardstate)
  d.appendFinalMessage str

/-- Case `eoerror_value_SK_unexpecteddata`. -/
def SkinParser.unexpecteddata (d : AuxEmbeddedInfo) : AuxEmbeddedInfo :=
  let emsboardstate :=
    if d.p16 = 0 then lit "CFG" else if d.p16 = 1 then lit "RUN" else lit "unknown"
  let str := snprintf 512 (lit " " ++ c_str d.baseMessage ++ lit " " ++ c_str emsboardstate)
  d.appendFinalMessage str

/-- The switch of `SkinParser::parseInfo` on an already cleared event. -/
def SkinParser.dispatch (t : EoTables) (value : ValueSK) (d0 : AuxEmbeddedInfo) :
    AuxEmbeddedInfo :=
  match value with
  | .eoerror_value_SK_unspecified | .eoerror_value_SK_obsoletecommand =>
    DefaultParser.printBaseInfo d0
  | .eoerror_value_SK_arrayofcandataoverflow => SkinParser.arrayofcandataoverflow d0
  | .eoerror_value_SK_onoroff => SkinParser.onoroff d0
  | .eoerror_value_SK_unexpecteddata => SkinParser.unexpecteddata d0
  | .EOERROR_VALUE_DUMMY =>
    d0.appendFinalMessage (lit ": unrecognized eoerror_category_Skin error value")
  | .unlisted => DefaultParser.parseInfo t d0

/-- Function `SkinParser::parseInfo`. -/
def SkinParser.parseInfo (t : EoTables) (d : AuxEmbeddedInfo) : AuxEmbeddedInfo :=
  let value := t.valueSK (t.eoerror_code2value d.code)
  SkinParser.dispatch t value d.clearFinalMessage

/-- Case `eoerror_value_HW_strain_saturation`. -/
def HwErrorParser.strain_saturation (d : AuxEmbeddedInfo) : AuxEmbeddedInfo :=
  let channel := d.p16
  let lower_saturation_counts := (d.p64 &&& 0xffffffff) % 2 ^ 32
  let upper_saturation_counts := ((d.p64 &&& 0xffffffff00000000) >>> 32) % 2 ^ 32
  let str := snprintf 512 (
    lit " " ++ c_str d.baseMessage ++ lit " " ++ fmt_d (Int.ofNat channel) ++
    lit " is the channel involved. In the last second, the lower saturation counts is " ++
    fmt_d (toInt32 lower_saturation_counts) ++ lit " and the upper one is " ++
    fmt_d (toInt32 upper_saturation_counts))
  d.appendFinalMessage str

/-- The switch of `HwErrorParser::parseInfo` on an already cleared event. -/
def HwErrorParser.dispatch (t : EoTables) (value : ValueHW) (d0 : AuxEmbeddedInfo) :
    AuxEmbeddedInfo :=
  match value with
  | .eoerror_value_HW_strain_saturation => HwErrorParser.strain_saturation d0
  | .eoerror_value_HW_encoder_invalid_value | .eoerror_value_HW_encoder_close_to_limits
  | .eoerror_value_HW_encoder_crc | .eoerror_value_HW_encoder_not_connected =>
    DefaultParser.printBaseInfo d0
  | .EOERROR_VALUE_DUMMY =>
    d0.appendFinalMessage (lit ": unrecognised eoerror_category_HardWare error value.")
  | .unlisted => DefaultParser.parseInfo t d0

/-- Function `HwErrorParser::parseInfo`. -/
def HwErrorParser.parseInfo (t : EoTables) (d : AuxEmbeddedInfo) : AuxEmbeddedInfo :=
  let value := t.valueHW (t.eoerror_code2value d.code)
  HwErrorParser.dispatch t value d.clearFinalMessage

/-- Case `eoerror_value_IS_arrayofinertialdataoverflow`. -/
def InertialSensorParser.arrayofinertialdataoverflow (d : AuxEmbeddedInfo) : AuxEmbeddedInfo :=
  let frame_id := (d.p16 &&& 0x00ff) % 2 ^ 8
  let frame_size := ((d.p16 &&& 0xf000) >>> 12) % 2 ^ 8
  let frame_data := d.p64
  let str := snprintf 512 (
    lit " " ++ c_str d.baseMessage ++ lit ". Frame.ID=" ++ fmt_d (Int.ofNat frame_id) ++
    lit ", Frame.Size=" ++ fmt_d (Int.ofNat frame_size) ++ lit " Frame.Data=0x" ++
    fmt_x frame_data)
  d.appendFinalMessage str

/-- The switch of `InertialSensorParser::parseInfo` on an already cleared event. -/
def InertialSensorParser.dispatch (t : EoTables) (value : ValueIS) (d0 : AuxEmbeddedInfo) :
    AuxEmbeddedInfo :=
  match value with
  | .eoerror_value_IS_arrayofinertialdataoverflow =>
    InertialSensorParser.arrayofinertialdataoverflow d0
  | .eoerror_value_IS_unknownsensor => DefaultParser.printBaseInfo d0
  | .EOERROR_VALUE_DUMMY =>
    d0.appendFinalMessage (lit ": unrecognised eoerror_category_HardWare error value.")
  | .unlisted => DefaultParser.parseInfo t d0

/-- Function `InertialSensorParser::parseInfo`. -/
def InertialSensorParser.parseInfo (t : EoTables) (d : AuxEmbeddedInfo) : AuxEmbeddedInfo :=
  let value := t.valueIS (t.eoerror_code2value d.code)
  InertialSensorParser.dispatch t value d.clearFinalMessage

/-- Case `eoerror_value_AS_arrayoftemperaturedataoverflow`. -/
def AnalogSensorParser.arrayoftemperaturedataoverflow (d : AuxEmbeddedInfo) : AuxEmbeddedInfo :=
  let frame_id := (d.p16 &&& 0x00ff) % 2 ^ 8
  let frame_size := ((d.p16 &&& 0xf000) >>> 12) % 2 ^ 8
  let frame_data := d.p64
  let str := snprintf 512 (
    lit " " ++ c_str d.baseMessage ++ lit ". Frame.ID=" ++ fmt_d (Int.ofNat frame_id) ++
    lit ", Frame.Size=" ++ fmt_d (Int.ofNat frame_size) ++ lit " Frame.Data=0x" ++
    fmt_x frame_data)
  d.appendFinalMessage str

/-- The switch of `AnalogSensorParser::parseInfo` on an already cleared event. -/
def AnalogSensorParser.dispatch (t : EoTables) (value : ValueAS) (d0 : AuxEmbeddedInfo) :
    AuxEmbeddedInfo :=
  match value with
  | .eoerror_value_AS_arrayoftemperaturedataoverflow =>
    AnalogSensorParser.arrayoftemperaturedataoverflow d0
  | .eoerror_value_AS_unknownsensor => DefaultParser.printBaseInfo d0
  | .EOERROR_VALUE_DUMMY =>
    d0.appendFinalMessage (lit ": unrecognised eoerror_category_HardWare error value.")
  | .unlisted => DefaultParser.parseInfo t d0

/-- Function `AnalogSensorParser::parseInfo`. -/
def AnalogSensorParser.parseInfo (t : EoTables) (d : AuxEmbeddedInfo) : AuxEmbeddedInfo :=
  let value := t.valueAS (t.eoerror_code2value d.code)
  AnalogSensorParser.dispatch t value d.clearFinalMessage

/-! ## SysParser -/

/-- Case `eoerror_value_SYS_runninghappily`. -/
def SysParser.runninghappily (d : AuxEmbeddedInfo) : AuxEmbeddedInfo :=
  let sel := d.p16 &&& 0x000f
  let appstate :=
    if sel = 0 then lit "just restarted" else if sel = 1 then lit "idle"
    else if sel = 2 then lit "running" else lit "unknown"
  let str := snprintf 512 (
    lit " " ++ c_str d.baseMessage ++ lit " Application state is " ++ c_str appstate ++ lit ".")
  d.appendFinalMessage str

/-- Cases `eoerror_value_SYS_ctrloop_execoverflowRX`, `DO` and `TX`: `phase` and `order` are
the two literals in which the three format strings differ. -/
def SysParser.ctrloop_execoverflow (phase order : String) (d : AuxEmbeddedInfo) :
    AuxEmbeddedInfo :=
  let str := snprintf 512 (
    lit " " ++ c_str d.baseMessage ++ lit " " ++ lit phase ++ lit " execution time " ++
    fmt_d (Int.ofNat d.p16) ++ lit "[usec]. Latest previous execution times of " ++
    lit order ++ lit " " ++ fmt_d (toInt64 d.p64) ++ lit "[usec]")
  d.appendFinalMessage str

/-- Cases `eoerror_value_SYS_halerror`, `osalerror`, `ipalerror` and
`dispatcherfifooverflow`: `what` is the literal in which the four format strings differ. -/
def SysParser.code_is (what : String) (d : AuxEmbeddedInfo) : AuxEmbeddedInfo :=
  let str := snprintf 512 (
    lit " " ++ c_str d.baseMessage ++ lit what ++ fmt_d (Int.ofNat d.p16) ++ lit ".")
  d.appendFinalMessage str

/-- Case `eoerror_value_SYS_ropparsingerror`. -/
def SysParser.ropparsingerror (d : AuxEmbeddedInfo) : AuxEmbeddedInfo :=
  let str := snprintf 512 (
    lit " " ++ c_str d.baseMessage ++ lit " Error code is  " ++ fmt_d (Int.ofNat d.p16) ++
    lit " (eOparserResult_t).")
  d.appendFinalMessage str

/-- Case `eoerror_value_SYS_canservices_txfifooverflow`. -/
def SysParser.canservices_txfifooverflow (d : AuxEmbeddedInfo) : AuxEmbeddedInfo :=
  let str := snprintf 512 (
    lit " " ++ c_str d.baseMessage ++ lit " CanPort=" ++ c_str d.baseInfo.sourceCANPortStr ++
    lit " Frame.ID=" ++ fmt_d (Int.ofNat (logicalAnd d.p16 0x0fff)) ++
    lit ", Frame.Size=" ++ fmt_d (Int.ofNat (logicalAnd d.p16 0xf000 >>> 12)) ++
    lit " Frame.Data=0x." ++ fmt_x d.p64)
  d.appendFinalMessage str

/-- Case `eoerror_value_SYS_canservices_txbusfailure`. -/
def SysParser.canservices_txbusfailure (d : AuxEmbeddedInfo) : AuxEmbeddedInfo :=
  let str := snprintf 512 (
    lit " " ++ c_str d.baseMessage ++ lit " CanPort=" ++ c_str d.baseInfo.sourceCANPortStr ++
    lit ". Size of fifo is " ++ fmt_d (Int.ofNat (logicalAnd d.p16 0xff00 >>> 8)))
  d.appendFinalMessage str

/-- Case `eoerror_value_SYS_canservices_formingfailure`. -/
def SysParser.canservices_formingfailure (d : AuxEmbeddedInfo) : AuxEmbeddedInfo :=
  let str := snprintf 512 (
    lit " " ++ c_str d.baseMessage ++ lit " CanPort=" ++ c_str d.baseInfo.sourceCANPortStr ++
    lit ". Message class is " ++ fmt_d (Int.ofNat (logicalAnd d.p16 0xff00 >>> 8)) ++
    lit ". Message cmd is " ++ fmt_d (Int.ofNat (logicalAnd d.p16 0x00ff)))
  d.appendFinalMessage str

/-- Case `eoerror_value_SYS_canservices_parsingfailure`. -/
def SysParser.canservices_parsingfailure (d : AuxEmbeddedInfo) : AuxEmbeddedInfo :=
  let str := snprintf 512 (
    lit " " ++ c_str d.baseMessage ++ lit " CanPort=" ++ c_str d.baseInfo.sourceCANPortStr ++
    lit ". Frame.size=" ++ fmt_d (Int.ofNat (logicalAnd d.p16 0xf000 >>> 12)) ++
    lit ". Frame.Id=" ++ fmt_d (Int.ofNat (logicalAnd d.p16 0x0fff)) ++ lit " ")
  d.appendFinalMessage str

/-- Case `eoerror_value_SYS_canservices_genericerror`. -/
def SysParser.canservices_genericerror (d : AuxEmbeddedInfo) : AuxEmbeddedInfo :=
  let str := snprintf 512 (
    lit " " ++ c_str d.baseMessage ++ lit " error code is " ++ fmt_d (Int.ofNat d.p16) ++
    lit " ")
  d.appendFinalMessage str

/-- Cases `eoerror_value_SYS_ctrloop_{rx,do,tx}phase{average,max,min}`: nine blocks with
the same statements. -/
def SysParser.ctrloop_phase (d : AuxEmbeddedInfo) : AuxEmbeddedInfo :=
  let str := snprintf 512 (
    lit " " ++ c_str d.baseMessage ++ lit " " ++ fmt_d (Int.ofNat d.p16) ++ lit " ")
  d.appendFinalMessage str

/-- Case `eoerror_value_SYS_proxy_forward_fails`. -/
def SysParser.proxy_forward_fails (d : AuxEmbeddedInfo) : AuxEmbeddedInfo :=
  let str := snprintf 512 (
    lit " " ++ c_str d.baseMessage ++ lit ". ROP.sign=" ++
    fmt_d (toInt32 ((d.p64 &&& 0xffffffff00000000) >>> 32)) ++ lit ", ROP.id=" ++
    fmt_d (toInt32 (d.p64 &&& 0x00000000ffffffff)) ++ lit ". Proxy list capacity is " ++
    fmt_d (Int.ofNat ((d.p16 &&& 0xff00) >>> 8)) ++ lit ", size is " ++
    fmt_d (Int.ofNat (d.p16 &&& 0x00ff)) ++ lit " ")
  d.appendFinalMessage str

/-- Case `eoerror_value_SYS_proxy_ropdes_notfound`. -/
def SysParser.proxy_ropdes_notfound (d : AuxEmbeddedInfo) : AuxEmbeddedInfo :=
  let str := snprintf 512 (
    lit " " ++ c_str d.baseMessage ++ lit " ROP.id=" ++
    fmt_d (toInt32 (d.p64 &&& 0x00000000ffffffff)) ++ lit " ")
  d.appendFinalMessage str

/-- Cases `eoerror_value_SYS_canservices_canprint`, `rxmaisbug` and `rxfromwrongboard`: three
blocks with the same statements. -/
def SysParser.canservices_frame (d : AuxEmbeddedInfo) : AuxEmbeddedInfo :=
  let str := snprintf 512 (
    lit " " ++ c_str d.baseMessage ++ lit " CanPort=" ++ c_str d.baseInfo.sourceCANPortStr ++
    lit " Frame.Size=" ++ fmt_d (Int.ofNat d.p16) ++ lit " Frame.Data=0x." ++ fmt_x d.p64)
  d.appendFinalMessage str

/-- Case `eoerror_value_SYS_transceiver_rxseqnumber_error`. -/
def SysParser.transceiver_rxseqnumber_error (d : AuxEmbeddedInfo) : AuxEmbeddedInfo :=
  let receivedNum := toInt16 ((d.p64 + d.p16) % 2 ^ 64)
  let str := snprintf 512 (
    lit " " ++ c_str d.baseMessage ++ lit " Expected number is " ++ fmt_d (toInt64 d.p64) ++
    lit ", received number is " ++ fmt_d receivedNum ++ lit " ")
  d.appendFinalMessage str

/-- Case `eoerror_value_SYS_transceiver_rxseqnumber_restarted`. -/
def SysParser.transceiver_rxseqnumber_restarted (d : AuxEmbeddedInfo) : AuxEmbeddedInfo :=
  let str := snprintf 512 (
    lit " " ++ c_str d.baseMessage ++ lit " Expected number is " ++ fmt_d (toInt64 d.p64))
  d.appendFinalMessage str

/-- Case `eoerror_value_SYS_canservices_board_detected`. -/
def SysParser.canservices_board_detected (d : AuxEmbeddedInfo) : AuxEmbeddedInfo :=
  let fw_build := d.p64 &&& 0x00000000000000ff
  let fw_major := (d.p64 &&& 0x000000000000ff00) >>> 8
  let fw_minor := (d.p64 &&& 0x0000000000ff0000) >>> 16
  let proto_major := (d.p64 &&& 0x00000000ff000000) >>> 24
  let proto_minor := (d.p64 &&& 0x000000ff00000000) >>> 32
  let str := snprintf 512 (
    lit " " ++ c_str d.baseMessage ++ lit " on CAN port=" ++
    c_str d.baseInfo.sourceCANPortStr ++ lit " with address " ++
    fmt_d (Int.ofNat d.baseInfo.sourceCANBoardAddr) ++ lit ".  Fw ver is " ++
    fmt_d (toInt32 fw_build) ++ lit "." ++ fmt_d (toInt32 fw_major) ++ lit "." ++
    fmt_d (toInt32 fw_minor) ++ lit ". Proto ver is " ++
    fmt_d (toInt32 proto_major) ++ lit "." ++ fmt_d (toInt32 proto_minor))
  d.appendFinalMessage str

/-- Case `eoerror_value_SYS_canservices_board_wrongprotversion`. -/
def SysParser.canservices_board_wrongprotversion (d : AuxEmbeddedInfo) : AuxEmbeddedInfo :=
  let fw_build := d.p64 &&& 0x00000000000000ff
  let fw_major := (d.p64 &&& 0x000000000000ff00) >>> 8
  let fw_minor := (d.p64 &&& 0x0000000000ff0000) >>> 16
  let proto_major := (d.p64 &&& 0x00000000ff000000) >>> 24
  let proto_minor := (d.p64 &&& 0x000000ff00000000) >>> 32
  let req_proto_major := (d.p16 &&& 0xff00) >>> 8
  let req_proto_minor := d.p16 &&& 0x00ff
  let str := snprintf 512 (
    lit " " ++ c_str d.baseMessage ++ lit " on CAN port=" ++
    c_str d.baseInfo.sourceCANPortStr ++ lit " with address " ++
    fmt_d (Int.ofNat d.baseInfo.sourceCANBoardAddr) ++ lit ". Fw ver is " ++
    fmt_d (toInt32 fw_build) ++ lit "." ++ fmt_d (toInt32 fw_major) ++ lit "." ++
    fmt_d (toInt32 fw_minor) ++ lit ". Proto ver is " ++
    fmt_d (toInt32 proto_major) ++ lit "." ++ fmt_d (toInt32 proto_minor) ++
    lit ". Required Version is " ++ fmt_d (toInt32 req_proto_major) ++ lit "." ++
    fmt_d (toInt32 req_proto_minor))
  d.appendFinalMessage str

/-- Case `eoerror_value_SYS_canservices_board_notfound`. -/
def SysParser.canservices_board_notfound (t : EoTables) (d : AuxEmbeddedInfo) :
    AuxEmbeddedInfo :=
  let general_brd_type := t.eoboards_cantype2type d.p16
  let str := snprintf 512 (
    lit " " ++ c_str d.baseMessage ++ lit " The board is on CAN port=" ++
    c_str d.baseInfo.sourceCANPortStr ++ lit " with address " ++
    fmt_d (Int.ofNat d.baseInfo.sourceCANBoardAddr) ++ lit ". Board type is " ++
    c_str (t.eoboards_type2string general_brd_type) ++ lit ".")
  d.appendFinalMessage str

/-- One turn of the loop `for(int i=1; i<15; i++)` that fills the two 64-byte buffers of
the contact handlers with `strcat`; the state is the pair of buffers. A buffer never
holds more than 33 bytes, so `strcat` stays inside it. -/
def SysParser.contactStep (maskcan1 maskcan2 : Nat) (s : Text × Text) (i : Nat) : Text × Text :=
  let s1 := if maskcan1 &&& (1 <<< i) = 1 <<< i then s.1 ++ fmt_u i ++ lit " " else s.1
  let s2 := if maskcan2 &&& (1 <<< i) = 1 <<< i then s.2 ++ fmt_u i ++ lit " " else s.2
  (s1, s2)

/-- One turn of the loop of case `eoerror_value_SYS_canservices_monitor_regularcontact`: for
the second mask the number goes to the first buffer and the blank to the second one. A
buffer never holds more than 52 bytes, so `strcat` stays inside it. -/
def SysParser.regularcontactStep (foundMaskcan1 foundMaskcan2 : Nat) (s : Text × Text)
    (i : Nat) : Text × Text :=
  let s1 := if foundMaskcan1 &&& (1 <<< i) = 1 <<< i then s.1 ++ fmt_u i ++ lit " " else s.1
  if foundMaskcan2 &&& (1 <<< i) = 1 <<< i then (s1 ++ fmt_u i, s.2 ++ lit " ") else (s1, s.2)

/-- Cases `eoerror_value_SYS_canservices_boards_lostcontact` and
`eoerror_value_SYS_canservices_boards_retrievedcontact`. -/
def SysParser.canservices_boards_contact (t : EoTables) (d : AuxEmbeddedInfo) :
    AuxEmbeddedInfo :=
  let serv_category := d.p16
  let lostMaskcan2 := ((d.p64 &&& 0x00000000ffff0000) >>> 16) % 2 ^ 16
  let lostMaskcan1 := (d.p64 &&& 0x000000000000ffff) % 2 ^ 16
  let lostCanBoards := (forRange 1 15).foldl (SysParser.contactStep lostMaskcan1 lostMaskcan2)
    ([], [])
  let str := snprintf 512 (
    c_str d.baseMessage ++ lit " Type of service category is " ++
    c_str (t.eomn_servicecategory2string serv_category) ++
    lit ". Lost can boards on (can1map, can2map) = ([ " ++ lostCanBoards.1 ++ lit " ], [ " ++
    lostCanBoards.2 ++ lit " ] )")
  d.appendFinalMessage str

/-- Case `eoerror_value_SYS_canservices_monitor_retrievedcontact`. -/
def SysParser.canservices_monitor_retrievedcontact (t : EoTables) (d : AuxEmbeddedInfo) :
    AuxEmbeddedInfo :=
  let serv_category := d.baseInfo.sourceCANBoardAddr
  let str := snprintf 512 (
    c_str d.baseMessage ++ lit " Type of service category is " ++
    c_str (t.eomn_servicecategory2string serv_category) ++ lit ".")
  d.appendFinalMessage str

/-- Case `eoerror_value_SYS_canservices_monitor_regularcontact`. -/
def SysParser.canservices_monitor_regularcontact (t : EoTables) (d : AuxEmbeddedInfo) :
    AuxEmbeddedInfo :=
  let serv_category := d.baseInfo.sourceCANBoardAddr
  let foundMaskcan2 := ((d.p64 &&& 0x00000000ffff0000) >>> 16) % 2 ^ 16
  let foundMaskcan1 := (d.p64 &&& 0x000000000000ffff) % 2 ^ 16
  let foundCanBoards := (forRange 1 15).foldl
    (SysParser.regularcontactStep foundMaskcan1 foundMaskcan2) ([], [])
  let str := snprintf 512 (
    c_str d.baseMessage ++ lit " Type of service category is " ++
    c_str (t.eomn_servicecategory2string serv_category) ++
    lit ". CAN boards are on (can1map, can2map) = ([ " ++ foundCanBoards.1 ++ lit " ], [ " ++
    foundCanBoards.2 ++ lit " ])")
  d.appendFinalMessage str

/-- Case `eoerror_value_SYS_canservices_monitor_lostcontact`. -/
def SysParser.canservices_monitor_lostcontact (t : EoTables) (d : AuxEmbeddedInfo) :
    AuxEmbeddedInfo :=
  let serv_category := d.baseInfo.sourceCANBoardAddr
  let lostMaskcan2 := ((d.p64 &&& 0x00000000ffff0000) >>> 16) % 2 ^ 16
  let lostMaskcan1 := (d.p64 &&& 0x000000000000ffff) % 2 ^ 16
  let timeLastContact := (d.p64 &&& 0xffff000000000000) >>> 48
  let lostCanBoards := (forRange 1 15).foldl (SysParser.contactStep lostMaskcan1 lostMaskcan2)
    ([], [])
  let str := snprintf 512 (
    c_str d.baseMessage ++ lit " Type of service category is " ++
    c_str (t.eomn_servicecategory2string serv_category) ++
    lit ". Lost CAN boards are on (can1map, can2map) = ([ " ++ lostCanBoards.1 ++
    lit " ], [ " ++ lostCanBoards.2 ++ lit " ]). Time since last contact: " ++
    fmt_d (toInt64 timeLastContact) ++ lit " [ms]")
  d.appendFinalMessage str

/-- Case `eoerror_value_SYS_canservices_monitor_stillnocontact`. -/
def SysParser.canservices_monitor_stillnocontact (t : EoTables) (d : AuxEmbeddedInfo) :
    AuxEmbeddedInfo :=
  let serv_category := d.baseInfo.sourceCANBoardAddr
  let lostMaskcan2 := ((d.p64 &&& 0x00000000ffff0000) >>> 16) % 2 ^ 16
  let lostMaskcan1 := (d.p64 &&& 0x000000000000ffff) % 2 ^ 16
  let totDisappTime := (d.p64 &&& 0xffff000000000000) >>> 48
  let lostCanBoards := (forRange 1 15).foldl (SysParser.contactStep lostMaskcan1 lostMaskcan2)
    ([], [])
  let str := snprintf 512 (
    c_str d.baseMessage ++ lit " Type of service category is " ++
    c_str (t.eomn_servicecategory2string serv_category) ++
    lit ". Lost CAN boards are on (can1map, can2map) = ([ " ++ lostCanBoards.1 ++
    lit " ] , [ " ++ lostCanBoards.2 ++ lit " ]). Total disappearance time: " ++
    fmt_d (toInt64 totDisappTime) ++ lit " [ms]")
  d.appendFinalMessage str

/-- The switch of `SysParser::parseInfo` on an already cleared event. -/
def SysParser.dispatch (t : EoTables) (value : ValueSYS) (d0 : AuxEmbeddedInfo) :
    AuxEmbeddedInfo :=
  match value with
  | .eoerror_value_SYS_runninghappily =>
    SysParser.runninghappily d0
  | .eoerror_value_SYS_ctrloop_execoverflowRX =>
    SysParser.ctrloop_execoverflow "RX" "TX, RX, DO, TX" d0
  | .eoerror_value_SYS_ctrloop_execoverflowDO =>
    SysParser.ctrloop_execoverflow "DO" "RX, DO, TX, RX" d0
  | .eoerror_value_SYS_ctrloop_execoverflowTX =>
    SysParser.ctrloop_execoverflow "TX" "TX, RX, DO" d0
  | .eoerror_value_SYS_ropparsingerror =>
    SysParser.ropparsingerror d0
  | .eoerror_value_SYS_halerror =>
    SysParser.code_is " HAL error code is  " d0
  | .eoerror_value_SYS_osalerror =>
    SysParser.code_is " OSAL error code is  " d0
  | .eoerror_value_SYS_ipalerror =>
    SysParser.code_is " IPAL error code is  " d0
  | .eoerror_value_SYS_dispatcherfifooverflow =>
    SysParser.code_is " Number of lost items is  " d0
  | .eoerror_value_SYS_canservices_txfifooverflow =>
    SysParser.canservices_txfifooverflow d0
  | .eoerror_value_SYS_canservices_txbusfailure =>
    SysParser.canservices_txbusfailure d0
  | .eoerror_value_SYS_canservices_formingfailure =>
    SysParser.canservices_formingfailure d0
  | .eoerror_value_SYS_canservices_parsingfailure =>
    SysParser.canservices_parsingfailure d0
  | .eoerror_value_SYS_canservices_genericerror =>
    SysParser.canservices_genericerror d0
  | .eoerror_value_SYS_ctrloop_rxphaseaverage | .eoerror_value_SYS_ctrloop_dophaseaverage
  | .eoerror_value_SYS_ctrloop_txphaseaverage | .eoerror_value_SYS_ctrloop_rxphasemax
  | .eoerror_value_SYS_ctrloop_dophasemax | .eoerror_value_SYS_ctrloop_txphasemax
  | .eoerror_value_SYS_ctrloop_rxphasemin | .eoerror_value_SYS_ctrloop_dophasemin
  | .eoerror_value_SYS_ctrloop_txphasemin =>
    SysParser.ctrloop_phase d0
  | .eoerror_value_SYS_proxy_forward_fails =>
    SysParser.proxy_forward_fails d0
  | .eoerror_value_SYS_proxy_ropdes_notfound =>
    SysParser.proxy_ropdes_notfound d0
  | .eoerror_value_SYS_canservices_canprint | .eoerror_value_SYS_canservices_rxmaisbug
  | .eoerror_value_SYS_canservices_rxfromwrongboard =>
    SysParser.canservices_frame d0
  | .eoerror_value_SYS_transceiver_rxseqnumber_error =>
    SysParser.transceiver_rxseqnumber_error d0
  | .eoerror_value_SYS_transceiver_rxseqnumber_restarted =>
    SysParser.transceiver_rxseqnumber_restarted d0
  | .eoerror_value_SYS_canservices_board_detected =>
    SysParser.canservices_board_detected d0
  | .eoerror_value_SYS_canservices_board_wrongprotversion =>
    SysParser.canservices_board_wrongprotversion d0
  | .eoerror_value_SYS_canservices_board_notfound =>
    SysParser.canservices_board_notfound t d0
  | .eoerror_value_SYS_canservices_boards_lostcontact
  | .eoerror_value_SYS_canservices_boards_retrievedcontact =>
    SysParser.canservices_boards_contact t d0
  | .eoerror_value_SYS_canservices_monitor_retrievedcontact =>
    SysParser.canservices_monitor_retrievedcontact t d0
  | .eoerror_value_SYS_canservices_monitor_regularcontact =>
    SysParser.canservices_monitor_regularcontact t d0
  | .eoerror_value_SYS_canservices_monitor_lostcontact =>
    SysParser.canservices_monitor_lostcontact t d0
  | .eoerror_value_SYS_canservices_monitor_stillnocontact =>
    SysParser.canservices_monitor_stillnocontact t d0
  | .eoerror_value_SYS_unspecified | .eoerror_value_SYS_tobedecided
  | .eoerror_value_SYS_memory_zerorequested | .eoerror_value_SYS_memory_notinitialised
  | .eoerror_value_SYS_memory_missing | .eoerror_value_SYS_mutex_timeout
  | .eoerror_value_SYS_wrongparam | .eoerror_value_SYS_wrongusage | .eoerror_value_SYS_runtimeerror
  | .eoerror_value_SYS_runninginfatalerrorstate | .eoerror_value_SYS_udptxfailure
  | .eoerror_value_SYS_configurator_udptxfailure | .eoerror_value_SYS_runner_udptxfailure
  | .eoerror_value_SYS_runner_transceivererror | .eoerror_value_SYS_canservices_rxfifooverflow
  | .eoerror_value_SYS_proxy_forward_ok | .eoerror_value_SYS_proxy_forward_callback_fails
  | .eoerror_value_SYS_proxy_reply_ok | .eoerror_value_SYS_proxy_reply_fails
  | .eoerror_value_SYS_canservices_boards_missing | .eoerror_value_SYS_canservices_boards_searched
  | .eoerror_value_SYS_canservices_boards_found
  | .eoerror_value_SYS_transceiver_rxinvalidframe_error =>
    DefaultParser.printBaseInfo d0
  | .EOERROR_VALUE_DUMMY =>
    d0.appendFinalMessage (lit ": unrecognised eoerror_category_HardWare error value.")
  | .unlisted => DefaultParser.parseInfo t d0

/-- Function `SysParser::parseInfo`. -/
def SysParser.parseInfo (t : EoTables) (d : AuxEmbeddedInfo) : AuxEmbeddedInfo :=
  let value := t.valueSYS (t.eoerror_code2value d.code)
  SysParser.dispatch t value d.clearFinalMessage

/-! ## EthMonitorParser -/

/-- Cases `eoerror_value_ETHMON_link_goes_up`, `eoerror_value_ETHMON_link_goes_down` and
`eoerror_value_ETHMON_error_rxcrc`; `isRxcrc` is the test
`eoerror_value_ETHMON_error_rxcrc == value`. -/
def EthMonitorParser.link (isRxcrc : Bool) (d : AuxEmbeddedInfo) : AuxEmbeddedInfo :=
  let sel := d.p64 &&& 0xff00000000000000
  let appstate :=
    if sel = 0 then lit "N/A" else if sel = 1 then lit "idle"
    else if sel = 3 then lit "running" else lit "unknown"
  let ethport :=
    if d.p16 = 0 then lit "ETH input (P2/P13/J4)"
    else if d.p16 = 1 then lit "ETH output (P3/P12/J5)"
    else if d.p16 = 2 then lit "internal" else lit "unknown"
  let str := if isRxcrc = true then
      snprintf 512 (
        lit " " ++ c_str d.baseMessage ++ lit " in port " ++ c_str ethport ++
        lit ". Application state is " ++ c_str appstate ++ lit ". Number of erros is " ++
        fmt_d (toInt64 (d.p64 &&& 0xffffffff)))
    else
      snprintf 512 (
        lit " " ++ c_str d.baseMessage ++ lit " in port " ++ c_str ethport ++
        lit ". Application state is " ++ c_str appstate ++ lit ".")
  d.appendFinalMessage str

/-- Case `eoerror_value_ETHMON_txseqnumbermissing`. -/
def EthMonitorParser.txseqnumbermissing (d : AuxEmbeddedInfo) : AuxEmbeddedInfo :=
  let str := snprintf 512 (
    lit " " ++ c_str d.baseMessage ++ lit " w/ expected sequence " ++
    fmt_d (toInt64 d.p64) ++ lit " and number of detected " ++ fmt_d (Int.ofNat d.p16))
  d.appendFinalMessage str

/-- The switch of `EthMonitorParser::parseInfo` on an already cleared event. -/
def EthMonitorParser.dispatch (t : EoTables) (value : ValueETHMON) (d0 : AuxEmbeddedInfo) :
    AuxEmbeddedInfo :=
  match value with
  | .eoerror_value_ETHMON_link_goes_up | .eoerror_value_ETHMON_link_goes_down =>
    EthMonitorParser.link false d0
  | .eoerror_value_ETHMON_error_rxcrc => EthMonitorParser.link true d0
  | .eoerror_value_ETHMON_txseqnumbermissing => EthMonitorParser.txseqnumbermissing d0
  | .eoerror_value_ETHMON_juststarted | .eoerror_value_ETHMON_justverified =>
    DefaultParser.printBaseInfo d0
  | .EOERROR_VALUE_DUMMY =>
    d0.appendFinalMessage (lit ": unrecognised eoerror_category_HardWare error value.")
  | .unlisted => DefaultParser.parseInfo t d0

/-- Function `EthMonitorParser::parseInfo`. -/
def EthMonitorParser.parseInfo (t : EoTables) (d : AuxEmbeddedInfo) : AuxEmbeddedInfo :=
  let value := t.valueETHMON (t.eoerror_code2value d.code)
  EthMonitorParser.dispatch t value d.clearFinalMessage

/-! ## The eight category parsers -/

/-- The categories that have a parser. -/
inductive Category where
  | Config | MotionControl | Skin | HardWare | Sys | EthMonitor | InertialSensor | AnalogSensor
  deriving DecidableEq, Repr

/-- Function `parseInfo` of the parser of a category. -/
def parseInfoOf (c : Category) (t : EoTables) (p : EntityNameProvider) (d : AuxEmbeddedInfo) :
    AuxEmbeddedInfo :=
  match c with
  | .Config => ConfigParser.parseInfo t p d
  | .MotionControl => MotionControlParser.parseInfo t p d
  | .Skin => SkinParser.parseInfo t d
  | .HardWare => HwErrorParser.parseInfo t d
  | .Sys => SysParser.parseInfo t d
  | .EthMonitor => EthMonitorParser.parseInfo t d
  | .InertialSensor => InertialSensorParser.parseInfo t d
  | .AnalogSensor => AnalogSensorParser.parseInfo t d

/-- Which kind of branch a switch takes. -/
inductive CaseKind where
  | recognised | dummy | default
  deriving DecidableEq, Repr

/-- Branch kind of a label of the Config switch. -/
def ValueCFG.kind : ValueCFG → CaseKind
  | .EOERROR_VALUE_DUMMY => .dummy
  | .unlisted => .default
  | _ => .recognised

/-- Branch kind of a label of the MotionControl switch. -/
def ValueMC.kind : ValueMC → CaseKind
  | .EOERROR_VALUE_DUMMY => .dummy
  | .unlisted => .default
  | _ => .recognised

/-- Branch kind of a label of the Skin switch. -/
def ValueSK.kind : ValueSK → CaseKind
  | .EOERROR_VALUE_DUMMY => .dummy
  | .unlisted => .default
  | _ => .recognised

/-- Branch kind of a label of the HardWare switch. -/
def ValueHW.kind : ValueHW → CaseKind
  | .EOERROR_VALUE_DUMMY => .dummy
  | .unlisted => .default
  | _ => .recognised

/-- Branch kind of a label of the Sys switch. -/
def ValueSYS.kind : ValueSYS → CaseKind
  | .EOERROR_VALUE_DUMMY => .dummy
  | .unlisted => .default
  | _ => .recognised

/-- Branch kind of a label of the EthMonitor switch. -/
def ValueETHMON.kind : ValueETHMON → CaseKind
  | .EOERROR_VALUE_DUMMY => .dummy
  | .unlisted => .default
  | _ => .recognised

/-- Branch kind of a label of the InertialSensor switch. -/
def ValueIS.kind : ValueIS → CaseKind
  | .EOERROR_VALUE_DUMMY => .dummy
  | .unlisted => .default
  | _ => .recognised

/-- Branch kind of a label of the AnalogSensor switch. -/
def ValueAS.kind : ValueAS → CaseKind
  | .EOERROR_VALUE_DUMMY => .dummy
  | .unlisted => .default
  | _ => .recognised

/-- Branch that the switch of the parser of category `c` takes on event `d`. -/
def caseKind (c : Category) (t : EoTables) (d : AuxEmbeddedInfo) : CaseKind :=
  match c with
  | .Config => (t.valueCFG (t.eoerror_code2value d.code)).kind
  | .MotionControl => (t.valueMC (t.eoerror_code2value d.code)).kind
  | .Skin => (t.valueSK (t.eoerror_code2value d.code)).kind
  | .HardWare => (t.valueHW (t.eoerror_code2value d.code)).kind
  | .Sys => (t.valueSYS (t.eoerror_code2value d.code)).kind
  | .EthMonitor => (t.valueETHMON (t.eoerror_code2value d.code)).kind
  | .InertialSensor => (t.valueIS (t.eoerror_code2value d.code)).kind
  | .AnalogSensor => (t.valueAS (t.eoerror_code2value d.code)).kind

/-- The event with `finalMessage` replaced. -/
def AuxEmbeddedInfo.withFinalMessage (d : AuxEmbeddedInfo) (m : Text) : AuxEmbeddedInfo :=
  { d with baseInfo := { d.baseInfo with finalMessage := m } }

/-- The fields of an event that are inputs only: everything but `finalMessage` and
`axisName`. -/
def AuxEmbeddedInfo.readOnly (d : AuxEmbeddedInfo) :
    Nat × Nat × Nat × Text × Text × Text × Text × Nat :=
  (d.errorCode, d.param16, d.param64, d.baseMessage, d.extraMessage,
    d.baseInfo.sourceBoardIpAddrStr, d.baseInfo.sourceCANPortStr, d.baseInfo.sourceCANBoardAddr)

/-- The payload of an event: the fields a recipe decodes. -/
def AuxEmbeddedInfo.payload (d : AuxEmbeddedInfo) : Nat × Nat × Text :=
  (d.param16, d.param64, d.baseMessage)

/-- The payload of an event together with its source context. -/
def AuxEmbeddedInfo.payloadSrc (d : AuxEmbeddedInfo) : Nat × Nat × Text × Text × Text × Nat :=
  (d.param16, d.param64, d.baseMessage,
    d.baseInfo.sourceBoardIpAddrStr, d.baseInfo.sourceCANPortStr, d.baseInfo.sourceCANBoardAddr)

/-- Labels of the Config switch whose recipe prints a field of the source context. -/
def ValueCFG.readsSource : ValueCFG → Bool
  | .eoerror_value_CFG_candiscovery_detectedboard
  | .eoerror_value_CFG_candiscovery_boardsmissing
  | .eoerror_value_CFG_candiscovery_boardsinvalid => true
  | _ => false

/-- Labels of the Sys switch whose recipe prints or decodes a field of the source
context. -/
def ValueSYS.readsSource : ValueSYS → Bool
  | .eoerror_value_SYS_canservices_txfifooverflow
  | .eoerror_value_SYS_canservices_txbusfailure
  | .eoerror_value_SYS_canservices_formingfailure
  | .eoerror_value_SYS_canservices_parsingfailure
  | .eoerror_value_SYS_canservices_canprint
  | .eoerror_value_SYS_canservices_rxmaisbug
  | .eoerror_value_SYS_canservices_rxfromwrongboard
  | .eoerror_value_SYS_canservices_board_detected
  | .eoerror_value_SYS_canservices_board_wrongprotversion
  | .eoerror_value_SYS_canservices_board_notfound
  | .eoerror_value_SYS_canservices_monitor_retrievedcontact
  | .eoerror_value_SYS_canservices_monitor_regularcontact
  | .eoerror_value_SYS_canservices_monitor_lostcontact
  | .eoerror_value_SYS_canservices_monitor_stillnocontact => true
  | _ => false

/-- Whether the recipe selected for event `d` by the parser of category `c` reads the
source context (bus/port label, board address, board IP label). -/
def readsSource (c : Category) (t : EoTables) (d : AuxEmbeddedInfo) : Bool :=
  match c with
  | .Config => (t.valueCFG (t.eoerror_code2value d.code)).readsSource
  | .Sys => (t.valueSYS (t.eoerror_code2value d.code)).readsSource
  | _ => false

/-- Labels of the Config switch whose block appends to `finalMessage` more than once. -/
def ValueCFG.appendsSeveral : ValueCFG → Bool
  | .eoerror_value_CFG_candiscovery_boardsmissing
  | .eoerror_value_CFG_candiscovery_boardsinvalid
  | .eoerror_value_CFG_skin_failed_candiscovery
  | .eoerror_value_CFG_inertials_failed_candiscovery
  | .eoerror_value_CFG_inertials3_failed_candiscovery
  | .eoerror_value_CFG_temperatures_failed_candiscovery
  | .eoerror_value_CFG_encoders_ok
  | .eoerror_value_CFG_encoders_failed_verify => true
  | _ => false

/-- Whether the block selected for event `d` by the parser of category `c` appends to
`finalMessage` more than once; only blocks of the Config parser do. -/
def appendsSeveral (c : Category) (t : EoTables) (d : AuxEmbeddedInfo) : Bool :=
  match c with
  | .Config => (t.valueCFG (t.eoerror_code2value d.code)).appendsSeveral
  | _ => false

/-! ## Sample tables and events

Concrete inputs on which the parsers are evaluated. -/

/-- Tables in which every value falls to `default:` in every switch. -/
def tablesUnlisted : EoTables where
  eoerror_code2value := fun code => code % 2 ^ 24
  eoerror_code2string := fun _ => lit "SYS: unknown error"
  eoerror_code2rulesstring := fun _ => lit "NO RULES"
  eoboards_type2string := fun _ => lit "mtb4"
  eoboards_cantype2type := fun n => n
  eomn_servicecategory2string := fun _ => lit "eomn_serv_category_mc"
  valueCFG := fun _ => ValueCFG.unlisted
  valueMC := fun _ => ValueMC.unlisted
  valueSK := fun _ => ValueSK.unlisted
  valueHW := fun _ => ValueHW.unlisted
  valueSYS := fun _ => ValueSYS.unlisted
  valueETHMON := fun _ => ValueETHMON.unlisted
  valueIS := fun _ => ValueIS.unlisted
  valueAS := fun _ => ValueAS.unlisted

/-- Tables in which every value is `EOERROR_VALUE_DUMMY` in every switch. -/
def tablesDummy : EoTables :=
  { tablesUnlisted with
    valueCFG := fun _ => ValueCFG.EOERROR_VALUE_DUMMY
    valueMC := fun _ => ValueMC.EOERROR_VALUE_DUMMY
    valueSK := fun _ => ValueSK.EOERROR_VALUE_DUMMY
    valueHW := fun _ => ValueHW.EOERROR_VALUE_DUMMY
    valueSYS := fun _ => ValueSYS.EOERROR_VALUE_DUMMY
    valueETHMON := fun _ => ValueETHMON.EOERROR_VALUE_DUMMY
    valueIS := fun _ => ValueIS.EOERROR_VALUE_DUMMY
    valueAS := fun _ => ValueAS.EOERROR_VALUE_DUMMY }

/-- Tables in which every Config value is the given label. -/
def tablesCFG (v : ValueCFG) : EoTables :=
  { tablesUnlisted with valueCFG := fun _ => v }

/-- A resolver that knows no joint. -/
def noNames : EntityNameProvider where
  axisNameOf := fun _ => lit "N/A"

/-- An event from CAN1 of board 10.0.1.1 with the given payload. -/
def sampleEvent (errorCode param16 param64 : Nat) (baseMessage : String) : AuxEmbeddedInfo where
  baseInfo :=
    { sourceBoardIpAddrStr := lit "10.0.1.1"
      sourceCANPortStr := lit "CAN1"
      sourceCANBoardAddr := 3
      axisName := []
      finalMessage := [] }
  errorCode := errorCode
  param16 := param16
  param64 := param64
  baseMessage := lit baseMessage
  extraMessage := lit "NO MORE"

/-- The same event seen on the other bus: only the port label differs. -/
def sampleEventCAN2 (errorCode param16 param64 : Nat) (baseMessage : String) :
    AuxEmbeddedInfo :=
  let d := sampleEvent errorCode param16 param64 baseMessage
  { d with baseInfo := { d.baseInfo with sourceCANPortStr := lit "CAN2" } }

/-- The numeral of `n` in base 16 written with exactly `w` lowercase digits, zero-padded:
the `w - 1` digits of `n / 16` followed by the digit of `n % 16`. -/
def hexNumeral : Nat → Nat → Text
  | 0, _ => []
  | w + 1, n => hexNumeral w (n / 16) ++ [Nat.digitChar (n % 16)]

/-- The text appended by the `EOERROR_VALUE_DUMMY` case of the parser of a category, as
written in the source of each parser. -/
def dummyMessage : Category → Text
  | .Config => lit ": unrecognised eoerror_category_Config error value."
  | .MotionControl => lit ": unrecognised eoerror_category_MotionControl error value."
  | .Skin => lit ": unrecognized eoerror_category_Skin error value"
  | .HardWare => lit ": unrecognised eoerror_category_HardWare error value."
  | .Sys => lit ": unrecognised eoerror_category_HardWare error value."
  | .EthMonitor => lit ": unrecognised eoerror_category_HardWare error value."
  | .InertialSensor => lit ": unrecognised eoerror_category_HardWare error value."
  | .AnalogSensor => lit ": unrecognised eoerror_category_HardWare error value."

/-- The event with `baseMessage` replaced. -/
def AuxEmbeddedInfo.withBaseMessage (d : AuxEmbeddedInfo) (m : Text) : AuxEmbeddedInfo :=
  { d with baseMessage := m }


/-! ## Renderings in the words of the specification

Second definitions, written from the specification and not from the code, against which
the handlers are compared. -/

/-- Bits `lo` to `lo + w - 1` of `x`, read as a number. -/
def bitsOf (x lo w : Nat) : Nat := x / 2 ^ lo % 2 ^ w

/-- Index-list rendering of a board mask: for the indices 1 to 14 whose bit is set, in
ascending order, the decimal numeral of the index followed by one space. -/
def indexList (mask : Nat) : Text :=
  ([1, 2, 3, 4, 5, 6, 7, 8, 9, 10, 11, 12, 13, 14].filter (fun i => mask.testBit i)).flatMap
    (fun i => Nat.toDigits 10 i ++ [' '])

/-- Text of the lost-contact report of the CAN monitor, from its service category, its two
index lists and the time in milliseconds. -/
def monitorLostcontactText (base category list1 list2 : Text) (time : Nat) : Text :=
  base ++ lit " Type of service category is " ++ category ++
  lit ". Lost CAN boards are on (can1map, can2map) = ([ " ++ list1 ++ lit " ], [ " ++ list2 ++
  lit " ]). Time since last contact: " ++ Nat.toDigits 10 time ++ lit " [ms]"

/-- Text of the report that the CAN discovery started, from the number of boards, the name
of their type, the two board masks and the target protocol and application versions. -/
def candiscoveryStartedText (base : Text) (count : Nat) (boardname : Text)
    (can1map can2map protMajor protMinor applMajor applMinor applBuild : Nat) : Text :=
  lit " " ++ base ++ lit " " ++ Nat.toDigits 10 count ++ lit " " ++ boardname ++
  lit " boards on (can1map, can2map) = (0x" ++ hexNumeral 4 can1map ++
  lit ", 0x" ++ hexNumeral 4 can2map ++
  lit ") with target can protocol ver " ++ Nat.toDigits 10 protMajor ++ lit "." ++
  Nat.toDigits 10 protMinor ++
  lit " and application ver " ++ Nat.toDigits 10 applMajor ++ lit "." ++
  Nat.toDigits 10 applMinor ++ lit "." ++ Nat.toDigits 10 applBuild ++ lit "."

/-- Line of the encoders report for a failure of the primary encoder of joint `i`. -/
def primaryEncoderLine (i : Nat) (name : Text) (code : Nat) : Text :=
  lit " joint " ++ Nat.toDigits 10 i ++ lit " (" ++ name ++
  lit ") has error on primary encoder (code=" ++ Nat.toDigits 10 code ++ lit "). "

/-- Line of the encoders report for a failure of the secondary encoder of joint `i`. -/
def secondaryEncoderLine (i : Nat) (name : Text) (code : Nat) : Text :=
  lit " joint " ++ Nat.toDigits 10 i ++ lit " (" ++ name ++
  lit ") has error on secodary encoder (code=" ++ Nat.toDigits 10 code ++ lit ")"

/-- The per-joint lines of the encoders report: for each joint below `count`, in ascending
order, a primary line when its bit of `mask1` is set, then a secondary line when its bit
of `mask2` is set; each line passes through the 512-byte buffer. -/
def encoderLines (name : Nat → Text) (count mask1 mask2 : Nat) (code1 code2 : Nat → Nat) :
    Text :=
  (List.range count).flatMap (fun i =>
    (if mask1.testBit i then snprintf 512 (primaryEncoderLine i (name i) (code1 i)) else []) ++
    (if mask2.testBit i then snprintf 512 (secondaryEncoderLine i (name i) (code2 i))
      else []))

/-- The error code that the loop of the encoders report prints for joint `i` out of the
16-bit word `errors`: expression `(errorenc & (0xf << i)) >> 4*i` of the source. -/
def encoderCodePrinted (errors i : Nat) : Nat :=
  (promoteInt16 errors &&& (0xf <<< i)) >>> (4 * i)

/-- Tables in which every Sys value is the given label. -/
def tablesSYS (v : ValueSYS) : EoTables :=
  { tablesUnlisted with valueSYS := fun _ => v }

/-- Tables in which every EthMonitor value is the given label. -/
def tablesETHMON (v : ValueETHMON) : EoTables :=
  { tablesUnlisted with valueETHMON := fun _ => v }

/-- A resolver with a name for every joint of a four-joint board. -/
def armNames : EntityNameProvider where
  axisNameOf := fun i =>
    if i = 0 then lit "l_shoulder_pitch" else if i = 1 then lit "l_shoulder_roll"
    else if i = 2 then lit "l_shoulder_yaw" else if i = 3 then lit "l_elbow" else lit "N/A"

/-- A `candiscovery_started` event: two boards of type 11, on CAN1 address 2 and CAN2
address 1, protocol 1.2, application 3.4.5. -/
def discoveryStartedEvent : AuxEmbeddedInfo :=
  sampleEvent 0 0x0002 0x00040b0102030405 "CFG: discovery started."

/-- A `monitor_lostcontact` event: boards 1 and 14 lost on CAN1, boards 1 and 2 on CAN2,
last contact 100 ms ago. -/
def lostContactEvent : AuxEmbeddedInfo :=
  sampleEvent 0 0 0x0064000000064002 "SYS: lost contact."

/-- Text of the `monitor_regularcontact` report out of its parts. -/
def monitorRegularcontactText (base category list1 list2 : Text) : Text :=
  base ++ lit " Type of service category is " ++ category ++
  lit ". CAN boards are on (can1map, can2map) = ([ " ++ list1 ++ lit " ], [ " ++ list2 ++
  lit " ])"

/-- Name of the application state held in bits 56 to 63 of `param64` of a link event. -/
def applicationStateName (code : Nat) : Text :=
  if code = 0 then lit "N/A"
  else if code = 1 then lit "idle"
  else if code = 3 then lit "running"
  else lit "unknown"

/-- A `monitor_regularcontact` event: board 1 seen on CAN1 and board 2 on CAN2. -/
def regularContactEvent : AuxEmbeddedInfo :=
  sampleEvent 0 0 0x00040002 "SYS: regular contact."

/-- A link event on the input port whose application-state code is 1. -/
def linkIdleEvent : AuxEmbeddedInfo :=
  sampleEvent 0 0 0x0100000000000000 "ETHMON: link goes up"

/-- A CRC event on the output port whose application-state code is 3, with 7 errors. -/
def rxcrcRunningEvent : AuxEmbeddedInfo :=
  sampleEvent 0 1 0x0300000000000007 "ETHMON: rx crc error"

/-- An encoders event of two joints: the primary encoder of joint 1 failed with code 6. -/
def encodersFailedEvent : AuxEmbeddedInfo :=
  sampleEvent 0 0x2002 0x0060 "CFG: encoders failed."

/-- An encoders event of no joint whose masks and codes are all set. -/
def encodersNoJointEvent : AuxEmbeddedInfo :=
  sampleEvent 0 0x0033 0x12345678 "CFG: encoders ok."

/-- Name of the port selected by `param16` of a link event. -/
def ethPortName (sel : Nat) : Text :=
  if sel = 0 then lit "ETH input (P2/P13/J4)"
  else if sel = 1 then lit "ETH output (P3/P12/J5)"
  else if sel = 2 then lit "internal"
  else lit "unknown"

/-- The application state that a link report shows for the code in bits 56 to 63 of
`param64`. -/
def applicationStatePrinted (code : Nat) : Text :=
  if code = 0 then lit "N/A" else lit "unknown"

/-- Text of a `link_goes_up` or `link_goes_down` report out of its parts. -/
def linkText (base port state : Text) : Text :=
  lit " " ++ base ++ lit " in port " ++ port ++ lit ". Application state is " ++ state ++
  lit "."

/-- Text of an `error_rxcrc` report out of its parts. -/
def rxcrcText (base port state : Text) (count : Nat) : Text :=
  lit " " ++ base ++ lit " in port " ++ port ++ lit ". Application state is " ++ state ++
  lit ". Number of erros is " ++ Nat.toDigits 10 count

/-- Text of a `transceiver_rxseqnumber_error` report out of its parts. -/
def rxseqnumberErrorText (base : Text) (expected : Nat) (received : Int) : Text :=
  lit " " ++ base ++ lit " Expected number is " ++ Nat.toDigits 10 expected ++
  lit ", received number is " ++ fmt_d received ++ lit " "

/-- Text of a `canservices_txfifooverflow` report out of its parts. -/
def txfifooverflowText (base port : Text) (frameId frameSize data : Nat) : Text :=
  lit " " ++ base ++ lit " CanPort=" ++ port ++ lit " Frame.ID=" ++ Nat.toDigits 10 frameId ++
  lit ", Frame.Size=" ++ Nat.toDigits 10 frameSize ++ lit " Frame.Data=0x." ++
  Nat.toDigits 16 data

/-- A `board_detected` event: firmware 3.4 build 5, protocol 1.2. -/
def boardDetectedEvent : AuxEmbeddedInfo :=
  sampleEvent 0 0x0102 0x0000000201040305 "SYS: board detected"

/-- A sequence-number event whose expected number has bit 63 set. -/
def rxseqnumberHighEvent : AuxEmbeddedInfo :=
  sampleEvent 0 1 0x8000000000000000 "SYS: rx seq error."

/-- A sequence-number event: expected number 65530, `param16` 10. -/
def rxseqnumberEvent : AuxEmbeddedInfo :=
  sampleEvent 0 10 65530 "SYS: rx seq error."

/-- A `txfifooverflow` event whose `param16` holds size 2 and identifier 0x345. -/
def txfifooverflowEvent : AuxEmbeddedInfo :=
  sampleEvent 0 0x2345 0x1122 "SYS: tx fifo overflow."

/-- The labels of the switch of `ConfigParser::parseInfo` whose block is `printBaseInfo()`. -/
def ValueCFG.isBaseOnly : ValueCFG → Bool
  | .eoerror_value_CFG_mais_failed_verify_because_active | .eoerror_value_CFG_mc_foc_ok
  | .eoerror_value_CFG_mc_foc_failed_candiscovery_of_foc
  | .eoerror_value_CFG_mc_foc_failed_encoders_verify | .eoerror_value_CFG_mc_mc4_ok
  | .eoerror_value_CFG_mc_mc4_failed_candiscovery_of_mc4
  | .eoerror_value_CFG_mc_mc4_failed_mais_verify | .eoerror_value_CFG_mc_mc4plus_ok
  | .eoerror_value_CFG_mc_mc4plus_failed_encoders_verify | .eoerror_value_CFG_inertials_ok
  | .eoerror_value_CFG_comm_cannotloadaregularrop | .eoerror_value_CFG_mc_mc4plusmais_ok
  | .eoerror_value_CFG_mc_mc4plusmais_failed_encoders_verify
  | .eoerror_value_CFG_mc_mc4plusmais_failed_candiscovery_of_mais
  | .eoerror_value_CFG_services_not_verified_yet | .eoerror_value_CFG_mc_not_verified_yet
  | .eoerror_value_CFG_strain_not_verified_yet | .eoerror_value_CFG_mais_not_verified_yet
  | .eoerror_value_CFG_skin_not_verified_yet | .eoerror_value_CFG_inertials_not_verified_yet
  | .eoerror_value_CFG_inertials3_not_verified_yet
  | .eoerror_value_CFG_encoders_not_verified_yet | .eoerror_value_CFG_mc_using_onboard_config
  | .eoerror_value_CFG_strain_using_onboard_config
  | .eoerror_value_CFG_mais_using_onboard_config
  | .eoerror_value_CFG_inertials_using_onboard_config
  | .eoerror_value_CFG_inertials3_using_onboard_config
  | .eoerror_value_CFG_skin_using_onboard_config | .eoerror_value_CFG_inertials3_ok
  | .eoerror_value_CFG_temperatures_not_verified_yet | .eoerror_value_CFG_temperatures_ok
  | .eoerror_value_CFG_temperatures_using_onboard_config
  | .eoerror_value_CFG_psc_failed_verify_because_active
  | .eoerror_value_CFG_psc_not_verified_yet | .eoerror_value_CFG_psc_using_onboard_config
  | .eoerror_value_CFG_mc_mc2pluspsc_ok
  | .eoerror_value_CFG_mc_mc2pluspsc_failed_encoders_verify
  | .eoerror_value_CFG_mc_mc2pluspsc_failed_candiscovery_of_pscs
  | .eoerror_value_CFG_inertials_failed_notsupported
  | .eoerror_value_CFG_inertials3_failed_notsupported
  | .eoerror_value_CFG_temperatures_failed_notsupported
  | .eoerror_value_CFG_mais_failed_notsupported | .eoerror_value_CFG_strain_failed_notsupported
  | .eoerror_value_CFG_skin_failed_notsupported | .eoerror_value_CFG_psc_failed_notsupported
  | .eoerror_value_CFG_mc_failed_notsupported | .eoerror_value_CFG_encoders_failed_notsupported
  | .eoerror_value_CFG_pos_not_verified_yet | .eoerror_value_CFG_pos_using_onboard_config
  | .eoerror_value_CFG_pos_failed_notsupported | .eoerror_value_CFG_mc_mc4plusfaps_ok
  | .eoerror_value_CFG_mc_mc4plusfaps_failed_encoders_verify
  | .eoerror_value_CFG_mc_mc4plusfaps_failed_candiscovery | .eoerror_value_CFG_mc_mc4pluspmc_ok
  | .eoerror_value_CFG_mc_mc4pluspmc_failed_encoders_verify
  | .eoerror_value_CFG_mc_mc4pluspmc_failed_candiscovery_of_pmc | .eoerror_value_CFG_ft_ok
  | .eoerror_value_CFG_ft_failed_candiscovery | .eoerror_value_CFG_ft_not_verified_yet
  | .eoerror_value_CFG_ft_using_onboard_config | .eoerror_value_CFG_ft_failed_notsupported
  | .eoerror_value_CFG_ft_failed_fullscales | .eoerror_value_CFG_bat_ok
  | .eoerror_value_CFG_bat_failed_candiscovery | .eoerror_value_CFG_bat_not_verified_yet
  | .eoerror_value_CFG_bat_using_onboard_config | .eoerror_value_CFG_bat_failed_notsupported => true
  | _ => false

/-- The labels of the switch of `SkinParser::parseInfo` whose block is `printBaseInfo()`. -/
def ValueSK.isBaseOnly : ValueSK → Bool
  | .eoerror_value_SK_unspecified | .eoerror_value_SK_obsoletecommand => true
  | _ => false

/-- The labels of the switch of `HwErrorParser::parseInfo` whose block is `printBaseInfo()`. -/
def ValueHW.isBaseOnly : ValueHW → Bool
  | .eoerror_value_HW_encoder_invalid_value | .eoerror_value_HW_encoder_close_to_limits
  | .eoerror_value_HW_encoder_crc | .eoerror_value_HW_encoder_not_connected => true
  | _ => false

/-- The labels of the switch of `SysParser::parseInfo` whose block is `printBaseInfo()`. -/
def ValueSYS.isBaseOnly : ValueSYS → Bool
  | .eoerror_value_SYS_unspecified | .eoerror_value_SYS_tobedecided
  | .eoerror_value_SYS_memory_zerorequested | .eoerror_value_SYS_memory_notinitialised
  | .eoerror_value_SYS_memory_missing | .eoerror_value_SYS_mutex_timeout
  | .eoerror_value_SYS_wrongparam | .eoerror_value_SYS_wrongusage
  | .eoerror_value_SYS_runtimeerror | .eoerror_value_SYS_runninginfatalerrorstate
  | .eoerror_value_SYS_udptxfailure | .eoerror_value_SYS_configurator_udptxfailure
  | .eoerror_value_SYS_runner_udptxfailure | .eoerror_value_SYS_runner_transceivererror
  | .eoerror_value_SYS_canservices_rxfifooverflow | .eoerror_value_SYS_proxy_forward_ok
  | .eoerror_value_SYS_proxy_forward_callback_fails | .eoerror_value_SYS_proxy_reply_ok
  | .eoerror_value_SYS_proxy_reply_fails | .eoerror_value_SYS_canservices_boards_missing
  | .eoerror_value_SYS_canservices_boards_searched
  | .eoerror_value_SYS_canservices_boards_found
  | .eoerror_value_SYS_transceiver_rxinvalidframe_error => true
  | _ => false

/-- The labels of the switch of `EthMonitorParser::parseInfo` whose block is `printBaseInfo()`. -/
def ValueETHMON.isBaseOnly : ValueETHMON → Bool
  | .eoerror_value_ETHMON_juststarted | .eoerror_value_ETHMON_justverified => true
  | _ => false

/-- The labels of the switch of `InertialSensorParser::parseInfo` whose block is
`printBaseInfo()`. -/
def ValueIS.isBaseOnly : ValueIS → Bool
  | .eoerror_value_IS_unknownsensor => true
  | _ => false

/-- The labels of the switch of `AnalogSensorParser::parseInfo` whose block is `printBaseInfo()`. -/
def ValueAS.isBaseOnly : ValueAS → Bool
  | .eoerror_value_AS_unknownsensor => true
  | _ => false

/-- Whether the parser of category `c` handles event `d` by `printBaseInfo()`. The
MotionControl parser has no such block. -/
def isBaseOnly (c : Category) (t : EoTables) (d : AuxEmbeddedInfo) : Bool :=
  match c with
  | .Config => (t.valueCFG (t.eoerror_code2value d.code)).isBaseOnly
  | .MotionControl => false
  | .Skin => (t.valueSK (t.eoerror_code2value d.code)).isBaseOnly
  | .HardWare => (t.valueHW (t.eoerror_code2value d.code)).isBaseOnly
  | .Sys => (t.valueSYS (t.eoerror_code2value d.code)).isBaseOnly
  | .EthMonitor => (t.valueETHMON (t.eoerror_code2value d.code)).isBaseOnly
  | .InertialSensor => (t.valueIS (t.eoerror_code2value d.code)).isBaseOnly
  | .AnalogSensor => (t.valueAS (t.eoerror_code2value d.code)).isBaseOnly

/-- The most that one turn of the contact loops appends for index `i`: its decimal
numeral and one blank. -/
def indexWidth (i : Nat) : Nat := (Nat.toDigits 10 i).length + 1

/-- First line of the `candiscovery_boardsmissing` report out of its parts. -/
def boardsmissingHeader (base : Text) (count : Nat) (name : Text) (time : Nat) (port : Text) :
    Text :=
  base ++ lit " " ++ Nat.toDigits 10 count ++ lit " missing " ++ name ++ lit " boards for " ++
  Nat.toDigits 10 time ++ lit " ms in " ++ port ++ lit ":"

/-- Entry number `n` of the `candiscovery_boardsmissing` report, for the board at address
`i`. -/
def missingEntryText (n count : Nat) (name ip port : Text) (i : Nat) : Text :=
  Nat.toDigits 10 n ++ lit " of " ++ Nat.toDigits 10 count ++ lit ": missing " ++ name ++
  lit " BOARD " ++ ip ++ lit ":" ++ port ++ lit ":" ++ Nat.toDigits 10 i

/-- The addresses 1 to 14 whose bit of `mask` is set, in ascending order. -/
def missingAddresses (mask : Nat) : List Nat :=
  [1, 2, 3, 4, 5, 6, 7, 8, 9, 10, 11, 12, 13, 14].filter (fun i => mask.testBit i)

/-- The entries of the `candiscovery_boardsmissing` report: one for each address of
`missingAddresses mask`, numbered from 1; each entry passes through the 512-byte buffer. -/
def missingEntries (count : Nat) (name ip port : Text) (mask : Nat) : Text :=
  (List.enumFrom 1 (missingAddresses mask)).flatMap
    (fun e => snprintf 512 (missingEntryText e.1 count name ip port e.2))

/-- A `candiscovery_boardsmissing` event: count 5, boards of type 11, search time 100 ms,
mask with bits 0, 1, 2, 14 and 15 set. -/
def boardsMissingEvent : AuxEmbeddedInfo :=
  sampleEvent 0 0x0b05 0x006400000000c007 "CFG: boards missing."

/-- A `candiscovery_started` event with all 32 bits of the two maps set. -/
def discoveryAllBoardsEvent : AuxEmbeddedInfo :=
  sampleEvent 0 0xffff 0xffff0b0102030405 "CFG: discovery started."

/-- Text of a `canservices_txbusfailure` report out of its parts. -/
def txbusfailureText (base port : Text) (size : Nat) : Text :=
  lit " " ++ base ++ lit " CanPort=" ++ port ++ lit ". Size of fifo is " ++ Nat.toDigits 10 size

/-- Text of a `canservices_formingfailure` report out of its parts. -/
def formingfailureText (base port : Text) (cls cmd : Nat) : Text :=
  lit " " ++ base ++ lit " CanPort=" ++ port ++ lit ". Message class is " ++
  Nat.toDigits 10 cls ++ lit ". Message cmd is " ++ Nat.toDigits 10 cmd

/-- Text of a `canservices_parsingfailure` report out of its parts. -/
def parsingfailureText (base port : Text) (size frameId : Nat) : Text :=
  lit " " ++ base ++ lit " CanPort=" ++ port ++ lit ". Frame.size=" ++ Nat.toDigits 10 size ++
  lit ". Frame.Id=" ++ Nat.toDigits 10 frameId ++ lit " "

/-- Text of a `strain_ok` or `strain_failed_candiscovery` report out of its parts. -/
def strainText (base : Text) (address port protMajor protMinor applMajor applMinor
    strain : Nat) : Text :=
  base ++ lit " for board at addr:" ++ Nat.toDigits 10 address ++ lit " and port:" ++
  Nat.toDigits 10 port ++ lit " with can protocol ver " ++ Nat.toDigits 10 protMajor ++
  lit "." ++ Nat.toDigits 10 protMinor ++ lit " and application ver " ++
  Nat.toDigits 10 applMajor ++ lit "." ++ Nat.toDigits 10 applMinor ++
  lit ". Strain number is:" ++ Nat.toDigits 10 strain

/-- A CAN failure event with `param16 = 0x1234`. -/
def canFailureEvent : AuxEmbeddedInfo :=
  sampleEvent 0 0x1234 0 "SYS: can failure."

/-- A strain event: address 5 on port 1, protocol 1.2, application 3.4, strain field 7. -/
def strainEvent : AuxEmbeddedInfo :=
  sampleEvent 0 0x0105 0x0000000701020304 "CFG: strain ok"

/-- The per-joint lines of the encoders report as a list, one element for each line
emitted: `encoderLines` is their concatenation. -/
def encoderLineList (name : Nat → Text) (count mask1 mask2 : Nat) (code1 code2 : Nat → Nat) :
    List Text :=
  (List.range count).flatMap (fun i =>
    (if mask1.testBit i then [snprintf 512 (primaryEncoderLine i (name i) (code1 i))] else []) ++
    (if mask2.testBit i then [snprintf 512 (secondaryEncoderLine i (name i) (code2 i))]
      else []))

/-- The number of joints below `count` whose bit of `mask` is set. -/
def failedJoints (count mask : Nat) : Nat :=
  ((List.range count).filter (fun i => mask.testBit i)).length

/-- An encoders event of 15 joints with all failure bits set. -/
def encodersAllFailedEvent : AuxEmbeddedInfo :=
  sampleEvent 0 0xf0ff 0x12345678 "CFG: encoders failed."

/-- The reasons that an entry of the `candiscovery_boardsinvalid` report lists for the
4-bit field `val`: one text for each of its bits 0, 1 and 2, without separator. -/
def invalidReasons (val : Nat) : Text :=
  (if val.testBit 0 then lit "WRONG BOARD TYPE" else []) ++
  (if val.testBit 1 then lit "WRONG APPLICATION VERSION" else []) ++
  (if val.testBit 2 then lit "WRONG PROTOCOL VERSION" else [])

/-- First line of the `candiscovery_boardsinvalid` report out of its parts. -/
def boardsinvalidHeader (base : Text) (count : Nat) (name port : Text) : Text :=
  base ++ lit " " ++ Nat.toDigits 10 count ++ lit " invalid " ++ name ++ lit " boards in " ++
  port ++ lit ":\n"

/-- Entry number `n` of the `candiscovery_boardsinvalid` report. -/
def invalidEntryText (n count : Nat) (name reasons : Text) : Text :=
  lit "\t " ++ Nat.toDigits 10 n ++ lit " of " ++ Nat.toDigits 10 count ++ lit ": wrong " ++
  name ++ lit " because it has: " ++ reasons ++ lit " \n"

/-- The addresses 1 to 14 whose 4-bit field of `mask` is not zero, in ascending order. -/
def invalidAddresses (mask : Nat) : List Nat :=
  [1, 2, 3, 4, 5, 6, 7, 8, 9, 10, 11, 12, 13, 14].filter
    (fun i => decide (bitsOf mask (4 * i) 4 ≠ 0))

/-- The entries of the `candiscovery_boardsinvalid` report: one for each address of
`invalidAddresses mask`, numbered from 1, with the reasons of its field; each entry passes
through the 512-byte buffer. -/
def invalidEntries (count : Nat) (name : Text) (mask : Nat) : Text :=
  (List.enumFrom 1 (invalidAddresses mask)).flatMap
    (fun e => snprintf 512 (invalidEntryText e.1 count name
      (invalidReasons (bitsOf mask (4 * e.2) 4))))

/-- A `candiscovery_boardsinvalid` event: count 3, boards of type 11; the fields of the
addresses 1, 2 and 3 are 1, 7 and 8, the fields of the addresses 0 and 15 are 5 and 15. -/
def boardsInvalidEvent : AuxEmbeddedInfo :=
  sampleEvent 0 0x0b03 0xf000000000008715 "CFG: boards invalid."

/-- How the `candiscovery_ok` report qualifies the search: a search is fake when bits 12 to
15 of `param16` are not all zero. -/
def discoveryOkWord (fake : Bool) : Text :=
  if fake = true then lit "OK but FAKE (without any control on CAN w/ get-fw-version<> message)"
  else lit "OK"

/-- Text of the `candiscovery_ok` report out of its parts. -/
def candiscoveryOkText (base ok : Text) (count : Nat) (boardname : Text)
    (protMajor protMinor applMajor applMinor applBuild time : Nat) : Text :=
  base ++ lit " is " ++ ok ++ lit " for " ++ Nat.toDigits 10 count ++ lit " " ++ boardname ++
  lit " boards with target can protocol ver " ++ Nat.toDigits 10 protMajor ++ lit "." ++
  Nat.toDigits 10 protMinor ++ lit " and application ver " ++ Nat.toDigits 10 applMajor ++
  lit "." ++ Nat.toDigits 10 applMinor ++ lit "." ++ Nat.toDigits 10 applBuild ++
  lit ". Search time was " ++ Nat.toDigits 10 time ++ lit " ms"

/-- A `candiscovery_ok` event of a fake search: 2 boards of type 11, 100 ms. -/
def discoveryOkFakeEvent : AuxEmbeddedInfo :=
  sampleEvent 0 0x1f02 0x00640b0102030405 "CFG: discovery"

/-- The labels of the Sys switch that report the contact with the boards of a service and
take the service category from `param16`. -/
def ValueSYS.isBoardsContact : ValueSYS → Bool
  | .eoerror_value_SYS_canservices_boards_lostcontact
  | .eoerror_value_SYS_canservices_boards_retrievedcontact => true
  | _ => false

/-- The labels of the Sys switch that report what the monitor of a service sees and take
the service category from the address of the source board. -/
def ValueSYS.isMonitorContact : ValueSYS → Bool
  | .eoerror_value_SYS_canservices_monitor_retrievedcontact
  | .eoerror_value_SYS_canservices_monitor_regularcontact
  | .eoerror_value_SYS_canservices_monitor_lostcontact
  | .eoerror_value_SYS_canservices_monitor_stillnocontact => true
  | _ => false

/-- The two buffers that the loop of `monitor_regularcontact` leaves for `param64`. -/
def regularcontactLists (p64 : Nat) : Text × Text :=
  (forRange 1 15).foldl (SysParser.regularcontactStep (bitsOf p64 0 16) (bitsOf p64 16 16))
    ([], [])

/-- What a contact report of the Sys parser prints after the service category; it is
made from `param64` alone. -/
def ValueSYS.contactTail (v : ValueSYS) (p64 : Nat) : Text :=
  match v with
  | .eoerror_value_SYS_canservices_boards_lostcontact
  | .eoerror_value_SYS_canservices_boards_retrievedcontact =>
    lit ". Lost can boards on (can1map, can2map) = ([ " ++ indexList (bitsOf p64 0 16) ++
    lit " ], [ " ++ indexList (bitsOf p64 16 16) ++ lit " ] )"
  | .eoerror_value_SYS_canservices_monitor_retrievedcontact => lit "."
  | .eoerror_value_SYS_canservices_monitor_regularcontact =>
    lit ". CAN boards are on (can1map, can2map) = ([ " ++ (regularcontactLists p64).1 ++
    lit " ], [ " ++ (regularcontactLists p64).2 ++ lit " ])"
  | .eoerror_value_SYS_canservices_monitor_lostcontact =>
    lit ". Lost CAN boards are on (can1map, can2map) = ([ " ++ indexList (bitsOf p64 0 16) ++
    lit " ], [ " ++ indexList (bitsOf p64 16 16) ++ lit " ]). Time since last contact: " ++
    Nat.toDigits 10 (bitsOf p64 48 16) ++ lit " [ms]"
  | .eoerror_value_SYS_canservices_monitor_stillnocontact =>
    lit ". Lost CAN boards are on (can1map, can2map) = ([ " ++ indexList (bitsOf p64 0 16) ++
    lit " ] , [ " ++ indexList (bitsOf p64 16 16) ++ lit " ]). Total disappearance time: " ++
    Nat.toDigits 10 (bitsOf p64 48 16) ++ lit " [ms]"
  | _ => []

/-- Text of a contact report of the Sys parser out of its parts. -/
def contactReportText (base category tail : Text) : Text :=
  base ++ lit " Type of service category is " ++ category ++ tail

/-- Tables that name the service category 3 `inertials` and every other one `mc`. -/
def tablesCategory (v : ValueSYS) : EoTables :=
  { tablesSYS v with
    eomn_servicecategory2string := fun c =>
      if c = 3 then lit "eomn_serv_category_inertials" else lit "eomn_serv_category_mc" }

/-- A contact event from the board at address 3 with `param16 = 0`. -/
def contactEvent : AuxEmbeddedInfo :=
  sampleEvent 0 0 0x0064000000064002 "SYS: contact."

/-- Text of a data-overflow report out of its parts. -/
def overflowText (base : Text) (frameId frameSize data : Nat) : Text :=
  lit " " ++ base ++ lit ". Frame.ID=" ++ Nat.toDigits 10 frameId ++ lit ", Frame.Size=" ++
  Nat.toDigits 10 frameSize ++ lit " Frame.Data=0x" ++ Nat.toDigits 16 data

/-- Tables in which every Skin, InertialSensor and AnalogSensor value is the data-overflow
label of its parser. -/
def tablesOverflow : EoTables :=
  { tablesUnlisted with
    valueSK := fun _ => ValueSK.eoerror_value_SK_arrayofcandataoverflow
    valueIS := fun _ => ValueIS.eoerror_value_IS_arrayofinertialdataoverflow
    valueAS := fun _ => ValueAS.eoerror_value_AS_arrayoftemperaturedataoverflow }

/-- A data-overflow event: frame identifier 5, frame size 2, data 0xabc. -/
def overflowEvent : AuxEmbeddedInfo :=
  sampleEvent 0 0x2f05 0xabc "data overflow"

/-- An encoders event of no joint whose base message holds a NUL byte: `CFG: ok`, the
NUL byte, then ` tail`. -/
def encodersNulEvent : AuxEmbeddedInfo :=
  { encodersNoJointEvent with baseMessage := lit "CFG: ok" ++ [NUL] ++ lit " tail" }

/-- An event of a `printBaseInfo()` value whose base message holds a NUL byte: `SYS: cut`,
the NUL byte, then ` hidden tail`. -/
def baseNulEvent : AuxEmbeddedInfo :=
  { sampleEvent 0 0x1234 0x5678 "" with
    baseMessage := lit "SYS: cut" ++ [NUL] ++ lit " hidden tail" }


/-! ## What a handler depends on -/

/-- The handler `h` keeps the view `π` of the event, and the `finalMessage` it leaves is
a function of that view and of the previous `finalMessage`. -/
structure DependsOn {α : Type} (π : AuxEmbeddedInfo → α)
    (h : AuxEmbeddedInfo → AuxEmbeddedInfo) : Prop where
  frame : ∀ d, π (h d) = π d
  final : ∀ d d', π d = π d' → d.baseInfo.finalMessage = d'.baseInfo.finalMessage →
    (h d).baseInfo.finalMessage = (h d').baseInfo.finalMessage

/-- On two events with the same input fields the handler `h` either keeps `axisName`
in both or leaves the same `axisName` in both. -/
def AxisStable (h : AuxEmbeddedInfo → AuxEmbeddedInfo) : Prop :=
  ∀ d d', d.readOnly = d'.readOnly →
    ((h d).baseInfo.axisName = d.baseInfo.axisName ∧
      (h d').baseInfo.axisName = d'.baseInfo.axisName) ∨
    (h d).baseInfo.axisName = (h d').baseInfo.axisName


/-! ## Lemmas on handlers -/

theorem dependsOn_comp {α : Type} {π : AuxEmbeddedInfo → α}
    {g h : AuxEmbeddedInfo → AuxEmbeddedInfo} (hg : DependsOn π g) (hh : DependsOn π h) :
    DependsOn π (fun d => g (h d)) := by
  refine ⟨fun d => (hg.frame (h d)).trans (hh.frame d), ?_⟩
  intro d d' hr hf
  exact hg.final _ _ ((hh.frame d).trans (hr.trans (hh.frame d').symm)) (hh.final d d' hr hf)

theorem dependsOn_foldl {α : Type} {π : AuxEmbeddedInfo → α}
    {step : AuxEmbeddedInfo → Nat → AuxEmbeddedInfo}
    (hs : ∀ i, DependsOn π (fun d => step d i)) (l : List Nat) :
    DependsOn π (fun d => l.foldl step d) := by
  induction l with
  | nil => exact ⟨fun _ => rfl, fun _ _ _ h => h⟩
  | cons i l ih => exact dependsOn_comp ih (hs i)

theorem axisStable_comp {g h : AuxEmbeddedInfo → AuxEmbeddedInfo}
    (hg : AxisStable g) (hh : AxisStable h) (hf : ∀ d, (h d).readOnly = d.readOnly) :
    AxisStable (fun d => g (h d)) := by
  intro d d' hr
  have hr' : (h d).readOnly = (h d').readOnly := (hf d).trans (hr.trans (hf d').symm)
  rcases hg _ _ hr' with ⟨h1, h2⟩ | h3
  · rcases hh d d' hr with ⟨h4, h5⟩ | h6
    · exact Or.inl ⟨h1.trans h4, h2.trans h5⟩
    · exact Or.inr (h1.trans (h6.trans h2.symm))
  · exact Or.inr h3

theorem axisStable_foldl {step : AuxEmbeddedInfo → Nat → AuxEmbeddedInfo}
    (hs : ∀ i, AxisStable (fun d => step d i))
    (hf : ∀ i d, (step d i).readOnly = d.readOnly) (l : List Nat) :
    AxisStable (fun d => l.foldl step d) := by
  induction l with
  | nil => exact fun _ _ _ => Or.inl ⟨rfl, rfl⟩
  | cons i l ih => exact axisStable_comp ih (hs i) (hf i)

/-- A loop whose state is the event and a counter: what the loop keeps and what its
result depends on, from the same facts about one turn. -/
theorem foldl_counter_frame {α : Type} {π : AuxEmbeddedInfo → α}
    {step : AuxEmbeddedInfo × Nat → Nat → AuxEmbeddedInfo × Nat}
    (hs : ∀ s i, π (step s i).1 = π s.1) (l : List Nat) (s : AuxEmbeddedInfo × Nat) :
    π (l.foldl step s).1 = π s.1 := by
  induction l generalizing s with
  | nil => rfl
  | cons i l ih => exact (ih (step s i)).trans (hs s i)

theorem foldl_counter_final {α : Type} {π : AuxEmbeddedInfo → α}
    {step : AuxEmbeddedInfo × Nat → Nat → AuxEmbeddedInfo × Nat}
    (hs : ∀ s i, π (step s i).1 = π s.1)
    (hf : ∀ s s' i, π s.1 = π s'.1 →
      s.1.baseInfo.finalMessage = s'.1.baseInfo.finalMessage → s.2 = s'.2 →
      (step s i).1.baseInfo.finalMessage = (step s' i).1.baseInfo.finalMessage ∧
        (step s i).2 = (step s' i).2)
    (l : List Nat) (s s' : AuxEmbeddedInfo × Nat) (h1 : π s.1 = π s'.1)
    (h2 : s.1.baseInfo.finalMessage = s'.1.baseInfo.finalMessage) (h3 : s.2 = s'.2) :
    (l.foldl step s).1.baseInfo.finalMessage = (l.foldl step s').1.baseInfo.finalMessage := by
  induction l generalizing s s' with
  | nil => exact h2
  | cons i l ih =>
    have h := hf s s' i h1 h2 h3
    exact ih _ _ ((hs s i).trans (h1.trans (hs s' i).symm)) h.1 h.2


theorem dependsOn_of_view {α β : Type} {π : AuxEmbeddedInfo → α} {π' : AuxEmbeddedInfo → β}
    {h : AuxEmbeddedInfo → AuxEmbeddedInfo} (hd : DependsOn π h)
    (hfr : ∀ d, π' (h d) = π' d) (hπ : ∀ d d', π' d = π' d' → π d = π d') :
    DependsOn π' h :=
  ⟨hfr, fun d d' e ef => hd.final d d' (hπ d d' e) ef⟩

theorem payload_of_readOnly (d d' : AuxEmbeddedInfo) (h : d.readOnly = d'.readOnly) :
    d.payload = d'.payload := by
  simp only [AuxEmbeddedInfo.readOnly, Prod.mk.injEq] at h
  simp only [AuxEmbeddedInfo.payload, h]

theorem payloadSrc_of_readOnly (d d' : AuxEmbeddedInfo) (h : d.readOnly = d'.readOnly) :
    d.payloadSrc = d'.payloadSrc := by
  simp only [AuxEmbeddedInfo.readOnly, Prod.mk.injEq] at h
  simp only [AuxEmbeddedInfo.payloadSrc, h]

theorem payload_of_payloadSrc (d d' : AuxEmbeddedInfo) (h : d.payloadSrc = d'.payloadSrc) :
    d.payload = d'.payload := by
  simp only [AuxEmbeddedInfo.payloadSrc, Prod.mk.injEq] at h
  simp only [AuxEmbeddedInfo.payload, h]

theorem readOnly_p16 {d d' : AuxEmbeddedInfo} (h : d.readOnly = d'.readOnly) : d.p16 = d'.p16 := by
  have h2 : d.param16 = d'.param16 := congrArg (fun x => x.2.1) h
  simp only [AuxEmbeddedInfo.p16, h2]

theorem readOnly_p64 {d d' : AuxEmbeddedInfo} (h : d.readOnly = d'.readOnly) : d.p64 = d'.p64 := by
  have h2 : d.param64 = d'.param64 := congrArg (fun x => x.2.2.1) h
  simp only [AuxEmbeddedInfo.p64, h2]

theorem payload_p16 {d d' : AuxEmbeddedInfo} (h : d.payload = d'.payload) : d.p16 = d'.p16 := by
  have h2 : d.param16 = d'.param16 := congrArg (fun x => x.1) h
  simp only [AuxEmbeddedInfo.p16, h2]

theorem payload_p64 {d d' : AuxEmbeddedInfo} (h : d.payload = d'.payload) : d.p64 = d'.p64 := by
  have h2 : d.param64 = d'.param64 := congrArg (fun x => x.2.1) h
  simp only [AuxEmbeddedInfo.p64, h2]

/-! ### The loops of the Config parser -/

theorem ConfigParser.encodersStep_frame (p : EntityNameProvider) (a b c e : Nat)
    (i : Nat) (d : AuxEmbeddedInfo) :
    (ConfigParser.encodersStep p a b c e d i).readOnly = d.readOnly := by
  simp only [ConfigParser.encodersStep]
  split <;> split <;> rfl

theorem ConfigParser.encodersStep_dependsOn (p : EntityNameProvider) (a b c e i : Nat) :
    DependsOn AuxEmbeddedInfo.payload (fun d => ConfigParser.encodersStep p a b c e d i) := by
  constructor
  · intro d
    simp only [ConfigParser.encodersStep]
    split <;> split <;> rfl
  · intro d d' h hf
    obtain ⟨⟨ip, port, addr, ax, fm⟩, code, p16, p64, bm, em⟩ := d
    obtain ⟨⟨ip', port', addr', ax', fm'⟩, code', p16', p64', bm', em'⟩ := d'
    simp only [AuxEmbeddedInfo.payload, Prod.mk.injEq] at h
    simp only at hf
    obtain ⟨rfl, rfl, rfl⟩ := h
    subst hf
    simp only [ConfigParser.encodersStep]
    split <;> split <;> rfl

theorem ConfigParser.encodersStep_axisStable (p : EntityNameProvider) (a b c e i : Nat) :
    AxisStable (fun d => ConfigParser.encodersStep p a b c e d i) := by
  intro d d' _
  simp only [ConfigParser.encodersStep]
  split <;> split
  · right; rfl
  · right; rfl
  · right; rfl
  · left; exact ⟨rfl, rfl⟩

theorem foldl_frame {α : Type} {π : AuxEmbeddedInfo → α}
    {step : AuxEmbeddedInfo → Nat → AuxEmbeddedInfo}
    (hs : ∀ d i, π (step d i) = π d) (l : List Nat) (d : AuxEmbeddedInfo) :
    π (l.foldl step d) = π d := by
  induction l generalizing d with
  | nil => rfl
  | cons i l ih => exact (ih (step d i)).trans (hs d i)

theorem ConfigParser.encoders_frame (p : EntityNameProvider) (d : AuxEmbeddedInfo) :
    (ConfigParser.encoders p d).readOnly = d.readOnly :=
  foldl_frame (fun e i => ConfigParser.encodersStep_frame p _ _ _ _ i e) _ _

theorem ConfigParser.encoders_dependsOn (p : EntityNameProvider) :
    DependsOn AuxEmbeddedInfo.payload (ConfigParser.encoders p) := by
  constructor
  · intro d
    exact foldl_frame (fun e i => (ConfigParser.encodersStep_dependsOn p _ _ _ _ i).frame e) _ _
  · intro d d' h hf
    simp only [ConfigParser.encoders, payload_p16 h, payload_p64 h]
    refine (dependsOn_foldl (fun i => ConfigParser.encodersStep_dependsOn p _ _ _ _ i) _).final
      _ _ h ?_
    have hb : d.baseMessage = d'.baseMessage := congrArg (fun x => x.2.2) h
    simp only [AuxEmbeddedInfo.appendFinalMessage, hb, hf]

theorem ConfigParser.encoders_axisStable (p : EntityNameProvider) :
    AxisStable (ConfigParser.encoders p) := by
  intro d d' h
  simp only [ConfigParser.encoders, readOnly_p16 h, readOnly_p64 h]
  exact axisStable_foldl (fun i => ConfigParser.encodersStep_axisStable p _ _ _ _ i)
    (fun i e => ConfigParser.encodersStep_frame p _ _ _ _ i e) _ _ _ h

theorem ConfigParser.boardsmissingStep_frame (a : Nat) (b : Text) (c : Nat)
    (s : AuxEmbeddedInfo × Nat) (i : Nat) :
    (ConfigParser.boardsmissingStep a b c s i).1.readOnly = s.1.readOnly ∧
    (ConfigParser.boardsmissingStep a b c s i).1.baseInfo.axisName = s.1.baseInfo.axisName := by
  simp only [ConfigParser.boardsmissingStep]
  split <;> exact ⟨rfl, rfl⟩

theorem ConfigParser.boardsmissingStep_final (a : Nat) (b : Text) (c : Nat)
    (s s' : AuxEmbeddedInfo × Nat) (i : Nat) (h1 : s.1.payloadSrc = s'.1.payloadSrc)
    (h2 : s.1.baseInfo.finalMessage = s'.1.baseInfo.finalMessage) (h3 : s.2 = s'.2) :
    (ConfigParser.boardsmissingStep a b c s i).1.baseInfo.finalMessage =
      (ConfigParser.boardsmissingStep a b c s' i).1.baseInfo.finalMessage ∧
    (ConfigParser.boardsmissingStep a b c s i).2 =
      (ConfigParser.boardsmissingStep a b c s' i).2 := by
  obtain ⟨⟨⟨ip, port, addr, ax, fm⟩, code, p16, p64, bm, em⟩, n⟩ := s
  obtain ⟨⟨⟨ip', port', addr', ax', fm'⟩, code', p16', p64', bm', em'⟩, n'⟩ := s'
  simp only [AuxEmbeddedInfo.payloadSrc, Prod.mk.injEq] at h1
  simp only at h2 h3
  obtain ⟨rfl, rfl, rfl, rfl, rfl, rfl⟩ := h1
  subst h2 h3
  simp only [ConfigParser.boardsmissingStep]
  split <;> exact ⟨rfl, rfl⟩

theorem ConfigParser.boardsmissing_frame (t : EoTables) (d : AuxEmbeddedInfo) :
    (ConfigParser.candiscovery_boardsmissing t d).readOnly = d.readOnly ∧
    (ConfigParser.candiscovery_boardsmissing t d).baseInfo.axisName = d.baseInfo.axisName :=
  ⟨foldl_counter_frame (fun s i => (ConfigParser.boardsmissingStep_frame _ _ _ s i).1) _ _,
   foldl_counter_frame (π := fun e => e.baseInfo.axisName)
    (fun s i => (ConfigParser.boardsmissingStep_frame _ _ _ s i).2) _ _⟩

theorem ConfigParser.boardsmissing_dependsOn (t : EoTables) :
    DependsOn AuxEmbeddedInfo.payloadSrc (ConfigParser.candiscovery_boardsmissing t) := by
  constructor
  · intro d
    exact payloadSrc_of_readOnly _ _ (ConfigParser.boardsmissing_frame t d).1
  · intro d d' h hf
    have hp := payload_of_payloadSrc d d' h
    simp only [ConfigParser.candiscovery_boardsmissing, payload_p16 hp, payload_p64 hp]
    refine foldl_counter_final
      (fun s i => payloadSrc_of_readOnly _ _ (ConfigParser.boardsmissingStep_frame _ _ _ s i).1)
      (ConfigParser.boardsmissingStep_final _ _ _) _ _ _ h ?_ rfl
    simp only [AuxEmbeddedInfo.payloadSrc, Prod.mk.injEq] at h
    simp only [AuxEmbeddedInfo.appendFinalMessage, h, hf]

theorem ConfigParser.boardsinvalidStep_frame (a : Nat) (b : Text) (c : Nat)
    (s : AuxEmbeddedInfo × Nat) (i : Nat) :
    (ConfigParser.boardsinvalidStep a b c s i).1.readOnly = s.1.readOnly ∧
    (ConfigParser.boardsinvalidStep a b c s i).1.baseInfo.axisName = s.1.baseInfo.axisName := by
  simp only [ConfigParser.boardsinvalidStep]
  split <;> exact ⟨rfl, rfl⟩

theorem ConfigParser.boardsinvalidStep_final (a : Nat) (b : Text) (c : Nat)
    (s s' : AuxEmbeddedInfo × Nat) (i : Nat) (h1 : s.1.payloadSrc = s'.1.payloadSrc)
    (h2 : s.1.baseInfo.finalMessage = s'.1.baseInfo.finalMessage) (h3 : s.2 = s'.2) :
    (ConfigParser.boardsinvalidStep a b c s i).1.baseInfo.finalMessage =
      (ConfigParser.boardsinvalidStep a b c s' i).1.baseInfo.finalMessage ∧
    (ConfigParser.boardsinvalidStep a b c s i).2 =
      (ConfigParser.boardsinvalidStep a b c s' i).2 := by
  obtain ⟨⟨⟨ip, port, addr, ax, fm⟩, code, p16, p64, bm, em⟩, n⟩ := s
  obtain ⟨⟨⟨ip', port', addr', ax', fm'⟩, code', p16', p64', bm', em'⟩, n'⟩ := s'
  simp only [AuxEmbeddedInfo.payloadSrc, Prod.mk.injEq] at h1
  simp only at h2 h3
  obtain ⟨rfl, rfl, rfl, rfl, rfl, rfl⟩ := h1
  subst h2 h3
  simp only [ConfigParser.boardsinvalidStep]
  split <;> exact ⟨rfl, rfl⟩

theorem ConfigParser.boardsinvalid_frame (t : EoTables) (d : AuxEmbeddedInfo) :
    (ConfigParser.candiscovery_boardsinvalid t d).readOnly = d.readOnly ∧
    (ConfigParser.candiscovery_boardsinvalid t d).baseInfo.axisName = d.baseInfo.axisName :=
  ⟨foldl_counter_frame (fun s i => (ConfigParser.boardsinvalidStep_frame _ _ _ s i).1) _ _,
   foldl_counter_frame (π := fun e => e.baseInfo.axisName)
    (fun s i => (ConfigParser.boardsinvalidStep_frame _ _ _ s i).2) _ _⟩

theorem ConfigParser.boardsinvalid_dependsOn (t : EoTables) :
    DependsOn AuxEmbeddedInfo.payloadSrc (ConfigParser.candiscovery_boardsinvalid t) := by
  constructor
  · intro d
    exact payloadSrc_of_readOnly _ _ (ConfigParser.boardsinvalid_frame t d).1
  · intro d d' h hf
    have hp := payload_of_payloadSrc d d' h
    simp only [ConfigParser.candiscovery_boardsinvalid, payload_p16 hp, payload_p64 hp]
    refine foldl_counter_final
      (fun s i => payloadSrc_of_readOnly _ _ (ConfigParser.boardsinvalidStep_frame _ _ _ s i).1)
      (ConfigParser.boardsinvalidStep_final _ _ _) _ _ _ h ?_ rfl
    simp only [AuxEmbeddedInfo.payloadSrc, Prod.mk.injEq] at h
    simp only [AuxEmbeddedInfo.appendFinalMessage, h, hf]


/-! ### The generic formatter -/

theorem DefaultParser.parseInfo_eq (t : EoTables) (d : AuxEmbeddedInfo) :
    DefaultParser.parseInfo t d =
      d.withFinalMessage (snprintf 512 (DefaultParser.parseInfoText t d)) := by
  simp only [DefaultParser.parseInfo, AuxEmbeddedInfo.clearFinalMessage,
    AuxEmbeddedInfo.appendFinalMessage, AuxEmbeddedInfo.withFinalMessage, List.nil_append]

theorem DefaultParser.parseInfoText_readOnly (t : EoTables) (d d' : AuxEmbeddedInfo)
    (h : d.readOnly = d'.readOnly) :
    DefaultParser.parseInfoText t d = DefaultParser.parseInfoText t d' := by
  obtain ⟨⟨ip, port, addr, ax, fm⟩, code, p16, p64, bm, em⟩ := d
  obtain ⟨⟨ip', port', addr', ax', fm'⟩, code', p16', p64', bm', em'⟩ := d'
  simp only [AuxEmbeddedInfo.readOnly, Prod.mk.injEq] at h
  obtain ⟨rfl, rfl, rfl, rfl, rfl, rfl, rfl, rfl⟩ := h
  simp only [DefaultParser.parseInfoText, AuxEmbeddedInfo.code, AuxEmbeddedInfo.p16,
    AuxEmbeddedInfo.p64, p64byte]

theorem DefaultParser.parseInfo_frame (t : EoTables) (d : AuxEmbeddedInfo) :
    (DefaultParser.parseInfo t d).readOnly = d.readOnly ∧
    (DefaultParser.parseInfo t d).baseInfo.axisName = d.baseInfo.axisName := by
  rw [DefaultParser.parseInfo_eq]
  generalize snprintf 512 _ = s
  exact ⟨rfl, rfl⟩

theorem DefaultParser.parseInfo_dependsOn (t : EoTables) :
    DependsOn AuxEmbeddedInfo.readOnly (DefaultParser.parseInfo t) := by
  refine ⟨fun d => (DefaultParser.parseInfo_frame t d).1, ?_⟩
  intro d d' h _
  rw [DefaultParser.parseInfo_eq, DefaultParser.parseInfo_eq,
    DefaultParser.parseInfoText_readOnly t d d' h]
  generalize snprintf 512 _ = s
  rfl

theorem DefaultParser.parseInfo_axisStable (t : EoTables) :
    AxisStable (DefaultParser.parseInfo t) :=
  fun d d' _ => Or.inl ⟨(DefaultParser.parseInfo_frame t d).2,
    (DefaultParser.parseInfo_frame t d').2⟩

/-! ### The switch of each parser -/

set_option maxHeartbeats 1000000 in
theorem ConfigParser_dispatch_frame (t : EoTables) (p : EntityNameProvider) (v : ValueCFG)
    (d : AuxEmbeddedInfo) : (ConfigParser.dispatch t p v d).readOnly = d.readOnly := by
  cases v
  case eoerror_value_CFG_candiscovery_boardsmissing =>
    exact (ConfigParser.boardsmissing_frame t d).1
  case eoerror_value_CFG_candiscovery_boardsinvalid =>
    exact (ConfigParser.boardsinvalid_frame t d).1
  case eoerror_value_CFG_encoders_ok => exact ConfigParser.encoders_frame p d
  case eoerror_value_CFG_encoders_failed_verify => exact ConfigParser.encoders_frame p d
  case unlisted => exact (DefaultParser.parseInfo_frame t d).1
  all_goals rfl

set_option maxHeartbeats 1000000 in
theorem ConfigParser_dispatch_payloadSrc (t : EoTables) (p : EntityNameProvider) (v : ValueCFG)
    (hk : v.kind = CaseKind.recognised) :
    DependsOn AuxEmbeddedInfo.payloadSrc (ConfigParser.dispatch t p v) := by
  cases v
  case eoerror_value_CFG_candiscovery_boardsmissing =>
    exact ConfigParser.boardsmissing_dependsOn t
  case eoerror_value_CFG_candiscovery_boardsinvalid =>
    exact ConfigParser.boardsinvalid_dependsOn t
  case eoerror_value_CFG_encoders_ok =>
    exact dependsOn_of_view (ConfigParser.encoders_dependsOn p)
      (fun d => payloadSrc_of_readOnly _ _ (ConfigParser.encoders_frame p d))
      payload_of_payloadSrc
  case eoerror_value_CFG_encoders_failed_verify =>
    exact dependsOn_of_view (ConfigParser.encoders_dependsOn p)
      (fun d => payloadSrc_of_readOnly _ _ (ConfigParser.encoders_frame p d))
      payload_of_payloadSrc
  case EOERROR_VALUE_DUMMY => exact absurd hk (by decide)
  case unlisted => exact absurd hk (by decide)
  all_goals
    constructor
    · intro d; rfl
    · intro d d' h hf
      obtain ⟨⟨ip, port, addr, ax, fm⟩, code, p16, p64, bm, em⟩ := d
      obtain ⟨⟨ip', port', addr', ax', fm'⟩, code', p16', p64', bm', em'⟩ := d'
      simp only [AuxEmbeddedInfo.payloadSrc, Prod.mk.injEq] at h
      simp only at hf
      obtain ⟨rfl, rfl, rfl, rfl, rfl, rfl⟩ := h
      subst hf
      rfl

set_option maxHeartbeats 1000000 in
theorem ConfigParser_dispatch_payload (t : EoTables) (p : EntityNameProvider) (v : ValueCFG)
    (hk : v.kind = CaseKind.recognised) (hs : v.readsSource = false) :
    DependsOn AuxEmbeddedInfo.payload (ConfigParser.dispatch t p v) := by
  cases v
  case eoerror_value_CFG_candiscovery_detectedboard => exact absurd hs (by decide)
  case eoerror_value_CFG_candiscovery_boardsmissing => exact absurd hs (by decide)
  case eoerror_value_CFG_candiscovery_boardsinvalid => exact absurd hs (by decide)
  case eoerror_value_CFG_encoders_ok => exact ConfigParser.encoders_dependsOn p
  case eoerror_value_CFG_encoders_failed_verify => exact ConfigParser.encoders_dependsOn p
  case EOERROR_VALUE_DUMMY => exact absurd hk (by decide)
  case unlisted => exact absurd hk (by decide)
  all_goals
    constructor
    · intro d; rfl
    · intro d d' h hf
      obtain ⟨⟨ip, port, addr, ax, fm⟩, code, p16, p64, bm, em⟩ := d
      obtain ⟨⟨ip', port', addr', ax', fm'⟩, code', p16', p64', bm', em'⟩ := d'
      simp only [AuxEmbeddedInfo.payload, Prod.mk.injEq] at h
      simp only at hf
      obtain ⟨rfl, rfl, rfl⟩ := h
      subst hf
      rfl

theorem dependsOn_readOnly_simple {h : AuxEmbeddedInfo → AuxEmbeddedInfo}
    (h1 : ∀ d, (h d).readOnly = d.readOnly)
    (h2 : ∀ ip port addr ax fm code p16 p64 bm em ax',
      (h ⟨⟨ip, port, addr, ax, fm⟩, code, p16, p64, bm, em⟩).baseInfo.finalMessage =
      (h ⟨⟨ip, port, addr, ax', fm⟩, code, p16, p64, bm, em⟩).baseInfo.finalMessage) :
    DependsOn AuxEmbeddedInfo.readOnly h := by
  refine ⟨h1, ?_⟩
  intro d d' h hf
  obtain ⟨⟨ip, port, addr, ax, fm⟩, code, p16, p64, bm, em⟩ := d
  obtain ⟨⟨ip', port', addr', ax', fm'⟩, code', p16', p64', bm', em'⟩ := d'
  simp only [AuxEmbeddedInfo.readOnly, Prod.mk.injEq] at h
  simp only at hf
  obtain ⟨rfl, rfl, rfl, rfl, rfl, rfl, rfl, rfl⟩ := h
  subst hf
  exact h2 _ _ _ _ _ _ _ _ _ _ _

set_option maxHeartbeats 1000000 in
theorem ConfigParser_dispatch_readOnly (t : EoTables) (p : EntityNameProvider) (v : ValueCFG) :
    DependsOn AuxEmbeddedInfo.readOnly (ConfigParser.dispatch t p v) := by
  by_cases hk : v.kind = CaseKind.recognised
  · exact dependsOn_of_view (ConfigParser_dispatch_payloadSrc t p v hk)
      (ConfigParser_dispatch_frame t p v) payloadSrc_of_readOnly
  · cases v
    case neg.EOERROR_VALUE_DUMMY =>
      exact dependsOn_readOnly_simple (fun _ => rfl) (fun _ _ _ _ _ _ _ _ _ _ _ => rfl)
    case neg.unlisted => exact DefaultParser.parseInfo_dependsOn t
    all_goals exact absurd rfl hk

set_option maxHeartbeats 1000000 in
theorem ConfigParser_dispatch_axisStable (t : EoTables) (p : EntityNameProvider)
    (v : ValueCFG) : AxisStable (ConfigParser.dispatch t p v) := by
  cases v
  case eoerror_value_CFG_candiscovery_boardsmissing =>
    exact fun d d' _ => Or.inl ⟨(ConfigParser.boardsmissing_frame t d).2,
        (ConfigParser.boardsmissing_frame t d').2⟩
  case eoerror_value_CFG_candiscovery_boardsinvalid =>
    exact fun d d' _ => Or.inl ⟨(ConfigParser.boardsinvalid_frame t d).2,
        (ConfigParser.boardsinvalid_frame t d').2⟩
  case eoerror_value_CFG_encoders_ok => exact ConfigParser.encoders_axisStable p
  case eoerror_value_CFG_encoders_failed_verify => exact ConfigParser.encoders_axisStable p
  case unlisted => exact DefaultParser.parseInfo_axisStable t
  all_goals exact fun d d' _ => Or.inl ⟨rfl, rfl⟩

set_option maxHeartbeats 1000000 in
theorem MotionControlParser_dispatch_frame (t : EoTables) (p : EntityNameProvider) (v : ValueMC)
    (d : AuxEmbeddedInfo) : (MotionControlParser.dispatch t p v d).readOnly = d.readOnly := by
  cases v
  case unlisted => exact (DefaultParser.parseInfo_frame t d).1
  all_goals rfl

set_option maxHeartbeats 1000000 in
theorem MotionControlParser_dispatch_payloadSrc (t : EoTables) (p : EntityNameProvider) (v : ValueMC)
    (hk : v.kind = CaseKind.recognised) :
    DependsOn AuxEmbeddedInfo.payloadSrc (MotionControlParser.dispatch t p v) := by
  cases v
  case EOERROR_VALUE_DUMMY => exact absurd hk (by decide)
  case unlisted => exact absurd hk (by decide)
  all_goals
    constructor
    · intro d; rfl
    · intro d d' h hf
      obtain ⟨⟨ip, port, addr, ax, fm⟩, code, p16, p64, bm, em⟩ := d
      obtain ⟨⟨ip', port', addr', ax', fm'⟩, code', p16', p64', bm', em'⟩ := d'
      simp only [AuxEmbeddedInfo.payloadSrc, Prod.mk.injEq] at h
      simp only at hf
      obtain ⟨rfl, rfl, rfl, rfl, rfl, rfl⟩ := h
      subst hf
      rfl

set_option maxHeartbeats 1000000 in
theorem MotionControlParser_dispatch_payload (t : EoTables) (p : EntityNameProvider) (v : ValueMC)
    (hk : v.kind = CaseKind.recognised) :
    DependsOn AuxEmbeddedInfo.payload (MotionControlParser.dispatch t p v) := by
  cases v
  case EOERROR_VALUE_DUMMY => exact absurd hk (by decide)
  case unlisted => exact absurd hk (by decide)
  all_goals
    constructor
    · intro d; rfl
    · intro d d' h hf
      obtain ⟨⟨ip, port, addr, ax, fm⟩, code, p16, p64, bm, em⟩ := d
      obtain ⟨⟨ip', port', addr', ax', fm'⟩, code', p16', p64', bm', em'⟩ := d'
      simp only [AuxEmbeddedInfo.payload, Prod.mk.injEq] at h
      simp only at hf
      obtain ⟨rfl, rfl, rfl⟩ := h
      subst hf
      rfl

set_option maxHeartbeats 1000000 in
theorem MotionControlParser_dispatch_readOnly (t : EoTables) (p : EntityNameProvider) (v : ValueMC) :
    DependsOn AuxEmbeddedInfo.readOnly (MotionControlParser.dispatch t p v) := by
  by_cases hk : v.kind = CaseKind.recognised
  · exact dependsOn_of_view (MotionControlParser_dispatch_payloadSrc t p v hk)
      (MotionControlParser_dispatch_frame t p v) payloadSrc_of_readOnly
  · cases v
    case neg.EOERROR_VALUE_DUMMY =>
      exact dependsOn_readOnly_simple (fun _ => rfl) (fun _ _ _ _ _ _ _ _ _ _ _ => rfl)
    case neg.unlisted => exact DefaultParser.parseInfo_dependsOn t
    all_goals exact absurd rfl hk

set_option maxHeartbeats 1000000 in
theorem MotionControlParser_dispatch_axisStable (t : EoTables) (p : EntityNameProvider) (v : ValueMC) :
    AxisStable (MotionControlParser.dispatch t p v) := by
  intro d d' h
  cases v
  case unlisted => exact DefaultParser.parseInfo_axisStable t d d' h
  all_goals
    obtain ⟨⟨ip, port, addr, ax, fm⟩, code, p16, p64, bm, em⟩ := d
    obtain ⟨⟨ip', port', addr', ax', fm'⟩, code', p16', p64', bm', em'⟩ := d'
    simp only [AuxEmbeddedInfo.readOnly, Prod.mk.injEq] at h
    obtain ⟨rfl, rfl, rfl, rfl, rfl, rfl, rfl, rfl⟩ := h
    first
      | exact Or.inl ⟨rfl, rfl⟩
      | exact Or.inr rfl

set_option maxHeartbeats 1000000 in
theorem SkinParser_dispatch_frame (t : EoTables) (v : ValueSK)
    (d : AuxEmbeddedInfo) : (SkinParser.dispatch t v d).readOnly = d.readOnly := by
  cases v
  case unlisted => exact (DefaultParser.parseInfo_frame t d).1
  all_goals rfl

set_option maxHeartbeats 1000000 in
theorem SkinParser_dispatch_payloadSrc (t : EoTables) (v : ValueSK)
    (hk : v.kind = CaseKind.recognised) :
    DependsOn AuxEmbeddedInfo.payloadSrc (SkinParser.dispatch t v) := by
  cases v
  case EOERROR_VALUE_DUMMY => exact absurd hk (by decide)
  case unlisted => exact absurd hk (by decide)
  all_goals
    constructor
    · intro d; rfl
    · intro d d' h hf
      obtain ⟨⟨ip, port, addr, ax, fm⟩, code, p16, p64, bm, em⟩ := d
      obtain ⟨⟨ip', port', addr', ax', fm'⟩, code', p16', p64', bm', em'⟩ := d'
      simp only [AuxEmbeddedInfo.payloadSrc, Prod.mk.injEq] at h
      simp only at hf
      obtain ⟨rfl, rfl, rfl, rfl, rfl, rfl⟩ := h
      subst hf
      rfl

set_option maxHeartbeats 1000000 in
theorem SkinParser_dispatch_payload (t : EoTables) (v : ValueSK)
    (hk : v.kind = CaseKind.recognised) :
    DependsOn AuxEmbeddedInfo.payload (SkinParser.dispatch t v) := by
  cases v
  case EOERROR_VALUE_DUMMY => exact absurd hk (by decide)
  case unlisted => exact absurd hk (by decide)
  all_goals
    constructor
    · intro d; rfl
    · intro d d' h hf
      obtain ⟨⟨ip, port, addr, ax, fm⟩, code, p16, p64, bm, em⟩ := d
      obtain ⟨⟨ip', port', addr', ax', fm'⟩, code', p16', p64', bm', em'⟩ := d'
      simp only [AuxEmbeddedInfo.payload, Prod.mk.injEq] at h
      simp only at hf
      obtain ⟨rfl, rfl, rfl⟩ := h
      subst hf
      rfl

set_option maxHeartbeats 1000000 in
theorem SkinParser_dispatch_readOnly (t : EoTables) (v : ValueSK) :
    DependsOn AuxEmbeddedInfo.readOnly (SkinParser.dispatch t v) := by
  by_cases hk : v.kind = CaseKind.recognised
  · exact dependsOn_of_view (SkinParser_dispatch_payloadSrc t v hk)
      (SkinParser_dispatch_frame t v) payloadSrc_of_readOnly
  · cases v
    case neg.EOERROR_VALUE_DUMMY =>
      exact dependsOn_readOnly_simple (fun _ => rfl) (fun _ _ _ _ _ _ _ _ _ _ _ => rfl)
    case neg.unlisted => exact DefaultParser.parseInfo_dependsOn t
    all_goals exact absurd rfl hk

set_option maxHeartbeats 1000000 in
theorem SkinParser_dispatch_axisStable (t : EoTables) (v : ValueSK) :
    AxisStable (SkinParser.dispatch t v) := by
  cases v
  case unlisted => exact DefaultParser.parseInfo_axisStable t
  all_goals exact fun d d' _ => Or.inl ⟨rfl, rfl⟩

set_option maxHeartbeats 1000000 in
theorem HwErrorParser_dispatch_frame (t : EoTables) (v : ValueHW)
    (d : AuxEmbeddedInfo) : (HwErrorParser.dispatch t v d).readOnly = d.readOnly := by
  cases v
  case unlisted => exact (DefaultParser.parseInfo_frame t d).1
  all_goals rfl

set_option maxHeartbeats 1000000 in
theorem HwErrorParser_dispatch_payloadSrc (t : EoTables) (v : ValueHW)
    (hk : v.kind = CaseKind.recognised) :
    DependsOn AuxEmbeddedInfo.payloadSrc (HwErrorParser.dispatch t v) := by
  cases v
  case EOERROR_VALUE_DUMMY => exact absurd hk (by decide)
  case unlisted => exact absurd hk (by decide)
  all_goals
    constructor
    · intro d; rfl
    · intro d d' h hf
      obtain ⟨⟨ip, port, addr, ax, fm⟩, code, p16, p64, bm, em⟩ := d
      obtain ⟨⟨ip', port', addr', ax', fm'⟩, code', p16', p64', bm', em'⟩ := d'
      simp only [AuxEmbeddedInfo.payloadSrc, Prod.mk.injEq] at h
      simp only at hf
      obtain ⟨rfl, rfl, rfl, rfl, rfl, rfl⟩ := h
      subst hf
      rfl

set_option maxHeartbeats 1000000 in
theorem HwErrorParser_dispatch_payload (t : EoTables) (v : ValueHW)
    (hk : v.kind = CaseKind.recognised) :
    DependsOn AuxEmbeddedInfo.payload (HwErrorParser.dispatch t v) := by
  cases v
  case EOERROR_VALUE_DUMMY => exact absurd hk (by decide)
  case unlisted => exact absurd hk (by decide)
  all_goals
    constructor
    · intro d; rfl
    · intro d d' h hf
      obtain ⟨⟨ip, port, addr, ax, fm⟩, code, p16, p64, bm, em⟩ := d
      obtain ⟨⟨ip', port', addr', ax', fm'⟩, code', p16', p64', bm', em'⟩ := d'
      simp only [AuxEmbeddedInfo.payload, Prod.mk.injEq] at h
      simp only at hf
      obtain ⟨rfl, rfl, rfl⟩ := h
      subst hf
      rfl

set_option maxHeartbeats 1000000 in
theorem HwErrorParser_dispatch_readOnly (t : EoTables) (v : ValueHW) :
    DependsOn AuxEmbeddedInfo.readOnly (HwErrorParser.dispatch t v) := by
  by_cases hk : v.kind = CaseKind.recognised
  · exact dependsOn_of_view (HwErrorParser_dispatch_payloadSrc t v hk)
      (HwErrorParser_dispatch_frame t v) payloadSrc_of_readOnly
  · cases v
    case neg.EOERROR_VALUE_DUMMY =>
      exact dependsOn_readOnly_simple (fun _ => rfl) (fun _ _ _ _ _ _ _ _ _ _ _ => rfl)
    case neg.unlisted => exact DefaultParser.parseInfo_dependsOn t
    all_goals exact absurd rfl hk

set_option maxHeartbeats 1000000 in
theorem HwErrorParser_dispatch_axisStable (t : EoTables) (v : ValueHW) :
    AxisStable (HwErrorParser.dispatch t v) := by
  cases v
  case unlisted => exact DefaultParser.parseInfo_axisStable t
  all_goals exact fun d d' _ => Or.inl ⟨rfl, rfl⟩

set_option maxHeartbeats 1000000 in
theorem SysParser_dispatch_frame (t : EoTables) (v : ValueSYS)
    (d : AuxEmbeddedInfo) : (SysParser.dispatch t v d).readOnly = d.readOnly := by
  cases v
  case unlisted => exact (DefaultParser.parseInfo_frame t d).1
  all_goals rfl

set_option maxHeartbeats 1000000 in
theorem SysParser_dispatch_payloadSrc (t : EoTables) (v : ValueSYS)
    (hk : v.kind = CaseKind.recognised) :
    DependsOn AuxEmbeddedInfo.payloadSrc (SysParser.dispatch t v) := by
  cases v
  case EOERROR_VALUE_DUMMY => exact absurd hk (by decide)
  case unlisted => exact absurd hk (by decide)
  all_goals
    constructor
    · intro d; rfl
    · intro d d' h hf
      obtain ⟨⟨ip, port, addr, ax, fm⟩, code, p16, p64, bm, em⟩ := d
      obtain ⟨⟨ip', port', addr', ax', fm'⟩, code', p16', p64', bm', em'⟩ := d'
      simp only [AuxEmbeddedInfo.payloadSrc, Prod.mk.injEq] at h
      simp only at hf
      obtain ⟨rfl, rfl, rfl, rfl, rfl, rfl⟩ := h
      subst hf
      rfl

set_option maxHeartbeats 1000000 in
theorem SysParser_dispatch_payload (t : EoTables) (v : ValueSYS)
    (hk : v.kind = CaseKind.recognised) (hs : v.readsSource = false) :
    DependsOn AuxEmbeddedInfo.payload (SysParser.dispatch t v) := by
  cases v
  case eoerror_value_SYS_canservices_txfifooverflow => exact absurd hs (by decide)
  case eoerror_value_SYS_canservices_txbusfailure => exact absurd hs (by decide)
  case eoerror_value_SYS_canservices_formingfailure => exact absurd hs (by decide)
  case eoerror_value_SYS_canservices_parsingfailure => exact absurd hs (by decide)
  case eoerror_value_SYS_canservices_canprint => exact absurd hs (by decide)
  case eoerror_value_SYS_canservices_rxmaisbug => exact absurd hs (by decide)
  case eoerror_value_SYS_canservices_rxfromwrongboard => exact absurd hs (by decide)
  case eoerror_value_SYS_canservices_board_detected => exact absurd hs (by decide)
  case eoerror_value_SYS_canservices_board_wrongprotversion => exact absurd hs (by decide)
  case eoerror_value_SYS_canservices_board_notfound => exact absurd hs (by decide)
  case eoerror_value_SYS_canservices_monitor_retrievedcontact => exact absurd hs (by decide)
  case eoerror_value_SYS_canservices_monitor_regularcontact => exact absurd hs (by decide)
  case eoerror_value_SYS_canservices_monitor_lostcontact => exact absurd hs (by decide)
  case eoerror_value_SYS_canservices_monitor_stillnocontact => exact absurd hs (by decide)
  case EOERROR_VALUE_DUMMY => exact absurd hk (by decide)
  case unlisted => exact absurd hk (by decide)
  all_goals
    constructor
    · intro d; rfl
    · intro d d' h hf
      obtain ⟨⟨ip, port, addr, ax, fm⟩, code, p16, p64, bm, em⟩ := d
      obtain ⟨⟨ip', port', addr', ax', fm'⟩, code', p16', p64', bm', em'⟩ := d'
      simp only [AuxEmbeddedInfo.payload, Prod.mk.injEq] at h
      simp only at hf
      obtain ⟨rfl, rfl, rfl⟩ := h
      subst hf
      rfl

set_option maxHeartbeats 1000000 in
theorem SysParser_dispatch_readOnly (t : EoTables) (v : ValueSYS) :
    DependsOn AuxEmbeddedInfo.readOnly (SysParser.dispatch t v) := by
  by_cases hk : v.kind = CaseKind.recognised
  · exact dependsOn_of_view (SysParser_dispatch_payloadSrc t v hk)
      (SysParser_dispatch_frame t v) payloadSrc_of_readOnly
  · cases v
    case neg.EOERROR_VALUE_DUMMY =>
      exact dependsOn_readOnly_simple (fun _ => rfl) (fun _ _ _ _ _ _ _ _ _ _ _ => rfl)
    case neg.unlisted => exact DefaultParser.parseInfo_dependsOn t
    all_goals exact absurd rfl hk

set_option maxHeartbeats 1000000 in
theorem SysParser_dispatch_axisStable (t : EoTables) (v : ValueSYS) :
    AxisStable (SysParser.dispatch t v) := by
  cases v
  case unlisted => exact DefaultParser.parseInfo_axisStable t
  all_goals exact fun d d' _ => Or.inl ⟨rfl, rfl⟩

set_option maxHeartbeats 1000000 in
theorem EthMonitorParser_dispatch_frame (t : EoTables) (v : ValueETHMON)
    (d : AuxEmbeddedInfo) : (EthMonitorParser.dispatch t v d).readOnly = d.readOnly := by
  cases v
  case unlisted => exact (DefaultParser.parseInfo_frame t d).1
  all_goals rfl

set_option maxHeartbeats 1000000 in
theorem EthMonitorParser_dispatch_payloadSrc (t : EoTables) (v : ValueETHMON)
    (hk : v.kind = CaseKind.recognised) :
    DependsOn AuxEmbeddedInfo.payloadSrc (EthMonitorParser.dispatch t v) := by
  cases v
  case EOERROR_VALUE_DUMMY => exact absurd hk (by decide)
  case unlisted => exact absurd hk (by decide)
  all_goals
    constructor
    · intro d; rfl
    · intro d d' h hf
      obtain ⟨⟨ip, port, addr, ax, fm⟩, code, p16, p64, bm, em⟩ := d
      obtain ⟨⟨ip', port', addr', ax', fm'⟩, code', p16', p64', bm', em'⟩ := d'
      simp only [AuxEmbeddedInfo.payloadSrc, Prod.mk.injEq] at h
      simp only at hf
      obtain ⟨rfl, rfl, rfl, rfl, rfl, rfl⟩ := h
      subst hf
      rfl

set_option maxHeartbeats 1000000 in
theorem EthMonitorParser_dispatch_payload (t : EoTables) (v : ValueETHMON)
    (hk : v.kind = CaseKind.recognised) :
    DependsOn AuxEmbeddedInfo.payload (EthMonitorParser.dispatch t v) := by
  cases v
  case EOERROR_VALUE_DUMMY => exact absurd hk (by decide)
  case unlisted => exact absurd hk (by decide)
  all_goals
    constructor
    · intro d; rfl
    · intro d d' h hf
      obtain ⟨⟨ip, port, addr, ax, fm⟩, code, p16, p64, bm, em⟩ := d
      obtain ⟨⟨ip', port', addr', ax', fm'⟩, code', p16', p64', bm', em'⟩ := d'
      simp only [AuxEmbeddedInfo.payload, Prod.mk.injEq] at h
      simp only at hf
      obtain ⟨rfl, rfl, rfl⟩ := h
      subst hf
      rfl

set_option maxHeartbeats 1000000 in
theorem EthMonitorParser_dispatch_readOnly (t : EoTables) (v : ValueETHMON) :
    DependsOn AuxEmbeddedInfo.readOnly (EthMonitorParser.dispatch t v) := by
  by_cases hk : v.kind = CaseKind.recognised
  · exact dependsOn_of_view (EthMonitorParser_dispatch_payloadSrc t v hk)
      (EthMonitorParser_dispatch_frame t v) payloadSrc_of_readOnly
  · cases v
    case neg.EOERROR_VALUE_DUMMY =>
      exact dependsOn_readOnly_simple (fun _ => rfl) (fun _ _ _ _ _ _ _ _ _ _ _ => rfl)
    case neg.unlisted => exact DefaultParser.parseInfo_dependsOn t
    all_goals exact absurd rfl hk

set_option maxHeartbeats 1000000 in
theorem EthMonitorParser_dispatch_axisStable (t : EoTables) (v : ValueETHMON) :
    AxisStable (EthMonitorParser.dispatch t v) := by
  cases v
  case unlisted => exact DefaultParser.parseInfo_axisStable t
  all_goals exact fun d d' _ => Or.inl ⟨rfl, rfl⟩

set_option maxHeartbeats 1000000 in
theorem InertialSensorParser_dispatch_frame (t : EoTables) (v : ValueIS)
    (d : AuxEmbeddedInfo) : (InertialSensorParser.dispatch t v d).readOnly = d.readOnly := by
  cases v
  case unlisted => exact (DefaultParser.parseInfo_frame t d).1
  all_goals rfl

set_option maxHeartbeats 1000000 in
theorem InertialSensorParser_dispatch_payloadSrc (t : EoTables) (v : ValueIS)
    (hk : v.kind = CaseKind.recognised) :
    DependsOn AuxEmbeddedInfo.payloadSrc (InertialSensorParser.dispatch t v) := by
  cases v
  case EOERROR_VALUE_DUMMY => exact absurd hk (by decide)
  case unlisted => exact absurd hk (by decide)
  all_goals
    constructor
    · intro d; rfl
    · intro d d' h hf
      obtain ⟨⟨ip, port, addr, ax, fm⟩, code, p16, p64, bm, em⟩ := d
      obtain ⟨⟨ip', port', addr', ax', fm'⟩, code', p16', p64', bm', em'⟩ := d'
      simp only [AuxEmbeddedInfo.payloadSrc, Prod.mk.injEq] at h
      simp only at hf
      obtain ⟨rfl, rfl, rfl, rfl, rfl, rfl⟩ := h
      subst hf
      rfl

set_option maxHeartbeats 1000000 in
theorem InertialSensorParser_dispatch_payload (t : EoTables) (v : ValueIS)
    (hk : v.kind = CaseKind.recognised) :
    DependsOn AuxEmbeddedInfo.payload (InertialSensorParser.dispatch t v) := by
  cases v
  case EOERROR_VALUE_DUMMY => exact absurd hk (by decide)
  case unlisted => exact absurd hk (by decide)
  all_goals
    constructor
    · intro d; rfl
    · intro d d' h hf
      obtain ⟨⟨ip, port, addr, ax, fm⟩, code, p16, p64, bm, em⟩ := d
      obtain ⟨⟨ip', port', addr', ax', fm'⟩, code', p16', p64', bm', em'⟩ := d'
      simp only [AuxEmbeddedInfo.payload, Prod.mk.injEq] at h
      simp only at hf
      obtain ⟨rfl, rfl, rfl⟩ := h
      subst hf
      rfl

set_option maxHeartbeats 1000000 in
theorem InertialSensorParser_dispatch_readOnly (t : EoTables) (v : ValueIS) :
    DependsOn AuxEmbeddedInfo.readOnly (InertialSensorParser.dispatch t v) := by
  by_cases hk : v.kind = CaseKind.recognised
  · exact dependsOn_of_view (InertialSensorParser_dispatch_payloadSrc t v hk)
      (InertialSensorParser_dispatch_frame t v) payloadSrc_of_readOnly
  · cases v
    case neg.EOERROR_VALUE_DUMMY =>
      exact dependsOn_readOnly_simple (fun _ => rfl) (fun _ _ _ _ _ _ _ _ _ _ _ => rfl)
    case neg.unlisted => exact DefaultParser.parseInfo_dependsOn t
    all_goals exact absurd rfl hk

set_option maxHeartbeats 1000000 in
theorem InertialSensorParser_dispatch_axisStable (t : EoTables) (v : ValueIS) :
    AxisStable (InertialSensorParser.dispatch t v) := by
  cases v
  case unlisted => exact DefaultParser.parseInfo_axisStable t
  all_goals exact fun d d' _ => Or.inl ⟨rfl, rfl⟩

set_option maxHeartbeats 1000000 in
theorem AnalogSensorParser_dispatch_frame (t : EoTables) (v : ValueAS)
    (d : AuxEmbeddedInfo) : (AnalogSensorParser.dispatch t v d).readOnly = d.readOnly := by
  cases v
  case unlisted => exact (DefaultParser.parseInfo_frame t d).1
  all_goals rfl

set_option maxHeartbeats 1000000 in
theorem AnalogSensorParser_dispatch_payloadSrc (t : EoTables) (v : ValueAS)
    (hk : v.kind = CaseKind.recognised) :
    DependsOn AuxEmbeddedInfo.payloadSrc (AnalogSensorParser.dispatch t v) := by
  cases v
  case EOERROR_VALUE_DUMMY => exact absurd hk (by decide)
  case unlisted => exact absurd hk (by decide)
  all_goals
    constructor
    · intro d; rfl
    · intro d d' h hf
      obtain ⟨⟨ip, port, addr, ax, fm⟩, code, p16, p64, bm, em⟩ := d
      obtain ⟨⟨ip', port', addr', ax', fm'⟩, code', p16', p64', bm', em'⟩ := d'
      simp only [AuxEmbeddedInfo.payloadSrc, Prod.mk.injEq] at h
      simp only at hf
      obtain ⟨rfl, rfl, rfl, rfl, rfl, rfl⟩ := h
      subst hf
      rfl

set_option maxHeartbeats 1000000 in
theorem AnalogSensorParser_dispatch_payload (t : EoTables) (v : ValueAS)
    (hk : v.kind = CaseKind.recognised) :
    DependsOn AuxEmbeddedInfo.payload (AnalogSensorParser.dispatch t v) := by
  cases v
  case EOERROR_VALUE_DUMMY => exact absurd hk (by decide)
  case unlisted => exact absurd hk (by decide)
  all_goals
    constructor
    · intro d; rfl
    · intro d d' h hf
      obtain ⟨⟨ip, port, addr, ax, fm⟩, code, p16, p64, bm, em⟩ := d
      obtain ⟨⟨ip', port', addr', ax', fm'⟩, code', p16', p64', bm', em'⟩ := d'
      simp only [AuxEmbeddedInfo.payload, Prod.mk.injEq] at h
      simp only at hf
      obtain ⟨rfl, rfl, rfl⟩ := h
      subst hf
      rfl

set_option maxHeartbeats 1000000 in
theorem AnalogSensorParser_dispatch_readOnly (t : EoTables) (v : ValueAS) :
    DependsOn AuxEmbeddedInfo.readOnly (AnalogSensorParser.dispatch t v) := by
  by_cases hk : v.kind = CaseKind.recognised
  · exact dependsOn_of_view (AnalogSensorParser_dispatch_payloadSrc t v hk)
      (AnalogSensorParser_dispatch_frame t v) payloadSrc_of_readOnly
  · cases v
    case neg.EOERROR_VALUE_DUMMY =>
      exact dependsOn_readOnly_simple (fun _ => rfl) (fun _ _ _ _ _ _ _ _ _ _ _ => rfl)
    case neg.unlisted => exact DefaultParser.parseInfo_dependsOn t
    all_goals exact absurd rfl hk

set_option maxHeartbeats 1000000 in
theorem AnalogSensorParser_dispatch_axisStable (t : EoTables) (v : ValueAS) :
    AxisStable (AnalogSensorParser.dispatch t v) := by
  cases v
  case unlisted => exact DefaultParser.parseInfo_axisStable t
  all_goals exact fun d d' _ => Or.inl ⟨rfl, rfl⟩

/-! ### Length of what a handler appends -/

theorem snprintf_length_le (x : Text) : (snprintf 512 x).length ≤ 511 :=
  List.length_take_le 511 x

theorem appendFinalMessage_finalMessage (d : AuxEmbeddedInfo) (s : Text) :
    (d.appendFinalMessage s).baseInfo.finalMessage = d.baseInfo.finalMessage ++ s := rfl

theorem withFinalMessage_finalMessage (d : AuxEmbeddedInfo) (m : Text) :
    (d.withFinalMessage m).baseInfo.finalMessage = m := rfl

theorem getAxisName_finalMessage (p : EntityNameProvider) (i : Nat) (d : AuxEmbeddedInfo) :
    (p.getAxisName i d).baseInfo.finalMessage = d.baseInfo.finalMessage := rfl

theorem length_one_piece (a : Nat) (x : Text) : a + (snprintf 512 x).length ≤ a + 511 :=
  Nat.add_le_add_left (snprintf_length_le x) a

theorem length_two_pieces (a : Nat) (x y : Text) :
    a + (snprintf 512 x).length + (snprintf 512 y).length ≤ a + 511 + 511 :=
  Nat.add_le_add (length_one_piece a x) (snprintf_length_le y)

theorem append_snprintf_length (d : AuxEmbeddedInfo) (x : Text) :
    (d.appendFinalMessage (snprintf 512 x)).baseInfo.finalMessage.length ≤
      d.baseInfo.finalMessage.length + 511 := by
  rw [appendFinalMessage_finalMessage, List.length_append]
  exact length_one_piece _ x

theorem DefaultParser.parseInfo_length (t : EoTables) (d : AuxEmbeddedInfo) :
    (DefaultParser.parseInfo t d).baseInfo.finalMessage.length ≤ 511 := by
  rw [DefaultParser.parseInfo_eq, withFinalMessage_finalMessage]
  exact snprintf_length_le _

theorem foldl_counter_length {step : AuxEmbeddedInfo × Nat → Nat → AuxEmbeddedInfo × Nat}
    (hs : ∀ s i, (step s i).1.baseInfo.finalMessage.length ≤
      s.1.baseInfo.finalMessage.length + 511)
    (l : List Nat) (s : AuxEmbeddedInfo × Nat) :
    (l.foldl step s).1.baseInfo.finalMessage.length ≤
      s.1.baseInfo.finalMessage.length + 511 * l.length := by
  induction l generalizing s with
  | nil => exact Nat.le_refl _
  | cons i l ih =>
    have h1 := ih (step s i)
    have h2 := hs s i
    simp only [List.foldl_cons, List.length_cons]
    omega

theorem ConfigParser.boardsmissingStep_length (a : Nat) (b : Text) (c : Nat)
    (s : AuxEmbeddedInfo × Nat) (i : Nat) :
    (ConfigParser.boardsmissingStep a b c s i).1.baseInfo.finalMessage.length ≤
      s.1.baseInfo.finalMessage.length + 511 := by
  simp only [ConfigParser.boardsmissingStep]
  split
  · exact append_snprintf_length _ _
  · exact Nat.le_add_right _ _

theorem ConfigParser.boardsinvalidStep_length (a : Nat) (b : Text) (c : Nat)
    (s : AuxEmbeddedInfo × Nat) (i : Nat) :
    (ConfigParser.boardsinvalidStep a b c s i).1.baseInfo.finalMessage.length ≤
      s.1.baseInfo.finalMessage.length + 511 := by
  simp only [ConfigParser.boardsinvalidStep]
  split
  · exact append_snprintf_length _ _
  · exact Nat.le_add_right _ _

theorem forRange_length (lo hi : Nat) : (forRange lo hi).length = hi - lo := by
  simp only [forRange, List.length_map, List.length_range]

theorem ConfigParser.boardsmissing_length (t : EoTables) (d : AuxEmbeddedInfo) :
    (ConfigParser.candiscovery_boardsmissing t d).baseInfo.finalMessage.length ≤
      d.baseInfo.finalMessage.length + 511 * 15 := by
  unfold ConfigParser.candiscovery_boardsmissing
  refine Nat.le_trans (foldl_counter_length (ConfigParser.boardsmissingStep_length _ _ _) _ _) ?_
  rw [forRange_length]
  refine Nat.le_trans (Nat.add_le_add_right (append_snprintf_length d _) _) ?_
  omega

theorem ConfigParser.boardsinvalid_length (t : EoTables) (d : AuxEmbeddedInfo) :
    (ConfigParser.candiscovery_boardsinvalid t d).baseInfo.finalMessage.length ≤
      d.baseInfo.finalMessage.length + 511 * 15 := by
  unfold ConfigParser.candiscovery_boardsinvalid
  refine Nat.le_trans (foldl_counter_length (ConfigParser.boardsinvalidStep_length _ _ _) _ _) ?_
  rw [forRange_length]
  refine Nat.le_trans (Nat.add_le_add_right (append_snprintf_length d _) _) ?_
  omega

theorem ConfigParser.failed_candiscovery_length (b : Bool) (d : AuxEmbeddedInfo) :
    (ConfigParser.failed_candiscovery b d).baseInfo.finalMessage.length ≤
      d.baseInfo.finalMessage.length + 511 * 2 := by
  simp only [ConfigParser.failed_candiscovery]
  split <;>
    simp only [appendFinalMessage_finalMessage, List.length_append] <;>
    exact Nat.le_trans (length_two_pieces _ _ _) (by omega)

/-- A failure mask of four bits has no bit at position four or above. -/
theorem and_one_shiftLeft_eq_zero {a i : Nat} (ha : a < 16) (hi : 4 ≤ i) :
    a &&& (1 <<< i) = 0 := by
  apply Nat.eq_of_testBit_eq
  intro j
  rw [Nat.testBit_and, Nat.one_shiftLeft, Nat.testBit_two_pow, Nat.zero_testBit]
  by_cases hj : i = j
  · subst hj
    have : a < 2 ^ i := Nat.lt_of_lt_of_le ha
      (Nat.le_trans (by decide : 16 ≤ 2 ^ 4) (Nat.pow_le_pow_right (by decide) hi))
    rw [Nat.testBit_lt_two_pow this]
    rfl
  · simp [hj]

theorem ConfigParser.encodersStep_length (p : EntityNameProvider) (a b c e : Nat)
    (ha : a < 16) (hc : c < 16) (d : AuxEmbeddedInfo) (i : Nat) :
    (ConfigParser.encodersStep p a b c e d i).baseInfo.finalMessage.length ≤
      d.baseInfo.finalMessage.length + (if i < 4 then 511 * 2 else 0) := by
  by_cases hi : i < 4
  · simp only [ConfigParser.encodersStep, hi, if_true]
    split <;> split
    · simp only [appendFinalMessage_finalMessage, getAxisName_finalMessage, List.length_append]
      exact Nat.le_trans (length_two_pieces _ _ _) (by omega)
    · simp only [appendFinalMessage_finalMessage, getAxisName_finalMessage, List.length_append]
      exact Nat.le_trans (length_one_piece _ _) (by omega)
    · simp only [appendFinalMessage_finalMessage, getAxisName_finalMessage, List.length_append]
      exact Nat.le_trans (length_one_piece _ _) (by omega)
    · omega
  · have hi4 : 4 ≤ i := Nat.le_of_not_lt hi
    simp only [ConfigParser.encodersStep, and_one_shiftLeft_eq_zero ha hi4,
      and_one_shiftLeft_eq_zero hc hi4, hi, ne_eq, not_true_eq_false, if_false]
    exact Nat.le_refl _

theorem range_filter_lt_four (n : Nat) :
    ((List.range n).filter (fun i => decide (i < 4))).length ≤ min n 4 := by
  induction n with
  | zero => simp
  | succ n ih =>
    rw [List.range_succ, List.filter_append, List.length_append]
    by_cases h : n < 4
    · simp [h]; omega
    · simp [h]; omega

theorem foldl_length_lt_four {step : AuxEmbeddedInfo → Nat → AuxEmbeddedInfo}
    (hs : ∀ d i, (step d i).baseInfo.finalMessage.length ≤
      d.baseInfo.finalMessage.length + (if i < 4 then 511 * 2 else 0))
    (l : List Nat) (d : AuxEmbeddedInfo) :
    (l.foldl step d).baseInfo.finalMessage.length ≤
      d.baseInfo.finalMessage.length +
        511 * 2 * (l.filter (fun i => decide (i < 4))).length := by
  induction l generalizing d with
  | nil => exact Nat.le_refl _
  | cons i l ih =>
    have h1 := ih (step d i)
    have h2 := hs d i
    by_cases h : i < 4
    · simp only [List.foldl_cons, List.filter_cons, h, decide_True, if_true,
        List.length_cons] at h1 h2 ⊢
      omega
    · simp only [List.foldl_cons, List.filter_cons, h, decide_False, if_false,
        Bool.false_eq_true] at h1 h2 ⊢
      omega

theorem ConfigParser.encoders_length (p : EntityNameProvider) (d : AuxEmbeddedInfo) :
    (ConfigParser.encoders p d).baseInfo.finalMessage.length ≤
      d.baseInfo.finalMessage.length + 511 * 9 := by
  unfold ConfigParser.encoders
  have ha : (d.p16 &&& 0x000f) % 2 ^ 8 < 16 :=
    Nat.lt_of_le_of_lt (Nat.mod_le _ _) (Nat.lt_succ_of_le Nat.and_le_right)
  have hc : ((d.p16 &&& 0x00f0) >>> 4) % 2 ^ 8 < 16 := by
    refine Nat.lt_of_le_of_lt (Nat.mod_le _ _) ?_
    rw [Nat.shiftRight_eq_div_pow]
    have : d.p16 &&& 0x00f0 ≤ 0x00f0 := Nat.and_le_right
    omega
  refine Nat.le_trans (foldl_length_lt_four
    (fun e i => ConfigParser.encodersStep_length p _ _ _ _ ha hc e i) _ _) ?_
  have h4 := range_filter_lt_four (((d.p16 &&& 0xf000) >>> 12) % 2 ^ 8 - 0)
  have h5 : (forRange 0 (((d.p16 &&& 0xf000) >>> 12) % 2 ^ 8)).filter
      (fun i => decide (i < 4)) =
      (List.range (((d.p16 &&& 0xf000) >>> 12) % 2 ^ 8 - 0)).filter
        (fun i => decide (i < 4)) := by
    simp only [forRange, Nat.zero_add, List.map_id']
  rw [h5]
  refine Nat.le_trans (Nat.add_le_add_right (append_snprintf_length d _) _) ?_
  omega

set_option maxHeartbeats 1000000 in
theorem ConfigParser_dispatch_length_once (t : EoTables) (p : EntityNameProvider)
    (v : ValueCFG) (hv : v.appendsSeveral = false) (d : AuxEmbeddedInfo) :
    (ConfigParser.dispatch t p v d).baseInfo.finalMessage.length ≤
      d.baseInfo.finalMessage.length + 511 := by
  cases v
  case eoerror_value_CFG_candiscovery_boardsmissing => exact absurd hv (by decide)
  case eoerror_value_CFG_candiscovery_boardsinvalid => exact absurd hv (by decide)
  case eoerror_value_CFG_skin_failed_candiscovery => exact absurd hv (by decide)
  case eoerror_value_CFG_inertials_failed_candiscovery => exact absurd hv (by decide)
  case eoerror_value_CFG_inertials3_failed_candiscovery => exact absurd hv (by decide)
  case eoerror_value_CFG_temperatures_failed_candiscovery => exact absurd hv (by decide)
  case eoerror_value_CFG_encoders_ok => exact absurd hv (by decide)
  case eoerror_value_CFG_encoders_failed_verify => exact absurd hv (by decide)
  case EOERROR_VALUE_DUMMY =>
    refine Nat.le_trans (Nat.le_of_eq (congrArg List.length
      (appendFinalMessage_finalMessage d _))) ?_
    rw [List.length_append]
    exact Nat.add_le_add_left (by decide) _
  case unlisted =>
    exact Nat.le_trans (DefaultParser.parseInfo_length t d) (Nat.le_add_left _ _)
  all_goals exact append_snprintf_length d _

theorem ConfigParser_dispatch_length (t : EoTables) (p : EntityNameProvider)
    (v : ValueCFG) (d : AuxEmbeddedInfo) :
    (ConfigParser.dispatch t p v d).baseInfo.finalMessage.length ≤
      d.baseInfo.finalMessage.length + 511 * 15 := by
  by_cases hv : v.appendsSeveral = false
  · exact Nat.le_trans (ConfigParser_dispatch_length_once t p v hv d) (by omega)
  · cases v
    case neg.eoerror_value_CFG_candiscovery_boardsmissing =>
      exact ConfigParser.boardsmissing_length t d
    case neg.eoerror_value_CFG_candiscovery_boardsinvalid =>
      exact ConfigParser.boardsinvalid_length t d
    case neg.eoerror_value_CFG_skin_failed_candiscovery =>
      exact Nat.le_trans (ConfigParser.failed_candiscovery_length true d) (by omega)
    case neg.eoerror_value_CFG_inertials_failed_candiscovery =>
      exact Nat.le_trans (ConfigParser.failed_candiscovery_length false d) (by omega)
    case neg.eoerror_value_CFG_inertials3_failed_candiscovery =>
      exact Nat.le_trans (ConfigParser.failed_candiscovery_length false d) (by omega)
    case neg.eoerror_value_CFG_temperatures_failed_candiscovery =>
      exact Nat.le_trans (ConfigParser.failed_candiscovery_length false d) (by omega)
    case neg.eoerror_value_CFG_encoders_ok =>
      exact Nat.le_trans (ConfigParser.encoders_length p d) (by omega)
    case neg.eoerror_value_CFG_encoders_failed_verify =>
      exact Nat.le_trans (ConfigParser.encoders_length p d) (by omega)
    all_goals exact absurd rfl hv

set_option maxHeartbeats 1000000 in
theorem MotionControlParser_dispatch_length (t : EoTables) (p : EntityNameProvider) (v : ValueMC)
    (d : AuxEmbeddedInfo) :
    (MotionControlParser.dispatch t p v d).baseInfo.finalMessage.length ≤
      d.baseInfo.finalMessage.length + 511 := by
  cases v
  case EOERROR_VALUE_DUMMY =>
    refine Nat.le_trans (Nat.le_of_eq (congrArg List.length
      (appendFinalMessage_finalMessage d _))) ?_
    rw [List.length_append]
    exact Nat.add_le_add_left (by decide) _
  case unlisted =>
    exact Nat.le_trans (DefaultParser.parseInfo_length t d) (Nat.le_add_left _ _)
  all_goals exact append_snprintf_length d _

set_option maxHeartbeats 1000000 in
theorem SkinParser_dispatch_length (t : EoTables) (v : ValueSK)
    (d : AuxEmbeddedInfo) :
    (SkinParser.dispatch t v d).baseInfo.finalMessage.length ≤
      d.baseInfo.finalMessage.length + 511 := by
  cases v
  case EOERROR_VALUE_DUMMY =>
    refine Nat.le_trans (Nat.le_of_eq (congrArg List.length
      (appendFinalMessage_finalMessage d _))) ?_
    rw [List.length_append]
    exact Nat.add_le_add_left (by decide) _
  case unlisted =>
    exact Nat.le_trans (DefaultParser.parseInfo_length t d) (Nat.le_add_left _ _)
  all_goals exact append_snprintf_length d _

set_option maxHeartbeats 1000000 in
theorem HwErrorParser_dispatch_length (t : EoTables) (v : ValueHW)
    (d : AuxEmbeddedInfo) :
    (HwErrorParser.dispatch t v d).baseInfo.finalMessage.length ≤
      d.baseInfo.finalMessage.length + 511 := by
  cases v
  case EOERROR_VALUE_DUMMY =>
    refine Nat.le_trans (Nat.le_of_eq (congrArg List.length
      (appendFinalMessage_finalMessage d _))) ?_
    rw [List.length_append]
    exact Nat.add_le_add_left (by decide) _
  case unlisted =>
    exact Nat.le_trans (DefaultParser.parseInfo_length t d) (Nat.le_add_left _ _)
  all_goals exact append_snprintf_length d _

set_option maxHeartbeats 1000000 in
theorem SysParser_dispatch_length (t : EoTables) (v : ValueSYS)
    (d : AuxEmbeddedInfo) :
    (SysParser.dispatch t v d).baseInfo.finalMessage.length ≤
      d.baseInfo.finalMessage.length + 511 := by
  cases v
  case EOERROR_VALUE_DUMMY =>
    refine Nat.le_trans (Nat.le_of_eq (congrArg List.length
      (appendFinalMessage_finalMessage d _))) ?_
    rw [List.length_append]
    exact Nat.add_le_add_left (by decide) _
  case unlisted =>
    exact Nat.le_trans (DefaultParser.parseInfo_length t d) (Nat.le_add_left _ _)
  all_goals exact append_snprintf_length d _

set_option maxHeartbeats 1000000 in
theorem EthMonitorParser_dispatch_length (t : EoTables) (v : ValueETHMON)
    (d : AuxEmbeddedInfo) :
    (EthMonitorParser.dispatch t v d).baseInfo.finalMessage.length ≤
      d.baseInfo.finalMessage.length + 511 := by
  cases v
  case EOERROR_VALUE_DUMMY =>
    refine Nat.le_trans (Nat.le_of_eq (congrArg List.length
      (appendFinalMessage_finalMessage d _))) ?_
    rw [List.length_append]
    exact Nat.add_le_add_left (by decide) _
  case unlisted =>
    exact Nat.le_trans (DefaultParser.parseInfo_length t d) (Nat.le_add_left _ _)
  all_goals exact append_snprintf_length d _

set_option maxHeartbeats 1000000 in
theorem InertialSensorParser_dispatch_length (t : EoTables) (v : ValueIS)
    (d : AuxEmbeddedInfo) :
    (InertialSensorParser.dispatch t v d).baseInfo.finalMessage.length ≤
      d.baseInfo.finalMessage.length + 511 := by
  cases v
  case EOERROR_VALUE_DUMMY =>
    refine Nat.le_trans (Nat.le_of_eq (congrArg List.length
      (appendFinalMessage_finalMessage d _))) ?_
    rw [List.length_append]
    exact Nat.add_le_add_left (by decide) _
  case unlisted =>
    exact Nat.le_trans (DefaultParser.parseInfo_length t d) (Nat.le_add_left _ _)
  all_goals exact append_snprintf_length d _

set_option maxHeartbeats 1000000 in
theorem AnalogSensorParser_dispatch_length (t : EoTables) (v : ValueAS)
    (d : AuxEmbeddedInfo) :
    (AnalogSensorParser.dispatch t v d).baseInfo.finalMessage.length ≤
      d.baseInfo.finalMessage.length + 511 := by
  cases v
  case EOERROR_VALUE_DUMMY =>
    refine Nat.le_trans (Nat.le_of_eq (congrArg List.length
      (appendFinalMessage_finalMessage d _))) ?_
    rw [List.length_append]
    exact Nat.add_le_add_left (by decide) _
  case unlisted =>
    exact Nat.le_trans (DefaultParser.parseInfo_length t d) (Nat.le_add_left _ _)
  all_goals exact append_snprintf_length d _

/-! ### What each switch does on the sentinel and on unlisted values -/

theorem AuxEmbeddedInfo.ext_of {a b : AuxEmbeddedInfo} (h1 : a.readOnly = b.readOnly)
    (h2 : a.baseInfo.finalMessage = b.baseInfo.finalMessage)
    (h3 : a.baseInfo.axisName = b.baseInfo.axisName) : a = b := by
  obtain ⟨⟨ip, port, addr, ax, fm⟩, code, p16, p64, bm, em⟩ := a
  obtain ⟨⟨ip', port', addr', ax', fm'⟩, code', p16', p64', bm', em'⟩ := b
  simp only [AuxEmbeddedInfo.readOnly, Prod.mk.injEq] at h1
  simp only at h2 h3
  obtain ⟨rfl, rfl, rfl, rfl, rfl, rfl, rfl, rfl⟩ := h1
  subst h2 h3
  rfl

theorem clearFinalMessage_readOnly (d : AuxEmbeddedInfo) :
    d.clearFinalMessage.readOnly = d.readOnly := rfl

theorem clearFinalMessage_axisName (d : AuxEmbeddedInfo) :
    d.clearFinalMessage.baseInfo.axisName = d.baseInfo.axisName := rfl

theorem clearFinalMessage_finalMessage (d : AuxEmbeddedInfo) :
    d.clearFinalMessage.baseInfo.finalMessage = [] := rfl

theorem clearFinalMessage_withFinalMessage (d : AuxEmbeddedInfo) (m : Text) :
    (d.withFinalMessage m).clearFinalMessage = d.clearFinalMessage := rfl

theorem readOnly_code {d d' : AuxEmbeddedInfo} (h : d.readOnly = d'.readOnly) :
    d.code = d'.code := by
  have h2 : d.errorCode = d'.errorCode := congrArg (fun x => x.1) h
  simp only [AuxEmbeddedInfo.code, h2]

theorem DefaultParser.parseInfo_clear (t : EoTables) (d : AuxEmbeddedInfo) :
    DefaultParser.parseInfo t d.clearFinalMessage = DefaultParser.parseInfo t d := by
  rw [DefaultParser.parseInfo_eq, DefaultParser.parseInfo_eq,
    DefaultParser.parseInfoText_readOnly t _ d (clearFinalMessage_readOnly d)]
  rfl

/-- The parser of category `c` is its switch run on the cleared event; `h` is the switch
with the value of the event already resolved. -/
theorem parseInfoOf_eq_switch (c : Category) (t : EoTables) (p : EntityNameProvider)
    (code : Nat) :
    ∃ h : AuxEmbeddedInfo → AuxEmbeddedInfo,
      (∀ d, d.code = code → parseInfoOf c t p d = h d.clearFinalMessage) ∧
      (∀ d, (h d).readOnly = d.readOnly) ∧
      DependsOn AuxEmbeddedInfo.readOnly h ∧ AxisStable h ∧
      (∀ d, (h d).baseInfo.finalMessage.length ≤ d.baseInfo.finalMessage.length + 511 * 15) := by
  cases c
  · exact ⟨ConfigParser.dispatch t p (t.valueCFG (t.eoerror_code2value code)),
      fun d hd => by subst hd; rfl, ConfigParser_dispatch_frame t p _,
      ConfigParser_dispatch_readOnly t p _, ConfigParser_dispatch_axisStable t p _,
      ConfigParser_dispatch_length t p _⟩
  · exact ⟨MotionControlParser.dispatch t p (t.valueMC (t.eoerror_code2value code)),
      fun d hd => by subst hd; rfl, MotionControlParser_dispatch_frame t p _,
      MotionControlParser_dispatch_readOnly t p _, MotionControlParser_dispatch_axisStable t p _,
      fun d => Nat.le_trans (MotionControlParser_dispatch_length t p _ d) (by omega)⟩
  · exact ⟨SkinParser.dispatch t (t.valueSK (t.eoerror_code2value code)),
      fun d hd => by subst hd; rfl, SkinParser_dispatch_frame t _,
      SkinParser_dispatch_readOnly t _, SkinParser_dispatch_axisStable t _,
      fun d => Nat.le_trans (SkinParser_dispatch_length t _ d) (by omega)⟩
  · exact ⟨HwErrorParser.dispatch t (t.valueHW (t.eoerror_code2value code)),
      fun d hd => by subst hd; rfl, HwErrorParser_dispatch_frame t _,
      HwErrorParser_dispatch_readOnly t _, HwErrorParser_dispatch_axisStable t _,
      fun d => Nat.le_trans (HwErrorParser_dispatch_length t _ d) (by omega)⟩
  · exact ⟨SysParser.dispatch t (t.valueSYS (t.eoerror_code2value code)),
      fun d hd => by subst hd; rfl, SysParser_dispatch_frame t _,
      SysParser_dispatch_readOnly t _, SysParser_dispatch_axisStable t _,
      fun d => Nat.le_trans (SysParser_dispatch_length t _ d) (by omega)⟩
  · exact ⟨EthMonitorParser.dispatch t (t.valueETHMON (t.eoerror_code2value code)),
      fun d hd => by subst hd; rfl, EthMonitorParser_dispatch_frame t _,
      EthMonitorParser_dispatch_readOnly t _, EthMonitorParser_dispatch_axisStable t _,
      fun d => Nat.le_trans (EthMonitorParser_dispatch_length t _ d) (by omega)⟩
  · exact ⟨InertialSensorParser.dispatch t (t.valueIS (t.eoerror_code2value code)),
      fun d hd => by subst hd; rfl, InertialSensorParser_dispatch_frame t _,
      InertialSensorParser_dispatch_readOnly t _, InertialSensorParser_dispatch_axisStable t _,
      fun d => Nat.le_trans (InertialSensorParser_dispatch_length t _ d) (by omega)⟩
  · exact ⟨AnalogSensorParser.dispatch t (t.valueAS (t.eoerror_code2value code)),
      fun d hd => by subst hd; rfl, AnalogSensorParser_dispatch_frame t _,
      AnalogSensorParser_dispatch_readOnly t _, AnalogSensorParser_dispatch_axisStable t _,
      fun d => Nat.le_trans (AnalogSensorParser_dispatch_length t _ d) (by omega)⟩

/-! ### Hexadecimal numerals -/

theorem toDigitsCore_append (b : Nat) (fuel n : Nat) (ds : List Char) :
    Nat.toDigitsCore b fuel n ds = Nat.toDigitsCore b fuel n [] ++ ds := by
  induction fuel generalizing n ds with
  | zero => rfl
  | succ f ih =>
    simp only [Nat.toDigitsCore]
    split
    · rfl
    · rw [ih (n / b) (Nat.digitChar (n % b) :: ds), ih (n / b) [Nat.digitChar (n % b)],
        List.append_assoc]
      rfl

theorem toDigitsCore_fuel (b : Nat) (hb : 2 ≤ b) (f1 f2 n : Nat) (h1 : n < f1) (h2 : n < f2) :
    Nat.toDigitsCore b f1 n [] = Nat.toDigitsCore b f2 n [] := by
  induction f1 generalizing f2 n with
  | zero => exact absurd h1 (Nat.not_lt_zero _)
  | succ f ih =>
    cases f2 with
    | zero => exact absurd h2 (Nat.not_lt_zero _)
    | succ g =>
      simp only [Nat.toDigitsCore]
      split
      · rfl
      · rename_i hn
        have hlt : n / b < n := Nat.div_lt_self (by
          rcases Nat.eq_zero_or_pos n with h0 | h0
          · subst h0; simp at hn
          · exact h0) hb
        rw [toDigitsCore_append b f, toDigitsCore_append b g,
          ih g (n / b) (by omega) (by omega)]

theorem toDigits_lt (b : Nat) (n : Nat) (h : n < b) :
    Nat.toDigits b n = [Nat.digitChar n] := by
  simp only [Nat.toDigits, Nat.toDigitsCore, Nat.div_eq_of_lt h, Nat.mod_eq_of_lt h, if_true]

theorem toDigits_ge (b : Nat) (hb : 2 ≤ b) (n : Nat) (h : b ≤ n) :
    Nat.toDigits b n = Nat.toDigits b (n / b) ++ [Nat.digitChar (n % b)] := by
  have hpos : 0 < n / b := Nat.div_pos h (by omega)
  have hlt : n / b < n := Nat.div_lt_self (by omega) hb
  have e1 : Nat.toDigits b n =
      if n / b = 0 then [Nat.digitChar (n % b)]
      else Nat.toDigitsCore b n (n / b) [Nat.digitChar (n % b)] := rfl
  have e2 : Nat.toDigits b (n / b) = Nat.toDigitsCore b (n / b + 1) (n / b) [] := rfl
  rw [e1, e2, if_neg (by omega), toDigitsCore_append,
    toDigitsCore_fuel b hb n (n / b + 1) (n / b) hlt (Nat.lt_succ_self _)]

theorem hexNumeral_length (w n : Nat) : (hexNumeral w n).length = w := by
  induction w generalizing n with
  | zero => rfl
  | succ w ih => simp only [hexNumeral, List.length_append, ih, List.length_singleton]

theorem hexNumeral_zero (w : Nat) : hexNumeral w 0 = List.replicate w '0' := by
  induction w with
  | zero => rfl
  | succ w ih =>
    simp only [hexNumeral, Nat.zero_div, Nat.zero_mod, ih]
    rw [List.replicate_succ']
    rfl

/-- Conversion `%.<w>x` of a value that fits `w` digits prints exactly the `w`-digit
zero-padded numeral. -/
theorem fmt_x_prec_eq_hexNumeral (w n : Nat) (h : n < 16 ^ (w + 1)) :
    fmt_x_prec (w + 1) n = hexNumeral (w + 1) n := by
  induction w generalizing n with
  | zero =>
    have h16 : n < 16 := by simpa using h
    simp only [fmt_x_prec, toDigits_lt 16 n h16, hexNumeral, Nat.mod_eq_of_lt h16]
    rfl
  | succ w ih =>
    by_cases h16 : n < 16
    · simp only [fmt_x_prec, toDigits_lt 16 n h16]
      rw [hexNumeral, Nat.div_eq_of_lt h16, Nat.mod_eq_of_lt h16, hexNumeral_zero]
      rfl
    · have hge : 16 ≤ n := Nat.le_of_not_lt h16
      have hq : n / 16 < 16 ^ (w + 1) := by
        rw [Nat.div_lt_iff_lt_mul (by decide)]
        rw [Nat.pow_succ] at h
        exact h
      have ih' := ih (n / 16) hq
      simp only [fmt_x_prec] at ih' ⊢
      rw [toDigits_ge 16 (by decide) n hge, hexNumeral, ← ih', List.length_append,
        List.length_singleton, Nat.add_sub_add_right, List.append_assoc]

theorem byte_eq_div_mod (n k : Nat) : (n >>> (8 * k)) &&& 0xff = n / 2 ^ (8 * k) % 256 := by
  rw [Nat.shiftRight_eq_div_pow]
  exact Nat.and_pow_two_sub_one_eq_mod _ 8

theorem fmt_x_prec_byte (b : Nat) :
    fmt_x_prec 2 (b % 256) = [Nat.digitChar (b % 256 / 16), Nat.digitChar (b % 16)] := by
  rw [fmt_x_prec_eq_hexNumeral 1 (b % 256) (Nat.mod_lt _ (by decide))]
  have h1 : b % 256 / 16 % 16 = b % 256 / 16 := Nat.mod_eq_of_lt (by omega)
  have h2 : b % 256 % 16 = b % 16 := by omega
  simp only [hexNumeral, List.nil_append, List.singleton_append, h1, h2]

/-- The eight bytes of a 64-bit word, printed most significant first with two digits
each, spell the 16-digit numeral of the word. -/
theorem bytes_spell_hexNumeral (n : Nat) :
    fmt_x_prec 2 ((n >>> (8 * 7)) &&& 0xff) ++ fmt_x_prec 2 ((n >>> (8 * 6)) &&& 0xff) ++
      fmt_x_prec 2 ((n >>> (8 * 5)) &&& 0xff) ++ fmt_x_prec 2 ((n >>> (8 * 4)) &&& 0xff) ++
      fmt_x_prec 2 ((n >>> (8 * 3)) &&& 0xff) ++ fmt_x_prec 2 ((n >>> (8 * 2)) &&& 0xff) ++
      fmt_x_prec 2 ((n >>> (8 * 1)) &&& 0xff) ++ fmt_x_prec 2 ((n >>> (8 * 0)) &&& 0xff) =
    hexNumeral 16 n := by
  simp only [byte_eq_div_mod, fmt_x_prec_byte, hexNumeral, List.nil_append,
    List.singleton_append, List.cons_append, List.append_assoc]
  have e : ∀ a b : Nat, a = b → Nat.digitChar a = Nat.digitChar b := fun _ _ h => by rw [h]
  repeat' apply congrArg₂
  all_goals first | rfl | (apply e; omega)

theorem ConfigParser_dispatch_default (t : EoTables) (p : EntityNameProvider) (v : ValueCFG)
    (hk : v.kind = CaseKind.default) (d : AuxEmbeddedInfo) :
    ConfigParser.dispatch t p v d = DefaultParser.parseInfo t d := by
  cases v <;> first | exact absurd hk (by decide) | rfl

theorem MotionControlParser_dispatch_default (t : EoTables) (p : EntityNameProvider)
    (v : ValueMC) (hk : v.kind = CaseKind.default) (d : AuxEmbeddedInfo) :
    MotionControlParser.dispatch t p v d = DefaultParser.parseInfo t d := by
  cases v <;> first | exact absurd hk (by decide) | rfl

theorem SkinParser_dispatch_default (t : EoTables) (v : ValueSK)
    (hk : v.kind = CaseKind.default) (d : AuxEmbeddedInfo) :
    SkinParser.dispatch t v d = DefaultParser.parseInfo t d := by
  cases v <;> first | exact absurd hk (by decide) | rfl

theorem HwErrorParser_dispatch_default (t : EoTables) (v : ValueHW)
    (hk : v.kind = CaseKind.default) (d : AuxEmbeddedInfo) :
    HwErrorParser.dispatch t v d = DefaultParser.parseInfo t d := by
  cases v <;> first | exact absurd hk (by decide) | rfl

theorem SysParser_dispatch_default (t : EoTables) (v : ValueSYS)
    (hk : v.kind = CaseKind.default) (d : AuxEmbeddedInfo) :
    SysParser.dispatch t v d = DefaultParser.parseInfo t d := by
  cases v <;> first | exact absurd hk (by decide) | rfl

theorem EthMonitorParser_dispatch_default (t : EoTables) (v : ValueETHMON)
    (hk : v.kind = CaseKind.default) (d : AuxEmbeddedInfo) :
    EthMonitorParser.dispatch t v d = DefaultParser.parseInfo t d := by
  cases v <;> first | exact absurd hk (by decide) | rfl

theorem InertialSensorParser_dispatch_default (t : EoTables) (v : ValueIS)
    (hk : v.kind = CaseKind.default) (d : AuxEmbeddedInfo) :
    InertialSensorParser.dispatch t v d = DefaultParser.parseInfo t d := by
  cases v <;> first | exact absurd hk (by decide) | rfl

theorem AnalogSensorParser_dispatch_default (t : EoTables) (v : ValueAS)
    (hk : v.kind = CaseKind.default) (d : AuxEmbeddedInfo) :
    AnalogSensorParser.dispatch t v d = DefaultParser.parseInfo t d := by
  cases v <;> first | exact absurd hk (by decide) | rfl

/-! ## The claims -/

/-- C1: in each of the eight category parsers, an event whose value reaches `default:`
(neither a case label nor `EOERROR_VALUE_DUMMY`) is left by `parseInfo` exactly as
`DefaultParser::parseInfo` leaves the same event, in particular with the same
`finalMessage`. -/
theorem C1_default_case_is_generic_formatter (c : Category) (t : EoTables)
    (p : EntityNameProvider) (d : AuxEmbeddedInfo) (h : caseKind c t d = CaseKind.default) :
    (parseInfoOf c t p d).baseInfo.finalMessage =
        (DefaultParser.parseInfo t d).baseInfo.finalMessage ∧
      parseInfoOf c t p d = DefaultParser.parseInfo t d := by
  have key : parseInfoOf c t p d = DefaultParser.parseInfo t d := by
    rw [← DefaultParser.parseInfo_clear t d]
    cases c
    · exact ConfigParser_dispatch_default t p _ h _
    · exact MotionControlParser_dispatch_default t p _ h _
    · exact SkinParser_dispatch_default t _ h _
    · exact HwErrorParser_dispatch_default t _ h _
    · exact SysParser_dispatch_default t _ h _
    · exact EthMonitorParser_dispatch_default t _ h _
    · exact InertialSensorParser_dispatch_default t _ h _
    · exact AnalogSensorParser_dispatch_default t _ h _
  exact ⟨congrArg (fun e => e.baseInfo.finalMessage) key, key⟩

/-- Witness of C1: a Skin event with an unlisted value. -/
theorem C1_default_case_is_generic_formatter_witness :
    caseKind Category.Skin tablesUnlisted (sampleEvent 0x04000063 7 9 "SK: ?") =
        CaseKind.default ∧
      (parseInfoOf Category.Skin tablesUnlisted noNames
          (sampleEvent 0x04000063 7 9 "SK: ?")).baseInfo.finalMessage =
        (DefaultParser.parseInfo tablesUnlisted
          (sampleEvent 0x04000063 7 9 "SK: ?")).baseInfo.finalMessage :=
  ⟨by decide, (C1_default_case_is_generic_formatter Category.Skin tablesUnlisted noNames
    (sampleEvent 0x04000063 7 9 "SK: ?") (by decide)).1⟩

set_option maxRecDepth 100000 in
/-- C2, refuted as stated: a report of fourteen missing boards, whose block appends a
header and one entry per board, leaves a `finalMessage` of 687 bytes. -/
theorem C2_counterexample :
    ¬ ((parseInfoOf Category.Config
        (tablesCFG ValueCFG.eoerror_value_CFG_candiscovery_boardsmissing) noNames
        (sampleEvent 0 0x0b0e 0x7ffe
          "CFG: can discovery boards missing.")).baseInfo.finalMessage.length ≤ 511) := by
  decide

/-- C2 (amended): every piece a parser appends is cut to 511 bytes, so `finalMessage` is
at most 511 bytes for every block that appends once, which is every block but those of
the Config values `candiscovery_boardsmissing`, `candiscovery_boardsinvalid`,
`*_failed_candiscovery` and `encoders_ok` / `encoders_failed_verify`; for every parser
and event it is at most 15 * 511 bytes. -/
theorem C2_finalMessage_length_bound (c : Category) (t : EoTables) (p : EntityNameProvider)
    (d : AuxEmbeddedInfo) :
    (parseInfoOf c t p d).baseInfo.finalMessage.length ≤ 15 * 511 ∧
      (appendsSeveral c t d = false →
        (parseInfoOf c t p d).baseInfo.finalMessage.length ≤ 511) := by
  constructor
  · obtain ⟨h, h1, _, _, _, h5⟩ := parseInfoOf_eq_switch c t p d.code
    rw [h1 d rfl]
    have := h5 d.clearFinalMessage
    rw [clearFinalMessage_finalMessage] at this
    simpa [Nat.mul_comm] using this
  · intro hs
    cases c
    · have := ConfigParser_dispatch_length_once t p _ hs d.clearFinalMessage
      rw [clearFinalMessage_finalMessage] at this
      simpa using this
    · have := MotionControlParser_dispatch_length t p
        (t.valueMC (t.eoerror_code2value d.code)) d.clearFinalMessage
      rw [clearFinalMessage_finalMessage] at this
      simpa using this
    · have := SkinParser_dispatch_length t
        (t.valueSK (t.eoerror_code2value d.code)) d.clearFinalMessage
      rw [clearFinalMessage_finalMessage] at this
      simpa using this
    · have := HwErrorParser_dispatch_length t
        (t.valueHW (t.eoerror_code2value d.code)) d.clearFinalMessage
      rw [clearFinalMessage_finalMessage] at this
      simpa using this
    · have := SysParser_dispatch_length t
        (t.valueSYS (t.eoerror_code2value d.code)) d.clearFinalMessage
      rw [clearFinalMessage_finalMessage] at this
      simpa using this
    · have := EthMonitorParser_dispatch_length t
        (t.valueETHMON (t.eoerror_code2value d.code)) d.clearFinalMessage
      rw [clearFinalMessage_finalMessage] at this
      simpa using this
    · have := InertialSensorParser_dispatch_length t
        (t.valueIS (t.eoerror_code2value d.code)) d.clearFinalMessage
      rw [clearFinalMessage_finalMessage] at this
      simpa using this
    · have := AnalogSensorParser_dispatch_length t
        (t.valueAS (t.eoerror_code2value d.code)) d.clearFinalMessage
      rw [clearFinalMessage_finalMessage] at this
      simpa using this

/-- Witness of C2 (amended): a Config event whose block appends once. -/
theorem C2_finalMessage_length_bound_witness :
    appendsSeveral Category.Config (tablesCFG ValueCFG.eoerror_value_CFG_skin_ok)
        (sampleEvent 0 2 0x0006000c01020304 "CFG: skin ok") = false ∧
      (parseInfoOf Category.Config (tablesCFG ValueCFG.eoerror_value_CFG_skin_ok) noNames
        (sampleEvent 0 2 0x0006000c01020304 "CFG: skin ok")).baseInfo.finalMessage.length
        ≤ 511 :=
  ⟨by decide, (C2_finalMessage_length_bound Category.Config
    (tablesCFG ValueCFG.eoerror_value_CFG_skin_ok) noNames
    (sampleEvent 0 2 0x0006000c01020304 "CFG: skin ok")).2 (by decide)⟩

/-- C3: for each category parser and for `DefaultParser::parseInfo`, two events that
differ only in the `finalMessage` they hold before the call end with the same
`finalMessage`. -/
theorem C3_finalMessage_independent_of_previous (c : Category) (t : EoTables)
    (p : EntityNameProvider) (d : AuxEmbeddedInfo) (m1 m2 : Text) :
    (parseInfoOf c t p (d.withFinalMessage m1)).baseInfo.finalMessage =
        (parseInfoOf c t p (d.withFinalMessage m2)).baseInfo.finalMessage ∧
      (DefaultParser.parseInfo t (d.withFinalMessage m1)).baseInfo.finalMessage =
        (DefaultParser.parseInfo t (d.withFinalMessage m2)).baseInfo.finalMessage := by
  constructor
  · obtain ⟨h, h1, _, _, _, _⟩ := parseInfoOf_eq_switch c t p d.code
    rw [h1 (d.withFinalMessage m1) rfl, h1 (d.withFinalMessage m2) rfl,
      clearFinalMessage_withFinalMessage, clearFinalMessage_withFinalMessage]
  · rw [← DefaultParser.parseInfo_clear t (d.withFinalMessage m1),
      ← DefaultParser.parseInfo_clear t (d.withFinalMessage m2),
      clearFinalMessage_withFinalMessage, clearFinalMessage_withFinalMessage]

/-- C4: for every category parser and every event, `parseInfo` leaves `errorCode`,
`param16`, `param64`, `baseMessage` and `extraMessage` unchanged, and the source labels
and address too: only `finalMessage` and the axis-name cache may differ after the call. -/
theorem C4_parseInfo_keeps_inputs (c : Category) (t : EoTables) (p : EntityNameProvider)
    (d : AuxEmbeddedInfo) :
    (parseInfoOf c t p d).errorCode = d.errorCode ∧
    (parseInfoOf c t p d).param16 = d.param16 ∧
    (parseInfoOf c t p d).param64 = d.param64 ∧
    (parseInfoOf c t p d).baseMessage = d.baseMessage ∧
    (parseInfoOf c t p d).extraMessage = d.extraMessage ∧
    (parseInfoOf c t p d).baseInfo.sourceBoardIpAddrStr = d.baseInfo.sourceBoardIpAddrStr ∧
    (parseInfoOf c t p d).baseInfo.sourceCANPortStr = d.baseInfo.sourceCANPortStr ∧
    (parseInfoOf c t p d).baseInfo.sourceCANBoardAddr = d.baseInfo.sourceCANBoardAddr := by
  obtain ⟨h, h1, h2, _, _, _⟩ := parseInfoOf_eq_switch c t p d.code
  have h3 : (parseInfoOf c t p d).readOnly = d.readOnly := by
    rw [h1 d rfl, h2, clearFinalMessage_readOnly]
  simpa only [AuxEmbeddedInfo.readOnly, Prod.mk.injEq] using h3

/-- C5: for every category parser, event and resolver, running `parseInfo` again on the
event left by a first `parseInfo` leaves the same `finalMessage` and the same axis-name
cache as the first run; the whole event is the same. -/
theorem C5_parseInfo_twice (c : Category) (t : EoTables) (p : EntityNameProvider)
    (d : AuxEmbeddedInfo) :
    (parseInfoOf c t p (parseInfoOf c t p d)).baseInfo.finalMessage =
        (parseInfoOf c t p d).baseInfo.finalMessage ∧
    (parseInfoOf c t p (parseInfoOf c t p d)).baseInfo.axisName =
        (parseInfoOf c t p d).baseInfo.axisName ∧
    parseInfoOf c t p (parseInfoOf c t p d) = parseInfoOf c t p d := by
  obtain ⟨h, h1, h2, h3, h4, _⟩ := parseInfoOf_eq_switch c t p d.code
  have hr : (parseInfoOf c t p d).readOnly = d.readOnly := by
    rw [h1 d rfl, h2, clearFinalMessage_readOnly]
  have hc : (parseInfoOf c t p d).code = d.code := readOnly_code hr
  have e1 : parseInfoOf c t p (parseInfoOf c t p d) =
      h (h d.clearFinalMessage).clearFinalMessage := by
    rw [h1 _ hc, h1 d rfl]
  have e2 : parseInfoOf c t p d = h d.clearFinalMessage := h1 d rfl
  have hro : (h d.clearFinalMessage).clearFinalMessage.readOnly = d.clearFinalMessage.readOnly :=
    (clearFinalMessage_readOnly _).trans (h2 _)
  have key : h (h d.clearFinalMessage).clearFinalMessage = h d.clearFinalMessage := by
    apply AuxEmbeddedInfo.ext_of
    · rw [h2, h2, clearFinalMessage_readOnly, h2]
    · exact h3.final _ _ hro rfl
    · rcases h4 _ _ hro with ⟨h5, _⟩ | h7
      · rw [h5, clearFinalMessage_axisName]
      · exact h7
  rw [e1, key, ← e2]
  exact ⟨rfl, rfl, rfl⟩

theorem ConfigParser_dispatch_dummy (t : EoTables) (p : EntityNameProvider) (v : ValueCFG)
    (hk : v.kind = CaseKind.dummy) (d : AuxEmbeddedInfo) :
    ConfigParser.dispatch t p v d = d.appendFinalMessage (dummyMessage Category.Config) := by
  cases v <;> first | exact absurd hk (by decide) | rfl

theorem MotionControlParser_dispatch_dummy (t : EoTables) (p : EntityNameProvider)
    (v : ValueMC) (hk : v.kind = CaseKind.dummy) (d : AuxEmbeddedInfo) :
    MotionControlParser.dispatch t p v d =
      d.appendFinalMessage (dummyMessage Category.MotionControl) := by
  cases v <;> first | exact absurd hk (by decide) | rfl

theorem SkinParser_dispatch_dummy (t : EoTables) (v : ValueSK)
    (hk : v.kind = CaseKind.dummy) (d : AuxEmbeddedInfo) :
    SkinParser.dispatch t v d = d.appendFinalMessage (dummyMessage Category.Skin) := by
  cases v <;> first | exact absurd hk (by decide) | rfl

theorem HwErrorParser_dispatch_dummy (t : EoTables) (v : ValueHW)
    (hk : v.kind = CaseKind.dummy) (d : AuxEmbeddedInfo) :
    HwErrorParser.dispatch t v d = d.appendFinalMessage (dummyMessage Category.HardWare) := by
  cases v <;> first | exact absurd hk (by decide) | rfl

theorem SysParser_dispatch_dummy (t : EoTables) (v : ValueSYS)
    (hk : v.kind = CaseKind.dummy) (d : AuxEmbeddedInfo) :
    SysParser.dispatch t v d = d.appendFinalMessage (dummyMessage Category.Sys) := by
  cases v <;> first | exact absurd hk (by decide) | rfl

theorem EthMonitorParser_dispatch_dummy (t : EoTables) (v : ValueETHMON)
    (hk : v.kind = CaseKind.dummy) (d : AuxEmbeddedInfo) :
    EthMonitorParser.dispatch t v d =
      d.appendFinalMessage (dummyMessage Category.EthMonitor) := by
  cases v <;> first | exact absurd hk (by decide) | rfl

theorem InertialSensorParser_dispatch_dummy (t : EoTables) (v : ValueIS)
    (hk : v.kind = CaseKind.dummy) (d : AuxEmbeddedInfo) :
    InertialSensorParser.dispatch t v d =
      d.appendFinalMessage (dummyMessage Category.InertialSensor) := by
  cases v <;> first | exact absurd hk (by decide) | rfl

theorem AnalogSensorParser_dispatch_dummy (t : EoTables) (v : ValueAS)
    (hk : v.kind = CaseKind.dummy) (d : AuxEmbeddedInfo) :
    AnalogSensorParser.dispatch t v d =
      d.appendFinalMessage (dummyMessage Category.AnalogSensor) := by
  cases v <;> first | exact absurd hk (by decide) | rfl

theorem parseInfoOf_dummy (c : Category) (t : EoTables) (p : EntityNameProvider)
    (d : AuxEmbeddedInfo) (h : caseKind c t d = CaseKind.dummy) :
    (parseInfoOf c t p d).baseInfo.finalMessage = dummyMessage c := by
  have key : parseInfoOf c t p d = d.clearFinalMessage.appendFinalMessage (dummyMessage c) := by
    cases c
    · exact ConfigParser_dispatch_dummy t p _ h _
    · exact MotionControlParser_dispatch_dummy t p _ h _
    · exact SkinParser_dispatch_dummy t _ h _
    · exact HwErrorParser_dispatch_dummy t _ h _
    · exact SysParser_dispatch_dummy t _ h _
    · exact EthMonitorParser_dispatch_dummy t _ h _
    · exact InertialSensorParser_dispatch_dummy t _ h _
    · exact AnalogSensorParser_dispatch_dummy t _ h _
  rw [key, appendFinalMessage_finalMessage, clearFinalMessage_finalMessage, List.nil_append]

/-- C6, the code at the failing input: on `EOERROR_VALUE_DUMMY` the Sys, EthMonitor,
InertialSensor and AnalogSensor parsers all leave the message of the HardWare parser,
which names `eoerror_category_HardWare` and not their own category. -/
theorem C6_sentinel_names_HardWare :
    (parseInfoOf Category.Sys tablesDummy noNames
        (sampleEvent 0 0 0 "SYS")).baseInfo.finalMessage =
      lit ": unrecognised eoerror_category_HardWare error value." ∧
    (parseInfoOf Category.EthMonitor tablesDummy noNames
        (sampleEvent 0 0 0 "ETHMON")).baseInfo.finalMessage =
      lit ": unrecognised eoerror_category_HardWare error value." ∧
    (parseInfoOf Category.InertialSensor tablesDummy noNames
        (sampleEvent 0 0 0 "IS")).baseInfo.finalMessage =
      lit ": unrecognised eoerror_category_HardWare error value." ∧
    (parseInfoOf Category.AnalogSensor tablesDummy noNames
        (sampleEvent 0 0 0 "AS")).baseInfo.finalMessage =
      lit ": unrecognised eoerror_category_HardWare error value." ∧
    (parseInfoOf Category.HardWare tablesDummy noNames
        (sampleEvent 0 0 0 "HW")).baseInfo.finalMessage =
      lit ": unrecognised eoerror_category_HardWare error value." := by
  decide

/-- C7: for each category parser, when the value of the event is `EOERROR_VALUE_DUMMY`
the resulting `finalMessage` is one fixed string of that parser, the same for every
`param16`, `param64`, `baseMessage`, `extraMessage`, source context, table and resolver. -/
theorem C7_sentinel_message_ignores_payload (c : Category) (t1 t2 : EoTables)
    (p1 p2 : EntityNameProvider) (d1 d2 : AuxEmbeddedInfo)
    (h1 : caseKind c t1 d1 = CaseKind.dummy) (h2 : caseKind c t2 d2 = CaseKind.dummy) :
    (parseInfoOf c t1 p1 d1).baseInfo.finalMessage =
        (parseInfoOf c t2 p2 d2).baseInfo.finalMessage ∧
      (parseInfoOf c t1 p1 d1).baseInfo.finalMessage = dummyMessage c := by
  rw [parseInfoOf_dummy c t1 p1 d1 h1, parseInfoOf_dummy c t2 p2 d2 h2]
  exact ⟨rfl, rfl⟩

/-- Witness of C7: two Config events with different payloads and contexts. -/
theorem C7_sentinel_message_ignores_payload_witness :
    caseKind Category.Config tablesDummy (sampleEvent 1 2 3 "CFG: a") = CaseKind.dummy ∧
    caseKind Category.Config tablesDummy (sampleEventCAN2 4 5 6 "CFG: b") = CaseKind.dummy ∧
    (parseInfoOf Category.Config tablesDummy noNames
        (sampleEvent 1 2 3 "CFG: a")).baseInfo.finalMessage =
      (parseInfoOf Category.Config tablesDummy noNames
        (sampleEventCAN2 4 5 6 "CFG: b")).baseInfo.finalMessage :=
  ⟨by decide, by decide,
    (C7_sentinel_message_ignores_payload Category.Config tablesDummy tablesDummy noNames
      noNames (sampleEvent 1 2 3 "CFG: a") (sampleEventCAN2 4 5 6 "CFG: b")
      (by decide) (by decide)).1⟩

/-- C8: the generic formatter prints, after `par64 0x`, the eight bytes of `param64`
from byte 7 down to byte 0 (byte `k` being `(param64 >> 8k) & 0xff`), two lowercase
hexadecimal digits each; these 16 digits are the zero-padded hexadecimal numeral of
`param64`, which is also what `%.16lx` prints; `errorCode` is printed as exactly 8
hexadecimal digits and `param16` as exactly 4. -/
theorem C8_generic_formatter_hex_fields (t : EoTables) (d : AuxEmbeddedInfo) :
    (DefaultParser.parseInfo t d).baseInfo.finalMessage =
      snprintf 512 (
        lit " src " ++ c_str d.baseInfo.sourceCANPortStr ++
        lit ", adr " ++ fmt_d (Int.ofNat d.baseInfo.sourceCANBoardAddr) ++
        lit ",(code 0x" ++ hexNumeral 8 d.code ++
        lit ", par16 0x" ++ hexNumeral 4 d.p16 ++
        lit " par64 0x" ++ hexNumeral 16 d.p64 ++
        lit ") -> " ++ c_str (t.eoerror_code2string d.code) ++
        lit " " ++ c_str (t.eoerror_code2rulesstring d.code) ++
        lit " " ++ c_str d.extraMessage) ∧
    (∀ k, p64byte d k = (d.p64 >>> (8 * k)) &&& 0xff) ∧
    fmt_x_prec 2 (p64byte d 7) ++ fmt_x_prec 2 (p64byte d 6) ++ fmt_x_prec 2 (p64byte d 5) ++
      fmt_x_prec 2 (p64byte d 4) ++ fmt_x_prec 2 (p64byte d 3) ++ fmt_x_prec 2 (p64byte d 2) ++
      fmt_x_prec 2 (p64byte d 1) ++ fmt_x_prec 2 (p64byte d 0) = hexNumeral 16 d.p64 ∧
    fmt_x_prec 16 d.p64 = hexNumeral 16 d.p64 ∧
    (hexNumeral 16 d.p64).length = 16 ∧
    (hexNumeral 8 d.code).length = 8 ∧
    (hexNumeral 4 d.p16).length = 4 := by
  have hcode : fmt_x_prec 8 d.code = hexNumeral 8 d.code :=
    fmt_x_prec_eq_hexNumeral 7 d.code (Nat.mod_lt _ (by decide))
  have hp16 : fmt_x_prec 4 d.p16 = hexNumeral 4 d.p16 :=
    fmt_x_prec_eq_hexNumeral 3 d.p16 (Nat.mod_lt _ (by decide))
  have hp64 : fmt_x_prec 16 d.p64 = hexNumeral 16 d.p64 :=
    fmt_x_prec_eq_hexNumeral 15 d.p64 (Nat.mod_lt _ (by decide))
  have hbytes := bytes_spell_hexNumeral d.p64
  refine ⟨?_, fun _ => rfl, hbytes, hp64, hexNumeral_length _ _, hexNumeral_length _ _,
    hexNumeral_length _ _⟩
  rw [DefaultParser.parseInfo_eq, withFinalMessage_finalMessage, ← hbytes, ← hcode, ← hp16]
  simp only [DefaultParser.parseInfoText, p64byte, List.append_assoc]

theorem DefaultParser.parseInfoText_withBaseMessage (t : EoTables) (d : AuxEmbeddedInfo)
    (m : Text) :
    DefaultParser.parseInfoText t (d.withBaseMessage m) = DefaultParser.parseInfoText t d :=
  rfl

set_option maxRecDepth 100000 in
/-- C9, refuted as stated: the generic formatter prints the registry string of the error
code, not the `baseMessage` field; here the text fits the buffer and `baseMessage` is
not part of `finalMessage`. -/
theorem C9_counterexample :
    (DefaultParser.parseInfoText tablesUnlisted
        (sampleEvent 0x12345678 0xabcd 0x0123456789abcdef "MC: overcurrent")).length ≤ 511 ∧
    ¬ ((sampleEvent 0x12345678 0xabcd 0x0123456789abcdef "MC: overcurrent").baseMessage <:+:
      (DefaultParser.parseInfo tablesUnlisted
        (sampleEvent 0x12345678 0xabcd 0x0123456789abcdef
          "MC: overcurrent")).baseInfo.finalMessage) := by
  decide

/-- C9 (amended): the `finalMessage` written by the generic formatter is composed from
the registry string `eoerror_code2string(errorCode)`, not from the field `baseMessage`:
whenever the formatted text fits in 511 bytes, `finalMessage` contains that registry
string, hence contains `baseMessage` when `baseMessage` is that string; replacing
`baseMessage` by any other text leaves `finalMessage` the same. -/
theorem C9_generic_formatter_prints_registry_string (t : EoTables) (d : AuxEmbeddedInfo)
    (hfit : (DefaultParser.parseInfoText t d).length ≤ 511) :
    c_str (t.eoerror_code2string d.code) <:+:
        (DefaultParser.parseInfo t d).baseInfo.finalMessage ∧
    (d.baseMessage = c_str (t.eoerror_code2string d.code) →
      d.baseMessage <:+: (DefaultParser.parseInfo t d).baseInfo.finalMessage) ∧
    (∀ m : Text, (DefaultParser.parseInfo t (d.withBaseMessage m)).baseInfo.finalMessage =
      (DefaultParser.parseInfo t d).baseInfo.finalMessage) := by
  have hfinal : (DefaultParser.parseInfo t d).baseInfo.finalMessage =
      DefaultParser.parseInfoText t d := by
    rw [DefaultParser.parseInfo_eq, withFinalMessage_finalMessage]
    exact List.take_of_length_le hfit
  have hin : c_str (t.eoerror_code2string d.code) <:+: DefaultParser.parseInfoText t d := by
    refine ⟨lit " src " ++ c_str d.baseInfo.sourceCANPortStr ++
      lit ", adr " ++ fmt_d (Int.ofNat d.baseInfo.sourceCANBoardAddr) ++
      lit ",(code 0x" ++ fmt_x_prec 8 d.code ++
      lit ", par16 0x" ++ fmt_x_prec 4 d.p16 ++
      lit " par64 0x" ++ fmt_x_prec 2 (p64byte d 7) ++ fmt_x_prec 2 (p64byte d 6) ++
      fmt_x_prec 2 (p64byte d 5) ++ fmt_x_prec 2 (p64byte d 4) ++
      fmt_x_prec 2 (p64byte d 3) ++ fmt_x_prec 2 (p64byte d 2) ++
      fmt_x_prec 2 (p64byte d 1) ++ fmt_x_prec 2 (p64byte d 0) ++ lit ") -> ",
      lit " " ++ c_str (t.eoerror_code2rulesstring d.code) ++ lit " " ++ c_str d.extraMessage,
      ?_⟩
    simp only [DefaultParser.parseInfoText, List.append_assoc]
  refine ⟨hfinal ▸ hin, fun hb => ?_, fun m => ?_⟩
  · rw [hb]
    exact hfinal ▸ hin
  · rw [DefaultParser.parseInfo_eq, DefaultParser.parseInfo_eq,
      DefaultParser.parseInfoText_withBaseMessage]
    rfl

set_option maxRecDepth 100000 in
/-- Witness of C9 (amended): an unclassified event whose text fits the buffer. -/
theorem C9_generic_formatter_prints_registry_string_witness :
    (DefaultParser.parseInfoText tablesUnlisted
        (sampleEvent 0x12345678 0xabcd 0x0123456789abcdef "MC: overcurrent")).length ≤ 511 ∧
    c_str (tablesUnlisted.eoerror_code2string
        (sampleEvent 0x12345678 0xabcd 0x0123456789abcdef "MC: overcurrent").code) <:+:
      (DefaultParser.parseInfo tablesUnlisted
        (sampleEvent 0x12345678 0xabcd 0x0123456789abcdef
          "MC: overcurrent")).baseInfo.finalMessage :=
  ⟨by decide, (C9_generic_formatter_prints_registry_string tablesUnlisted
    (sampleEvent 0x12345678 0xabcd 0x0123456789abcdef "MC: overcurrent") (by decide)).1⟩

theorem final_eq_of_payload {h : AuxEmbeddedInfo → AuxEmbeddedInfo}
    (hd : DependsOn AuxEmbeddedInfo.payload h) (d1 d2 : AuxEmbeddedInfo)
    (h16 : d1.param16 = d2.param16) (h64 : d1.param64 = d2.param64)
    (hb : d1.baseMessage = d2.baseMessage) :
    (h d1.clearFinalMessage).baseInfo.finalMessage =
      (h d2.clearFinalMessage).baseInfo.finalMessage := by
  refine hd.final _ _ ?_ rfl
  simp only [AuxEmbeddedInfo.payload, AuxEmbeddedInfo.clearFinalMessage, h16, h64, hb]

theorem final_eq_of_payloadSrc {h : AuxEmbeddedInfo → AuxEmbeddedInfo}
    (hd : DependsOn AuxEmbeddedInfo.payloadSrc h) (d1 d2 : AuxEmbeddedInfo)
    (h16 : d1.param16 = d2.param16) (h64 : d1.param64 = d2.param64)
    (hb : d1.baseMessage = d2.baseMessage)
    (hs : d1.baseInfo.sourceBoardIpAddrStr = d2.baseInfo.sourceBoardIpAddrStr ∧
      d1.baseInfo.sourceCANPortStr = d2.baseInfo.sourceCANPortStr ∧
      d1.baseInfo.sourceCANBoardAddr = d2.baseInfo.sourceCANBoardAddr) :
    (h d1.clearFinalMessage).baseInfo.finalMessage =
      (h d2.clearFinalMessage).baseInfo.finalMessage := by
  refine hd.final _ _ ?_ rfl
  simp only [AuxEmbeddedInfo.payloadSrc, AuxEmbeddedInfo.clearFinalMessage, h16, h64, hb,
    hs.1, hs.2.1, hs.2.2]

theorem code_eq_of_errorCode {d1 d2 : AuxEmbeddedInfo} (h : d1.errorCode = d2.errorCode) :
    d1.code = d2.code := by
  simp only [AuxEmbeddedInfo.code, h]

set_option maxRecDepth 100000 in
/-- C10, refuted as stated: the recipe of `eoerror_value_CFG_candiscovery_detectedboard`
prints the source port label, so two events that differ only in that label decode to
different messages. -/
theorem C10_counterexample :
    caseKind Category.Config (tablesCFG ValueCFG.eoerror_value_CFG_candiscovery_detectedboard)
      (sampleEvent 0 0x0003 0x00050b0102030405 "CFG: detected board") =
        CaseKind.recognised ∧
    (sampleEvent 0 0x0003 0x00050b0102030405 "CFG: detected board").param16 =
      (sampleEventCAN2 0 0x0003 0x00050b0102030405 "CFG: detected board").param16 ∧
    (sampleEvent 0 0x0003 0x00050b0102030405 "CFG: detected board").param64 =
      (sampleEventCAN2 0 0x0003 0x00050b0102030405 "CFG: detected board").param64 ∧
    (sampleEvent 0 0x0003 0x00050b0102030405 "CFG: detected board").baseMessage =
      (sampleEventCAN2 0 0x0003 0x00050b0102030405 "CFG: detected board").baseMessage ∧
    (parseInfoOf Category.Config
        (tablesCFG ValueCFG.eoerror_value_CFG_candiscovery_detectedboard) noNames
        (sampleEvent 0 0x0003 0x00050b0102030405
          "CFG: detected board")).baseInfo.finalMessage ≠
      (parseInfoOf Category.Config
        (tablesCFG ValueCFG.eoerror_value_CFG_candiscovery_detectedboard) noNames
        (sampleEventCAN2 0 0x0003 0x00050b0102030405
          "CFG: detected board")).baseInfo.finalMessage := by
  decide

/-- C10 (amended): for every category parser and every value it recognises,
`finalMessage` is a function of `param16`, `param64`, `baseMessage`, the resolver and the
tables, and, for the values whose recipe reads the source context (those of
`ValueCFG.readsSource` and `ValueSYS.readsSource`), also of the source port label, board
address and board IP label: two events with the same error code, `param16`, `param64`
and `baseMessage`, and with the same source context when the recipe reads it, decode
to the same `finalMessage`, whatever their `extraMessage`, previous `finalMessage` and
axis-name cache. -/
theorem C10_recognised_values_depend_on_payload (c : Category) (t : EoTables)
    (p : EntityNameProvider) (d1 d2 : AuxEmbeddedInfo)
    (hk : caseKind c t d1 = CaseKind.recognised)
    (hc : d1.errorCode = d2.errorCode) (h16 : d1.param16 = d2.param16)
    (h64 : d1.param64 = d2.param64) (hb : d1.baseMessage = d2.baseMessage)
    (hs : readsSource c t d1 = true →
      d1.baseInfo.sourceBoardIpAddrStr = d2.baseInfo.sourceBoardIpAddrStr ∧
      d1.baseInfo.sourceCANPortStr = d2.baseInfo.sourceCANPortStr ∧
      d1.baseInfo.sourceCANBoardAddr = d2.baseInfo.sourceCANBoardAddr) :
    (parseInfoOf c t p d1).baseInfo.finalMessage =
      (parseInfoOf c t p d2).baseInfo.finalMessage := by
  have hcode := code_eq_of_errorCode hc
  cases c
  · show (ConfigParser.dispatch t p (t.valueCFG (t.eoerror_code2value d1.code))
        d1.clearFinalMessage).baseInfo.finalMessage =
      (ConfigParser.dispatch t p (t.valueCFG (t.eoerror_code2value d2.code))
        d2.clearFinalMessage).baseInfo.finalMessage
    rw [← hcode]
    by_cases hr : (t.valueCFG (t.eoerror_code2value d1.code)).readsSource = true
    · exact final_eq_of_payloadSrc (ConfigParser_dispatch_payloadSrc t p _ hk) d1 d2 h16 h64 hb
        (hs hr)
    · exact final_eq_of_payload (ConfigParser_dispatch_payload t p _ hk
        (Bool.eq_false_iff.mpr hr)) d1 d2 h16 h64 hb
  · show (MotionControlParser.dispatch t p (t.valueMC (t.eoerror_code2value d1.code))
        d1.clearFinalMessage).baseInfo.finalMessage =
      (MotionControlParser.dispatch t p (t.valueMC (t.eoerror_code2value d2.code))
        d2.clearFinalMessage).baseInfo.finalMessage
    rw [← hcode]
    exact final_eq_of_payload (MotionControlParser_dispatch_payload t p _ hk) d1 d2 h16 h64 hb
  · show (SkinParser.dispatch t (t.valueSK (t.eoerror_code2value d1.code))
        d1.clearFinalMessage).baseInfo.finalMessage =
      (SkinParser.dispatch t (t.valueSK (t.eoerror_code2value d2.code))
        d2.clearFinalMessage).baseInfo.finalMessage
    rw [← hcode]
    exact final_eq_of_payload (SkinParser_dispatch_payload t _ hk) d1 d2 h16 h64 hb
  · show (HwErrorParser.dispatch t (t.valueHW (t.eoerror_code2value d1.code))
        d1.clearFinalMessage).baseInfo.finalMessage =
      (HwErrorParser.dispatch t (t.valueHW (t.eoerror_code2value d2.code))
        d2.clearFinalMessage).baseInfo.finalMessage
    rw [← hcode]
    exact final_eq_of_payload (HwErrorParser_dispatch_payload t _ hk) d1 d2 h16 h64 hb
  · show (SysParser.dispatch t (t.valueSYS (t.eoerror_code2value d1.code))
        d1.clearFinalMessage).baseInfo.finalMessage =
      (SysParser.dispatch t (t.valueSYS (t.eoerror_code2value d2.code))
        d2.clearFinalMessage).baseInfo.finalMessage
    rw [← hcode]
    by_cases hr : (t.valueSYS (t.eoerror_code2value d1.code)).readsSource = true
    · exact final_eq_of_payloadSrc (SysParser_dispatch_payloadSrc t _ hk) d1 d2 h16 h64 hb
        (hs hr)
    · exact final_eq_of_payload (SysParser_dispatch_payload t _ hk
        (Bool.eq_false_iff.mpr hr)) d1 d2 h16 h64 hb
  · show (EthMonitorParser.dispatch t (t.valueETHMON (t.eoerror_code2value d1.code))
        d1.clearFinalMessage).baseInfo.finalMessage =
      (EthMonitorParser.dispatch t (t.valueETHMON (t.eoerror_code2value d2.code))
        d2.clearFinalMessage).baseInfo.finalMessage
    rw [← hcode]
    exact final_eq_of_payload (EthMonitorParser_dispatch_payload t _ hk) d1 d2 h16 h64 hb
  · show (InertialSensorParser.dispatch t (t.valueIS (t.eoerror_code2value d1.code))
        d1.clearFinalMessage).baseInfo.finalMessage =
      (InertialSensorParser.dispatch t (t.valueIS (t.eoerror_code2value d2.code))
        d2.clearFinalMessage).baseInfo.finalMessage
    rw [← hcode]
    exact final_eq_of_payload (InertialSensorParser_dispatch_payload t _ hk) d1 d2 h16 h64 hb
  · show (AnalogSensorParser.dispatch t (t.valueAS (t.eoerror_code2value d1.code))
        d1.clearFinalMessage).baseInfo.finalMessage =
      (AnalogSensorParser.dispatch t (t.valueAS (t.eoerror_code2value d2.code))
        d2.clearFinalMessage).baseInfo.finalMessage
    rw [← hcode]
    exact final_eq_of_payload (AnalogSensorParser_dispatch_payload t _ hk) d1 d2 h16 h64 hb

/-- Witness of C10 (amended): two `skin_ok` events on different ports. -/
theorem C10_recognised_values_depend_on_payload_witness :
    caseKind Category.Config (tablesCFG ValueCFG.eoerror_value_CFG_skin_ok)
      (sampleEvent 0 2 0x0006000c01020304 "CFG: skin ok") = CaseKind.recognised ∧
    (parseInfoOf Category.Config (tablesCFG ValueCFG.eoerror_value_CFG_skin_ok) noNames
        (sampleEvent 0 2 0x0006000c01020304 "CFG: skin ok")).baseInfo.finalMessage =
      (parseInfoOf Category.Config (tablesCFG ValueCFG.eoerror_value_CFG_skin_ok) noNames
        (sampleEventCAN2 0 2 0x0006000c01020304 "CFG: skin ok")).baseInfo.finalMessage :=
  ⟨by decide, C10_recognised_values_depend_on_payload Category.Config
    (tablesCFG ValueCFG.eoerror_value_CFG_skin_ok) noNames
    (sampleEvent 0 2 0x0006000c01020304 "CFG: skin ok")
    (sampleEventCAN2 0 2 0x0006000c01020304 "CFG: skin ok")
    (by decide) rfl rfl rfl rfl (fun h => absurd h (by decide))⟩

/-! ### Bit fields -/

/-- Masking with `w` ones at position `s` and shifting right by `s` reads bits `s` to
`s + w - 1`. -/
theorem and_shiftRight_eq_bitsOf (x M s w : Nat) (hM : M = (2 ^ w - 1) <<< s) :
    (x &&& M) >>> s = bitsOf x s w := by
  subst hM
  apply Nat.eq_of_testBit_eq
  intro j
  simp only [bitsOf, Nat.testBit_shiftRight, Nat.testBit_and, Nat.testBit_shiftLeft,
    Nat.testBit_two_pow_sub_one, Nat.testBit_mod_two_pow, ← Nat.shiftRight_eq_div_pow,
    Nat.add_sub_cancel_left, Nat.le_add_right, ge_iff_le, decide_True, Bool.true_and]
  exact Bool.and_comm _ _

/-- Masking with `w` low ones reads bits `0` to `w - 1`. -/
theorem and_eq_bitsOf (x M w : Nat) (hM : M = 2 ^ w - 1) : x &&& M = bitsOf x 0 w := by
  subst hM
  rw [Nat.and_pow_two_sub_one_eq_mod, bitsOf, Nat.pow_zero, Nat.div_one]

theorem bitsOf_lt (x lo w : Nat) : bitsOf x lo w < 2 ^ w :=
  Nat.mod_lt _ (Nat.pos_pow_of_pos w (by decide))

/-- Test `(mask & (1 << i)) == (1 << i)` of the source tells whether bit `i` is set. -/
theorem and_one_shiftLeft_eq_iff (a i : Nat) :
    a &&& (1 <<< i) = 1 <<< i ↔ a.testBit i = true := by
  rw [Nat.one_shiftLeft]
  constructor
  · intro h
    have h2 := congrArg (fun x => x.testBit i) h
    simpa [Nat.testBit_and, Nat.testBit_two_pow_self] using h2
  · intro h
    apply Nat.eq_of_testBit_eq
    intro j
    rw [Nat.testBit_and, Nat.testBit_two_pow]
    by_cases hj : i = j
    · subst hj; simp [h]
    · simp [hj]

/-- Test `mask & (1 << i)` of the source, read as a truth value, tells whether bit `i` is
set. -/
theorem and_one_shiftLeft_ne_zero_iff (a i : Nat) :
    a &&& (1 <<< i) ≠ 0 ↔ a.testBit i = true := by
  constructor
  · intro h
    by_contra hb
    apply h
    apply Nat.eq_of_testBit_eq
    intro j
    rw [Nat.one_shiftLeft, Nat.testBit_and, Nat.testBit_two_pow, Nat.zero_testBit]
    by_cases hj : i = j
    · subst hj; simp [hb]
    · simp [hj]
  · intro h h0
    have h1 := (and_one_shiftLeft_eq_iff a i).mpr h
    rw [h0, Nat.one_shiftLeft] at h1
    exact absurd h1.symm (Nat.ne_of_gt (Nat.pos_pow_of_pos i (by decide)))

theorem toInt64_of_lt (x : Nat) (h : x < 2 ^ 63) : toInt64 x = Int.ofNat x := by
  have h2 : x % 2 ^ 64 = x := Nat.mod_eq_of_lt (by omega)
  simp only [toInt64, h2, h, if_true]

theorem toInt32_of_lt (x : Nat) (h : x < 2 ^ 31) : toInt32 x = Int.ofNat x := by
  have h2 : x % 2 ^ 32 = x := Nat.mod_eq_of_lt (by omega)
  simp only [toInt32, h2, h, if_true]

theorem fmt_d_ofNat (x : Nat) : fmt_d (Int.ofNat x) = Nat.toDigits 10 x := rfl

theorem p64_lt (d : AuxEmbeddedInfo) : d.p64 < 2 ^ 64 := Nat.mod_lt _ (by decide)

theorem p16_lt (d : AuxEmbeddedInfo) : d.p16 < 2 ^ 16 := Nat.mod_lt _ (by decide)

theorem clearFinalMessage_p64 (d : AuxEmbeddedInfo) : d.clearFinalMessage.p64 = d.p64 := rfl

theorem clearFinalMessage_p16 (d : AuxEmbeddedInfo) : d.clearFinalMessage.p16 = d.p16 := rfl

theorem clearFinalMessage_baseMessage (d : AuxEmbeddedInfo) :
    d.clearFinalMessage.baseMessage = d.baseMessage := rfl

theorem clearFinalMessage_sourceCANBoardAddr (d : AuxEmbeddedInfo) :
    d.clearFinalMessage.baseInfo.sourceCANBoardAddr = d.baseInfo.sourceCANBoardAddr := rfl

/-! ### Fields of the discovery events -/

/-- What `ConfigParser.candiscovery_started` appends, with every field named by its bit
positions in `param64`. -/
theorem ConfigParser.candiscovery_started_final (t : EoTables) (d : AuxEmbeddedInfo) :
    (ConfigParser.candiscovery_started t d).baseInfo.finalMessage =
      d.baseInfo.finalMessage ++ snprintf 512
        (candiscoveryStartedText (c_str d.baseMessage)
          ((eo_common_hlfword_bitsetcount (bitsOf d.p64 48 16) +
            eo_common_hlfword_bitsetcount d.p16) % 2 ^ 8)
          (c_str (t.eoboards_type2string (bitsOf d.p64 40 8)))
          (bitsOf d.p64 48 16) d.p16
          (bitsOf d.p64 32 8) (bitsOf d.p64 24 8)
          (bitsOf d.p64 16 8) (bitsOf d.p64 8 8) (bitsOf d.p64 0 8)) := by
  have h16 := p16_lt d
  have f48 : (d.p64 &&& 0xffff000000000000) >>> 48 % 2 ^ 16 = bitsOf d.p64 48 16 := by
    rw [and_shiftRight_eq_bitsOf d.p64 _ 48 16 (by decide)]
    exact Nat.mod_eq_of_lt (bitsOf_lt _ _ _)
  have f40 : (d.p64 &&& 0x0000ff0000000000) >>> 40 = bitsOf d.p64 40 8 :=
    and_shiftRight_eq_bitsOf d.p64 _ 40 8 (by decide)
  have f32 : (d.p64 &&& 0x000000ffff000000) >>> 24 >>> 8 % 2 ^ 8 = bitsOf d.p64 32 8 := by
    rw [and_shiftRight_eq_bitsOf d.p64 _ 24 16 (by decide), Nat.shiftRight_eq_div_pow]
    simp only [bitsOf]
    omega
  have f24 : ((d.p64 &&& 0x000000ffff000000) >>> 24 &&& 0xff) % 2 ^ 8 = bitsOf d.p64 24 8 := by
    rw [and_shiftRight_eq_bitsOf d.p64 _ 24 16 (by decide), and_eq_bitsOf _ 0xff 8 (by decide)]
    simp only [bitsOf]
    omega
  have f16 : ((d.p64 &&& 0x0000000000ffffff) >>> 16 &&& 0xff) % 2 ^ 8 = bitsOf d.p64 16 8 := by
    rw [and_eq_bitsOf d.p64 _ 24 (by decide), Nat.shiftRight_eq_div_pow,
      and_eq_bitsOf _ 0xff 8 (by decide)]
    simp only [bitsOf]
    omega
  have f8 : ((d.p64 &&& 0x0000000000ffffff) >>> 8 &&& 0xff) % 2 ^ 8 = bitsOf d.p64 8 8 := by
    rw [and_eq_bitsOf d.p64 _ 24 (by decide), Nat.shiftRight_eq_div_pow,
      and_eq_bitsOf _ 0xff 8 (by decide)]
    simp only [bitsOf]
    omega
  have f0 : (d.p64 &&& 0x0000000000ffffff &&& 0xff) % 2 ^ 8 = bitsOf d.p64 0 8 := by
    rw [and_eq_bitsOf d.p64 _ 24 (by decide), and_eq_bitsOf _ 0xff 8 (by decide)]
    simp only [bitsOf]
    omega
  have g1 : fmt_x_prec 4 (bitsOf d.p64 48 16) = hexNumeral 4 (bitsOf d.p64 48 16) :=
    fmt_x_prec_eq_hexNumeral 3 _ (bitsOf_lt _ _ _)
  have g2 : fmt_x_prec 4 d.p16 = hexNumeral 4 d.p16 := fmt_x_prec_eq_hexNumeral 3 _ h16
  simp only [ConfigParser.candiscovery_started, appendFinalMessage_finalMessage, f48, f40, f32,
    f24, f16, f8, f0, g1, g2, fmt_d_ofNat, fmt_ver2, fmt_ver3, candiscoveryStartedText,
    List.append_assoc]

/-! ### Index lists of the contact handlers -/

theorem testBit_bitsOf (x lo w j : Nat) :
    (bitsOf x lo w).testBit j = (decide (j < w) && x.testBit (lo + j)) := by
  rw [bitsOf, Nat.testBit_mod_two_pow, ← Nat.shiftRight_eq_div_pow, Nat.testBit_shiftRight]

/-- The index list of a mask looks at bits 1 to 14 only. -/
theorem indexList_congr (a b : Nat)
    (h : ∀ i, 1 ≤ i → i ≤ 14 → a.testBit i = b.testBit i) : indexList a = indexList b := by
  unfold indexList
  congr 1
  apply List.filter_congr
  intro i hi
  simp only [List.mem_cons, List.mem_singleton, List.not_mem_nil, or_false] at hi
  apply h <;> omega

theorem indexList_of_bits (a b : Nat) (h : bitsOf a 1 14 = bitsOf b 1 14) :
    indexList a = indexList b := by
  apply indexList_congr
  intro i h1 h14
  have e := congrArg (fun x => x.testBit (i - 1)) h
  simp only [testBit_bitsOf] at e
  have hi : 1 + (i - 1) = i := by omega
  have hlt : i - 1 < 14 := by omega
  simpa only [hi, hlt, decide_True, Bool.true_and] using e

theorem indexList_bitsOf (x lo : Nat) : indexList (bitsOf x lo 16) = indexList (x / 2 ^ lo) := by
  apply indexList_congr
  intro i _ h14
  have hlt : i < 16 := by omega
  rw [testBit_bitsOf, ← Nat.shiftRight_eq_div_pow, Nat.testBit_shiftRight]
  simp only [hlt, decide_True, Bool.true_and]

/-- The two buffers after the loop of the contact handlers over the indices `l`. -/
theorem SysParser.contactStep_foldl (m1 m2 : Nat) (l : List Nat) (s : Text × Text) :
    l.foldl (SysParser.contactStep m1 m2) s =
      (s.1 ++ (l.filter (fun i => m1.testBit i)).flatMap (fun i => Nat.toDigits 10 i ++ [' ']),
       s.2 ++ (l.filter (fun i => m2.testBit i)).flatMap
        (fun i => Nat.toDigits 10 i ++ [' '])) := by
  induction l generalizing s with
  | nil => simp
  | cons i l ih =>
    rw [List.foldl_cons, ih]
    simp only [SysParser.contactStep, and_one_shiftLeft_eq_iff, fmt_u, lit]
    by_cases h1 : m1.testBit i = true <;> by_cases h2 : m2.testBit i = true <;>
      simp [h1, h2, List.filter_cons, List.flatMap_cons]

theorem forRange_one_fifteen :
    forRange 1 15 = [1, 2, 3, 4, 5, 6, 7, 8, 9, 10, 11, 12, 13, 14] := by decide

/-- What `SysParser.canservices_monitor_lostcontact` appends, with every field named by its
bit positions in `param64`. -/
theorem SysParser.canservices_monitor_lostcontact_final (t : EoTables) (d : AuxEmbeddedInfo) :
    (SysParser.canservices_monitor_lostcontact t d).baseInfo.finalMessage =
      d.baseInfo.finalMessage ++ snprintf 512
        (monitorLostcontactText (c_str d.baseMessage)
          (c_str (t.eomn_servicecategory2string d.baseInfo.sourceCANBoardAddr))
          (indexList (bitsOf d.p64 0 16)) (indexList (bitsOf d.p64 16 16))
          (bitsOf d.p64 48 16)) := by
  have f0 : (d.p64 &&& 0x000000000000ffff) % 2 ^ 16 = bitsOf d.p64 0 16 := by
    rw [and_eq_bitsOf d.p64 _ 16 (by decide)]
    exact Nat.mod_eq_of_lt (bitsOf_lt _ _ _)
  have f16 : (d.p64 &&& 0x00000000ffff0000) >>> 16 % 2 ^ 16 = bitsOf d.p64 16 16 := by
    rw [and_shiftRight_eq_bitsOf d.p64 _ 16 16 (by decide)]
    exact Nat.mod_eq_of_lt (bitsOf_lt _ _ _)
  have f48 : toInt64 ((d.p64 &&& 0xffff000000000000) >>> 48) = Int.ofNat (bitsOf d.p64 48 16) := by
    rw [and_shiftRight_eq_bitsOf d.p64 _ 48 16 (by decide)]
    exact toInt64_of_lt _ (Nat.lt_trans (bitsOf_lt _ _ _) (by decide))
  simp only [SysParser.canservices_monitor_lostcontact, appendFinalMessage_finalMessage, f0, f16,
    f48, fmt_d_ofNat, SysParser.contactStep_foldl, forRange_one_fifteen, List.nil_append,
    monitorLostcontactText, indexList, List.append_assoc]

/-! ### The handlers reached through `parseInfo` -/

theorem ConfigParser_parseInfo_candiscovery_started (t : EoTables) (p : EntityNameProvider)
    (d : AuxEmbeddedInfo)
    (h : t.valueCFG (t.eoerror_code2value d.code) =
      ValueCFG.eoerror_value_CFG_candiscovery_started) :
    (ConfigParser.parseInfo t p d).baseInfo.finalMessage =
      snprintf 512
        (candiscoveryStartedText (c_str d.baseMessage)
          ((eo_common_hlfword_bitsetcount (bitsOf d.p64 48 16) +
            eo_common_hlfword_bitsetcount d.p16) % 2 ^ 8)
          (c_str (t.eoboards_type2string (bitsOf d.p64 40 8)))
          (bitsOf d.p64 48 16) d.p16
          (bitsOf d.p64 32 8) (bitsOf d.p64 24 8)
          (bitsOf d.p64 16 8) (bitsOf d.p64 8 8) (bitsOf d.p64 0 8)) := by
  have e : ConfigParser.parseInfo t p d =
      ConfigParser.candiscovery_started t d.clearFinalMessage := by
    show ConfigParser.dispatch t p (t.valueCFG (t.eoerror_code2value d.code))
      d.clearFinalMessage = _
    rw [h]
    rfl
  rw [e, ConfigParser.candiscovery_started_final]
  simp only [clearFinalMessage_p64, clearFinalMessage_p16, clearFinalMessage_baseMessage,
    clearFinalMessage_finalMessage, List.nil_append]

theorem SysParser_parseInfo_monitor_lostcontact (t : EoTables) (d : AuxEmbeddedInfo)
    (h : t.valueSYS (t.eoerror_code2value d.code) =
      ValueSYS.eoerror_value_SYS_canservices_monitor_lostcontact) :
    (SysParser.parseInfo t d).baseInfo.finalMessage =
      snprintf 512
        (monitorLostcontactText (c_str d.baseMessage)
          (c_str (t.eomn_servicecategory2string d.baseInfo.sourceCANBoardAddr))
          (indexList (bitsOf d.p64 0 16)) (indexList (bitsOf d.p64 16 16))
          (bitsOf d.p64 48 16)) := by
  have e : SysParser.parseInfo t d =
      SysParser.canservices_monitor_lostcontact t d.clearFinalMessage := by
    show SysParser.dispatch t (t.valueSYS (t.eoerror_code2value d.code))
      d.clearFinalMessage = _
    rw [h]
    rfl
  rw [e, SysParser.canservices_monitor_lostcontact_final]
  simp only [clearFinalMessage_p64, clearFinalMessage_baseMessage,
    clearFinalMessage_sourceCANBoardAddr, clearFinalMessage_finalMessage, List.nil_append]

/-! ## The claims on the fields of the payload -/

/-- C11: for `eoerror_value_SYS_canservices_monitor_lostcontact` the first bracket of the
message holds the index list of `param64`: for the indices 1 to 14 in ascending order whose
bit of `param64` is set, the decimal numeral of the index followed by one blank. The mask
`0b0100000000000010` renders as `1 14 `, and an event whose `param64` differs at most in
bit 0 and bit 15 decodes to the same message. -/
theorem C11_lostcontact_first_bracket_is_index_list (t : EoTables) (d : AuxEmbeddedInfo)
    (q : Nat)
    (h : t.valueSYS (t.eoerror_code2value d.code) =
      ValueSYS.eoerror_value_SYS_canservices_monitor_lostcontact)
    (h1 : bitsOf q 1 14 = bitsOf d.param64 1 14)
    (h16 : bitsOf q 16 48 = bitsOf d.param64 16 48) :
    (SysParser.parseInfo t d).baseInfo.finalMessage =
      snprintf 512
        (monitorLostcontactText (c_str d.baseMessage)
          (c_str (t.eomn_servicecategory2string d.baseInfo.sourceCANBoardAddr))
          (indexList d.p64) (indexList (bitsOf d.p64 16 16)) (bitsOf d.p64 48 16)) ∧
    indexList 0b0100000000000010 = lit "1 14 " ∧
    (SysParser.parseInfo t { d with param64 := q }).baseInfo.finalMessage =
      (SysParser.parseInfo t d).baseInfo.finalMessage := by
  have e0 : indexList (bitsOf d.p64 0 16) = indexList d.p64 := by
    rw [indexList_bitsOf, Nat.pow_zero, Nat.div_one]
  refine ⟨?_, by decide, ?_⟩
  · rw [SysParser_parseInfo_monitor_lostcontact t d h, e0]
  · rw [SysParser_parseInfo_monitor_lostcontact t d h,
      SysParser_parseInfo_monitor_lostcontact t { d with param64 := q } h]
    have a1 : indexList (bitsOf (AuxEmbeddedInfo.p64 { d with param64 := q }) 0 16) =
        indexList (bitsOf d.p64 0 16) := by
      apply indexList_of_bits
      simp only [bitsOf, AuxEmbeddedInfo.p64] at h1 ⊢
      omega
    have a2 : bitsOf (AuxEmbeddedInfo.p64 { d with param64 := q }) 16 16 =
        bitsOf d.p64 16 16 := by
      simp only [bitsOf, AuxEmbeddedInfo.p64] at h16 ⊢
      omega
    have a3 : bitsOf (AuxEmbeddedInfo.p64 { d with param64 := q }) 48 16 =
        bitsOf d.p64 48 16 := by
      simp only [bitsOf, AuxEmbeddedInfo.p64] at h16 ⊢
      omega
    rw [a1, a2, a3]

/-- Witness of C11: the sample event and the same event with bits 0 and 15 of `param64`
set. -/
theorem C11_lostcontact_first_bracket_is_index_list_witness :
    (tablesSYS ValueSYS.eoerror_value_SYS_canservices_monitor_lostcontact).valueSYS
        ((tablesSYS
          ValueSYS.eoerror_value_SYS_canservices_monitor_lostcontact).eoerror_code2value
          lostContactEvent.code) =
      ValueSYS.eoerror_value_SYS_canservices_monitor_lostcontact ∧
    bitsOf 0x006400000006c003 1 14 = bitsOf lostContactEvent.param64 1 14 ∧
    bitsOf 0x006400000006c003 16 48 = bitsOf lostContactEvent.param64 16 48 ∧
    (SysParser.parseInfo
        (tablesSYS ValueSYS.eoerror_value_SYS_canservices_monitor_lostcontact)
        { lostContactEvent with param64 := 0x006400000006c003 }).baseInfo.finalMessage =
      (SysParser.parseInfo
        (tablesSYS ValueSYS.eoerror_value_SYS_canservices_monitor_lostcontact)
        lostContactEvent).baseInfo.finalMessage :=
  ⟨rfl, by decide, by decide,
    (C11_lostcontact_first_bracket_is_index_list
      (tablesSYS ValueSYS.eoerror_value_SYS_canservices_monitor_lostcontact)
      lostContactEvent 0x006400000006c003 rfl (by decide) (by decide)).2.2⟩

set_option maxRecDepth 100000 in
/-- C12: for `eoerror_value_SYS_canservices_monitor_regularcontact` with board 1 in the
CAN1 mask and board 2 in the CAN2 mask, the code writes the number of the CAN2 board into
the first bracket and only its blank into the second one, `([ 1 2 ], [   ])`, where the
index lists of the two masks are `1 ` and `2 `. -/
theorem C12_regularcontact_second_mask_lands_in_first_bracket :
    (SysParser.parseInfo
        (tablesSYS ValueSYS.eoerror_value_SYS_canservices_monitor_regularcontact)
        regularContactEvent).baseInfo.finalMessage =
      lit ("SYS: regular contact. Type of service category is eomn_serv_category_mc. " ++
        "CAN boards are on (can1map, can2map) = ([ 1 2 ], [   ])") ∧
    snprintf 512 (monitorRegularcontactText (c_str regularContactEvent.baseMessage)
        (c_str ((tablesSYS
          ValueSYS.eoerror_value_SYS_canservices_monitor_regularcontact).eomn_servicecategory2string
          regularContactEvent.baseInfo.sourceCANBoardAddr))
        (indexList (bitsOf regularContactEvent.p64 0 16))
        (indexList (bitsOf regularContactEvent.p64 16 16))) =
      lit ("SYS: regular contact. Type of service category is eomn_serv_category_mc. " ++
        "CAN boards are on (can1map, can2map) = ([ 1  ], [ 2  ])") := by
  decide

set_option maxRecDepth 100000 in
/-- C13 (counterexample): a `candiscovery_started` event with `param16 = 0x0002` and
`param64 = 0x00040b0102030405` prints the maps `(0x0004, 0x0002)`: the first is bits 48 to
63 of `param64` and the second is `param16`; the pair `(0x0002, 0x0405)` of `param16` and
bits 0 to 15 of `param64` is nowhere in the message. -/
theorem C13_counterexample :
    (ConfigParser.parseInfo (tablesCFG ValueCFG.eoerror_value_CFG_candiscovery_started)
        noNames discoveryStartedEvent).baseInfo.finalMessage =
      lit (" CFG: discovery started. 2 mtb4 boards on (can1map, can2map) = (0x0004, 0x0002) " ++
        "with target can protocol ver 1.2 and application ver 3.4.5.") ∧
    lit "(0x" ++ hexNumeral 4 discoveryStartedEvent.p16 ++ lit ", 0x" ++
        hexNumeral 4 (bitsOf discoveryStartedEvent.p64 0 16) ++ lit ")" =
      lit "(0x0002, 0x0405)" ∧
    ¬ (lit "(0x0002, 0x0405)" <:+:
      (ConfigParser.parseInfo (tablesCFG ValueCFG.eoerror_value_CFG_candiscovery_started)
        noNames discoveryStartedEvent).baseInfo.finalMessage) := by
  decide

/-- C13 (amended): for `eoerror_value_CFG_candiscovery_started` the can1map printed in the
message is bits 48 to 63 of `param64` and the can2map printed is `param16`, each as a
numeral of exactly 4 hexadecimal digits. -/
theorem C13_candiscovery_started_maps (t : EoTables) (p : EntityNameProvider)
    (d : AuxEmbeddedInfo)
    (h : t.valueCFG (t.eoerror_code2value d.code) =
      ValueCFG.eoerror_value_CFG_candiscovery_started) :
    (ConfigParser.parseInfo t p d).baseInfo.finalMessage =
      snprintf 512
        (candiscoveryStartedText (c_str d.baseMessage)
          ((eo_common_hlfword_bitsetcount (bitsOf d.p64 48 16) +
            eo_common_hlfword_bitsetcount d.p16) % 2 ^ 8)
          (c_str (t.eoboards_type2string (bitsOf d.p64 40 8)))
          (bitsOf d.p64 48 16) d.p16
          (bitsOf d.p64 32 8) (bitsOf d.p64 24 8)
          (bitsOf d.p64 16 8) (bitsOf d.p64 8 8) (bitsOf d.p64 0 8)) ∧
    (hexNumeral 4 (bitsOf d.p64 48 16)).length = 4 ∧ (hexNumeral 4 d.p16).length = 4 :=
  ⟨ConfigParser_parseInfo_candiscovery_started t p d h, hexNumeral_length _ _,
    hexNumeral_length _ _⟩

/-- Witness of C13 (amended): the sample discovery event. -/
theorem C13_candiscovery_started_maps_witness :
    (tablesCFG ValueCFG.eoerror_value_CFG_candiscovery_started).valueCFG
        ((tablesCFG ValueCFG.eoerror_value_CFG_candiscovery_started).eoerror_code2value
          discoveryStartedEvent.code) =
      ValueCFG.eoerror_value_CFG_candiscovery_started ∧
    (ConfigParser.parseInfo (tablesCFG ValueCFG.eoerror_value_CFG_candiscovery_started)
        noNames discoveryStartedEvent).baseInfo.finalMessage =
      snprintf 512
        (candiscoveryStartedText (c_str discoveryStartedEvent.baseMessage)
          ((eo_common_hlfword_bitsetcount (bitsOf discoveryStartedEvent.p64 48 16) +
            eo_common_hlfword_bitsetcount discoveryStartedEvent.p16) % 2 ^ 8)
          (c_str ((tablesCFG
            ValueCFG.eoerror_value_CFG_candiscovery_started).eoboards_type2string
            (bitsOf discoveryStartedEvent.p64 40 8)))
          (bitsOf discoveryStartedEvent.p64 48 16) discoveryStartedEvent.p16
          (bitsOf discoveryStartedEvent.p64 32 8) (bitsOf discoveryStartedEvent.p64 24 8)
          (bitsOf discoveryStartedEvent.p64 16 8) (bitsOf discoveryStartedEvent.p64 8 8)
          (bitsOf discoveryStartedEvent.p64 0 8)) :=
  ⟨rfl, (C13_candiscovery_started_maps
    (tablesCFG ValueCFG.eoerror_value_CFG_candiscovery_started) noNames
    discoveryStartedEvent rfl).1⟩

/-- C14: for `eoerror_value_CFG_candiscovery_started` and every `param64`, the board-type
code handed to `eoboards_type2string` is bits 40 to 47 of `param64`, the protocol version
is printed as major.minor with major bits 32 to 39 and minor bits 24 to 31, and the
application version as major.minor.build with major bits 16 to 23, minor bits 8 to 15 and
build bits 0 to 7; each of these numbers is below 256. -/
theorem C14_candiscovery_started_versions (t : EoTables) (p : EntityNameProvider)
    (d : AuxEmbeddedInfo)
    (h : t.valueCFG (t.eoerror_code2value d.code) =
      ValueCFG.eoerror_value_CFG_candiscovery_started) :
    (∃ count can1map can2map,
      (ConfigParser.parseInfo t p d).baseInfo.finalMessage =
        snprintf 512
          (candiscoveryStartedText (c_str d.baseMessage) count
            (c_str (t.eoboards_type2string (bitsOf d.p64 40 8))) can1map can2map
            (bitsOf d.p64 32 8) (bitsOf d.p64 24 8)
            (bitsOf d.p64 16 8) (bitsOf d.p64 8 8) (bitsOf d.p64 0 8))) ∧
    bitsOf d.p64 40 8 < 256 ∧ bitsOf d.p64 32 8 < 256 ∧ bitsOf d.p64 24 8 < 256 ∧
    bitsOf d.p64 16 8 < 256 ∧ bitsOf d.p64 8 8 < 256 ∧ bitsOf d.p64 0 8 < 256 :=
  ⟨⟨_, _, _, ConfigParser_parseInfo_candiscovery_started t p d h⟩, bitsOf_lt _ _ _,
    bitsOf_lt _ _ _, bitsOf_lt _ _ _, bitsOf_lt _ _ _, bitsOf_lt _ _ _, bitsOf_lt _ _ _⟩

/-- Witness of C14: the sample discovery event. -/
theorem C14_candiscovery_started_versions_witness :
    (tablesCFG ValueCFG.eoerror_value_CFG_candiscovery_started).valueCFG
        ((tablesCFG ValueCFG.eoerror_value_CFG_candiscovery_started).eoerror_code2value
          discoveryStartedEvent.code) =
      ValueCFG.eoerror_value_CFG_candiscovery_started ∧
    (∃ count can1map can2map,
      (ConfigParser.parseInfo (tablesCFG ValueCFG.eoerror_value_CFG_candiscovery_started)
          noNames discoveryStartedEvent).baseInfo.finalMessage =
        snprintf 512
          (candiscoveryStartedText (c_str discoveryStartedEvent.baseMessage) count
            (c_str ((tablesCFG
              ValueCFG.eoerror_value_CFG_candiscovery_started).eoboards_type2string
              (bitsOf discoveryStartedEvent.p64 40 8))) can1map can2map
            (bitsOf discoveryStartedEvent.p64 32 8) (bitsOf discoveryStartedEvent.p64 24 8)
            (bitsOf discoveryStartedEvent.p64 16 8) (bitsOf discoveryStartedEvent.p64 8 8)
            (bitsOf discoveryStartedEvent.p64 0 8))) ∧
    bitsOf discoveryStartedEvent.p64 40 8 < 256 ∧ bitsOf discoveryStartedEvent.p64 32 8 < 256 ∧
    bitsOf discoveryStartedEvent.p64 24 8 < 256 ∧ bitsOf discoveryStartedEvent.p64 16 8 < 256 ∧
    bitsOf discoveryStartedEvent.p64 8 8 < 256 ∧ bitsOf discoveryStartedEvent.p64 0 8 < 256 :=
  ⟨rfl, C14_candiscovery_started_versions
    (tablesCFG ValueCFG.eoerror_value_CFG_candiscovery_started) noNames
    discoveryStartedEvent rfl⟩

/-! ### The encoders report -/

theorem encoderCodePrinted_le (e i : Nat) : encoderCodePrinted e i ≤ 15 := by
  unfold encoderCodePrinted
  rw [Nat.shiftRight_eq_div_pow]
  apply Nat.le_trans (Nat.div_le_div_right Nat.and_le_right)
  rw [Nat.shiftLeft_eq]
  apply Nat.div_le_of_le_mul
  have h : 2 ^ i ≤ 2 ^ (4 * i) := Nat.pow_le_pow_right (by decide) (by omega)
  calc 15 * 2 ^ i ≤ 15 * 2 ^ (4 * i) := Nat.mul_le_mul_left 15 h
    _ = 2 ^ (4 * i) * 15 := Nat.mul_comm _ _

theorem forRange_zero (n : Nat) : forRange 0 n = List.range n := by
  simp [forRange]

/-- What one turn of the loop of the encoders report appends. -/
theorem ConfigParser.encodersStep_final (p : EntityNameProvider) (m1 e1 m2 e2 : Nat)
    (d : AuxEmbeddedInfo) (i : Nat) :
    (ConfigParser.encodersStep p m1 e1 m2 e2 d i).baseInfo.finalMessage =
      d.baseInfo.finalMessage ++
        ((if m1.testBit i then
            snprintf 512 (primaryEncoderLine i (c_str (p.axisNameOf i)) (encoderCodePrinted e1 i))
          else []) ++
         (if m2.testBit i then
            snprintf 512
              (secondaryEncoderLine i (c_str (p.axisNameOf i)) (encoderCodePrinted e2 i))
          else [])) := by
  have c1 : toInt32 ((promoteInt16 e1 &&& (0xf <<< i)) >>> (4 * i)) =
      Int.ofNat (encoderCodePrinted e1 i) :=
    toInt32_of_lt _ (Nat.lt_of_le_of_lt (encoderCodePrinted_le e1 i) (by decide))
  have c2 : toInt32 ((promoteInt16 e2 &&& (0xf <<< i)) >>> (4 * i)) =
      Int.ofNat (encoderCodePrinted e2 i) :=
    toInt32_of_lt _ (Nat.lt_of_le_of_lt (encoderCodePrinted_le e2 i) (by decide))
  have n1 : ∀ x : AuxEmbeddedInfo, (p.getAxisName i x).baseInfo.axisName = p.axisNameOf i :=
    fun _ => rfl
  simp only [ConfigParser.encodersStep, and_one_shiftLeft_ne_zero_iff, c1, c2, fmt_d_ofNat]
  by_cases h1 : m1.testBit i = true <;> by_cases h2 : m2.testBit i = true <;>
    simp only [h1, h2, if_true, if_false, Bool.false_eq_true, appendFinalMessage_finalMessage,
      getAxisName_finalMessage, n1, primaryEncoderLine, secondaryEncoderLine,
      List.append_assoc, List.append_nil, List.nil_append]

/-- What the loop of the encoders report appends over the joints `l`. -/
theorem ConfigParser.encodersStep_foldl (p : EntityNameProvider) (m1 e1 m2 e2 : Nat)
    (l : List Nat) (d : AuxEmbeddedInfo) :
    (l.foldl (ConfigParser.encodersStep p m1 e1 m2 e2) d).baseInfo.finalMessage =
      d.baseInfo.finalMessage ++ l.flatMap (fun i =>
        (if m1.testBit i then
            snprintf 512 (primaryEncoderLine i (c_str (p.axisNameOf i)) (encoderCodePrinted e1 i))
          else []) ++
        (if m2.testBit i then
            snprintf 512
              (secondaryEncoderLine i (c_str (p.axisNameOf i)) (encoderCodePrinted e2 i))
          else [])) := by
  induction l generalizing d with
  | nil => simp
  | cons i l ih =>
    rw [List.foldl_cons, ih, ConfigParser.encodersStep_final, List.flatMap_cons,
      List.append_assoc]

/-- What `ConfigParser.encoders` appends, with every field named by its bit positions. -/
theorem ConfigParser.encoders_final (p : EntityNameProvider) (d : AuxEmbeddedInfo) :
    (ConfigParser.encoders p d).baseInfo.finalMessage =
      d.baseInfo.finalMessage ++ (snprintf 512 (c_str d.baseMessage) ++
        encoderLines (fun i => c_str (p.axisNameOf i)) (bitsOf d.p16 12 4)
          (bitsOf d.p16 0 4) (bitsOf d.p16 4 4)
          (encoderCodePrinted (bitsOf d.p64 0 16))
          (encoderCodePrinted (bitsOf d.p64 16 16))) := by
  have h16 := p16_lt d
  have fN : (d.p16 &&& 0xf000) >>> 12 % 2 ^ 8 = bitsOf d.p16 12 4 := by
    rw [and_shiftRight_eq_bitsOf d.p16 _ 12 4 (by decide)]
    exact Nat.mod_eq_of_lt (Nat.lt_trans (bitsOf_lt _ _ _) (by decide))
  have f1 : (d.p16 &&& 0x000f) % 2 ^ 8 = bitsOf d.p16 0 4 := by
    rw [and_eq_bitsOf d.p16 _ 4 (by decide)]
    exact Nat.mod_eq_of_lt (Nat.lt_trans (bitsOf_lt _ _ _) (by decide))
  have f2 : (d.p16 &&& 0x00f0) >>> 4 % 2 ^ 8 = bitsOf d.p16 4 4 := by
    rw [and_shiftRight_eq_bitsOf d.p16 _ 4 4 (by decide)]
    exact Nat.mod_eq_of_lt (Nat.lt_trans (bitsOf_lt _ _ _) (by decide))
  have g1 : (d.p64 &&& 0x0000ffff) % 2 ^ 16 = bitsOf d.p64 0 16 := by
    rw [and_eq_bitsOf d.p64 _ 16 (by decide)]
    exact Nat.mod_eq_of_lt (bitsOf_lt _ _ _)
  have g2 : (d.p64 &&& 0xffff0000) >>> 16 % 2 ^ 16 = bitsOf d.p64 16 16 := by
    rw [and_shiftRight_eq_bitsOf d.p64 _ 16 16 (by decide)]
    exact Nat.mod_eq_of_lt (bitsOf_lt _ _ _)
  simp only [ConfigParser.encoders, fN, f1, f2, g1, g2, forRange_zero,
    ConfigParser.encodersStep_foldl, appendFinalMessage_finalMessage, encoderLines,
    List.append_assoc]

theorem c_str_of_no_NUL (s : Text) (h : NUL ∉ s) : c_str s = s := by
  unfold c_str
  rw [List.takeWhile_eq_self_iff]
  intro x hx
  simp only [bne_iff_ne, ne_eq]
  intro e
  exact h (e ▸ hx)

theorem ConfigParser_parseInfo_encoders (t : EoTables) (p : EntityNameProvider)
    (d : AuxEmbeddedInfo)
    (h : t.valueCFG (t.eoerror_code2value d.code) = ValueCFG.eoerror_value_CFG_encoders_ok ∨
      t.valueCFG (t.eoerror_code2value d.code) =
        ValueCFG.eoerror_value_CFG_encoders_failed_verify) :
    (ConfigParser.parseInfo t p d).baseInfo.finalMessage =
      snprintf 512 (c_str d.baseMessage) ++
        encoderLines (fun i => c_str (p.axisNameOf i)) (bitsOf d.p16 12 4)
          (bitsOf d.p16 0 4) (bitsOf d.p16 4 4)
          (encoderCodePrinted (bitsOf d.p64 0 16))
          (encoderCodePrinted (bitsOf d.p64 16 16)) := by
  have e : ConfigParser.parseInfo t p d = ConfigParser.encoders p d.clearFinalMessage := by
    show ConfigParser.dispatch t p (t.valueCFG (t.eoerror_code2value d.code))
      d.clearFinalMessage = _
    rcases h with h | h <;> rw [h] <;> rfl
  rw [e, ConfigParser.encoders_final]
  simp only [clearFinalMessage_p64, clearFinalMessage_p16, clearFinalMessage_baseMessage,
    clearFinalMessage_finalMessage, List.nil_append]

set_option maxRecDepth 100000 in
/-- C16: an encoders event of two joints whose primary encoder of joint 1 failed and whose
4-bit field of joint 1 in the primary error codes, bits 4 to 7 of `param64`, is 6, is
reported with `code=0`: the code masks the error word with `0xf << i` and then shifts it
right by `4*i`, so for joint 1 it keeps bits 1 to 4 and prints bit 4 only. -/
theorem C16_primary_code_of_joint_one_is_lost :
    bitsOf encodersFailedEvent.p64 4 4 = 6 ∧
    encoderCodePrinted (bitsOf encodersFailedEvent.p64 0 16) 1 = 0 ∧
    (ConfigParser.parseInfo (tablesCFG ValueCFG.eoerror_value_CFG_encoders_failed_verify)
        armNames encodersFailedEvent).baseInfo.finalMessage =
      lit ("CFG: encoders failed. joint 1 (l_shoulder_roll) has error on primary encoder " ++
        "(code=0). ") := by
  decide

set_option maxRecDepth 100000 in
/-- C17 (counterexample): an `encoders_ok` event of joint count 0 whose base message is
`CFG: ok`, a NUL byte and ` tail`, 13 bytes in all, decodes to `CFG: ok`, which is neither
the base message nor its first 511 bytes. -/
theorem C17_counterexample :
    (tablesCFG ValueCFG.eoerror_value_CFG_encoders_ok).valueCFG
        ((tablesCFG ValueCFG.eoerror_value_CFG_encoders_ok).eoerror_code2value
          encodersNulEvent.code) = ValueCFG.eoerror_value_CFG_encoders_ok ∧
    bitsOf encodersNulEvent.p16 12 4 = 0 ∧
    encodersNulEvent.baseMessage.length = 13 ∧
    (ConfigParser.parseInfo (tablesCFG ValueCFG.eoerror_value_CFG_encoders_ok) armNames
        encodersNulEvent).baseInfo.finalMessage = lit "CFG: ok" ∧
    (ConfigParser.parseInfo (tablesCFG ValueCFG.eoerror_value_CFG_encoders_ok) armNames
        encodersNulEvent).baseInfo.finalMessage ≠ encodersNulEvent.baseMessage ∧
    (ConfigParser.parseInfo (tablesCFG ValueCFG.eoerror_value_CFG_encoders_ok) armNames
        encodersNulEvent).baseInfo.finalMessage ≠ encodersNulEvent.baseMessage.take 511 := by
  decide

/-- C17 (amended): for `eoerror_value_CFG_encoders_ok` with joint count 0, that is bits 12
to 15 of `param16` all zero, `finalMessage` is exactly the base message up to its first
NUL byte, truncated to 511 bytes, with no per-joint line, whatever the other bits of
`param16` and whatever `param64`; for a base message without NUL byte this is the base
message itself, truncated to 511 bytes. -/
theorem C17_encoders_ok_without_joints (t : EoTables) (p : EntityNameProvider)
    (d : AuxEmbeddedInfo)
    (h : t.valueCFG (t.eoerror_code2value d.code) = ValueCFG.eoerror_value_CFG_encoders_ok)
    (hN : bitsOf d.p16 12 4 = 0) :
    (ConfigParser.parseInfo t p d).baseInfo.finalMessage = snprintf 512 (c_str d.baseMessage) ∧
    (NUL ∉ d.baseMessage →
      (ConfigParser.parseInfo t p d).baseInfo.finalMessage = d.baseMessage.take 511) := by
  have e : (ConfigParser.parseInfo t p d).baseInfo.finalMessage =
      snprintf 512 (c_str d.baseMessage) := by
    rw [ConfigParser_parseInfo_encoders t p d (Or.inl h), hN]
    simp only [encoderLines, List.range_zero, List.flatMap_nil, List.append_nil]
  refine ⟨e, fun hn => ?_⟩
  rw [e, c_str_of_no_NUL _ hn]
  rfl

/-- Witness of C17 (amended): an event of no joint whose masks and error codes are all
set and whose base message holds no NUL byte, so that both parts apply. -/
theorem C17_encoders_ok_without_joints_witness :
    (tablesCFG ValueCFG.eoerror_value_CFG_encoders_ok).valueCFG
        ((tablesCFG ValueCFG.eoerror_value_CFG_encoders_ok).eoerror_code2value
          encodersNoJointEvent.code) = ValueCFG.eoerror_value_CFG_encoders_ok ∧
    bitsOf encodersNoJointEvent.p16 12 4 = 0 ∧
    NUL ∉ encodersNoJointEvent.baseMessage ∧
    (ConfigParser.parseInfo (tablesCFG ValueCFG.eoerror_value_CFG_encoders_ok) armNames
        encodersNoJointEvent).baseInfo.finalMessage =
      snprintf 512 (c_str encodersNoJointEvent.baseMessage) ∧
    (ConfigParser.parseInfo (tablesCFG ValueCFG.eoerror_value_CFG_encoders_ok) armNames
        encodersNoJointEvent).baseInfo.finalMessage =
      encodersNoJointEvent.baseMessage.take 511 :=
  ⟨rfl, by decide, by decide,
    (C17_encoders_ok_without_joints (tablesCFG ValueCFG.eoerror_value_CFG_encoders_ok)
      armNames encodersNoJointEvent rfl (by decide)).1,
    (C17_encoders_ok_without_joints (tablesCFG ValueCFG.eoerror_value_CFG_encoders_ok)
      armNames encodersNoJointEvent rfl (by decide)).2 (by decide)⟩

/-- C19: for `eoerror_value_SYS_canservices_monitor_lostcontact` the CAN1 mask of the lost
boards is bits 0 to 15 of `param64`, the CAN2 mask is bits 16 to 31 and the time printed
in ms is bits 48 to 63, a number below 65536; an event that differs only in `param16` and
in bits 32 to 47 of `param64` decodes to the same message. -/
theorem C19_lostcontact_fields (t : EoTables) (d : AuxEmbeddedInfo) (r q : Nat)
    (h : t.valueSYS (t.eoerror_code2value d.code) =
      ValueSYS.eoerror_value_SYS_canservices_monitor_lostcontact)
    (h0 : bitsOf q 0 32 = bitsOf d.param64 0 32)
    (h48 : bitsOf q 48 16 = bitsOf d.param64 48 16) :
    (SysParser.parseInfo t d).baseInfo.finalMessage =
      snprintf 512
        (monitorLostcontactText (c_str d.baseMessage)
          (c_str (t.eomn_servicecategory2string d.baseInfo.sourceCANBoardAddr))
          (indexList (bitsOf d.p64 0 16)) (indexList (bitsOf d.p64 16 16))
          (bitsOf d.p64 48 16)) ∧
    bitsOf d.p64 48 16 < 65536 ∧
    (SysParser.parseInfo t { d with param16 := r, param64 := q }).baseInfo.finalMessage =
      (SysParser.parseInfo t d).baseInfo.finalMessage := by
  refine ⟨SysParser_parseInfo_monitor_lostcontact t d h, bitsOf_lt _ _ _, ?_⟩
  rw [SysParser_parseInfo_monitor_lostcontact t d h,
    SysParser_parseInfo_monitor_lostcontact t { d with param16 := r, param64 := q } h]
  have a1 : bitsOf (AuxEmbeddedInfo.p64 { d with param16 := r, param64 := q }) 0 16 =
      bitsOf d.p64 0 16 := by
    simp only [bitsOf, AuxEmbeddedInfo.p64] at h0 ⊢
    omega
  have a2 : bitsOf (AuxEmbeddedInfo.p64 { d with param16 := r, param64 := q }) 16 16 =
      bitsOf d.p64 16 16 := by
    simp only [bitsOf, AuxEmbeddedInfo.p64] at h0 ⊢
    omega
  have a3 : bitsOf (AuxEmbeddedInfo.p64 { d with param16 := r, param64 := q }) 48 16 =
      bitsOf d.p64 48 16 := by
    simp only [bitsOf, AuxEmbeddedInfo.p64] at h48 ⊢
    omega
  rw [a1, a2, a3]

/-- Witness of C19: the sample event, and the same event with another `param16` and other
bits 32 to 47 of `param64`. -/
theorem C19_lostcontact_fields_witness :
    (tablesSYS ValueSYS.eoerror_value_SYS_canservices_monitor_lostcontact).valueSYS
        ((tablesSYS
          ValueSYS.eoerror_value_SYS_canservices_monitor_lostcontact).eoerror_code2value
          lostContactEvent.code) =
      ValueSYS.eoerror_value_SYS_canservices_monitor_lostcontact ∧
    bitsOf 0x0064abcd00064002 0 32 = bitsOf lostContactEvent.param64 0 32 ∧
    bitsOf 0x0064abcd00064002 48 16 = bitsOf lostContactEvent.param64 48 16 ∧
    bitsOf lostContactEvent.p64 48 16 < 65536 ∧
    (SysParser.parseInfo
        (tablesSYS ValueSYS.eoerror_value_SYS_canservices_monitor_lostcontact)
        { lostContactEvent with
          param16 := 0xffff, param64 := 0x0064abcd00064002 }).baseInfo.finalMessage =
      (SysParser.parseInfo
        (tablesSYS ValueSYS.eoerror_value_SYS_canservices_monitor_lostcontact)
        lostContactEvent).baseInfo.finalMessage :=
  ⟨rfl, by decide, by decide,
    (C19_lostcontact_fields
      (tablesSYS ValueSYS.eoerror_value_SYS_canservices_monitor_lostcontact)
      lostContactEvent 0xffff 0x0064abcd00064002 rfl (by decide) (by decide)).2⟩

set_option maxRecDepth 100000 in
/-- C20: a link event whose bits 56 to 63 of `param64` hold the code 1, and a CRC event
whose bits 56 to 63 hold the code 3, are both reported with the application state
`unknown`, where the names of the codes 1 and 3 are `idle` and `running`: the code
compares the masked word `param64 & 0xff00000000000000` with 0, 1 and 3 without shifting
it down. -/
theorem C20_application_state_is_read_unshifted :
    bitsOf linkIdleEvent.p64 56 8 = 1 ∧
    applicationStateName (bitsOf linkIdleEvent.p64 56 8) = lit "idle" ∧
    (EthMonitorParser.parseInfo (tablesETHMON ValueETHMON.eoerror_value_ETHMON_link_goes_up)
        linkIdleEvent).baseInfo.finalMessage =
      lit (" ETHMON: link goes up in port ETH input (P2/P13/J4). " ++
        "Application state is unknown.") ∧
    (EthMonitorParser.parseInfo (tablesETHMON ValueETHMON.eoerror_value_ETHMON_link_goes_down)
        linkIdleEvent).baseInfo.finalMessage =
      lit (" ETHMON: link goes up in port ETH input (P2/P13/J4). " ++
        "Application state is unknown.") ∧
    bitsOf rxcrcRunningEvent.p64 56 8 = 3 ∧
    applicationStateName (bitsOf rxcrcRunningEvent.p64 56 8) = lit "running" ∧
    (EthMonitorParser.parseInfo (tablesETHMON ValueETHMON.eoerror_value_ETHMON_error_rxcrc)
        rxcrcRunningEvent).baseInfo.finalMessage =
      lit (" ETHMON: rx crc error in port ETH output (P3/P12/J5). " ++
        "Application state is unknown. Number of erros is 7") := by
  decide

/-! ### Link reports of the Ethernet monitor -/

/-- A word masked with `w` ones at position `s` is the field at that position, shifted
back up. -/
theorem and_mask_eq_shiftLeft (x s w : Nat) :
    x &&& ((2 ^ w - 1) <<< s) = bitsOf x s w <<< s := by
  apply Nat.eq_of_testBit_eq
  intro j
  simp only [Nat.testBit_and, Nat.testBit_shiftLeft, Nat.testBit_two_pow_sub_one,
    testBit_bitsOf, ge_iff_le]
  by_cases hj : s ≤ j
  · have e : s + (j - s) = j := by omega
    simp only [hj, decide_True, Bool.true_and, e]
    exact Bool.and_comm _ _
  · simp only [hj, decide_False, Bool.false_and, Bool.and_false]

theorem and_mask_eq_zero_iff (x M s w : Nat) (hM : M = (2 ^ w - 1) <<< s) :
    x &&& M = 0 ↔ bitsOf x s w = 0 := by
  subst hM
  rw [and_mask_eq_shiftLeft, Nat.shiftLeft_eq, Nat.mul_eq_zero]
  constructor
  · intro h
    rcases h with h | h
    · exact h
    · exact absurd h (Nat.ne_of_gt (Nat.pos_pow_of_pos s (by decide)))
  · intro h
    exact Or.inl h

/-- A word masked above bit 0 is even, so it is neither 1 nor 3. -/
theorem and_mask_ne_odd (x M k : Nat) (hM : M.testBit 0 = false) : x &&& M ≠ 2 * k + 1 := by
  intro h
  have e := congrArg (fun y => y.testBit 0) h
  simp only [Nat.testBit_and, hM, Bool.and_false] at e
  have o : (2 * k + 1).testBit 0 = true := by
    rw [Nat.testBit_zero]
    simp only [decide_eq_true_eq]
    omega
  rw [o] at e
  exact absurd e (by decide)

/-- What `EthMonitorParser.link` appends, with every field named by its bit positions. -/
theorem EthMonitorParser.link_final (b : Bool) (d : AuxEmbeddedInfo) :
    (EthMonitorParser.link b d).baseInfo.finalMessage =
      d.baseInfo.finalMessage ++
        (if b = true then
          snprintf 512 (rxcrcText (c_str d.baseMessage) (ethPortName d.p16)
            (applicationStatePrinted (bitsOf d.p64 56 8)) (bitsOf d.p64 0 32))
        else
          snprintf 512 (linkText (c_str d.baseMessage) (ethPortName d.p16)
            (applicationStatePrinted (bitsOf d.p64 56 8)))) := by
  have s1 : d.p64 &&& 0xff00000000000000 ≠ 1 := and_mask_ne_odd _ _ 0 (by decide)
  have s3 : d.p64 &&& 0xff00000000000000 ≠ 3 := and_mask_ne_odd _ _ 1 (by decide)
  have s0 : d.p64 &&& 0xff00000000000000 = 0 ↔ bitsOf d.p64 56 8 = 0 :=
    and_mask_eq_zero_iff _ _ 56 8 (by decide)
  have fc : toInt64 (d.p64 &&& 0xffffffff) = Int.ofNat (bitsOf d.p64 0 32) := by
    rw [and_eq_bitsOf d.p64 _ 32 (by decide)]
    exact toInt64_of_lt _ (Nat.lt_trans (bitsOf_lt _ _ _) (by decide))
  have st : c_str (if d.p64 &&& 0xff00000000000000 = 0 then lit "N/A"
        else if d.p64 &&& 0xff00000000000000 = 1 then lit "idle"
        else if d.p64 &&& 0xff00000000000000 = 3 then lit "running" else lit "unknown") =
      applicationStatePrinted (bitsOf d.p64 56 8) := by
    unfold applicationStatePrinted
    by_cases h0 : d.p64 &&& 0xff00000000000000 = 0
    · rw [if_pos h0, if_pos (s0.mp h0)]
      decide
    · rw [if_neg h0, if_neg s1, if_neg s3, if_neg (fun h => h0 (s0.mpr h))]
      decide
  have pt : c_str (if d.p16 = 0 then lit "ETH input (P2/P13/J4)"
        else if d.p16 = 1 then lit "ETH output (P3/P12/J5)"
        else if d.p16 = 2 then lit "internal" else lit "unknown") = ethPortName d.p16 := by
    unfold ethPortName
    split_ifs <;> decide
  cases b
  · simp only [EthMonitorParser.link, appendFinalMessage_finalMessage, st, pt, linkText,
      Bool.false_eq_true, if_false, List.append_assoc]
  · simp only [EthMonitorParser.link, appendFinalMessage_finalMessage, st, pt, fc, fmt_d_ofNat,
      rxcrcText, if_true, List.append_assoc]

theorem EthMonitorParser_parseInfo_link (t : EoTables) (d : AuxEmbeddedInfo)
    (h : t.valueETHMON (t.eoerror_code2value d.code) =
        ValueETHMON.eoerror_value_ETHMON_link_goes_up ∨
      t.valueETHMON (t.eoerror_code2value d.code) =
        ValueETHMON.eoerror_value_ETHMON_link_goes_down) :
    (EthMonitorParser.parseInfo t d).baseInfo.finalMessage =
      snprintf 512 (linkText (c_str d.baseMessage) (ethPortName d.p16)
        (applicationStatePrinted (bitsOf d.p64 56 8))) := by
  have e : EthMonitorParser.parseInfo t d = EthMonitorParser.link false d.clearFinalMessage := by
    show EthMonitorParser.dispatch t (t.valueETHMON (t.eoerror_code2value d.code))
      d.clearFinalMessage = _
    rcases h with h | h <;> rw [h] <;> rfl
  rw [e, EthMonitorParser.link_final]
  simp only [clearFinalMessage_p64, clearFinalMessage_p16, clearFinalMessage_baseMessage,
    clearFinalMessage_finalMessage, List.nil_append, Bool.false_eq_true, if_false]

theorem EthMonitorParser_parseInfo_rxcrc (t : EoTables) (d : AuxEmbeddedInfo)
    (h : t.valueETHMON (t.eoerror_code2value d.code) =
      ValueETHMON.eoerror_value_ETHMON_error_rxcrc) :
    (EthMonitorParser.parseInfo t d).baseInfo.finalMessage =
      snprintf 512 (rxcrcText (c_str d.baseMessage) (ethPortName d.p16)
        (applicationStatePrinted (bitsOf d.p64 56 8)) (bitsOf d.p64 0 32)) := by
  have e : EthMonitorParser.parseInfo t d = EthMonitorParser.link true d.clearFinalMessage := by
    show EthMonitorParser.dispatch t (t.valueETHMON (t.eoerror_code2value d.code))
      d.clearFinalMessage = _
    rw [h]
    rfl
  rw [e, EthMonitorParser.link_final]
  simp only [clearFinalMessage_p64, clearFinalMessage_p16, clearFinalMessage_baseMessage,
    clearFinalMessage_finalMessage, List.nil_append, if_true]

/-! ## The claims on single reports -/

/-- C21: for `eoerror_value_ETHMON_error_rxcrc` the number of errors printed is bits 0 to
31 of `param64` and the port name is chosen by `param16`: 0 gives `ETH input (P2/P13/J4)`,
1 gives `ETH output (P3/P12/J5)`, 2 gives `internal` and any other value `unknown`; the
messages of `link_goes_up` and `link_goes_down` name the port the same way and end after
the application state, without an error count. -/
theorem C21_rxcrc_count_and_port (t : EoTables) (d : AuxEmbeddedInfo)
    (h : t.valueETHMON (t.eoerror_code2value d.code) =
        ValueETHMON.eoerror_value_ETHMON_error_rxcrc ∨
      t.valueETHMON (t.eoerror_code2value d.code) =
        ValueETHMON.eoerror_value_ETHMON_link_goes_up ∨
      t.valueETHMON (t.eoerror_code2value d.code) =
        ValueETHMON.eoerror_value_ETHMON_link_goes_down) :
    (t.valueETHMON (t.eoerror_code2value d.code) =
        ValueETHMON.eoerror_value_ETHMON_error_rxcrc →
      (EthMonitorParser.parseInfo t d).baseInfo.finalMessage =
        snprintf 512 (rxcrcText (c_str d.baseMessage) (ethPortName d.p16)
          (applicationStatePrinted (bitsOf d.p64 56 8)) (d.p64 &&& 0xffffffff))) ∧
    (t.valueETHMON (t.eoerror_code2value d.code) ≠
        ValueETHMON.eoerror_value_ETHMON_error_rxcrc →
      (EthMonitorParser.parseInfo t d).baseInfo.finalMessage =
        snprintf 512 (linkText (c_str d.baseMessage) (ethPortName d.p16)
          (applicationStatePrinted (bitsOf d.p64 56 8)))) ∧
    ethPortName 0 = lit "ETH input (P2/P13/J4)" ∧
    ethPortName 1 = lit "ETH output (P3/P12/J5)" ∧
    ethPortName 2 = lit "internal" ∧
    (∀ n, 3 ≤ n → ethPortName n = lit "unknown") := by
  have f : d.p64 &&& 0xffffffff = bitsOf d.p64 0 32 := and_eq_bitsOf d.p64 _ 32 (by decide)
  refine ⟨fun hv => ?_, fun hv => ?_, rfl, rfl, rfl, fun n hn => ?_⟩
  · rw [EthMonitorParser_parseInfo_rxcrc t d hv, f]
  · rcases h with h | h
    · exact absurd h hv
    · exact EthMonitorParser_parseInfo_link t d h
  · have h0 : n ≠ 0 := by omega
    have h1 : n ≠ 1 := by omega
    have h2 : n ≠ 2 := by omega
    simp only [ethPortName, h0, h1, h2, if_false]

/-- Witness of C21: the CRC event with 7 errors on the output port. -/
theorem C21_rxcrc_count_and_port_witness :
    (tablesETHMON ValueETHMON.eoerror_value_ETHMON_error_rxcrc).valueETHMON
        ((tablesETHMON ValueETHMON.eoerror_value_ETHMON_error_rxcrc).eoerror_code2value
          rxcrcRunningEvent.code) = ValueETHMON.eoerror_value_ETHMON_error_rxcrc ∧
    (EthMonitorParser.parseInfo (tablesETHMON ValueETHMON.eoerror_value_ETHMON_error_rxcrc)
        rxcrcRunningEvent).baseInfo.finalMessage =
      snprintf 512 (rxcrcText (c_str rxcrcRunningEvent.baseMessage)
        (ethPortName rxcrcRunningEvent.p16)
        (applicationStatePrinted (bitsOf rxcrcRunningEvent.p64 56 8))
        (rxcrcRunningEvent.p64 &&& 0xffffffff)) :=
  ⟨rfl, (C21_rxcrc_count_and_port
    (tablesETHMON ValueETHMON.eoerror_value_ETHMON_error_rxcrc) rxcrcRunningEvent
    (Or.inl rfl)).1 rfl⟩

set_option maxRecDepth 100000 in
/-- C22: a `board_detected` event and a `board_wrongprotversion` event whose `param64`
holds the firmware build 5 in bits 0 to 7, major 3 in bits 8 to 15 and minor 4 in bits 16
to 23 are reported with `Fw ver is 5.3.4`: the code prints the three numbers in the order
build.major.minor. The protocol version, major 1 and minor 2, is printed as `1.2`. -/
theorem C22_firmware_version_starts_with_build :
    bitsOf boardDetectedEvent.p64 8 8 = 3 ∧ bitsOf boardDetectedEvent.p64 16 8 = 4 ∧
    bitsOf boardDetectedEvent.p64 0 8 = 5 ∧
    bitsOf boardDetectedEvent.p64 24 8 = 1 ∧ bitsOf boardDetectedEvent.p64 32 8 = 2 ∧
    (SysParser.parseInfo (tablesSYS ValueSYS.eoerror_value_SYS_canservices_board_detected)
        boardDetectedEvent).baseInfo.finalMessage =
      lit (" SYS: board detected on CAN port=CAN1 with address 3.  Fw ver is 5.3.4. " ++
        "Proto ver is 1.2") ∧
    (SysParser.parseInfo
        (tablesSYS ValueSYS.eoerror_value_SYS_canservices_board_wrongprotversion)
        boardDetectedEvent).baseInfo.finalMessage =
      lit (" SYS: board detected on CAN port=CAN1 with address 3. Fw ver is 5.3.4. " ++
        "Proto ver is 1.2. Required Version is 1.2") := by
  decide

/-! ### The base-only formatter -/

theorem DefaultParser.printBaseInfo_final (d : AuxEmbeddedInfo) :
    (DefaultParser.printBaseInfo d).baseInfo.finalMessage =
      d.baseInfo.finalMessage ++ snprintf 512 (c_str d.baseMessage) := rfl

set_option maxHeartbeats 1000000 in
theorem ConfigParser_dispatch_baseOnly (t : EoTables) (p : EntityNameProvider) (v : ValueCFG)
    (d : AuxEmbeddedInfo) (h : v.isBaseOnly = true) :
    ConfigParser.dispatch t p v d = DefaultParser.printBaseInfo d := by
  cases v <;> first | exact absurd h (by decide) | rfl

theorem SkinParser_dispatch_baseOnly (t : EoTables) (v : ValueSK) (d : AuxEmbeddedInfo)
    (h : v.isBaseOnly = true) : SkinParser.dispatch t v d = DefaultParser.printBaseInfo d := by
  cases v <;> first | exact absurd h (by decide) | rfl

theorem HwErrorParser_dispatch_baseOnly (t : EoTables) (v : ValueHW) (d : AuxEmbeddedInfo)
    (h : v.isBaseOnly = true) :
    HwErrorParser.dispatch t v d = DefaultParser.printBaseInfo d := by
  cases v <;> first | exact absurd h (by decide) | rfl

set_option maxHeartbeats 1000000 in
theorem SysParser_dispatch_baseOnly (t : EoTables) (v : ValueSYS) (d : AuxEmbeddedInfo)
    (h : v.isBaseOnly = true) : SysParser.dispatch t v d = DefaultParser.printBaseInfo d := by
  cases v <;> first | exact absurd h (by decide) | rfl

theorem EthMonitorParser_dispatch_baseOnly (t : EoTables) (v : ValueETHMON)
    (d : AuxEmbeddedInfo) (h : v.isBaseOnly = true) :
    EthMonitorParser.dispatch t v d = DefaultParser.printBaseInfo d := by
  cases v <;> first | exact absurd h (by decide) | rfl

theorem InertialSensorParser_dispatch_baseOnly (t : EoTables) (v : ValueIS)
    (d : AuxEmbeddedInfo) (h : v.isBaseOnly = true) :
    InertialSensorParser.dispatch t v d = DefaultParser.printBaseInfo d := by
  cases v <;> first | exact absurd h (by decide) | rfl

theorem AnalogSensorParser_dispatch_baseOnly (t : EoTables) (v : ValueAS)
    (d : AuxEmbeddedInfo) (h : v.isBaseOnly = true) :
    AnalogSensorParser.dispatch t v d = DefaultParser.printBaseInfo d := by
  cases v <;> first | exact absurd h (by decide) | rfl

/-- A value of a `printBaseInfo()` group leaves the base message, as `%s` prints it through
the 512-byte buffer, in `finalMessage`. -/
theorem parseInfoOf_baseOnly (c : Category) (t : EoTables) (p : EntityNameProvider)
    (d : AuxEmbeddedInfo) (h : isBaseOnly c t d = true) :
    (parseInfoOf c t p d).baseInfo.finalMessage = snprintf 512 (c_str d.baseMessage) := by
  have k : (DefaultParser.printBaseInfo d.clearFinalMessage).baseInfo.finalMessage =
      snprintf 512 (c_str d.baseMessage) := by
    rw [DefaultParser.printBaseInfo_final, clearFinalMessage_finalMessage,
      clearFinalMessage_baseMessage, List.nil_append]
  cases c
  · show (ConfigParser.dispatch t p (t.valueCFG (t.eoerror_code2value d.code))
      d.clearFinalMessage).baseInfo.finalMessage = _
    rw [ConfigParser_dispatch_baseOnly t p _ _ h, k]
  · exact absurd (show false = true from h) (by decide)
  · show (SkinParser.dispatch t (t.valueSK (t.eoerror_code2value d.code))
      d.clearFinalMessage).baseInfo.finalMessage = _
    rw [SkinParser_dispatch_baseOnly t _ _ h, k]
  · show (HwErrorParser.dispatch t (t.valueHW (t.eoerror_code2value d.code))
      d.clearFinalMessage).baseInfo.finalMessage = _
    rw [HwErrorParser_dispatch_baseOnly t _ _ h, k]
  · show (SysParser.dispatch t (t.valueSYS (t.eoerror_code2value d.code))
      d.clearFinalMessage).baseInfo.finalMessage = _
    rw [SysParser_dispatch_baseOnly t _ _ h, k]
  · show (EthMonitorParser.dispatch t (t.valueETHMON (t.eoerror_code2value d.code))
      d.clearFinalMessage).baseInfo.finalMessage = _
    rw [EthMonitorParser_dispatch_baseOnly t _ _ h, k]
  · show (InertialSensorParser.dispatch t (t.valueIS (t.eoerror_code2value d.code))
      d.clearFinalMessage).baseInfo.finalMessage = _
    rw [InertialSensorParser_dispatch_baseOnly t _ _ h, k]
  · show (AnalogSensorParser.dispatch t (t.valueAS (t.eoerror_code2value d.code))
      d.clearFinalMessage).baseInfo.finalMessage = _
    rw [AnalogSensorParser_dispatch_baseOnly t _ _ h, k]

set_option maxRecDepth 100000 in
/-- C23 (counterexample): a `bat_ok` event of the Config parser whose base message is
`SYS: cut`, a NUL byte and ` hidden tail`, 21 bytes in all, decodes to `SYS: cut`, which
is not the base message verbatim. -/
theorem C23_counterexample :
    isBaseOnly Category.Config (tablesCFG ValueCFG.eoerror_value_CFG_bat_ok)
      baseNulEvent = true ∧
    baseNulEvent.baseMessage.length = 21 ∧
    (parseInfoOf Category.Config (tablesCFG ValueCFG.eoerror_value_CFG_bat_ok) noNames
        baseNulEvent).baseInfo.finalMessage = lit "SYS: cut" ∧
    (parseInfoOf Category.Config (tablesCFG ValueCFG.eoerror_value_CFG_bat_ok) noNames
        baseNulEvent).baseInfo.finalMessage ≠ baseNulEvent.baseMessage ∧
    (parseInfoOf Category.Config (tablesCFG ValueCFG.eoerror_value_CFG_bat_ok) noNames
        baseNulEvent).baseInfo.finalMessage ≠ baseNulEvent.baseMessage.take 511 := by
  decide

/-- C23 (amended): for every value of a `printBaseInfo()` group of the Config, Skin,
HardWare, Sys, EthMonitor, InertialSensor and AnalogSensor parsers, `finalMessage` after
`parseInfo` is the base message up to its first NUL byte (its first 511 bytes when
longer); for a base message without NUL byte this is the base message verbatim (its first
511 bytes when longer); and an event that differs only in `param16`, `param64` and
`extraMessage` decodes to the same message. -/
theorem C23_base_only_message (c : Category) (t : EoTables) (p : EntityNameProvider)
    (d : AuxEmbeddedInfo) (r q : Nat) (x : Text) (h : isBaseOnly c t d = true) :
    (parseInfoOf c t p d).baseInfo.finalMessage = snprintf 512 (c_str d.baseMessage) ∧
    (NUL ∉ d.baseMessage →
      (parseInfoOf c t p d).baseInfo.finalMessage = d.baseMessage.take 511) ∧
    (parseInfoOf c t p
        { d with param16 := r, param64 := q, extraMessage := x }).baseInfo.finalMessage =
      (parseInfoOf c t p d).baseInfo.finalMessage := by
  have e := parseInfoOf_baseOnly c t p d h
  have h2 : isBaseOnly c t { d with param16 := r, param64 := q, extraMessage := x } = true := by
    cases c <;> exact h
  refine ⟨e, fun hn => ?_, ?_⟩
  · rw [e, c_str_of_no_NUL _ hn]
    rfl
  · rw [e, parseInfoOf_baseOnly c t p _ h2]

/-- Witness of C23 (amended): a `bat_ok` event of the Config parser whose base message
holds no NUL byte, so that all three parts apply. -/
theorem C23_base_only_message_witness :
    isBaseOnly Category.Config (tablesCFG ValueCFG.eoerror_value_CFG_bat_ok)
      (sampleEvent 0 0x1234 0x5678 "CFG: bat ok.") = true ∧
    NUL ∉ (sampleEvent 0 0x1234 0x5678 "CFG: bat ok.").baseMessage ∧
    (parseInfoOf Category.Config (tablesCFG ValueCFG.eoerror_value_CFG_bat_ok) noNames
        (sampleEvent 0 0x1234 0x5678 "CFG: bat ok.")).baseInfo.finalMessage =
      snprintf 512 (c_str (sampleEvent 0 0x1234 0x5678 "CFG: bat ok.").baseMessage) ∧
    (parseInfoOf Category.Config (tablesCFG ValueCFG.eoerror_value_CFG_bat_ok) noNames
        (sampleEvent 0 0x1234 0x5678 "CFG: bat ok.")).baseInfo.finalMessage =
      (sampleEvent 0 0x1234 0x5678 "CFG: bat ok.").baseMessage.take 511 ∧
    (parseInfoOf Category.Config (tablesCFG ValueCFG.eoerror_value_CFG_bat_ok) noNames
        { sampleEvent 0 0x1234 0x5678 "CFG: bat ok." with
          param16 := 0, param64 := 1, extraMessage := [] }).baseInfo.finalMessage =
      (parseInfoOf Category.Config (tablesCFG ValueCFG.eoerror_value_CFG_bat_ok) noNames
        (sampleEvent 0 0x1234 0x5678 "CFG: bat ok.")).baseInfo.finalMessage :=
  ⟨rfl, by decide,
    (C23_base_only_message Category.Config (tablesCFG ValueCFG.eoerror_value_CFG_bat_ok)
      noNames (sampleEvent 0 0x1234 0x5678 "CFG: bat ok.") 0 1 [] rfl).1,
    (C23_base_only_message Category.Config (tablesCFG ValueCFG.eoerror_value_CFG_bat_ok)
      noNames (sampleEvent 0 0x1234 0x5678 "CFG: bat ok.") 0 1 [] rfl).2.1 (by decide),
    (C23_base_only_message Category.Config (tablesCFG ValueCFG.eoerror_value_CFG_bat_ok)
      noNames (sampleEvent 0 0x1234 0x5678 "CFG: bat ok.") 0 1 [] rfl).2.2⟩

theorem sum_take_le (l : List Nat) (n : Nat) : (l.take n).sum ≤ l.sum := by
  induction l generalizing n with
  | nil => simp
  | cons a l ih =>
    cases n with
    | zero => simp
    | succ n =>
      rw [List.take_succ_cons, List.sum_cons, List.sum_cons]
      exact Nat.add_le_add_left (ih n) a

theorem SysParser.contactStep_length (m1 m2 : Nat) (s : Text × Text) (i : Nat) :
    (SysParser.contactStep m1 m2 s i).1.length ≤ s.1.length + indexWidth i ∧
    (SysParser.contactStep m1 m2 s i).2.length ≤ s.2.length + indexWidth i := by
  simp only [SysParser.contactStep, indexWidth, fmt_u]
  constructor <;> split_ifs <;> simp [lit]

theorem SysParser.regularcontactStep_length (m1 m2 : Nat) (s : Text × Text) (i : Nat) :
    (SysParser.regularcontactStep m1 m2 s i).1.length ≤
      s.1.length + (indexWidth i + (indexWidth i - 1)) ∧
    (SysParser.regularcontactStep m1 m2 s i).2.length ≤ s.2.length + 1 := by
  simp only [SysParser.regularcontactStep, indexWidth, fmt_u]
  constructor <;> split_ifs <;> (simp [lit]; try omega)

/-- A loop over pairs of buffers that grow by at most `a i` and `b i` in turn `i`. -/
theorem foldl_buffers_length (step : Text × Text → Nat → Text × Text) (a b : Nat → Nat)
    (hs : ∀ s i, (step s i).1.length ≤ s.1.length + a i ∧
      (step s i).2.length ≤ s.2.length + b i)
    (l : List Nat) (s : Text × Text) :
    (l.foldl step s).1.length ≤ s.1.length + (l.map a).sum ∧
    (l.foldl step s).2.length ≤ s.2.length + (l.map b).sum := by
  induction l generalizing s with
  | nil => simp
  | cons i l ih =>
    have h1 := hs s i
    have h2 := ih (step s i)
    simp only [List.foldl_cons, List.map_cons, List.sum_cons]
    constructor <;> omega

/-- C25: in the loops that fill the two 64-byte buffers of `boards_lostcontact`,
`boards_retrievedcontact`, `monitor_lostcontact` and `monitor_stillnocontact`, after any
number of turns and for all masks each buffer holds at most 33 characters; in the loop of
`monitor_regularcontact` the first buffer holds at most 52 characters and the second at
most 14. Every content is shorter than 64, so no `strcat` writes past its buffer. -/
theorem C25_contact_buffers_fit (m1 m2 n : Nat) :
    (((forRange 1 15).take n).foldl (SysParser.contactStep m1 m2) ([], [])).1.length ≤ 33 ∧
    (((forRange 1 15).take n).foldl (SysParser.contactStep m1 m2) ([], [])).2.length ≤ 33 ∧
    (((forRange 1 15).take n).foldl (SysParser.regularcontactStep m1 m2)
      ([], [])).1.length ≤ 52 ∧
    (((forRange 1 15).take n).foldl (SysParser.regularcontactStep m1 m2)
      ([], [])).2.length ≤ 14 := by
  have c := foldl_buffers_length (SysParser.contactStep m1 m2) indexWidth indexWidth
    (SysParser.contactStep_length m1 m2) ((forRange 1 15).take n) ([], [])
  have r := foldl_buffers_length (SysParser.regularcontactStep m1 m2)
    (fun i => indexWidth i + (indexWidth i - 1)) (fun _ => 1)
    (SysParser.regularcontactStep_length m1 m2) ((forRange 1 15).take n) ([], [])
  have t1 : (((forRange 1 15).take n).map indexWidth).sum ≤ 33 := by
    rw [List.map_take]
    exact Nat.le_trans (sum_take_le _ n) (by decide)
  have t2 : (((forRange 1 15).take n).map
      (fun i => indexWidth i + (indexWidth i - 1))).sum ≤ 52 := by
    rw [List.map_take]
    exact Nat.le_trans (sum_take_le _ n) (by decide)
  have t3 : (((forRange 1 15).take n).map (fun _ => 1)).sum ≤ 14 := by
    rw [List.map_take]
    exact Nat.le_trans (sum_take_le _ n) (by decide)
  simp only [List.length_nil, Nat.zero_add] at c r
  exact ⟨Nat.le_trans c.1 t1, Nat.le_trans c.2 t1, Nat.le_trans r.1 t2, Nat.le_trans r.2 t3⟩

theorem toInt16_mod (x : Nat) : toInt16 (x % 2 ^ 64) = toInt16 (x % 2 ^ 16) := by
  have e1 : x % 2 ^ 64 % 2 ^ 16 = x % 2 ^ 16 := by omega
  have e2 : x % 2 ^ 16 % 2 ^ 16 = x % 2 ^ 16 := by omega
  simp only [toInt16, e1, e2]

theorem toInt16_range (x : Nat) : -32768 ≤ toInt16 x ∧ toInt16 x ≤ 32767 := by
  unfold toInt16
  simp only [Int.ofNat_eq_coe]
  split_ifs <;> omega

/-- What `SysParser.transceiver_rxseqnumber_error` appends when the expected number is
below `2 ^ 63`. -/
theorem SysParser.transceiver_rxseqnumber_error_final (d : AuxEmbeddedInfo)
    (hp : d.p64 < 2 ^ 63) :
    (SysParser.transceiver_rxseqnumber_error d).baseInfo.finalMessage =
      d.baseInfo.finalMessage ++ snprintf 512
        (rxseqnumberErrorText (c_str d.baseMessage) d.p64
          (toInt16 ((d.p64 + d.p16) % 2 ^ 16))) := by
  have e : toInt64 d.p64 = Int.ofNat d.p64 := toInt64_of_lt _ hp
  simp only [SysParser.transceiver_rxseqnumber_error, appendFinalMessage_finalMessage, e,
    toInt16_mod, fmt_d_ofNat, rxseqnumberErrorText, List.append_assoc]

/-- What `SysParser.canservices_txfifooverflow` appends. -/
theorem SysParser.canservices_txfifooverflow_final (d : AuxEmbeddedInfo) :
    (SysParser.canservices_txfifooverflow d).baseInfo.finalMessage =
      d.baseInfo.finalMessage ++ snprintf 512
        (txfifooverflowText (c_str d.baseMessage) (c_str d.baseInfo.sourceCANPortStr)
          (if d.p16 = 0 then 0 else 1) 0 d.p64) := by
  have a : logicalAnd d.p16 0x0fff = if d.p16 = 0 then 0 else 1 := by
    unfold logicalAnd
    by_cases h : d.p16 = 0
    · simp [h]
    · simp [h]
  have b : logicalAnd d.p16 0xf000 >>> 12 = 0 := by
    unfold logicalAnd
    split_ifs <;> decide
  simp only [SysParser.canservices_txfifooverflow, appendFinalMessage_finalMessage, a, b,
    fmt_d_ofNat, fmt_x, txfifooverflowText, List.append_assoc]

set_option maxRecDepth 100000 in
/-- C26 (counterexample): a `transceiver_rxseqnumber_error` event with
`param64 = 0x8000000000000000` and `param16 = 1` prints the expected number
`-9223372036854775808`, which is not the numeral of `param64`. -/
theorem C26_counterexample :
    (SysParser.parseInfo (tablesSYS ValueSYS.eoerror_value_SYS_transceiver_rxseqnumber_error)
        rxseqnumberHighEvent).baseInfo.finalMessage =
      lit (" SYS: rx seq error. Expected number is -9223372036854775808, " ++
        "received number is 1 ") ∧
    (SysParser.parseInfo (tablesSYS ValueSYS.eoerror_value_SYS_transceiver_rxseqnumber_error)
        rxseqnumberHighEvent).baseInfo.finalMessage ≠
      snprintf 512 (rxseqnumberErrorText (c_str rxseqnumberHighEvent.baseMessage)
        rxseqnumberHighEvent.p64
        (toInt16 ((rxseqnumberHighEvent.p64 + rxseqnumberHighEvent.p16) % 2 ^ 16))) := by
  decide

/-- C26 (amended): for `eoerror_value_SYS_transceiver_rxseqnumber_error` with `param64`
below `2 ^ 63`, the expected number printed is `param64` and the received number printed
is the sum `param64 + param16` reduced modulo `2 ^ 16` and read as a signed 16-bit
integer, a value from -32768 to 32767. -/
theorem C26_rxseqnumber_error_numbers (t : EoTables) (d : AuxEmbeddedInfo)
    (h : t.valueSYS (t.eoerror_code2value d.code) =
      ValueSYS.eoerror_value_SYS_transceiver_rxseqnumber_error)
    (hp : d.p64 < 2 ^ 63) :
    (SysParser.parseInfo t d).baseInfo.finalMessage =
      snprintf 512 (rxseqnumberErrorText (c_str d.baseMessage) d.p64
        (toInt16 ((d.p64 + d.p16) % 2 ^ 16))) ∧
    -32768 ≤ toInt16 ((d.p64 + d.p16) % 2 ^ 16) ∧
    toInt16 ((d.p64 + d.p16) % 2 ^ 16) ≤ 32767 := by
  have e : SysParser.parseInfo t d =
      SysParser.transceiver_rxseqnumber_error d.clearFinalMessage := by
    show SysParser.dispatch t (t.valueSYS (t.eoerror_code2value d.code))
      d.clearFinalMessage = _
    rw [h]
    rfl
  refine ⟨?_, (toInt16_range _).1, (toInt16_range _).2⟩
  rw [e, SysParser.transceiver_rxseqnumber_error_final d.clearFinalMessage hp]
  simp only [clearFinalMessage_p64, clearFinalMessage_p16, clearFinalMessage_baseMessage,
    clearFinalMessage_finalMessage, List.nil_append]

/-- Witness of C26 (amended): expected number 65530 and `param16 = 10`, whose sum wraps
to 4. -/
theorem C26_rxseqnumber_error_numbers_witness :
    (tablesSYS ValueSYS.eoerror_value_SYS_transceiver_rxseqnumber_error).valueSYS
        ((tablesSYS ValueSYS.eoerror_value_SYS_transceiver_rxseqnumber_error).eoerror_code2value
          rxseqnumberEvent.code) = ValueSYS.eoerror_value_SYS_transceiver_rxseqnumber_error ∧
    rxseqnumberEvent.p64 < 2 ^ 63 ∧
    (SysParser.parseInfo (tablesSYS ValueSYS.eoerror_value_SYS_transceiver_rxseqnumber_error)
        rxseqnumberEvent).baseInfo.finalMessage =
      snprintf 512 (rxseqnumberErrorText (c_str rxseqnumberEvent.baseMessage)
        rxseqnumberEvent.p64
        (toInt16 ((rxseqnumberEvent.p64 + rxseqnumberEvent.p16) % 2 ^ 16))) :=
  ⟨rfl, by decide, (C26_rxseqnumber_error_numbers
    (tablesSYS ValueSYS.eoerror_value_SYS_transceiver_rxseqnumber_error) rxseqnumberEvent
    rfl (by decide)).1⟩

/-! ### Counters -/

theorem eo_common_hlfword_bitsetcount_le (m : Nat) : eo_common_hlfword_bitsetcount m ≤ 16 := by
  unfold eo_common_hlfword_bitsetcount
  exact Nat.le_trans (List.length_filter_le _ _) (by simp)

/-- C27: for `eoerror_value_CFG_candiscovery_started` the board count printed after the
base message is the number of set bits of the CAN1 map plus the number of set bits of the
CAN2 map printed in the same message, a value from 0 to 32 that the 8-bit counter does not
wrap. -/
theorem C27_candiscovery_started_count (t : EoTables) (p : EntityNameProvider)
    (d : AuxEmbeddedInfo)
    (h : t.valueCFG (t.eoerror_code2value d.code) =
      ValueCFG.eoerror_value_CFG_candiscovery_started) :
    (ConfigParser.parseInfo t p d).baseInfo.finalMessage =
      snprintf 512
        (candiscoveryStartedText (c_str d.baseMessage)
          (eo_common_hlfword_bitsetcount (bitsOf d.p64 48 16) +
            eo_common_hlfword_bitsetcount d.p16)
          (c_str (t.eoboards_type2string (bitsOf d.p64 40 8)))
          (bitsOf d.p64 48 16) d.p16
          (bitsOf d.p64 32 8) (bitsOf d.p64 24 8)
          (bitsOf d.p64 16 8) (bitsOf d.p64 8 8) (bitsOf d.p64 0 8)) ∧
    eo_common_hlfword_bitsetcount (bitsOf d.p64 48 16) +
      eo_common_hlfword_bitsetcount d.p16 ≤ 32 := by
  have a := eo_common_hlfword_bitsetcount_le (bitsOf d.p64 48 16)
  have b := eo_common_hlfword_bitsetcount_le d.p16
  have e : (eo_common_hlfword_bitsetcount (bitsOf d.p64 48 16) +
      eo_common_hlfword_bitsetcount d.p16) % 2 ^ 8 =
      eo_common_hlfword_bitsetcount (bitsOf d.p64 48 16) +
        eo_common_hlfword_bitsetcount d.p16 := Nat.mod_eq_of_lt (by omega)
  refine ⟨?_, by omega⟩
  rw [ConfigParser_parseInfo_candiscovery_started t p d h, e]

set_option maxRecDepth 100000 in
/-- Witness of C27: the event with all bits of both maps set, whose count is 32. -/
theorem C27_candiscovery_started_count_witness :
    (tablesCFG ValueCFG.eoerror_value_CFG_candiscovery_started).valueCFG
        ((tablesCFG ValueCFG.eoerror_value_CFG_candiscovery_started).eoerror_code2value
          discoveryAllBoardsEvent.code) =
      ValueCFG.eoerror_value_CFG_candiscovery_started ∧
    eo_common_hlfword_bitsetcount (bitsOf discoveryAllBoardsEvent.p64 48 16) +
      eo_common_hlfword_bitsetcount discoveryAllBoardsEvent.p16 = 32 ∧
    (ConfigParser.parseInfo (tablesCFG ValueCFG.eoerror_value_CFG_candiscovery_started)
        noNames discoveryAllBoardsEvent).baseInfo.finalMessage =
      snprintf 512
        (candiscoveryStartedText (c_str discoveryAllBoardsEvent.baseMessage)
          (eo_common_hlfword_bitsetcount (bitsOf discoveryAllBoardsEvent.p64 48 16) +
            eo_common_hlfword_bitsetcount discoveryAllBoardsEvent.p16)
          (c_str ((tablesCFG
            ValueCFG.eoerror_value_CFG_candiscovery_started).eoboards_type2string
            (bitsOf discoveryAllBoardsEvent.p64 40 8)))
          (bitsOf discoveryAllBoardsEvent.p64 48 16) discoveryAllBoardsEvent.p16
          (bitsOf discoveryAllBoardsEvent.p64 32 8) (bitsOf discoveryAllBoardsEvent.p64 24 8)
          (bitsOf discoveryAllBoardsEvent.p64 16 8) (bitsOf discoveryAllBoardsEvent.p64 8 8)
          (bitsOf discoveryAllBoardsEvent.p64 0 8)) :=
  ⟨rfl, by decide, (C27_candiscovery_started_count
    (tablesCFG ValueCFG.eoerror_value_CFG_candiscovery_started) noNames
    discoveryAllBoardsEvent rfl).1⟩

/-! ### The joint reports of the motion control -/

/-- The state after the loop of the missing boards over the addresses `l`, as long as the
8-bit counter cannot wrap. -/
theorem ConfigParser.boardsmissingStep_foldl (a : Nat) (b : Text) (c : Nat) (l : List Nat)
    (s : AuxEmbeddedInfo × Nat) (hn : s.2 + l.length < 256) :
    (l.foldl (ConfigParser.boardsmissingStep a b c) s).1.baseInfo.finalMessage =
      s.1.baseInfo.finalMessage ++
        (List.enumFrom s.2 (l.filter (fun i => eo_common_hlfword_bitcheck c i))).flatMap
          (fun e => snprintf 512 (missingEntryText e.1 a (c_str b)
            (c_str s.1.baseInfo.sourceBoardIpAddrStr) (c_str s.1.baseInfo.sourceCANPortStr)
            e.2)) := by
  induction l generalizing s with
  | nil => simp
  | cons i l ih =>
    simp only [List.length_cons] at hn
    rw [List.foldl_cons]
    by_cases hb : eo_common_hlfword_bitcheck c i = true
    · have hs : ConfigParser.boardsmissingStep a b c s i =
          (s.1.appendFinalMessage (snprintf 512 (missingEntryText s.2 a (c_str b)
            (c_str s.1.baseInfo.sourceBoardIpAddrStr) (c_str s.1.baseInfo.sourceCANPortStr)
            i)), s.2 + 1) := by
        have hm : (s.2 + 1) % 2 ^ 8 = s.2 + 1 := Nat.mod_eq_of_lt (by omega)
        simp only [ConfigParser.boardsmissingStep, hb, if_true, hm, fmt_d_ofNat,
          missingEntryText, List.append_assoc]
      rw [hs, ih _ (by simp only; omega)]
      simp only [appendFinalMessage_finalMessage, List.filter_cons, hb, if_true,
        List.enumFrom_cons, List.flatMap_cons, List.append_assoc]
      rfl
    · have hs : ConfigParser.boardsmissingStep a b c s i = s := by
        simp only [ConfigParser.boardsmissingStep, hb, if_false, Bool.false_eq_true]
      rw [hs, ih _ (by omega)]
      simp only [List.filter_cons, hb, if_false, Bool.false_eq_true]

/-- What `ConfigParser.candiscovery_boardsmissing` appends, with every field named by its
bit positions. -/
theorem ConfigParser.candiscovery_boardsmissing_final (t : EoTables) (d : AuxEmbeddedInfo) :
    (ConfigParser.candiscovery_boardsmissing t d).baseInfo.finalMessage =
      d.baseInfo.finalMessage ++
        (snprintf 512 (boardsmissingHeader (c_str d.baseMessage) (bitsOf d.p16 0 8)
            (c_str (t.eoboards_type2string (bitsOf d.p16 8 8))) (bitsOf d.p64 48 16)
            (c_str d.baseInfo.sourceCANPortStr)) ++
          missingEntries (bitsOf d.p16 0 8) (c_str (t.eoboards_type2string (bitsOf d.p16 8 8)))
            (c_str d.baseInfo.sourceBoardIpAddrStr) (c_str d.baseInfo.sourceCANPortStr)
            d.p64) := by
  have h16 := p16_lt d
  have f0 : (d.p16 &&& 0x00ff) % 2 ^ 8 = bitsOf d.p16 0 8 := by
    rw [and_eq_bitsOf d.p16 _ 8 (by decide)]
    exact Nat.mod_eq_of_lt (bitsOf_lt _ _ _)
  have f8 : d.p16 >>> 8 = bitsOf d.p16 8 8 := by
    rw [Nat.shiftRight_eq_div_pow]
    simp only [bitsOf]
    omega
  have ft : toInt32 ((d.p64 &&& 0xffff000000000000) >>> 48) =
      Int.ofNat (bitsOf d.p64 48 16) := by
    rw [and_shiftRight_eq_bitsOf d.p64 _ 48 16 (by decide)]
    exact toInt32_of_lt _ (Nat.lt_trans (bitsOf_lt _ _ _) (by decide))
  have fm : (d.p64 &&& 0x000000000000ffff) % 2 ^ 16 = bitsOf d.p64 0 16 := by
    rw [and_eq_bitsOf d.p64 _ 16 (by decide)]
    exact Nat.mod_eq_of_lt (bitsOf_lt _ _ _)
  have fl : [1, 2, 3, 4, 5, 6, 7, 8, 9, 10, 11, 12, 13, 14].filter
      (fun i => eo_common_hlfword_bitcheck (bitsOf d.p64 0 16) i) = missingAddresses d.p64 := by
    unfold missingAddresses
    apply List.filter_congr
    intro i hi
    simp only [List.mem_cons, List.mem_singleton, List.not_mem_nil, or_false] at hi
    have hlt : i < 16 := by omega
    simp only [eo_common_hlfword_bitcheck, Nat.testBit_mod_two_pow, testBit_bitsOf, hlt,
      decide_True, Bool.true_and, Nat.zero_add]
  simp only [ConfigParser.candiscovery_boardsmissing, f0, f8, ft, fm, forRange_one_fifteen]
  rw [ConfigParser.boardsmissingStep_foldl _ _ _ _ _ (show 1 + 14 < 256 by decide)]
  simp only [appendFinalMessage_finalMessage, fl, fmt_d_ofNat, boardsmissingHeader,
    missingEntries, List.append_assoc]
  rfl

theorem mem_missingAddresses (mask i : Nat) :
    i ∈ missingAddresses mask ↔ 1 ≤ i ∧ i ≤ 14 ∧ mask.testBit i = true := by
  unfold missingAddresses
  rw [List.mem_filter]
  simp only [List.mem_cons, List.mem_singleton, List.not_mem_nil, or_false]
  constructor
  · rintro ⟨hi, hb⟩
    exact ⟨by omega, by omega, hb⟩
  · rintro ⟨h1, h14, hb⟩
    exact ⟨by omega, hb⟩

/-- C29: for `eoerror_value_CFG_candiscovery_boardsmissing`, after the header one entry
`n of <numofmissing>: missing ...` is appended for exactly each address i from 1 to 14
whose bit i of `param64` is set, in ascending order of i, and the entries are numbered
1, 2, ..., k where k is the number of these addresses; bits 0 and 15 give no entry, and
the count `numofmissing` printed is bits 0 to 7 of `param16`, whatever k is. -/
theorem C29_boardsmissing_entries (t : EoTables) (p : EntityNameProvider)
    (d : AuxEmbeddedInfo)
    (h : t.valueCFG (t.eoerror_code2value d.code) =
      ValueCFG.eoerror_value_CFG_candiscovery_boardsmissing) :
    (ConfigParser.parseInfo t p d).baseInfo.finalMessage =
      snprintf 512 (boardsmissingHeader (c_str d.baseMessage) (bitsOf d.p16 0 8)
          (c_str (t.eoboards_type2string (bitsOf d.p16 8 8))) (bitsOf d.p64 48 16)
          (c_str d.baseInfo.sourceCANPortStr)) ++
        missingEntries (bitsOf d.p16 0 8) (c_str (t.eoboards_type2string (bitsOf d.p16 8 8)))
          (c_str d.baseInfo.sourceBoardIpAddrStr) (c_str d.baseInfo.sourceCANPortStr)
          d.p64 ∧
    (∀ i, i ∈ missingAddresses d.p64 ↔ 1 ≤ i ∧ i ≤ 14 ∧ d.p64.testBit i = true) ∧
    (List.enumFrom 1 (missingAddresses d.p64)).map Prod.fst =
      List.range' 1 (missingAddresses d.p64).length ∧
    (List.enumFrom 1 (missingAddresses d.p64)).map Prod.snd = missingAddresses d.p64 ∧
    (missingAddresses d.p64).Sorted (fun a b => a < b) := by
  have e : ConfigParser.parseInfo t p d =
      ConfigParser.candiscovery_boardsmissing t d.clearFinalMessage := by
    show ConfigParser.dispatch t p (t.valueCFG (t.eoerror_code2value d.code))
      d.clearFinalMessage = _
    rw [h]
    rfl
  refine ⟨?_, mem_missingAddresses _, List.enumFrom_map_fst _ _, List.enumFrom_map_snd _ _, ?_⟩
  · rw [e, ConfigParser.candiscovery_boardsmissing_final]
    rfl
  · unfold missingAddresses
    exact List.Sorted.filter _ (by decide)

set_option maxRecDepth 100000 in
/-- Witness of C29: an event whose mask has bits 0, 1, 2, 14 and 15 set and whose count is
5: three entries, numbered 1 to 3, for the addresses 1, 2 and 14. -/
theorem C29_boardsmissing_entries_witness :
    (tablesCFG ValueCFG.eoerror_value_CFG_candiscovery_boardsmissing).valueCFG
        ((tablesCFG ValueCFG.eoerror_value_CFG_candiscovery_boardsmissing).eoerror_code2value
          boardsMissingEvent.code) =
      ValueCFG.eoerror_value_CFG_candiscovery_boardsmissing ∧
    (ConfigParser.parseInfo (tablesCFG ValueCFG.eoerror_value_CFG_candiscovery_boardsmissing)
        noNames boardsMissingEvent).baseInfo.finalMessage =
      snprintf 512 (boardsmissingHeader (c_str boardsMissingEvent.baseMessage)
          (bitsOf boardsMissingEvent.p16 0 8)
          (c_str ((tablesCFG
            ValueCFG.eoerror_value_CFG_candiscovery_boardsmissing).eoboards_type2string
            (bitsOf boardsMissingEvent.p16 8 8)))
          (bitsOf boardsMissingEvent.p64 48 16)
          (c_str boardsMissingEvent.baseInfo.sourceCANPortStr)) ++
        missingEntries (bitsOf boardsMissingEvent.p16 0 8)
          (c_str ((tablesCFG
            ValueCFG.eoerror_value_CFG_candiscovery_boardsmissing).eoboards_type2string
            (bitsOf boardsMissingEvent.p16 8 8)))
          (c_str boardsMissingEvent.baseInfo.sourceBoardIpAddrStr)
          (c_str boardsMissingEvent.baseInfo.sourceCANPortStr)
          boardsMissingEvent.p64 ∧
    missingAddresses boardsMissingEvent.p64 = [1, 2, 14] ∧
    bitsOf boardsMissingEvent.p16 0 8 = 5 ∧
    (ConfigParser.parseInfo (tablesCFG ValueCFG.eoerror_value_CFG_candiscovery_boardsmissing)
        noNames boardsMissingEvent).baseInfo.finalMessage =
      lit ("CFG: boards missing. 5 missing mtb4 boards for 100 ms in CAN1:" ++
        "1 of 5: missing mtb4 BOARD 10.0.1.1:CAN1:1" ++
        "2 of 5: missing mtb4 BOARD 10.0.1.1:CAN1:2" ++
        "3 of 5: missing mtb4 BOARD 10.0.1.1:CAN1:14") :=
  ⟨rfl, (C29_boardsmissing_entries
    (tablesCFG ValueCFG.eoerror_value_CFG_candiscovery_boardsmissing) noNames
    boardsMissingEvent rfl).1, by decide, by decide, by decide⟩

/-- C30: for `eoerror_value_SYS_canservices_txfifooverflow` and every `param16`, the
`Frame.Size` printed is 0 and the `Frame.ID` printed is 1 when `param16` is non-zero and 0
when it is zero; the printed identifier differs from bits 0 to 11 of `param16` as soon as
that field is 2 or more, and the printed size differs from bits 12 to 15 as soon as that
field is not 0. -/
theorem C30_txfifooverflow_prints_truth_values (t : EoTables) (d : AuxEmbeddedInfo)
    (h : t.valueSYS (t.eoerror_code2value d.code) =
      ValueSYS.eoerror_value_SYS_canservices_txfifooverflow) :
    (SysParser.parseInfo t d).baseInfo.finalMessage =
      snprintf 512
        (txfifooverflowText (c_str d.baseMessage) (c_str d.baseInfo.sourceCANPortStr)
          (if d.p16 = 0 then 0 else 1) 0 d.p64) ∧
    (2 ≤ bitsOf d.p16 0 12 → (if d.p16 = 0 then 0 else 1) ≠ bitsOf d.p16 0 12) ∧
    (bitsOf d.p16 12 4 ≠ 0 → 0 ≠ bitsOf d.p16 12 4) := by
  have e : SysParser.parseInfo t d =
      SysParser.canservices_txfifooverflow d.clearFinalMessage := by
    show SysParser.dispatch t (t.valueSYS (t.eoerror_code2value d.code))
      d.clearFinalMessage = _
    rw [h]
    rfl
  refine ⟨?_, fun h2 => ?_, fun h0 => Ne.symm h0⟩
  · rw [e, SysParser.canservices_txfifooverflow_final]
    rfl
  · split_ifs <;> omega

/-- Witness of C30: `param16 = 0x2345`, identifier field 0x345 and size field 2. -/
theorem C30_txfifooverflow_prints_truth_values_witness :
    (tablesSYS ValueSYS.eoerror_value_SYS_canservices_txfifooverflow).valueSYS
        ((tablesSYS ValueSYS.eoerror_value_SYS_canservices_txfifooverflow).eoerror_code2value
          txfifooverflowEvent.code) = ValueSYS.eoerror_value_SYS_canservices_txfifooverflow ∧
    2 ≤ bitsOf txfifooverflowEvent.p16 0 12 ∧
    bitsOf txfifooverflowEvent.p16 12 4 ≠ 0 ∧
    (SysParser.parseInfo (tablesSYS ValueSYS.eoerror_value_SYS_canservices_txfifooverflow)
        txfifooverflowEvent).baseInfo.finalMessage =
      snprintf 512
        (txfifooverflowText (c_str txfifooverflowEvent.baseMessage)
          (c_str txfifooverflowEvent.baseInfo.sourceCANPortStr)
          (if txfifooverflowEvent.p16 = 0 then 0 else 1) 0 txfifooverflowEvent.p64) ∧
    (if txfifooverflowEvent.p16 = 0 then 0 else 1) ≠ bitsOf txfifooverflowEvent.p16 0 12 ∧
    0 ≠ bitsOf txfifooverflowEvent.p16 12 4 :=
  ⟨rfl, by decide, by decide,
    (C30_txfifooverflow_prints_truth_values
      (tablesSYS ValueSYS.eoerror_value_SYS_canservices_txfifooverflow)
      txfifooverflowEvent rfl).1,
    (C30_txfifooverflow_prints_truth_values
      (tablesSYS ValueSYS.eoerror_value_SYS_canservices_txfifooverflow)
      txfifooverflowEvent rfl).2.1 (by decide),
    (C30_txfifooverflow_prints_truth_values
      (tablesSYS ValueSYS.eoerror_value_SYS_canservices_txfifooverflow)
      txfifooverflowEvent rfl).2.2 (by decide)⟩

/-! ### Reports that print a truth value of `param16` -/

theorem logicalAnd_of_ne_zero (a b : Nat) (hb : b ≠ 0) :
    logicalAnd a b = if a = 0 then 0 else 1 := by
  unfold logicalAnd
  by_cases h : a = 0
  · simp [h]
  · simp [h, hb]

theorem logicalAnd_shiftRight (a b s : Nat) (hs : 0 < s) : logicalAnd a b >>> s = 0 := by
  unfold logicalAnd
  rw [Nat.shiftRight_eq_div_pow]
  have h2 : 1 < 2 ^ s := Nat.one_lt_two_pow (Nat.ne_of_gt hs)
  split_ifs
  · exact Nat.div_eq_of_lt h2
  · exact Nat.zero_div _

/-- What `SysParser.canservices_txbusfailure` appends. -/
theorem SysParser.canservices_txbusfailure_final (d : AuxEmbeddedInfo) :
    (SysParser.canservices_txbusfailure d).baseInfo.finalMessage =
      d.baseInfo.finalMessage ++ snprintf 512
        (txbusfailureText (c_str d.baseMessage) (c_str d.baseInfo.sourceCANPortStr) 0) := by
  simp only [SysParser.canservices_txbusfailure, appendFinalMessage_finalMessage,
    logicalAnd_shiftRight _ _ 8 (by decide), fmt_d_ofNat, txbusfailureText, List.append_assoc]

/-- What `SysParser.canservices_formingfailure` appends. -/
theorem SysParser.canservices_formingfailure_final (d : AuxEmbeddedInfo) :
    (SysParser.canservices_formingfailure d).baseInfo.finalMessage =
      d.baseInfo.finalMessage ++ snprintf 512
        (formingfailureText (c_str d.baseMessage) (c_str d.baseInfo.sourceCANPortStr) 0
          (if d.p16 = 0 then 0 else 1)) := by
  simp only [SysParser.canservices_formingfailure, appendFinalMessage_finalMessage,
    logicalAnd_shiftRight _ _ 8 (by decide), logicalAnd_of_ne_zero _ 0x00ff (by decide),
    fmt_d_ofNat, formingfailureText, List.append_assoc]

/-- What `SysParser.canservices_parsingfailure` appends. -/
theorem SysParser.canservices_parsingfailure_final (d : AuxEmbeddedInfo) :
    (SysParser.canservices_parsingfailure d).baseInfo.finalMessage =
      d.baseInfo.finalMessage ++ snprintf 512
        (parsingfailureText (c_str d.baseMessage) (c_str d.baseInfo.sourceCANPortStr) 0
          (if d.p16 = 0 then 0 else 1)) := by
  simp only [SysParser.canservices_parsingfailure, appendFinalMessage_finalMessage,
    logicalAnd_shiftRight _ _ 12 (by decide), logicalAnd_of_ne_zero _ 0x0fff (by decide),
    fmt_d_ofNat, parsingfailureText, List.append_assoc]

theorem SysParser_parseInfo_txbusfailure (t : EoTables) (d : AuxEmbeddedInfo)
    (h : t.valueSYS (t.eoerror_code2value d.code) =
      ValueSYS.eoerror_value_SYS_canservices_txbusfailure) :
    (SysParser.parseInfo t d).baseInfo.finalMessage =
      snprintf 512
        (txbusfailureText (c_str d.baseMessage) (c_str d.baseInfo.sourceCANPortStr) 0) := by
  have e : SysParser.parseInfo t d = SysParser.canservices_txbusfailure d.clearFinalMessage := by
    show SysParser.dispatch t (t.valueSYS (t.eoerror_code2value d.code))
      d.clearFinalMessage = _
    rw [h]
    rfl
  rw [e, SysParser.canservices_txbusfailure_final]
  rfl

theorem SysParser_parseInfo_formingfailure (t : EoTables) (d : AuxEmbeddedInfo)
    (h : t.valueSYS (t.eoerror_code2value d.code) =
      ValueSYS.eoerror_value_SYS_canservices_formingfailure) :
    (SysParser.parseInfo t d).baseInfo.finalMessage =
      snprintf 512
        (formingfailureText (c_str d.baseMessage) (c_str d.baseInfo.sourceCANPortStr) 0
          (if d.p16 = 0 then 0 else 1)) := by
  have e : SysParser.parseInfo t d =
      SysParser.canservices_formingfailure d.clearFinalMessage := by
    show SysParser.dispatch t (t.valueSYS (t.eoerror_code2value d.code))
      d.clearFinalMessage = _
    rw [h]
    rfl
  rw [e, SysParser.canservices_formingfailure_final]
  rfl

theorem SysParser_parseInfo_parsingfailure (t : EoTables) (d : AuxEmbeddedInfo)
    (h : t.valueSYS (t.eoerror_code2value d.code) =
      ValueSYS.eoerror_value_SYS_canservices_parsingfailure) :
    (SysParser.parseInfo t d).baseInfo.finalMessage =
      snprintf 512
        (parsingfailureText (c_str d.baseMessage) (c_str d.baseInfo.sourceCANPortStr) 0
          (if d.p16 = 0 then 0 else 1)) := by
  have e : SysParser.parseInfo t d =
      SysParser.canservices_parsingfailure d.clearFinalMessage := by
    show SysParser.dispatch t (t.valueSYS (t.eoerror_code2value d.code))
      d.clearFinalMessage = _
    rw [h]
    rfl
  rw [e, SysParser.canservices_parsingfailure_final]
  rfl

/-! ## The claims on what a report ignores -/

/-- C31: for `eoerror_value_SYS_canservices_txbusfailure`, `_formingfailure` and
`_parsingfailure` the fifo size, the message class and the frame size printed are 0 for
every `param16`, the message command and the frame identifier printed are 1 when `param16`
is non-zero and 0 when it is zero, and an event that differs only in `param16`, with
`param16` zero in both or non-zero in both, decodes to the same message. -/
theorem C31_can_failures_see_param16_as_truth_value (t : EoTables) (d : AuxEmbeddedInfo)
    (r : Nat)
    (h : t.valueSYS (t.eoerror_code2value d.code) =
        ValueSYS.eoerror_value_SYS_canservices_txbusfailure ∨
      t.valueSYS (t.eoerror_code2value d.code) =
        ValueSYS.eoerror_value_SYS_canservices_formingfailure ∨
      t.valueSYS (t.eoerror_code2value d.code) =
        ValueSYS.eoerror_value_SYS_canservices_parsingfailure)
    (hz : r % 2 ^ 16 = 0 ↔ d.p16 = 0) :
    (t.valueSYS (t.eoerror_code2value d.code) =
        ValueSYS.eoerror_value_SYS_canservices_txbusfailure →
      (SysParser.parseInfo t d).baseInfo.finalMessage =
        snprintf 512 (txbusfailureText (c_str d.baseMessage)
          (c_str d.baseInfo.sourceCANPortStr) 0)) ∧
    (t.valueSYS (t.eoerror_code2value d.code) =
        ValueSYS.eoerror_value_SYS_canservices_formingfailure →
      (SysParser.parseInfo t d).baseInfo.finalMessage =
        snprintf 512 (formingfailureText (c_str d.baseMessage)
          (c_str d.baseInfo.sourceCANPortStr) 0 (if d.p16 = 0 then 0 else 1))) ∧
    (t.valueSYS (t.eoerror_code2value d.code) =
        ValueSYS.eoerror_value_SYS_canservices_parsingfailure →
      (SysParser.parseInfo t d).baseInfo.finalMessage =
        snprintf 512 (parsingfailureText (c_str d.baseMessage)
          (c_str d.baseInfo.sourceCANPortStr) 0 (if d.p16 = 0 then 0 else 1))) ∧
    (SysParser.parseInfo t { d with param16 := r }).baseInfo.finalMessage =
      (SysParser.parseInfo t d).baseInfo.finalMessage := by
  refine ⟨SysParser_parseInfo_txbusfailure t d, SysParser_parseInfo_formingfailure t d,
    SysParser_parseInfo_parsingfailure t d, ?_⟩
  have hr : AuxEmbeddedInfo.p16 { d with param16 := r } = r % 2 ^ 16 := rfl
  have hi : (if AuxEmbeddedInfo.p16 { d with param16 := r } = 0 then 0 else 1) =
      if d.p16 = 0 then 0 else 1 := by
    rw [hr]
    by_cases h0 : d.p16 = 0
    · rw [if_pos h0, if_pos (hz.mpr h0)]
    · rw [if_neg h0, if_neg (fun k => h0 (hz.mp k))]
  rcases h with h | h | h
  · rw [SysParser_parseInfo_txbusfailure t d h,
      SysParser_parseInfo_txbusfailure t { d with param16 := r } h]
  · rw [SysParser_parseInfo_formingfailure t d h,
      SysParser_parseInfo_formingfailure t { d with param16 := r } h, hi]
  · rw [SysParser_parseInfo_parsingfailure t d h,
      SysParser_parseInfo_parsingfailure t { d with param16 := r } h, hi]

/-- Witness of C31: a parsing failure with `param16 = 0x1234` and with `param16 = 1`. -/
theorem C31_can_failures_see_param16_as_truth_value_witness :
    ((tablesSYS ValueSYS.eoerror_value_SYS_canservices_parsingfailure).valueSYS
          ((tablesSYS ValueSYS.eoerror_value_SYS_canservices_parsingfailure).eoerror_code2value
            canFailureEvent.code) = ValueSYS.eoerror_value_SYS_canservices_txbusfailure ∨
      (tablesSYS ValueSYS.eoerror_value_SYS_canservices_parsingfailure).valueSYS
          ((tablesSYS ValueSYS.eoerror_value_SYS_canservices_parsingfailure).eoerror_code2value
            canFailureEvent.code) = ValueSYS.eoerror_value_SYS_canservices_formingfailure ∨
      (tablesSYS ValueSYS.eoerror_value_SYS_canservices_parsingfailure).valueSYS
          ((tablesSYS ValueSYS.eoerror_value_SYS_canservices_parsingfailure).eoerror_code2value
            canFailureEvent.code) = ValueSYS.eoerror_value_SYS_canservices_parsingfailure) ∧
    (1 % 2 ^ 16 = 0 ↔ canFailureEvent.p16 = 0) ∧
    (SysParser.parseInfo (tablesSYS ValueSYS.eoerror_value_SYS_canservices_parsingfailure)
        canFailureEvent).baseInfo.finalMessage =
      snprintf 512 (parsingfailureText (c_str canFailureEvent.baseMessage)
        (c_str canFailureEvent.baseInfo.sourceCANPortStr) 0
        (if canFailureEvent.p16 = 0 then 0 else 1)) ∧
    (SysParser.parseInfo (tablesSYS ValueSYS.eoerror_value_SYS_canservices_parsingfailure)
        { canFailureEvent with param16 := 1 }).baseInfo.finalMessage =
      (SysParser.parseInfo (tablesSYS ValueSYS.eoerror_value_SYS_canservices_parsingfailure)
        canFailureEvent).baseInfo.finalMessage :=
  ⟨Or.inr (Or.inr rfl), by decide,
    (C31_can_failures_see_param16_as_truth_value
      (tablesSYS ValueSYS.eoerror_value_SYS_canservices_parsingfailure) canFailureEvent 1
      (Or.inr (Or.inr rfl)) (by decide)).2.2.1 rfl,
    (C31_can_failures_see_param16_as_truth_value
      (tablesSYS ValueSYS.eoerror_value_SYS_canservices_parsingfailure) canFailureEvent 1
      (Or.inr (Or.inr rfl)) (by decide)).2.2.2⟩

/-- A field inside a window of bits is determined by the window. -/
theorem bitsOf_of_window (x y lo w lo' w' : Nat) (h : bitsOf x lo w = bitsOf y lo w)
    (h1 : lo ≤ lo') (h2 : lo' + w' ≤ lo + w) : bitsOf x lo' w' = bitsOf y lo' w' := by
  apply Nat.eq_of_testBit_eq
  intro j
  rw [testBit_bitsOf, testBit_bitsOf]
  by_cases hj : j < w'
  · have e := congrArg (fun z => z.testBit (lo' - lo + j)) h
    simp only [testBit_bitsOf] at e
    have hlt : lo' - lo + j < w := by omega
    have ha : lo + (lo' - lo + j) = lo' + j := by omega
    simp only [hlt, decide_True, Bool.true_and, ha] at e
    simp only [hj, decide_True, Bool.true_and, e]
  · simp only [hj, decide_False, Bool.false_and]

theorem bitsOf_p64 (q lo w : Nat) (h : lo + w ≤ 64) : bitsOf (q % 2 ^ 64) lo w = bitsOf q lo w := by
  apply Nat.eq_of_testBit_eq
  intro j
  rw [testBit_bitsOf, testBit_bitsOf, Nat.testBit_mod_two_pow]
  by_cases hj : j < w
  · have hlt : lo + j < 64 := by omega
    simp only [hj, hlt, decide_True, Bool.true_and]
  · simp only [hj, decide_False, Bool.false_and]

theorem bitsOf_p16 (r lo w : Nat) (h : lo + w ≤ 16) : bitsOf (r % 2 ^ 16) lo w = bitsOf r lo w := by
  apply Nat.eq_of_testBit_eq
  intro j
  rw [testBit_bitsOf, testBit_bitsOf, Nat.testBit_mod_two_pow]
  by_cases hj : j < w
  · have hlt : lo + j < 16 := by omega
    simp only [hj, hlt, decide_True, Bool.true_and]
  · simp only [hj, decide_False, Bool.false_and]

/-- What `ConfigParser.strain` appends, with every field named by its bit positions: the
strain number is 0. -/
theorem ConfigParser.strain_final (d : AuxEmbeddedInfo) :
    (ConfigParser.strain d).baseInfo.finalMessage =
      d.baseInfo.finalMessage ++ snprintf 512
        (strainText (c_str d.baseMessage) (bitsOf d.p16 0 8) (bitsOf d.p16 8 8)
          (bitsOf d.p64 24 8) (bitsOf d.p64 16 8) (bitsOf d.p64 8 8) (bitsOf d.p64 0 8) 0) := by
  have h16 := p16_lt d
  have fa : (d.p16 &&& 0x00ff) % 2 ^ 8 = bitsOf d.p16 0 8 := by
    rw [and_eq_bitsOf d.p16 _ 8 (by decide)]
    exact Nat.mod_eq_of_lt (bitsOf_lt _ _ _)
  have fp : d.p16 >>> 8 % 2 ^ 8 = bitsOf d.p16 8 8 := by
    rw [Nat.shiftRight_eq_div_pow]
    rfl
  have f24 : (d.p64 &&& 0x00000000ffff0000) >>> 16 >>> 8 % 2 ^ 8 = bitsOf d.p64 24 8 := by
    rw [and_shiftRight_eq_bitsOf d.p64 _ 16 16 (by decide), Nat.shiftRight_eq_div_pow]
    simp only [bitsOf]
    omega
  have f16 : ((d.p64 &&& 0x00000000ffff0000) >>> 16 &&& 0xff) % 2 ^ 8 = bitsOf d.p64 16 8 := by
    rw [and_shiftRight_eq_bitsOf d.p64 _ 16 16 (by decide), and_eq_bitsOf _ 0xff 8 (by decide)]
    simp only [bitsOf]
    omega
  have f8 : ((d.p64 &&& 0x000000000000ffff) >>> 8 &&& 0xff) % 2 ^ 8 = bitsOf d.p64 8 8 := by
    rw [and_eq_bitsOf d.p64 _ 16 (by decide), Nat.shiftRight_eq_div_pow,
      and_eq_bitsOf _ 0xff 8 (by decide)]
    simp only [bitsOf]
    omega
  have f0 : (d.p64 &&& 0x000000000000ffff &&& 0xff) % 2 ^ 8 = bitsOf d.p64 0 8 := by
    rw [and_eq_bitsOf d.p64 _ 16 (by decide), and_eq_bitsOf _ 0xff 8 (by decide)]
    simp only [bitsOf]
    omega
  have fs : (d.p64 &&& 0x0000000f00000000) >>> 20 % 2 ^ 8 = 0 := by
    have e : (0x0000000f00000000 : Nat) = (2 ^ 4 - 1) <<< 32 := by decide
    rw [e, and_mask_eq_shiftLeft, Nat.shiftLeft_eq, Nat.shiftRight_eq_div_pow]
    have b := bitsOf_lt d.p64 32 4
    generalize bitsOf d.p64 32 4 = v at b
    omega
  simp only [ConfigParser.strain, appendFinalMessage_finalMessage, fa, fp, f24, f16, f8, f0, fs,
    fmt_d_ofNat, fmt_ver2, strainText, List.append_assoc]

theorem ConfigParser_parseInfo_strain (t : EoTables) (p : EntityNameProvider)
    (d : AuxEmbeddedInfo)
    (h : t.valueCFG (t.eoerror_code2value d.code) = ValueCFG.eoerror_value_CFG_strain_ok ∨
      t.valueCFG (t.eoerror_code2value d.code) =
        ValueCFG.eoerror_value_CFG_strain_failed_candiscovery) :
    (ConfigParser.parseInfo t p d).baseInfo.finalMessage =
      snprintf 512
        (strainText (c_str d.baseMessage) (bitsOf d.p16 0 8) (bitsOf d.p16 8 8)
          (bitsOf d.p64 24 8) (bitsOf d.p64 16 8) (bitsOf d.p64 8 8) (bitsOf d.p64 0 8) 0) := by
  have e : ConfigParser.parseInfo t p d = ConfigParser.strain d.clearFinalMessage := by
    show ConfigParser.dispatch t p (t.valueCFG (t.eoerror_code2value d.code))
      d.clearFinalMessage = _
    rcases h with h | h <;> rw [h] <;> rfl
  rw [e, ConfigParser.strain_final]
  rfl

/-- C32: for `eoerror_value_CFG_strain_ok` and `_strain_failed_candiscovery` the value
printed after `Strain number is:` is 0 for every `param64`, and an event that differs only
in bits 32 to 63 of `param64` decodes to the same message. -/
theorem C32_strain_number_is_zero (t : EoTables) (p : EntityNameProvider)
    (d : AuxEmbeddedInfo) (q : Nat)
    (h : t.valueCFG (t.eoerror_code2value d.code) = ValueCFG.eoerror_value_CFG_strain_ok ∨
      t.valueCFG (t.eoerror_code2value d.code) =
        ValueCFG.eoerror_value_CFG_strain_failed_candiscovery)
    (hq : bitsOf q 0 32 = bitsOf d.param64 0 32) :
    (ConfigParser.parseInfo t p d).baseInfo.finalMessage =
      snprintf 512
        (strainText (c_str d.baseMessage) (bitsOf d.p16 0 8) (bitsOf d.p16 8 8)
          (bitsOf d.p64 24 8) (bitsOf d.p64 16 8) (bitsOf d.p64 8 8) (bitsOf d.p64 0 8) 0) ∧
    (ConfigParser.parseInfo t p { d with param64 := q }).baseInfo.finalMessage =
      (ConfigParser.parseInfo t p d).baseInfo.finalMessage := by
  refine ⟨ConfigParser_parseInfo_strain t p d h, ?_⟩
  rw [ConfigParser_parseInfo_strain t p d h,
    ConfigParser_parseInfo_strain t p { d with param64 := q } h]
  have w : ∀ lo, lo + 8 ≤ 32 →
      bitsOf (AuxEmbeddedInfo.p64 { d with param64 := q }) lo 8 = bitsOf d.p64 lo 8 := by
    intro lo hlo
    show bitsOf (q % 2 ^ 64) lo 8 = bitsOf (d.param64 % 2 ^ 64) lo 8
    rw [bitsOf_p64 _ _ _ (by omega), bitsOf_p64 _ _ _ (by omega)]
    exact bitsOf_of_window _ _ 0 32 lo 8 hq (Nat.zero_le _) (by omega)
  rw [w 24 (by decide), w 16 (by decide), w 8 (by decide), w 0 (by decide)]
  rfl

/-- Witness of C32: the strain event with field 7 in bits 32 to 35, and the same event
with bits 32 to 63 cleared. -/
theorem C32_strain_number_is_zero_witness :
    ((tablesCFG ValueCFG.eoerror_value_CFG_strain_ok).valueCFG
          ((tablesCFG ValueCFG.eoerror_value_CFG_strain_ok).eoerror_code2value
            strainEvent.code) = ValueCFG.eoerror_value_CFG_strain_ok ∨
      (tablesCFG ValueCFG.eoerror_value_CFG_strain_ok).valueCFG
          ((tablesCFG ValueCFG.eoerror_value_CFG_strain_ok).eoerror_code2value
            strainEvent.code) = ValueCFG.eoerror_value_CFG_strain_failed_candiscovery) ∧
    bitsOf 0x01020304 0 32 = bitsOf strainEvent.param64 0 32 ∧
    bitsOf strainEvent.p64 32 4 = 7 ∧
    (ConfigParser.parseInfo (tablesCFG ValueCFG.eoerror_value_CFG_strain_ok) noNames
        strainEvent).baseInfo.finalMessage =
      snprintf 512
        (strainText (c_str strainEvent.baseMessage) (bitsOf strainEvent.p16 0 8)
          (bitsOf strainEvent.p16 8 8) (bitsOf strainEvent.p64 24 8)
          (bitsOf strainEvent.p64 16 8) (bitsOf strainEvent.p64 8 8)
          (bitsOf strainEvent.p64 0 8) 0) ∧
    (ConfigParser.parseInfo (tablesCFG ValueCFG.eoerror_value_CFG_strain_ok) noNames
        { strainEvent with param64 := 0x01020304 }).baseInfo.finalMessage =
      (ConfigParser.parseInfo (tablesCFG ValueCFG.eoerror_value_CFG_strain_ok) noNames
        strainEvent).baseInfo.finalMessage :=
  ⟨Or.inl rfl, by decide, by decide,
    C32_strain_number_is_zero (tablesCFG ValueCFG.eoerror_value_CFG_strain_ok) noNames
      strainEvent 0x01020304 (Or.inl rfl) (by decide)⟩

/-! ### The lines of the encoders report -/

theorem flatten_flatMap_list {α β : Type} (l : List α) (g : α → List (List β)) :
    (l.flatMap g).flatten = l.flatMap (fun i => (g i).flatten) := by
  induction l with
  | nil => rfl
  | cons a l ih => rw [List.flatMap_cons, List.flatten_append, ih, List.flatMap_cons]

theorem encoderLines_eq_flatten (name : Nat → Text) (count mask1 mask2 : Nat)
    (code1 code2 : Nat → Nat) :
    encoderLines name count mask1 mask2 code1 code2 =
      (encoderLineList name count mask1 mask2 code1 code2).flatten := by
  unfold encoderLines encoderLineList
  rw [flatten_flatMap_list]
  congr 1
  funext i
  by_cases h1 : mask1.testBit i = true <;> by_cases h2 : mask2.testBit i = true <;>
    simp [h1, h2]

theorem testBit_of_lt_sixteen (m i : Nat) (hm : m < 16) (hi : 4 ≤ i) : m.testBit i = false := by
  apply Nat.testBit_lt_two_pow
  calc m < 2 ^ 4 := hm
    _ ≤ 2 ^ i := Nat.pow_le_pow_right (by decide) hi

/-- With 4-bit masks the joints from 4 on give no line. -/
theorem encoderLineList_min (name : Nat → Text) (count mask1 mask2 : Nat)
    (code1 code2 : Nat → Nat) (h1 : mask1 < 16) (h2 : mask2 < 16) :
    encoderLineList name count mask1 mask2 code1 code2 =
      encoderLineList name (min count 4) mask1 mask2 code1 code2 := by
  induction count with
  | zero => rfl
  | succ n ih =>
    by_cases hn : n < 4
    · have e : min (n + 1) 4 = n + 1 := by omega
      rw [e]
    · have e : min (n + 1) 4 = min n 4 := by omega
      have b1 := testBit_of_lt_sixteen mask1 n h1 (by omega)
      have b2 := testBit_of_lt_sixteen mask2 n h2 (by omega)
      rw [e, ← ih]
      unfold encoderLineList
      rw [List.range_succ, List.flatMap_append]
      simp [b1, b2]

theorem encoderLineList_length (name : Nat → Text) (count mask1 mask2 : Nat)
    (code1 code2 : Nat → Nat) :
    (encoderLineList name count mask1 mask2 code1 code2).length =
      failedJoints count mask1 + failedJoints count mask2 := by
  unfold encoderLineList failedJoints
  induction count with
  | zero => rfl
  | succ n ih =>
    rw [List.range_succ, List.flatMap_append, List.length_append, ih, List.filter_append,
      List.filter_append, List.length_append, List.length_append]
    by_cases h1 : mask1.testBit n = true <;> by_cases h2 : mask2.testBit n = true <;>
      simp [h1, h2] <;> omega

theorem failedJoints_le (count mask : Nat) : failedJoints count mask ≤ count := by
  unfold failedJoints
  exact Nat.le_trans (List.length_filter_le _ _) (by simp)

/-- C33: for `eoerror_value_CFG_encoders_ok` and `_failed_verify`, whatever the joint
count N in bits 12 to 15 of `param16`, the per-joint lines are those of the joints below
min(N, 4): no line is emitted for a joint index of 4 or more. Their number is the number
of set bits of `param16` bits 0 to 3 below min(N, 4) plus the number of set bits of
`param16` bits 4 to 7 below min(N, 4), hence at most 8. -/
theorem C33_encoders_at_most_eight_lines (t : EoTables) (p : EntityNameProvider)
    (d : AuxEmbeddedInfo)
    (h : t.valueCFG (t.eoerror_code2value d.code) = ValueCFG.eoerror_value_CFG_encoders_ok ∨
      t.valueCFG (t.eoerror_code2value d.code) =
        ValueCFG.eoerror_value_CFG_encoders_failed_verify) :
    (ConfigParser.parseInfo t p d).baseInfo.finalMessage =
      snprintf 512 (c_str d.baseMessage) ++
        (encoderLineList (fun i => c_str (p.axisNameOf i)) (min (bitsOf d.p16 12 4) 4)
          (bitsOf d.p16 0 4) (bitsOf d.p16 4 4)
          (encoderCodePrinted (bitsOf d.p64 0 16))
          (encoderCodePrinted (bitsOf d.p64 16 16))).flatten ∧
    (encoderLineList (fun i => c_str (p.axisNameOf i)) (min (bitsOf d.p16 12 4) 4)
        (bitsOf d.p16 0 4) (bitsOf d.p16 4 4)
        (encoderCodePrinted (bitsOf d.p64 0 16))
        (encoderCodePrinted (bitsOf d.p64 16 16))).length =
      failedJoints (min (bitsOf d.p16 12 4) 4) (bitsOf d.p16 0 4) +
        failedJoints (min (bitsOf d.p16 12 4) 4) (bitsOf d.p16 4 4) ∧
    failedJoints (min (bitsOf d.p16 12 4) 4) (bitsOf d.p16 0 4) +
      failedJoints (min (bitsOf d.p16 12 4) 4) (bitsOf d.p16 4 4) ≤ 8 := by
  have m1 : bitsOf d.p16 0 4 < 16 := bitsOf_lt _ _ _
  have m2 : bitsOf d.p16 4 4 < 16 := bitsOf_lt _ _ _
  refine ⟨?_, encoderLineList_length _ _ _ _ _ _, ?_⟩
  · rw [ConfigParser_parseInfo_encoders t p d h, encoderLines_eq_flatten,
      encoderLineList_min _ _ _ _ _ _ m1 m2]
  · have a := failedJoints_le (min (bitsOf d.p16 12 4) 4) (bitsOf d.p16 0 4)
    have b := failedJoints_le (min (bitsOf d.p16 12 4) 4) (bitsOf d.p16 4 4)
    omega

set_option maxRecDepth 100000 in
/-- Witness of C33: an event of 15 joints with all eight failure bits set: 8 lines, for
the joints 0 to 3. -/
theorem C33_encoders_at_most_eight_lines_witness :
    ((tablesCFG ValueCFG.eoerror_value_CFG_encoders_failed_verify).valueCFG
          ((tablesCFG ValueCFG.eoerror_value_CFG_encoders_failed_verify).eoerror_code2value
            encodersAllFailedEvent.code) = ValueCFG.eoerror_value_CFG_encoders_ok ∨
      (tablesCFG ValueCFG.eoerror_value_CFG_encoders_failed_verify).valueCFG
          ((tablesCFG ValueCFG.eoerror_value_CFG_encoders_failed_verify).eoerror_code2value
            encodersAllFailedEvent.code) = ValueCFG.eoerror_value_CFG_encoders_failed_verify) ∧
    bitsOf encodersAllFailedEvent.p16 12 4 = 15 ∧
    (encoderLineList (fun i => c_str (armNames.axisNameOf i))
        (min (bitsOf encodersAllFailedEvent.p16 12 4) 4)
        (bitsOf encodersAllFailedEvent.p16 0 4) (bitsOf encodersAllFailedEvent.p16 4 4)
        (encoderCodePrinted (bitsOf encodersAllFailedEvent.p64 0 16))
        (encoderCodePrinted (bitsOf encodersAllFailedEvent.p64 16 16))).length = 8 ∧
    (ConfigParser.parseInfo (tablesCFG ValueCFG.eoerror_value_CFG_encoders_failed_verify)
        armNames encodersAllFailedEvent).baseInfo.finalMessage =
      snprintf 512 (c_str encodersAllFailedEvent.baseMessage) ++
        (encoderLineList (fun i => c_str (armNames.axisNameOf i))
          (min (bitsOf encodersAllFailedEvent.p16 12 4) 4)
          (bitsOf encodersAllFailedEvent.p16 0 4) (bitsOf encodersAllFailedEvent.p16 4 4)
          (encoderCodePrinted (bitsOf encodersAllFailedEvent.p64 0 16))
          (encoderCodePrinted (bitsOf encodersAllFailedEvent.p64 16 16))).flatten :=
  ⟨Or.inr rfl, by decide, by decide,
    (C33_encoders_at_most_eight_lines
      (tablesCFG ValueCFG.eoerror_value_CFG_encoders_failed_verify) armNames
      encodersAllFailedEvent (Or.inr rfl)).1⟩

/-! ### The report of the invalid boards -/

theorem shiftRight_and_fifteen (mask i : Nat) :
    (mask >>> (4 * i)) &&& 0x0f = bitsOf mask (4 * i) 4 := by
  rw [and_eq_bitsOf _ 0x0f 4 (by decide), Nat.shiftRight_eq_div_pow]
  simp only [bitsOf, Nat.pow_zero, Nat.div_one]

theorem invalidReasons_eq (val : Nat) :
    (if val &&& 0x1 = 0x1 then lit "WRONG BOARD TYPE" else lit "") ++
      (if val &&& 0x2 = 0x2 then lit "WRONG APPLICATION VERSION" else lit "") ++
      (if val &&& 0x4 = 0x4 then lit "WRONG PROTOCOL VERSION" else lit "") =
    invalidReasons val := by
  have t0 : val &&& 0x1 = 0x1 ↔ val.testBit 0 = true := and_one_shiftLeft_eq_iff val 0
  have t1 : val &&& 0x2 = 0x2 ↔ val.testBit 1 = true := and_one_shiftLeft_eq_iff val 1
  have t2 : val &&& 0x4 = 0x4 ↔ val.testBit 2 = true := and_one_shiftLeft_eq_iff val 2
  have e : lit "" = [] := rfl
  simp only [invalidReasons, t0, t1, t2, e]

/-- The state after the loop of the invalid boards over the addresses `l`, as long as the
8-bit counter cannot wrap. -/
theorem ConfigParser.boardsinvalidStep_foldl (a : Nat) (b : Text) (c : Nat) (l : List Nat)
    (s : AuxEmbeddedInfo × Nat) (hn : s.2 + l.length < 256) :
    (l.foldl (ConfigParser.boardsinvalidStep a b c) s).1.baseInfo.finalMessage =
      s.1.baseInfo.finalMessage ++
        (List.enumFrom s.2 (l.filter (fun i => decide (bitsOf c (4 * i) 4 ≠ 0)))).flatMap
          (fun e => snprintf 512 (invalidEntryText e.1 a (c_str b)
            (invalidReasons (bitsOf c (4 * e.2) 4)))) := by
  induction l generalizing s with
  | nil => simp
  | cons i l ih =>
    simp only [List.length_cons] at hn
    rw [List.foldl_cons]
    by_cases hb : bitsOf c (4 * i) 4 = 0
    · have hs : ConfigParser.boardsinvalidStep a b c s i = s := by
        simp only [ConfigParser.boardsinvalidStep, shiftRight_and_fifteen, hb, ne_eq,
          not_true_eq_false, if_false]
      rw [hs, ih _ (by omega)]
      simp only [List.filter_cons, hb, ne_eq, not_true_eq_false, decide_False, if_false,
        Bool.false_eq_true]
    · have hb' : (0 : Nat) ≠ bitsOf c (4 * i) 4 := fun k => hb k.symm
      have hs : ConfigParser.boardsinvalidStep a b c s i =
          (s.1.appendFinalMessage (snprintf 512 (invalidEntryText s.2 a (c_str b)
            (invalidReasons (bitsOf c (4 * i) 4)))), s.2 + 1) := by
        have hm : (s.2 + 1) % 2 ^ 8 = s.2 + 1 := Nat.mod_eq_of_lt (by omega)
        have hr := invalidReasons_eq (bitsOf c (4 * i) 4)
        simp only [List.append_assoc] at hr
        simp only [ConfigParser.boardsinvalidStep, shiftRight_and_fifteen, hb', ne_eq,
          not_false_eq_true, if_true, hm, fmt_d_ofNat, invalidEntryText, List.append_assoc, hr]
      rw [hs, ih _ (by simp only; omega)]
      simp only [appendFinalMessage_finalMessage, List.filter_cons, hb, ne_eq,
        not_false_eq_true, decide_True, if_true, List.enumFrom_cons, List.flatMap_cons,
        List.append_assoc]

/-- What `ConfigParser.candiscovery_boardsinvalid` appends, with every field named by its
bit positions. -/
theorem ConfigParser.candiscovery_boardsinvalid_final (t : EoTables) (d : AuxEmbeddedInfo) :
    (ConfigParser.candiscovery_boardsinvalid t d).baseInfo.finalMessage =
      d.baseInfo.finalMessage ++
        (snprintf 512 (boardsinvalidHeader (c_str d.baseMessage) (bitsOf d.p16 0 8)
            (c_str (t.eoboards_type2string (bitsOf d.p16 8 8)))
            (c_str d.baseInfo.sourceCANPortStr)) ++
          invalidEntries (bitsOf d.p16 0 8)
            (c_str (t.eoboards_type2string (bitsOf d.p16 8 8))) d.p64) := by
  have h16 := p16_lt d
  have f0 : (d.p16 &&& 0x00ff) % 2 ^ 8 = bitsOf d.p16 0 8 := by
    rw [and_eq_bitsOf d.p16 _ 8 (by decide)]
    exact Nat.mod_eq_of_lt (bitsOf_lt _ _ _)
  have f8 : d.p16 >>> 8 = bitsOf d.p16 8 8 := by
    rw [Nat.shiftRight_eq_div_pow]
    simp only [bitsOf]
    omega
  simp only [ConfigParser.candiscovery_boardsinvalid, f0, f8, forRange_one_fifteen]
  rw [ConfigParser.boardsinvalidStep_foldl _ _ _ _ _ (show 1 + 14 < 256 by decide)]
  simp only [appendFinalMessage_finalMessage, fmt_d_ofNat, boardsinvalidHeader,
    invalidEntries, invalidAddresses, List.append_assoc]

theorem mem_invalidAddresses (mask i : Nat) :
    i ∈ invalidAddresses mask ↔ 1 ≤ i ∧ i ≤ 14 ∧ bitsOf mask (4 * i) 4 ≠ 0 := by
  unfold invalidAddresses
  rw [List.mem_filter]
  simp only [List.mem_cons, List.mem_singleton, List.not_mem_nil, or_false, ne_eq,
    decide_eq_true_eq]
  constructor
  · rintro ⟨hi, hb⟩
    exact ⟨by omega, by omega, hb⟩
  · rintro ⟨h1, h14, hb⟩
    exact ⟨by omega, hb⟩

theorem flatMap_enumFrom_congr {β : Type} (l : List Nat) (n : Nat) (f g : Nat × Nat → List β)
    (h : ∀ k i, i ∈ l → f (k, i) = g (k, i)) :
    (List.enumFrom n l).flatMap f = (List.enumFrom n l).flatMap g := by
  induction l generalizing n with
  | nil => rfl
  | cons a l ih =>
    rw [List.enumFrom_cons, List.flatMap_cons, List.flatMap_cons, h n a (List.mem_cons_self _ _),
      ih (n + 1) (fun k i hi => h k i (List.mem_cons_of_mem _ hi))]

/-- The entries of the invalid boards look at the fields of the addresses 1 to 14 only. -/
theorem invalidEntries_congr (count : Nat) (name : Text) (m1 m2 : Nat)
    (h : ∀ i, 1 ≤ i → i ≤ 14 → bitsOf m1 (4 * i) 4 = bitsOf m2 (4 * i) 4) :
    invalidEntries count name m1 = invalidEntries count name m2 := by
  have ha : invalidAddresses m1 = invalidAddresses m2 := by
    unfold invalidAddresses
    apply List.filter_congr
    intro i hi
    simp only [List.mem_cons, List.mem_singleton, List.not_mem_nil, or_false] at hi
    rw [h i (by omega) (by omega)]
  unfold invalidEntries
  rw [ha]
  apply flatMap_enumFrom_congr
  intro k i hi
  have hm := (mem_invalidAddresses m2 i).mp hi
  simp only [h i hm.1 hm.2.1]

theorem ConfigParser_parseInfo_boardsinvalid (t : EoTables) (p : EntityNameProvider)
    (d : AuxEmbeddedInfo)
    (h : t.valueCFG (t.eoerror_code2value d.code) =
      ValueCFG.eoerror_value_CFG_candiscovery_boardsinvalid) :
    (ConfigParser.parseInfo t p d).baseInfo.finalMessage =
      snprintf 512 (boardsinvalidHeader (c_str d.baseMessage) (bitsOf d.p16 0 8)
          (c_str (t.eoboards_type2string (bitsOf d.p16 8 8)))
          (c_str d.baseInfo.sourceCANPortStr)) ++
        invalidEntries (bitsOf d.p16 0 8)
          (c_str (t.eoboards_type2string (bitsOf d.p16 8 8))) d.p64 := by
  have e : ConfigParser.parseInfo t p d =
      ConfigParser.candiscovery_boardsinvalid t d.clearFinalMessage := by
    show ConfigParser.dispatch t p (t.valueCFG (t.eoerror_code2value d.code))
      d.clearFinalMessage = _
    rw [h]
    rfl
  rw [e, ConfigParser.candiscovery_boardsinvalid_final]
  rfl

/-- C34: for `eoerror_value_CFG_candiscovery_boardsinvalid`, after the header one numbered
entry is appended for exactly each address i from 1 to 14 whose 4-bit field
`(param64 >> 4i) & 0xf` is not zero, in ascending order of i and numbered 1, 2, ...
consecutively; an event that differs only in the fields of the addresses 0 and 15, bits 0
to 3 and 60 to 63 of `param64`, decodes to the same message. -/
theorem C34_boardsinvalid_entries (t : EoTables) (p : EntityNameProvider)
    (d : AuxEmbeddedInfo) (q : Nat)
    (h : t.valueCFG (t.eoerror_code2value d.code) =
      ValueCFG.eoerror_value_CFG_candiscovery_boardsinvalid)
    (hq : bitsOf q 4 56 = bitsOf d.param64 4 56) :
    (ConfigParser.parseInfo t p d).baseInfo.finalMessage =
      snprintf 512 (boardsinvalidHeader (c_str d.baseMessage) (bitsOf d.p16 0 8)
          (c_str (t.eoboards_type2string (bitsOf d.p16 8 8)))
          (c_str d.baseInfo.sourceCANPortStr)) ++
        invalidEntries (bitsOf d.p16 0 8)
          (c_str (t.eoboards_type2string (bitsOf d.p16 8 8))) d.p64 ∧
    (∀ i, i ∈ invalidAddresses d.p64 ↔ 1 ≤ i ∧ i ≤ 14 ∧ bitsOf d.p64 (4 * i) 4 ≠ 0) ∧
    (List.enumFrom 1 (invalidAddresses d.p64)).map Prod.fst =
      List.range' 1 (invalidAddresses d.p64).length ∧
    (List.enumFrom 1 (invalidAddresses d.p64)).map Prod.snd = invalidAddresses d.p64 ∧
    (invalidAddresses d.p64).Sorted (fun a b => a < b) ∧
    (ConfigParser.parseInfo t p { d with param64 := q }).baseInfo.finalMessage =
      (ConfigParser.parseInfo t p d).baseInfo.finalMessage := by
  refine ⟨ConfigParser_parseInfo_boardsinvalid t p d h, mem_invalidAddresses _,
    List.enumFrom_map_fst _ _, List.enumFrom_map_snd _ _, ?_, ?_⟩
  · unfold invalidAddresses
    exact List.Sorted.filter _ (by decide)
  · rw [ConfigParser_parseInfo_boardsinvalid t p d h,
      ConfigParser_parseInfo_boardsinvalid t p { d with param64 := q } h]
    have w : invalidEntries (bitsOf d.p16 0 8)
        (c_str (t.eoboards_type2string (bitsOf d.p16 8 8)))
        (AuxEmbeddedInfo.p64 { d with param64 := q }) =
        invalidEntries (bitsOf d.p16 0 8)
          (c_str (t.eoboards_type2string (bitsOf d.p16 8 8))) d.p64 := by
      apply invalidEntries_congr
      intro i h1 h14
      show bitsOf (q % 2 ^ 64) (4 * i) 4 = bitsOf (d.param64 % 2 ^ 64) (4 * i) 4
      rw [bitsOf_p64 _ _ _ (by omega), bitsOf_p64 _ _ _ (by omega)]
      exact bitsOf_of_window _ _ 4 56 (4 * i) 4 hq (by omega) (by omega)
    exact congrArg _ w

set_option maxRecDepth 100000 in
/-- Witness of C34: the sample event, whose fields of the addresses 0 and 15 are 5 and 15,
and the same event with these two fields cleared. -/
theorem C34_boardsinvalid_entries_witness :
    (tablesCFG ValueCFG.eoerror_value_CFG_candiscovery_boardsinvalid).valueCFG
        ((tablesCFG ValueCFG.eoerror_value_CFG_candiscovery_boardsinvalid).eoerror_code2value
          boardsInvalidEvent.code) =
      ValueCFG.eoerror_value_CFG_candiscovery_boardsinvalid ∧
    bitsOf 0x8710 4 56 = bitsOf boardsInvalidEvent.param64 4 56 ∧
    invalidAddresses boardsInvalidEvent.p64 = [1, 2, 3] ∧
    (ConfigParser.parseInfo (tablesCFG ValueCFG.eoerror_value_CFG_candiscovery_boardsinvalid)
        noNames { boardsInvalidEvent with param64 := 0x8710 }).baseInfo.finalMessage =
      (ConfigParser.parseInfo (tablesCFG ValueCFG.eoerror_value_CFG_candiscovery_boardsinvalid)
        noNames boardsInvalidEvent).baseInfo.finalMessage :=
  ⟨rfl, by decide, by decide,
    (C34_boardsinvalid_entries
      (tablesCFG ValueCFG.eoerror_value_CFG_candiscovery_boardsinvalid) noNames
      boardsInvalidEvent 0x8710 rfl (by decide)).2.2.2.2.2⟩

/-- C35: in the `eoerror_value_CFG_candiscovery_boardsinvalid` report every entry lists
`invalidReasons` of its 4-bit field: bit 0 gives `WRONG BOARD TYPE`, bit 1 gives
`WRONG APPLICATION VERSION`, bit 2 gives `WRONG PROTOCOL VERSION`, concatenated in that
order without separator; bit 3 adds nothing, and an address from 1 to 14 whose field is 8
has an entry, whose reason is empty. -/
theorem C35_boardsinvalid_reasons (t : EoTables) (p : EntityNameProvider)
    (d : AuxEmbeddedInfo)
    (h : t.valueCFG (t.eoerror_code2value d.code) =
      ValueCFG.eoerror_value_CFG_candiscovery_boardsinvalid) :
    (ConfigParser.parseInfo t p d).baseInfo.finalMessage =
      snprintf 512 (boardsinvalidHeader (c_str d.baseMessage) (bitsOf d.p16 0 8)
          (c_str (t.eoboards_type2string (bitsOf d.p16 8 8)))
          (c_str d.baseInfo.sourceCANPortStr)) ++
        (List.enumFrom 1 (invalidAddresses d.p64)).flatMap
          (fun e => snprintf 512 (invalidEntryText e.1 (bitsOf d.p16 0 8)
            (c_str (t.eoboards_type2string (bitsOf d.p16 8 8)))
            (invalidReasons (bitsOf d.p64 (4 * e.2) 4)))) ∧
    invalidReasons 1 = lit "WRONG BOARD TYPE" ∧
    invalidReasons 2 = lit "WRONG APPLICATION VERSION" ∧
    invalidReasons 4 = lit "WRONG PROTOCOL VERSION" ∧
    invalidReasons 7 =
      lit "WRONG BOARD TYPE" ++ lit "WRONG APPLICATION VERSION" ++
        lit "WRONG PROTOCOL VERSION" ∧
    (∀ val, invalidReasons (val + 8) = invalidReasons val) ∧
    invalidReasons 8 = [] ∧
    (∀ i, 1 ≤ i → i ≤ 14 → bitsOf d.p64 (4 * i) 4 = 8 → i ∈ invalidAddresses d.p64) := by
  refine ⟨ConfigParser_parseInfo_boardsinvalid t p d h, by decide, by decide, by decide,
    by decide, ?_, by decide, ?_⟩
  · intro val
    have b : ∀ j, j < 3 → (val + 8).testBit j = val.testBit j := by
      intro j hj
      have m : ∀ x : Nat, x.testBit j = (x % 2 ^ 3).testBit j := by
        intro x
        rw [Nat.testBit_mod_two_pow]
        simp only [hj, decide_True, Bool.true_and]
      have e : (val + 8) % 2 ^ 3 = val % 2 ^ 3 := by omega
      rw [m (val + 8), e, ← m val]
    simp only [invalidReasons, b 0 (by decide), b 1 (by decide), b 2 (by decide)]
  · intro i h1 h14 h8
    exact (mem_invalidAddresses _ _).mpr ⟨h1, h14, by omega⟩

set_option maxRecDepth 100000 in
/-- Witness of C35: the fields of the addresses 1, 2 and 3 are 1, 7 and 8. -/
theorem C35_boardsinvalid_reasons_witness :
    (tablesCFG ValueCFG.eoerror_value_CFG_candiscovery_boardsinvalid).valueCFG
        ((tablesCFG ValueCFG.eoerror_value_CFG_candiscovery_boardsinvalid).eoerror_code2value
          boardsInvalidEvent.code) =
      ValueCFG.eoerror_value_CFG_candiscovery_boardsinvalid ∧
    1 ≤ 3 ∧ 3 ≤ 14 ∧ bitsOf boardsInvalidEvent.p64 (4 * 3) 4 = 8 ∧
    3 ∈ invalidAddresses boardsInvalidEvent.p64 ∧
    (ConfigParser.parseInfo (tablesCFG ValueCFG.eoerror_value_CFG_candiscovery_boardsinvalid)
        noNames boardsInvalidEvent).baseInfo.finalMessage =
      lit ("CFG: boards invalid. 3 invalid mtb4 boards in CAN1:\n" ++
        "\t 1 of 3: wrong mtb4 because it has: WRONG BOARD TYPE \n" ++
        "\t 2 of 3: wrong mtb4 because it has: WRONG BOARD TYPEWRONG APPLICATION VERSION" ++
        "WRONG PROTOCOL VERSION \n" ++
        "\t 3 of 3: wrong mtb4 because it has:  \n") :=
  ⟨rfl, by decide, by decide, by decide,
    (C35_boardsinvalid_reasons
      (tablesCFG ValueCFG.eoerror_value_CFG_candiscovery_boardsinvalid) noNames
      boardsInvalidEvent rfl).2.2.2.2.2.2.2 3 (by decide) (by decide) (by decide),
    by decide⟩

/-! ### The report of a finished discovery -/

/-- What `ConfigParser.candiscovery_ok` appends, with every field named by its bit
positions. -/
theorem ConfigParser.candiscovery_ok_final (t : EoTables) (d : AuxEmbeddedInfo) :
    (ConfigParser.candiscovery_ok t d).baseInfo.finalMessage =
      d.baseInfo.finalMessage ++ snprintf 512
        (candiscoveryOkText (c_str d.baseMessage)
          (discoveryOkWord (decide (bitsOf d.p16 12 4 ≠ 0))) (bitsOf d.p16 0 8)
          (c_str (t.eoboards_type2string (bitsOf d.p64 40 8)))
          (bitsOf d.p64 32 8) (bitsOf d.p64 24 8)
          (bitsOf d.p64 16 8) (bitsOf d.p64 8 8) (bitsOf d.p64 0 8) (bitsOf d.p64 48 16)) := by
  have fn : (d.p16 &&& 0x00ff) % 2 ^ 8 = bitsOf d.p16 0 8 := by
    rw [and_eq_bitsOf d.p16 _ 8 (by decide)]
    exact Nat.mod_eq_of_lt (bitsOf_lt _ _ _)
  have z : (0x0000 = d.p16 &&& 0xf000) ↔ bitsOf d.p16 12 4 = 0 := by
    rw [eq_comm]
    exact and_mask_eq_zero_iff _ _ 12 4 (by decide)
  have fk : (if (if 0x0000 = d.p16 &&& 0xf000 then false else true) = true then
        snprintf 80 (lit "OK but FAKE (without any control on CAN w/ get-fw-version<> message)")
      else lit "OK") = discoveryOkWord (decide (bitsOf d.p16 12 4 ≠ 0)) := by
    by_cases h0 : bitsOf d.p16 12 4 = 0
    · rw [if_pos (z.mpr h0)]
      simp only [discoveryOkWord, h0, ne_eq, not_true_eq_false, decide_False,
        Bool.false_eq_true, if_false]
    · rw [if_neg (fun k => h0 (z.mp k))]
      simp only [discoveryOkWord, h0, ne_eq, not_false_eq_true, decide_True, if_true]
      decide
  have ft : toInt32 ((d.p64 &&& 0xffff000000000000) >>> 48) =
      Int.ofNat (bitsOf d.p64 48 16) := by
    rw [and_shiftRight_eq_bitsOf d.p64 _ 48 16 (by decide)]
    exact toInt32_of_lt _ (Nat.lt_trans (bitsOf_lt _ _ _) (by decide))
  have f40 : (d.p64 &&& 0x0000ff0000000000) >>> 40 = bitsOf d.p64 40 8 :=
    and_shiftRight_eq_bitsOf d.p64 _ 40 8 (by decide)
  have f32 : (d.p64 &&& 0x000000ffff000000) >>> 24 >>> 8 % 2 ^ 8 = bitsOf d.p64 32 8 := by
    rw [and_shiftRight_eq_bitsOf d.p64 _ 24 16 (by decide), Nat.shiftRight_eq_div_pow]
    simp only [bitsOf]
    omega
  have f24 : ((d.p64 &&& 0x000000ffff000000) >>> 24 &&& 0xff) % 2 ^ 8 = bitsOf d.p64 24 8 := by
    rw [and_shiftRight_eq_bitsOf d.p64 _ 24 16 (by decide), and_eq_bitsOf _ 0xff 8 (by decide)]
    simp only [bitsOf]
    omega
  have f16 : ((d.p64 &&& 0x0000000000ffffff) >>> 16 &&& 0xff) % 2 ^ 8 = bitsOf d.p64 16 8 := by
    rw [and_eq_bitsOf d.p64 _ 24 (by decide), Nat.shiftRight_eq_div_pow,
      and_eq_bitsOf _ 0xff 8 (by decide)]
    simp only [bitsOf]
    omega
  have f8 : ((d.p64 &&& 0x0000000000ffffff) >>> 8 &&& 0xff) % 2 ^ 8 = bitsOf d.p64 8 8 := by
    rw [and_eq_bitsOf d.p64 _ 24 (by decide), Nat.shiftRight_eq_div_pow,
      and_eq_bitsOf _ 0xff 8 (by decide)]
    simp only [bitsOf]
    omega
  have f0 : (d.p64 &&& 0x0000000000ffffff &&& 0xff) % 2 ^ 8 = bitsOf d.p64 0 8 := by
    rw [and_eq_bitsOf d.p64 _ 24 (by decide), and_eq_bitsOf _ 0xff 8 (by decide)]
    simp only [bitsOf]
    omega
  simp only [ConfigParser.candiscovery_ok, appendFinalMessage_finalMessage, fn, fk, ft, f40,
    f32, f24, f16, f8, f0, fmt_d_ofNat, fmt_ver2, fmt_ver3, candiscoveryOkText,
    List.append_assoc]

theorem ConfigParser_parseInfo_candiscovery_ok (t : EoTables) (p : EntityNameProvider)
    (d : AuxEmbeddedInfo)
    (h : t.valueCFG (t.eoerror_code2value d.code) =
      ValueCFG.eoerror_value_CFG_candiscovery_ok) :
    (ConfigParser.parseInfo t p d).baseInfo.finalMessage =
      snprintf 512
        (candiscoveryOkText (c_str d.baseMessage)
          (discoveryOkWord (decide (bitsOf d.p16 12 4 ≠ 0))) (bitsOf d.p16 0 8)
          (c_str (t.eoboards_type2string (bitsOf d.p64 40 8)))
          (bitsOf d.p64 32 8) (bitsOf d.p64 24 8)
          (bitsOf d.p64 16 8) (bitsOf d.p64 8 8) (bitsOf d.p64 0 8) (bitsOf d.p64 48 16)) := by
  have e : ConfigParser.parseInfo t p d =
      ConfigParser.candiscovery_ok t d.clearFinalMessage := by
    show ConfigParser.dispatch t p (t.valueCFG (t.eoerror_code2value d.code))
      d.clearFinalMessage = _
    rw [h]
    rfl
  rw [e, ConfigParser.candiscovery_ok_final]
  simp only [clearFinalMessage_p64, clearFinalMessage_p16, clearFinalMessage_baseMessage,
    clearFinalMessage_finalMessage, List.nil_append]

/-- C36: for `eoerror_value_CFG_candiscovery_ok` the message says
`OK but FAKE (without any control on CAN w/ get-fw-version<> message)` exactly when bits 12
to 15 of `param16` are not all zero and plain `OK` otherwise; the board count printed is
bits 0 to 7 of `param16`, the search time printed is bits 48 to 63 of `param64`, and an
event that differs only in bits 8 to 11 of `param16` decodes to the same message. -/
theorem C36_candiscovery_ok_fields (t : EoTables) (p : EntityNameProvider)
    (d : AuxEmbeddedInfo) (r : Nat)
    (h : t.valueCFG (t.eoerror_code2value d.code) =
      ValueCFG.eoerror_value_CFG_candiscovery_ok)
    (h0 : bitsOf r 0 8 = bitsOf d.param16 0 8)
    (h12 : bitsOf r 12 4 = bitsOf d.param16 12 4) :
    (ConfigParser.parseInfo t p d).baseInfo.finalMessage =
      snprintf 512
        (candiscoveryOkText (c_str d.baseMessage)
          (discoveryOkWord (decide (bitsOf d.p16 12 4 ≠ 0))) (bitsOf d.p16 0 8)
          (c_str (t.eoboards_type2string (bitsOf d.p64 40 8)))
          (bitsOf d.p64 32 8) (bitsOf d.p64 24 8)
          (bitsOf d.p64 16 8) (bitsOf d.p64 8 8) (bitsOf d.p64 0 8) (bitsOf d.p64 48 16)) ∧
    discoveryOkWord true =
      lit "OK but FAKE (without any control on CAN w/ get-fw-version<> message)" ∧
    discoveryOkWord false = lit "OK" ∧
    (ConfigParser.parseInfo t p { d with param16 := r }).baseInfo.finalMessage =
      (ConfigParser.parseInfo t p d).baseInfo.finalMessage := by
  refine ⟨ConfigParser_parseInfo_candiscovery_ok t p d h, rfl, rfl, ?_⟩
  rw [ConfigParser_parseInfo_candiscovery_ok t p d h,
    ConfigParser_parseInfo_candiscovery_ok t p { d with param16 := r } h]
  have a0 : bitsOf (AuxEmbeddedInfo.p16 { d with param16 := r }) 0 8 = bitsOf d.p16 0 8 := by
    show bitsOf (r % 2 ^ 16) 0 8 = bitsOf (d.param16 % 2 ^ 16) 0 8
    rw [bitsOf_p16 _ _ _ (by decide), bitsOf_p16 _ _ _ (by decide), h0]
  have a12 : bitsOf (AuxEmbeddedInfo.p16 { d with param16 := r }) 12 4 = bitsOf d.p16 12 4 := by
    show bitsOf (r % 2 ^ 16) 12 4 = bitsOf (d.param16 % 2 ^ 16) 12 4
    rw [bitsOf_p16 _ _ _ (by decide), bitsOf_p16 _ _ _ (by decide), h12]
  rw [a0, a12]
  rfl

/-- Witness of C36: a fake search with `param16 = 0x1f02`, and the same event with bits 8
to 11 of `param16` cleared. -/
theorem C36_candiscovery_ok_fields_witness :
    (tablesCFG ValueCFG.eoerror_value_CFG_candiscovery_ok).valueCFG
        ((tablesCFG ValueCFG.eoerror_value_CFG_candiscovery_ok).eoerror_code2value
          discoveryOkFakeEvent.code) = ValueCFG.eoerror_value_CFG_candiscovery_ok ∧
    bitsOf 0x1002 0 8 = bitsOf discoveryOkFakeEvent.param16 0 8 ∧
    bitsOf 0x1002 12 4 = bitsOf discoveryOkFakeEvent.param16 12 4 ∧
    (ConfigParser.parseInfo (tablesCFG ValueCFG.eoerror_value_CFG_candiscovery_ok) noNames
        discoveryOkFakeEvent).baseInfo.finalMessage =
      snprintf 512
        (candiscoveryOkText (c_str discoveryOkFakeEvent.baseMessage)
          (discoveryOkWord (decide (bitsOf discoveryOkFakeEvent.p16 12 4 ≠ 0)))
          (bitsOf discoveryOkFakeEvent.p16 0 8)
          (c_str ((tablesCFG ValueCFG.eoerror_value_CFG_candiscovery_ok).eoboards_type2string
            (bitsOf discoveryOkFakeEvent.p64 40 8)))
          (bitsOf discoveryOkFakeEvent.p64 32 8) (bitsOf discoveryOkFakeEvent.p64 24 8)
          (bitsOf discoveryOkFakeEvent.p64 16 8) (bitsOf discoveryOkFakeEvent.p64 8 8)
          (bitsOf discoveryOkFakeEvent.p64 0 8) (bitsOf discoveryOkFakeEvent.p64 48 16)) ∧
    (ConfigParser.parseInfo (tablesCFG ValueCFG.eoerror_value_CFG_candiscovery_ok) noNames
        { discoveryOkFakeEvent with param16 := 0x1002 }).baseInfo.finalMessage =
      (ConfigParser.parseInfo (tablesCFG ValueCFG.eoerror_value_CFG_candiscovery_ok) noNames
        discoveryOkFakeEvent).baseInfo.finalMessage :=
  ⟨rfl, by decide, by decide,
    (C36_candiscovery_ok_fields (tablesCFG ValueCFG.eoerror_value_CFG_candiscovery_ok)
      noNames discoveryOkFakeEvent 0x1002 rfl (by decide) (by decide)).1,
    (C36_candiscovery_ok_fields (tablesCFG ValueCFG.eoerror_value_CFG_candiscovery_ok)
      noNames discoveryOkFakeEvent 0x1002 rfl (by decide) (by decide)).2.2.2⟩

/-! ### The service category of the contact reports -/

theorem p64_masks (d : AuxEmbeddedInfo) :
    (d.p64 &&& 0x000000000000ffff) % 2 ^ 16 = bitsOf d.p64 0 16 ∧
    (d.p64 &&& 0x00000000ffff0000) >>> 16 % 2 ^ 16 = bitsOf d.p64 16 16 ∧
    toInt64 ((d.p64 &&& 0xffff000000000000) >>> 48) = Int.ofNat (bitsOf d.p64 48 16) := by
  refine ⟨?_, ?_, ?_⟩
  · rw [and_eq_bitsOf d.p64 _ 16 (by decide)]
    exact Nat.mod_eq_of_lt (bitsOf_lt _ _ _)
  · rw [and_shiftRight_eq_bitsOf d.p64 _ 16 16 (by decide)]
    exact Nat.mod_eq_of_lt (bitsOf_lt _ _ _)
  · rw [and_shiftRight_eq_bitsOf d.p64 _ 48 16 (by decide)]
    exact toInt64_of_lt _ (Nat.lt_trans (bitsOf_lt _ _ _) (by decide))

theorem SysParser.canservices_boards_contact_final (t : EoTables) (v : ValueSYS)
    (d : AuxEmbeddedInfo) (hv : v.isBoardsContact = true) :
    (SysParser.canservices_boards_contact t d).baseInfo.finalMessage =
      d.baseInfo.finalMessage ++ snprintf 512
        (contactReportText (c_str d.baseMessage)
          (c_str (t.eomn_servicecategory2string d.p16)) (v.contactTail d.p64)) := by
  obtain ⟨f0, f16, _⟩ := p64_masks d
  have tl : v.contactTail d.p64 =
      lit ". Lost can boards on (can1map, can2map) = ([ " ++ indexList (bitsOf d.p64 0 16) ++
      lit " ], [ " ++ indexList (bitsOf d.p64 16 16) ++ lit " ] )" := by
    cases v <;> first | rfl | exact absurd hv (by decide)
  rw [tl]
  simp only [SysParser.canservices_boards_contact, appendFinalMessage_finalMessage, f0, f16,
    SysParser.contactStep_foldl, forRange_one_fifteen, List.nil_append, contactReportText,
    indexList, List.append_assoc]

theorem SysParser.canservices_monitor_retrievedcontact_final (t : EoTables)
    (d : AuxEmbeddedInfo) :
    (SysParser.canservices_monitor_retrievedcontact t d).baseInfo.finalMessage =
      d.baseInfo.finalMessage ++ snprintf 512
        (contactReportText (c_str d.baseMessage)
          (c_str (t.eomn_servicecategory2string d.baseInfo.sourceCANBoardAddr))
          (ValueSYS.contactTail
            ValueSYS.eoerror_value_SYS_canservices_monitor_retrievedcontact d.p64)) := by
  simp only [SysParser.canservices_monitor_retrievedcontact, appendFinalMessage_finalMessage,
    contactReportText, ValueSYS.contactTail, List.append_assoc]

theorem SysParser.canservices_monitor_regularcontact_final (t : EoTables)
    (d : AuxEmbeddedInfo) :
    (SysParser.canservices_monitor_regularcontact t d).baseInfo.finalMessage =
      d.baseInfo.finalMessage ++ snprintf 512
        (contactReportText (c_str d.baseMessage)
          (c_str (t.eomn_servicecategory2string d.baseInfo.sourceCANBoardAddr))
          (ValueSYS.contactTail
            ValueSYS.eoerror_value_SYS_canservices_monitor_regularcontact d.p64)) := by
  obtain ⟨f0, f16, _⟩ := p64_masks d
  simp only [SysParser.canservices_monitor_regularcontact, appendFinalMessage_finalMessage,
    f0, f16, contactReportText, ValueSYS.contactTail, regularcontactLists, List.append_assoc]

theorem SysParser.canservices_monitor_lostcontact_tail (t : EoTables) (d : AuxEmbeddedInfo) :
    (SysParser.canservices_monitor_lostcontact t d).baseInfo.finalMessage =
      d.baseInfo.finalMessage ++ snprintf 512
        (contactReportText (c_str d.baseMessage)
          (c_str (t.eomn_servicecategory2string d.baseInfo.sourceCANBoardAddr))
          (ValueSYS.contactTail
            ValueSYS.eoerror_value_SYS_canservices_monitor_lostcontact d.p64)) := by
  rw [SysParser.canservices_monitor_lostcontact_final]
  simp only [monitorLostcontactText, contactReportText, ValueSYS.contactTail,
    List.append_assoc]

theorem SysParser.canservices_monitor_stillnocontact_final (t : EoTables)
    (d : AuxEmbeddedInfo) :
    (SysParser.canservices_monitor_stillnocontact t d).baseInfo.finalMessage =
      d.baseInfo.finalMessage ++ snprintf 512
        (contactReportText (c_str d.baseMessage)
          (c_str (t.eomn_servicecategory2string d.baseInfo.sourceCANBoardAddr))
          (ValueSYS.contactTail
            ValueSYS.eoerror_value_SYS_canservices_monitor_stillnocontact d.p64)) := by
  obtain ⟨f0, f16, f48⟩ := p64_masks d
  simp only [SysParser.canservices_monitor_stillnocontact, appendFinalMessage_finalMessage,
    f0, f16, f48, fmt_d_ofNat, SysParser.contactStep_foldl, forRange_one_fifteen,
    List.nil_append, contactReportText, ValueSYS.contactTail, indexList, List.append_assoc]

/-- A report on the boards of a service names the category held in `param16`. -/
theorem SysParser_parseInfo_boards_contact (t : EoTables) (d : AuxEmbeddedInfo)
    (h : (t.valueSYS (t.eoerror_code2value d.code)).isBoardsContact = true) :
    (SysParser.parseInfo t d).baseInfo.finalMessage =
      snprintf 512
        (contactReportText (c_str d.baseMessage)
          (c_str (t.eomn_servicecategory2string d.p16))
          ((t.valueSYS (t.eoerror_code2value d.code)).contactTail d.p64)) := by
  have e : SysParser.parseInfo t d =
      SysParser.canservices_boards_contact t d.clearFinalMessage := by
    show SysParser.dispatch t (t.valueSYS (t.eoerror_code2value d.code))
      d.clearFinalMessage = _
    generalize t.valueSYS (t.eoerror_code2value d.code) = v at h
    cases v <;> first | exact absurd h (by decide) | rfl
  rw [e, SysParser.canservices_boards_contact_final t _ _ h]
  simp only [clearFinalMessage_p64, clearFinalMessage_p16, clearFinalMessage_baseMessage,
    clearFinalMessage_finalMessage, List.nil_append]

/-- A report of the monitor of a service names the category held in the address of the
source board. -/
theorem SysParser_parseInfo_monitor_contact (t : EoTables) (d : AuxEmbeddedInfo)
    (h : (t.valueSYS (t.eoerror_code2value d.code)).isMonitorContact = true) :
    (SysParser.parseInfo t d).baseInfo.finalMessage =
      snprintf 512
        (contactReportText (c_str d.baseMessage)
          (c_str (t.eomn_servicecategory2string d.baseInfo.sourceCANBoardAddr))
          ((t.valueSYS (t.eoerror_code2value d.code)).contactTail d.p64)) := by
  have k : (SysParser.dispatch t (t.valueSYS (t.eoerror_code2value d.code))
      d.clearFinalMessage).baseInfo.finalMessage =
      d.clearFinalMessage.baseInfo.finalMessage ++ snprintf 512
        (contactReportText (c_str d.clearFinalMessage.baseMessage)
          (c_str (t.eomn_servicecategory2string
            d.clearFinalMessage.baseInfo.sourceCANBoardAddr))
          ((t.valueSYS (t.eoerror_code2value d.code)).contactTail
            d.clearFinalMessage.p64)) := by
    generalize t.valueSYS (t.eoerror_code2value d.code) = v at h
    generalize d.clearFinalMessage = d0
    cases v
    case eoerror_value_SYS_canservices_monitor_retrievedcontact =>
      exact SysParser.canservices_monitor_retrievedcontact_final t d0
    case eoerror_value_SYS_canservices_monitor_regularcontact =>
      exact SysParser.canservices_monitor_regularcontact_final t d0
    case eoerror_value_SYS_canservices_monitor_lostcontact =>
      exact SysParser.canservices_monitor_lostcontact_tail t d0
    case eoerror_value_SYS_canservices_monitor_stillnocontact =>
      exact SysParser.canservices_monitor_stillnocontact_final t d0
    all_goals exact absurd h (by decide)
  show (SysParser.dispatch t (t.valueSYS (t.eoerror_code2value d.code))
      d.clearFinalMessage).baseInfo.finalMessage = _
  rw [k]
  simp only [clearFinalMessage_p64, clearFinalMessage_baseMessage,
    clearFinalMessage_sourceCANBoardAddr, clearFinalMessage_finalMessage, List.nil_append]

/-- C37: for `eoerror_value_SYS_canservices_boards_lostcontact` and
`_boards_retrievedcontact` the service category printed is the one of `param16`, and an
event that differs only in the address of the source board decodes to the same message;
for `monitor_retrievedcontact`, `monitor_regularcontact`, `monitor_lostcontact` and
`monitor_stillnocontact` the category printed is the one of the address of the source
board, and an event that differs only in `param16` decodes to the same message; for
`monitor_retrievedcontact` the same holds for an event that differs in `param16` and
`param64`. -/
theorem C37_service_category_source (t : EoTables) (d : AuxEmbeddedInfo) (a r q : Nat) :
    ((t.valueSYS (t.eoerror_code2value d.code)).isBoardsContact = true →
      (SysParser.parseInfo t d).baseInfo.finalMessage =
        snprintf 512
          (contactReportText (c_str d.baseMessage)
            (c_str (t.eomn_servicecategory2string d.p16))
            ((t.valueSYS (t.eoerror_code2value d.code)).contactTail d.p64)) ∧
      (SysParser.parseInfo t
          { d with baseInfo :=
            { d.baseInfo with sourceCANBoardAddr := a } }).baseInfo.finalMessage =
        (SysParser.parseInfo t d).baseInfo.finalMessage) ∧
    ((t.valueSYS (t.eoerror_code2value d.code)).isMonitorContact = true →
      (SysParser.parseInfo t d).baseInfo.finalMessage =
        snprintf 512
          (contactReportText (c_str d.baseMessage)
            (c_str (t.eomn_servicecategory2string d.baseInfo.sourceCANBoardAddr))
            ((t.valueSYS (t.eoerror_code2value d.code)).contactTail d.p64)) ∧
      (SysParser.parseInfo t { d with param16 := r }).baseInfo.finalMessage =
        (SysParser.parseInfo t d).baseInfo.finalMessage) ∧
    (t.valueSYS (t.eoerror_code2value d.code) =
        ValueSYS.eoerror_value_SYS_canservices_monitor_retrievedcontact →
      (SysParser.parseInfo t { d with param16 := r, param64 := q }).baseInfo.finalMessage =
        (SysParser.parseInfo t d).baseInfo.finalMessage) := by
  refine ⟨fun h => ⟨SysParser_parseInfo_boards_contact t d h, ?_⟩,
    fun h => ⟨SysParser_parseInfo_monitor_contact t d h, ?_⟩, fun h => ?_⟩
  · rw [SysParser_parseInfo_boards_contact t d h,
      SysParser_parseInfo_boards_contact t
        { d with baseInfo := { d.baseInfo with sourceCANBoardAddr := a } } h]
    rfl
  · rw [SysParser_parseInfo_monitor_contact t d h,
      SysParser_parseInfo_monitor_contact t { d with param16 := r } h]
    rfl
  · have hm : (t.valueSYS (t.eoerror_code2value d.code)).isMonitorContact = true := by
      rw [h]
      rfl
    rw [SysParser_parseInfo_monitor_contact t d hm,
      SysParser_parseInfo_monitor_contact t { d with param16 := r, param64 := q } hm]
    have e : t.valueSYS (t.eoerror_code2value
        (AuxEmbeddedInfo.code { d with param16 := r, param64 := q })) =
        ValueSYS.eoerror_value_SYS_canservices_monitor_retrievedcontact := h
    rw [e, h]
    rfl

set_option maxRecDepth 100000 in
/-- Witness of C37: with tables that name the category 3 `inertials` and the others `mc`,
the event from the board at address 3 with `param16 = 0` is reported as `mc` by
`boards_lostcontact` and as `inertials` by `monitor_lostcontact`. -/
theorem C37_service_category_source_witness :
    ((tablesCategory ValueSYS.eoerror_value_SYS_canservices_boards_lostcontact).valueSYS
        ((tablesCategory
          ValueSYS.eoerror_value_SYS_canservices_boards_lostcontact).eoerror_code2value
          contactEvent.code)).isBoardsContact = true ∧
    ((tablesCategory ValueSYS.eoerror_value_SYS_canservices_monitor_lostcontact).valueSYS
        ((tablesCategory
          ValueSYS.eoerror_value_SYS_canservices_monitor_lostcontact).eoerror_code2value
          contactEvent.code)).isMonitorContact = true ∧
    (SysParser.parseInfo
        (tablesCategory ValueSYS.eoerror_value_SYS_canservices_boards_lostcontact)
        { contactEvent with baseInfo :=
          { contactEvent.baseInfo with sourceCANBoardAddr := 0 } }).baseInfo.finalMessage =
      (SysParser.parseInfo
        (tablesCategory ValueSYS.eoerror_value_SYS_canservices_boards_lostcontact)
        contactEvent).baseInfo.finalMessage ∧
    (SysParser.parseInfo
        (tablesCategory ValueSYS.eoerror_value_SYS_canservices_monitor_lostcontact)
        { contactEvent with param16 := 3 }).baseInfo.finalMessage =
      (SysParser.parseInfo
        (tablesCategory ValueSYS.eoerror_value_SYS_canservices_monitor_lostcontact)
        contactEvent).baseInfo.finalMessage ∧
    (SysParser.parseInfo
        (tablesCategory ValueSYS.eoerror_value_SYS_canservices_boards_lostcontact)
        contactEvent).baseInfo.finalMessage =
      lit ("SYS: contact. Type of service category is eomn_serv_category_mc. " ++
        "Lost can boards on (can1map, can2map) = ([ 1 14  ], [ 1 2  ] )") ∧
    (SysParser.parseInfo
        (tablesCategory ValueSYS.eoerror_value_SYS_canservices_monitor_lostcontact)
        contactEvent).baseInfo.finalMessage =
      lit ("SYS: contact. Type of service category is eomn_serv_category_inertials. " ++
        "Lost CAN boards are on (can1map, can2map) = ([ 1 14  ], [ 1 2  ]). " ++
        "Time since last contact: 100 [ms]") :=
  ⟨rfl, rfl,
    ((C37_service_category_source
      (tablesCategory ValueSYS.eoerror_value_SYS_canservices_boards_lostcontact)
      contactEvent 0 3 0).1 rfl).2,
    ((C37_service_category_source
      (tablesCategory ValueSYS.eoerror_value_SYS_canservices_monitor_lostcontact)
      contactEvent 0 3 0).2.1 rfl).2,
    by decide, by decide⟩

/-! ### The data-overflow reports -/

theorem p16_frame_fields (d : AuxEmbeddedInfo) :
    (d.p16 &&& 0x00ff) % 2 ^ 8 = bitsOf d.p16 0 8 ∧
    (d.p16 &&& 0xf000) >>> 12 % 2 ^ 8 = bitsOf d.p16 12 4 := by
  constructor
  · rw [and_eq_bitsOf d.p16 _ 8 (by decide)]
    exact Nat.mod_eq_of_lt (bitsOf_lt _ _ _)
  · rw [and_shiftRight_eq_bitsOf d.p16 _ 12 4 (by decide)]
    exact Nat.mod_eq_of_lt (Nat.lt_trans (bitsOf_lt _ _ _) (by decide))

theorem SkinParser.arrayofcandataoverflow_final (d : AuxEmbeddedInfo) :
    (SkinParser.arrayofcandataoverflow d).baseInfo.finalMessage =
      d.baseInfo.finalMessage ++ snprintf 512
        (overflowText (c_str d.baseMessage) (bitsOf d.p16 0 8) (bitsOf d.p16 12 4) d.p64) := by
  obtain ⟨f0, f12⟩ := p16_frame_fields d
  simp only [SkinParser.arrayofcandataoverflow, appendFinalMessage_finalMessage, f0, f12,
    fmt_d_ofNat, fmt_x, overflowText, List.append_assoc]

theorem InertialSensorParser.arrayofinertialdataoverflow_final (d : AuxEmbeddedInfo) :
    (InertialSensorParser.arrayofinertialdataoverflow d).baseInfo.finalMessage =
      d.baseInfo.finalMessage ++ snprintf 512
        (overflowText (c_str d.baseMessage) (bitsOf d.p16 0 8) (bitsOf d.p16 12 4) d.p64) := by
  obtain ⟨f0, f12⟩ := p16_frame_fields d
  simp only [InertialSensorParser.arrayofinertialdataoverflow, appendFinalMessage_finalMessage,
    f0, f12, fmt_d_ofNat, fmt_x, overflowText, List.append_assoc]

theorem AnalogSensorParser.arrayoftemperaturedataoverflow_final (d : AuxEmbeddedInfo) :
    (AnalogSensorParser.arrayoftemperaturedataoverflow d).baseInfo.finalMessage =
      d.baseInfo.finalMessage ++ snprintf 512
        (overflowText (c_str d.baseMessage) (bitsOf d.p16 0 8) (bitsOf d.p16 12 4) d.p64) := by
  obtain ⟨f0, f12⟩ := p16_frame_fields d
  simp only [AnalogSensorParser.arrayoftemperaturedataoverflow,
    appendFinalMessage_finalMessage, f0, f12, fmt_d_ofNat, fmt_x, overflowText,
    List.append_assoc]

theorem SkinParser_parseInfo_overflow (t : EoTables) (d : AuxEmbeddedInfo)
    (h : t.valueSK (t.eoerror_code2value d.code) =
      ValueSK.eoerror_value_SK_arrayofcandataoverflow) :
    (SkinParser.parseInfo t d).baseInfo.finalMessage =
      snprintf 512
        (overflowText (c_str d.baseMessage) (bitsOf d.p16 0 8) (bitsOf d.p16 12 4) d.p64) := by
  have e : SkinParser.parseInfo t d = SkinParser.arrayofcandataoverflow d.clearFinalMessage := by
    show SkinParser.dispatch t (t.valueSK (t.eoerror_code2value d.code)) d.clearFinalMessage = _
    rw [h]
    rfl
  rw [e, SkinParser.arrayofcandataoverflow_final]
  simp only [clearFinalMessage_p64, clearFinalMessage_p16, clearFinalMessage_baseMessage,
    clearFinalMessage_finalMessage, List.nil_append]

theorem InertialSensorParser_parseInfo_overflow (t : EoTables) (d : AuxEmbeddedInfo)
    (h : t.valueIS (t.eoerror_code2value d.code) =
      ValueIS.eoerror_value_IS_arrayofinertialdataoverflow) :
    (InertialSensorParser.parseInfo t d).baseInfo.finalMessage =
      snprintf 512
        (overflowText (c_str d.baseMessage) (bitsOf d.p16 0 8) (bitsOf d.p16 12 4) d.p64) := by
  have e : InertialSensorParser.parseInfo t d =
      InertialSensorParser.arrayofinertialdataoverflow d.clearFinalMessage := by
    show InertialSensorParser.dispatch t (t.valueIS (t.eoerror_code2value d.code))
      d.clearFinalMessage = _
    rw [h]
    rfl
  rw [e, InertialSensorParser.arrayofinertialdataoverflow_final]
  simp only [clearFinalMessage_p64, clearFinalMessage_p16, clearFinalMessage_baseMessage,
    clearFinalMessage_finalMessage, List.nil_append]

theorem AnalogSensorParser_parseInfo_overflow (t : EoTables) (d : AuxEmbeddedInfo)
    (h : t.valueAS (t.eoerror_code2value d.code) =
      ValueAS.eoerror_value_AS_arrayoftemperaturedataoverflow) :
    (AnalogSensorParser.parseInfo t d).baseInfo.finalMessage =
      snprintf 512
        (overflowText (c_str d.baseMessage) (bitsOf d.p16 0 8) (bitsOf d.p16 12 4) d.p64) := by
  have e : AnalogSensorParser.parseInfo t d =
      AnalogSensorParser.arrayoftemperaturedataoverflow d.clearFinalMessage := by
    show AnalogSensorParser.dispatch t (t.valueAS (t.eoerror_code2value d.code))
      d.clearFinalMessage = _
    rw [h]
    rfl
  rw [e, AnalogSensorParser.arrayoftemperaturedataoverflow_final]
  simp only [clearFinalMessage_p64, clearFinalMessage_p16, clearFinalMessage_baseMessage,
    clearFinalMessage_finalMessage, List.nil_append]

/-- C38: the data-overflow handlers of the Skin, InertialSensor and AnalogSensor parsers
are the same function of the event: each leaves
` <base>. Frame.ID=<id>, Frame.Size=<size> Frame.Data=0x<data>` with id bits 0 to 7 of
`param16`, size bits 12 to 15 of `param16` and data `param64` in hexadecimal, so three
events with the same base message, the same `param64` and the same bits 0 to 7 and 12 to
15 of `param16` get the same `finalMessage` from the three parsers, whatever bits 8 to 11
of `param16` are. -/
theorem C38_overflow_handlers_agree (t : EoTables) (d1 d2 d3 : AuxEmbeddedInfo)
    (h1 : t.valueSK (t.eoerror_code2value d1.code) =
      ValueSK.eoerror_value_SK_arrayofcandataoverflow)
    (h2 : t.valueIS (t.eoerror_code2value d2.code) =
      ValueIS.eoerror_value_IS_arrayofinertialdataoverflow)
    (h3 : t.valueAS (t.eoerror_code2value d3.code) =
      ValueAS.eoerror_value_AS_arrayoftemperaturedataoverflow)
    (b2 : d2.baseMessage = d1.baseMessage) (b3 : d3.baseMessage = d1.baseMessage)
    (i2 : bitsOf d2.p16 0 8 = bitsOf d1.p16 0 8) (i3 : bitsOf d3.p16 0 8 = bitsOf d1.p16 0 8)
    (s2 : bitsOf d2.p16 12 4 = bitsOf d1.p16 12 4)
    (s3 : bitsOf d3.p16 12 4 = bitsOf d1.p16 12 4)
    (q2 : d2.p64 = d1.p64) (q3 : d3.p64 = d1.p64) :
    (SkinParser.parseInfo t d1).baseInfo.finalMessage =
      snprintf 512
        (overflowText (c_str d1.baseMessage) (bitsOf d1.p16 0 8) (bitsOf d1.p16 12 4)
          d1.p64) ∧
    (InertialSensorParser.parseInfo t d2).baseInfo.finalMessage =
      (SkinParser.parseInfo t d1).baseInfo.finalMessage ∧
    (AnalogSensorParser.parseInfo t d3).baseInfo.finalMessage =
      (SkinParser.parseInfo t d1).baseInfo.finalMessage := by
  refine ⟨SkinParser_parseInfo_overflow t d1 h1, ?_, ?_⟩
  · rw [SkinParser_parseInfo_overflow t d1 h1, InertialSensorParser_parseInfo_overflow t d2 h2,
      b2, i2, s2, q2]
  · rw [SkinParser_parseInfo_overflow t d1 h1, AnalogSensorParser_parseInfo_overflow t d3 h3,
      b3, i3, s3, q3]

/-- Witness of C38: the sample event for the Skin parser, the same event with bits 8 to
11 of `param16` cleared for the InertialSensor parser, and with these bits set to 5 for
the AnalogSensor parser. -/
theorem C38_overflow_handlers_agree_witness :
    tablesOverflow.valueSK (tablesOverflow.eoerror_code2value overflowEvent.code) =
      ValueSK.eoerror_value_SK_arrayofcandataoverflow ∧
    bitsOf (AuxEmbeddedInfo.p16 { overflowEvent with param16 := 0x2005 }) 0 8 =
      bitsOf overflowEvent.p16 0 8 ∧
    bitsOf (AuxEmbeddedInfo.p16 { overflowEvent with param16 := 0x2005 }) 12 4 =
      bitsOf overflowEvent.p16 12 4 ∧
    (SkinParser.parseInfo tablesOverflow overflowEvent).baseInfo.finalMessage =
      snprintf 512
        (overflowText (c_str overflowEvent.baseMessage) (bitsOf overflowEvent.p16 0 8)
          (bitsOf overflowEvent.p16 12 4) overflowEvent.p64) ∧
    (InertialSensorParser.parseInfo tablesOverflow
        { overflowEvent with param16 := 0x2005 }).baseInfo.finalMessage =
      (SkinParser.parseInfo tablesOverflow overflowEvent).baseInfo.finalMessage ∧
    (AnalogSensorParser.parseInfo tablesOverflow
        { overflowEvent with param16 := 0x2505 }).baseInfo.finalMessage =
      (SkinParser.parseInfo tablesOverflow overflowEvent).baseInfo.finalMessage :=
  ⟨rfl, by decide, by decide,
    C38_overflow_handlers_agree tablesOverflow overflowEvent
      { overflowEvent with param16 := 0x2005 } { overflowEvent with param16 := 0x2505 }
      rfl rfl rfl rfl rfl (by decide) (by decide) (by decide) (by decide) rfl rfl⟩

end Diagnostic
